import Mathlib

/-!
# Traffic-core: simulation scheduler and ledger contract

A shallow embedding of `application/backend/simulation-engine.js` (class
`TrafficSimulation`), `chaincode-javascript/lib/trafficContract.js` (class
`TrafficContract`) and, from `application/backend/server.js`, the connection
cache and the security-alert route, followed by theorems about them.

Conventions of the embedding

* JSON data is the inductive `JVal`.  Numbers are integers: every number the
  contract itself computes comes from `parseInt` or from an integer literal.
  Non-integer numbers (latitude, longitude, score) are outside the model.
* A JavaScript object that came out of `JSON.parse` is its list of fields
  (`Obj`); `undefined` is `none`.
* A byte buffer is modelled by what it decodes to (`Buffer`): no bytes, text
  that `JSON.parse` rejects, or the JSON text of a value.  `JSON.stringify`
  followed by `JSON.parse` is the identity on `JVal`; `NaN` is written as
  `null`, as `JSON.stringify` does.
* `async` functions are run to completion, with three exceptions where a
  suspension point is modelled: the body of the mobility task (`Sched`), the
  `await` of `loadState` in `start` (`startBegin`, `startFinish`) and the one
  in `reset` (`resetBegin`, `resetFinish`).
* The speed multiplier of the simulation and the draws of `Math.random()` are
  rational numbers, with exact arithmetic.
-/

namespace TrafficCore

/-! ## JSON values -/

/-- JSON data as produced by `JSON.parse`. -/
inductive JVal where
  | null : JVal
  | bool (b : Bool) : JVal
  | num (n : Int) : JVal
  | str (s : String) : JVal
  | arr (items : List JVal) : JVal
  | obj (fields : List (String × JVal)) : JVal
  deriving Repr, Inhabited

mutual
/-- Decision procedure for equality of JSON values. -/
def JVal.decEq : (a b : JVal) → Decidable (a = b)
  | .null, .null => isTrue rfl
  | .null, .bool _ => isFalse (fun e => JVal.noConfusion e)
  | .null, .num _ => isFalse (fun e => JVal.noConfusion e)
  | .null, .str _ => isFalse (fun e => JVal.noConfusion e)
  | .null, .arr _ => isFalse (fun e => JVal.noConfusion e)
  | .null, .obj _ => isFalse (fun e => JVal.noConfusion e)
  | .bool _, .null => isFalse (fun e => JVal.noConfusion e)
  | .bool x, .bool y =>
    if h : x = y then isTrue (congrArg JVal.bool h) else isFalse (fun e => h (JVal.bool.inj e))
  | .bool _, .num _ => isFalse (fun e => JVal.noConfusion e)
  | .bool _, .str _ => isFalse (fun e => JVal.noConfusion e)
  | .bool _, .arr _ => isFalse (fun e => JVal.noConfusion e)
  | .bool _, .obj _ => isFalse (fun e => JVal.noConfusion e)
  | .num _, .null => isFalse (fun e => JVal.noConfusion e)
  | .num _, .bool _ => isFalse (fun e => JVal.noConfusion e)
  | .num x, .num y =>
    if h : x = y then isTrue (congrArg JVal.num h) else isFalse (fun e => h (JVal.num.inj e))
  | .num _, .str _ => isFalse (fun e => JVal.noConfusion e)
  | .num _, .arr _ => isFalse (fun e => JVal.noConfusion e)
  | .num _, .obj _ => isFalse (fun e => JVal.noConfusion e)
  | .str _, .null => isFalse (fun e => JVal.noConfusion e)
  | .str _, .bool _ => isFalse (fun e => JVal.noConfusion e)
  | .str _, .num _ => isFalse (fun e => JVal.noConfusion e)
  | .str x, .str y =>
    if h : x = y then isTrue (congrArg JVal.str h) else isFalse (fun e => h (JVal.str.inj e))
  | .str _, .arr _ => isFalse (fun e => JVal.noConfusion e)
  | .str _, .obj _ => isFalse (fun e => JVal.noConfusion e)
  | .arr _, .null => isFalse (fun e => JVal.noConfusion e)
  | .arr _, .bool _ => isFalse (fun e => JVal.noConfusion e)
  | .arr _, .num _ => isFalse (fun e => JVal.noConfusion e)
  | .arr _, .str _ => isFalse (fun e => JVal.noConfusion e)
  | .arr x, .arr y =>
    match JVal.decEqList x y with
    | isTrue h => isTrue (congrArg JVal.arr h)
    | isFalse h => isFalse (fun e => h (JVal.arr.inj e))
  | .arr _, .obj _ => isFalse (fun e => JVal.noConfusion e)
  | .obj _, .null => isFalse (fun e => JVal.noConfusion e)
  | .obj _, .bool _ => isFalse (fun e => JVal.noConfusion e)
  | .obj _, .num _ => isFalse (fun e => JVal.noConfusion e)
  | .obj _, .str _ => isFalse (fun e => JVal.noConfusion e)
  | .obj _, .arr _ => isFalse (fun e => JVal.noConfusion e)
  | .obj x, .obj y =>
    match JVal.decEqFields x y with
    | isTrue h => isTrue (congrArg JVal.obj h)
    | isFalse h => isFalse (fun e => h (JVal.obj.inj e))
/-- Equality of arrays of JSON values. -/
def JVal.decEqList : (xs ys : List JVal) → Decidable (xs = ys)
  | [], [] => isTrue rfl
  | [], _ :: _ => isFalse (fun e => List.noConfusion e)
  | _ :: _, [] => isFalse (fun e => List.noConfusion e)
  | x :: xs, y :: ys =>
    match JVal.decEq x y, JVal.decEqList xs ys with
    | isTrue h, isTrue t => isTrue (by rw [h, t])
    | isFalse h, _ => isFalse (fun e => h (List.cons.inj e).1)
    | _, isFalse t => isFalse (fun e => t (List.cons.inj e).2)
/-- Equality of field lists. -/
def JVal.decEqFields : (xs ys : List (String × JVal)) → Decidable (xs = ys)
  | [], [] => isTrue rfl
  | [], _ :: _ => isFalse (fun e => List.noConfusion e)
  | _ :: _, [] => isFalse (fun e => List.noConfusion e)
  | (k, x) :: xs, (l, y) :: ys =>
    if hk : k = l then
      match JVal.decEq x y, JVal.decEqFields xs ys with
      | isTrue h, isTrue t => isTrue (by rw [hk, h, t])
      | isFalse h, _ => isFalse (fun e => h (Prod.mk.inj (List.cons.inj e).1).2)
      | _, isFalse t => isFalse (fun e => t (List.cons.inj e).2)
    else isFalse (fun e => hk (Prod.mk.inj (List.cons.inj e).1).1)
end

instance : DecidableEq JVal := JVal.decEq

/-- A parsed JSON object: its fields, in insertion order. -/
abbrev Obj := List (String × JVal)

/-- Property read `o.k` on an object; `none` is `undefined`. -/
def getProp : Obj → String → Option JVal
  | [], _ => none
  | (k', v) :: rest, k => if k' = k then some v else getProp rest k

/-- Property assignment `o.k = v` on an object: an existing field keeps its
place, a new field goes last. -/
def setProp : Obj → String → JVal → Obj
  | [], k, v => [(k, v)]
  | (k', v') :: rest, k, v =>
    if k' = k then (k, v) :: rest else (k', v') :: setProp rest k v

/-- Strict equality `a === b` between two values read out of parsed JSON
(`none` is `undefined`).  Arrays and objects compare by identity, and two
values read from different parsed fields are never the same object. -/
def strictEq : Option JVal → Option JVal → Bool
  | none, none => true
  | some .null, some .null => true
  | some (.bool a), some (.bool b) => a == b
  | some (.num a), some (.num b) => a == b
  | some (.str a), some (.str b) => a == b
  | _, _ => false

/-! ## The simulation engine (`simulation-engine.js`) -/

/-- The fields of a `TrafficSimulation` instance.  `speed` is a rational
number (the route passes `parseFloat(multiplier)`; `NaN` and the infinities
are left out) and `spawnRate` an integer (the route passes `parseInt(rate)`);
the four interval fields hold timer handles (`none` is `null`);
`movingTickRunning` is the `_movingTickRunning` flag, unset (falsy) at
construction. -/
structure TrafficSimulation where
  isRunning : Bool
  speed : ℚ
  vehicles : List Obj
  roads : List Obj
  intersections : List Obj
  spawnRate : Int
  vehicleMoveInterval : Option Nat
  trafficLightInterval : Option Nat
  vehicleSpawnInterval : Option Nat
  congestionUpdateInterval : Option Nat
  vehicleCounter : Nat
  transactionCount : Nat
  movingTickRunning : Bool
  deriving Repr, DecidableEq

/-- The state set up by `constructor()`. -/
def TrafficSimulation.new : TrafficSimulation :=
  { isRunning := false, speed := 1, vehicles := [], roads := [], intersections := [],
    spawnRate := 2, vehicleMoveInterval := none, trafficLightInterval := none,
    vehicleSpawnInterval := none, congestionUpdateInterval := none,
    vehicleCounter := 1000, transactionCount := 0, movingTickRunning := false }

/-! ### Congestion updates -/

/-- The filter `res.data.filter(v => v.status === 'active')`. -/
def activeVehicles (data : List Obj) : List Obj :=
  data.filter (fun v => strictEq (getProp v "status") (some (.str "active")))

/-- The count `vehicles.filter(v => v.currentRoad === road.id).length`. -/
def vehiclesOnRoad (vehicles : List Obj) (road : Obj) : Nat :=
  (vehicles.filter (fun v => strictEq (getProp v "currentRoad") (getProp road "id"))).length

/-- The `if / else if` chain that turns the count into `congestionLevel`. -/
def congestionLevelOf (vehiclesOnRoad : Nat) : String :=
  if vehiclesOnRoad = 0 then "low"
  else if vehiclesOnRoad ≤ 2 then "low"
  else if vehiclesOnRoad ≤ 4 then "medium"
  else "high"

/-- The request `PUT /roads/<road.id>/congestion` with body `{level}`. -/
structure CongestionPut where
  roadId : Option JVal
  level : String
  deriving Repr, DecidableEq

/-- Outcome of one pass through the body of `for (const road of this.roads)`:
the road object afterwards, the counter afterwards, the request that was
issued (if any) and whether the body threw. -/
structure CongestionIteration where
  road : Obj
  transactionCount : Nat
  issued : Option CongestionPut
  threw : Bool
  deriving Repr, DecidableEq

/-- The body of the loop in `updateCongestion` for one road; `putOk` tells
whether the `axios.put` of this iteration, if issued, resolves. -/
def congestionIteration (putOk : Bool) (vehicles : List Obj) (road : Obj)
    (transactionCount : Nat) : CongestionIteration :=
  let vehiclesOnRoad := vehiclesOnRoad vehicles road
  let congestionLevel := congestionLevelOf vehiclesOnRoad
  if strictEq (getProp road "congestionLevel") (some (.str congestionLevel)) = false then
    let req : CongestionPut := { roadId := getProp road "id", level := congestionLevel }
    if putOk then
      { road := setProp road "congestionLevel" (.str congestionLevel),
        transactionCount := transactionCount + 1, issued := some req, threw := false }
    else
      { road := road, transactionCount := transactionCount, issued := some req, threw := true }
  else
    { road := road, transactionCount := transactionCount, issued := none, threw := false }

/-- Outcome of the whole loop: the road list afterwards, the counter, the
requests issued in order, and whether a request failed (which leaves the
loop through the enclosing `catch`). -/
structure CongestionRun where
  roads : List Obj
  transactionCount : Nat
  writes : List CongestionPut
  failed : Bool
  deriving Repr, DecidableEq

/-- The `for` loop of `updateCongestion` from position `i` of `this.roads`;
`putOk j` is the outcome of the request of the `j`-th road. -/
def congestionLoop (putOk : Nat → Bool) (vehicles : List Obj) :
    Nat → List Obj → Nat → CongestionRun
  | _, [], tc => { roads := [], transactionCount := tc, writes := [], failed := false }
  | i, road :: rest, tc =>
    let it := congestionIteration (putOk i) vehicles road tc
    if it.threw then
      { roads := it.road :: rest, transactionCount := it.transactionCount,
        writes := it.issued.toList, failed := true }
    else
      let r := congestionLoop putOk vehicles (i + 1) rest it.transactionCount
      { r with roads := it.road :: r.roads, writes := it.issued.toList ++ r.writes }

/-- The method `updateCongestion`.  `response` is the body of
`GET /vehicles` (`none` when the request fails); the result is the simulation
afterwards and the run of the loop. -/
def updateCongestion (response : Option (List Obj)) (putOk : Nat → Bool)
    (sim : TrafficSimulation) : TrafficSimulation × CongestionRun :=
  match response with
  | none =>
    (sim, { roads := sim.roads, transactionCount := sim.transactionCount,
            writes := [], failed := true })
  | some data =>
    let vehicles := activeVehicles data
    let r := congestionLoop putOk vehicles 0 sim.roads sim.transactionCount
    ({ sim with roads := r.roads, transactionCount := r.transactionCount }, r)

/-! ### Traffic lights -/

/-- The `switch (currentState)` of `cycleTrafficLight`; the cases compare
with strict equality and every other value takes the `default` branch. -/
def nextLightState (currentState : Option JVal) : String :=
  if strictEq currentState (some (.str "green")) then "yellow"
  else if strictEq currentState (some (.str "yellow")) then "red"
  else if strictEq currentState (some (.str "red")) then "green"
  else "green"

/-- The request `PUT /intersections/<intersection.id>/light` with body
`{state}`. -/
structure LightPut where
  intersectionId : Option JVal
  state : String
  deriving Repr, DecidableEq

/-- Outcome of `cycleTrafficLight`: the intersection object and the counter
afterwards, and the request that was submitted. -/
structure LightCycle where
  intersection : Obj
  transactionCount : Nat
  submitted : LightPut
  deriving Repr, DecidableEq

/-- The method `cycleTrafficLight(intersection)`; `putOk` tells whether the
`axios.put` resolves.  When it rejects, control goes to the `catch` block,
which only logs. -/
def cycleTrafficLight (putOk : Bool) (intersection : Obj) (transactionCount : Nat) :
    LightCycle :=
  let currentState := getProp intersection "trafficLightState"
  let newState := nextLightState currentState
  let req : LightPut := { intersectionId := getProp intersection "id", state := newState }
  if putOk then
    { intersection := setProp intersection "trafficLightState" (.str newState),
      transactionCount := transactionCount + 1, submitted := req }
  else
    { intersection := intersection, transactionCount := transactionCount, submitted := req }

/-! ### Lifecycle and timers -/

/-- The four periodic tasks. -/
inductive Task where
  | vehicleMove
  | trafficLight
  | vehicleSpawn
  | congestionUpdate
  deriving Repr, DecidableEq

/-- A live interval timer of the event loop.  `interval` is `none` when the
JavaScript quotient is not a finite number (division by a zero speed). -/
structure Timer where
  handle : Nat
  task : Task
  interval : Option Int
  deriving Repr, DecidableEq

/-- A simulation object together with the timers of the event loop that
runs it. -/
structure Engine where
  sim : TrafficSimulation
  timers : List Timer
  nextHandle : Nat
  deriving Repr, DecidableEq

/-- The value `Math.floor(a / b)` for an integer `a` and a rational `b`, in
exact arithmetic: with `b = n / d` in lowest terms the quotient `a / b` is
`a * d / n`, whose floor is taken.  `none` is the quotient by zero, which is
not a finite number. -/
def floorQuot (a : Int) (b : ℚ) : Option Int :=
  if b = 0 then none else some (Int.fdiv (a * b.den) b.num)

/-- The call `setInterval(callback, interval)`: a fresh handle, one more live
timer. -/
def setInterval (task : Task) (interval : Option Int) (e : Engine) : Engine × Nat :=
  ({ e with timers := e.timers ++ [{ handle := e.nextHandle, task := task, interval := interval }],
            nextHandle := e.nextHandle + 1 }, e.nextHandle)

/-- The call `clearInterval(handle)`; clearing `null` or a dead handle does
nothing. -/
def clearInterval (handle : Option Nat) (e : Engine) : Engine :=
  match handle with
  | none => e
  | some h => { e with timers := e.timers.filter (fun t => t.handle != h) }

/-- The method `clearAllIntervals`. -/
def clearAllIntervals (e : Engine) : Engine :=
  let e := if e.sim.vehicleMoveInterval.isSome then clearInterval e.sim.vehicleMoveInterval e else e
  let e := if e.sim.trafficLightInterval.isSome then clearInterval e.sim.trafficLightInterval e else e
  let e := if e.sim.vehicleSpawnInterval.isSome then clearInterval e.sim.vehicleSpawnInterval e else e
  if e.sim.congestionUpdateInterval.isSome then clearInterval e.sim.congestionUpdateInterval e else e

/-- The method `startVehicleMovement`: it resets `_movingTickRunning` and
installs the mobility timer. -/
def startVehicleMovement (e : Engine) : Engine :=
  let interval := floorQuot 3000 e.sim.speed
  let e := { e with sim := { e.sim with movingTickRunning := false } }
  let (e, h) := setInterval .vehicleMove interval e
  { e with sim := { e.sim with vehicleMoveInterval := some h } }

/-- The method `startTrafficLightCycling`. -/
def startTrafficLightCycling (e : Engine) : Engine :=
  let interval := floorQuot 15000 e.sim.speed
  let (e, h) := setInterval .trafficLight interval e
  { e with sim := { e.sim with trafficLightInterval := some h } }

/-- The method `startVehicleSpawning`.  The exact quotient
`(60000 / spawnRate) / speed` is `60000 / (spawnRate * speed)`. -/
def startVehicleSpawning (e : Engine) : Engine :=
  if e.sim.spawnRate = 0 then e
  else
    let interval := floorQuot 60000 ((e.sim.spawnRate : ℚ) * e.sim.speed)
    let (e, h) := setInterval .vehicleSpawn interval e
    { e with sim := { e.sim with vehicleSpawnInterval := some h } }

/-- The method `startCongestionUpdates`. -/
def startCongestionUpdates (e : Engine) : Engine :=
  let interval := floorQuot 10000 e.sim.speed
  let (e, h) := setInterval .congestionUpdate interval e
  { e with sim := { e.sim with congestionUpdateInterval := some h } }

/-- The method `pause`. -/
def pause (e : Engine) : Engine :=
  if e.sim.isRunning = false then e
  else
    let e := clearAllIntervals e
    { e with sim := { e.sim with isRunning := false } }

/-- The method `resume`. -/
def resume (e : Engine) : Engine :=
  if e.sim.isRunning then e
  else
    let e := { e with sim := { e.sim with isRunning := true } }
    let e := startVehicleMovement e
    let e := startTrafficLightCycling e
    let e := startVehicleSpawning e
    startCongestionUpdates e

/-- The method `setSpeed(multiplier)`. -/
def setSpeed (multiplier : ℚ) (e : Engine) : Engine :=
  let e := { e with sim := { e.sim with speed := multiplier } }
  if e.sim.isRunning then resume (pause e) else e

/-- A freshly constructed simulation in an event loop without timers. -/
def Engine.new : Engine :=
  { sim := TrafficSimulation.new, timers := [], nextHandle := 0 }

/-! ### Loading, starting and resetting -/

/-- What `loadState` receives from its three requests: the vehicle, road and
intersection lists. -/
structure Snapshot where
  vehicles : List Obj
  roads : List Obj
  intersections : List Obj
  deriving Repr, DecidableEq

/-- The method `loadState`; `loaded` is `none` when one of the three requests
fails, and then the `catch` block leaves the lists as they are. -/
def loadState (loaded : Option Snapshot) (e : Engine) : Engine :=
  match loaded with
  | some s =>
    { e with sim := { e.sim with vehicles := s.vehicles, roads := s.roads,
                                 intersections := s.intersections } }
  | none => e

/-- The method `start` up to its `await this.loadState()`: `none` when it
returns at once because the simulation is running. -/
def startBegin (e : Engine) : Option Engine :=
  if e.sim.isRunning then none
  else some { e with sim := { e.sim with isRunning := true } }

/-- The method `start` from the moment `loadState` settles. -/
def startFinish (loaded : Option Snapshot) (e : Engine) : Engine :=
  let e := loadState loaded e
  let e := startVehicleMovement e
  let e := startTrafficLightCycling e
  let e := startVehicleSpawning e
  startCongestionUpdates e

/-- The method `start`, run without interruption. -/
def start (loaded : Option Snapshot) (e : Engine) : Engine :=
  match startBegin e with
  | none => e
  | some e => startFinish loaded e

/-- The method `reset` up to its `await this.loadState()`: `pause()` and the
two counter assignments. -/
def resetBegin (e : Engine) : Engine :=
  let e := pause e
  { e with sim := { e.sim with vehicleCounter := 1000, transactionCount := 0 } }

/-- The method `reset` from the moment the three requests of `loadState`
settle: the assignments of `loadState`, in the state the event loop is in by
then. -/
def resetFinish (loaded : Option Snapshot) (e : Engine) : Engine :=
  loadState loaded e

/-- The method `reset` when nothing else runs between its call and the
moment `loadState` settles. -/
def reset (loaded : Option Snapshot) (e : Engine) : Engine :=
  resetFinish loaded (resetBegin e)

/-- The method `setSpawnRate(rate)`. -/
def setSpawnRate (rate : Int) (e : Engine) : Engine :=
  let e := { e with sim := { e.sim with spawnRate := rate } }
  if e.sim.isRunning then
    let e := clearInterval e.sim.vehicleSpawnInterval e
    startVehicleSpawning e
  else e

/-! ### The mobility task as a scheduler

The callback given to `setInterval` in `startVehicleMovement` has two parts:
the synchronous guard (`isRunning`, `_movingTickRunning`) that either returns
or sets the flag and enters the `try` body, and the `finally` block that
clears the flag when the body (a chain of awaited requests) is over.  Between
the two, the event loop may run timer callbacks and lifecycle calls. -/

/-- An engine together with the number of mobility tick bodies that have been
entered and have not yet reached their `finally` block. -/
structure Sched where
  engine : Engine
  ticksInProgress : Nat
  deriving Repr, DecidableEq

/-- What the event loop may run next. -/
inductive Event where
  | fire (handle : Nat)
  | complete
  | pause
  | resume
  | setSpeed (multiplier : ℚ)
  deriving Repr, DecidableEq

/-- The synchronous head of the mobility callback. -/
def moveTimerFires (s : Sched) : Sched :=
  if s.engine.sim.isRunning = false then s
  else if s.engine.sim.movingTickRunning then s
  else
    { engine := { s.engine with sim := { s.engine.sim with movingTickRunning := true } },
      ticksInProgress := s.ticksInProgress + 1 }

/-- The `finally` block of a mobility tick body. -/
def moveTickCompletes (s : Sched) : Sched :=
  { engine := { s.engine with sim := { s.engine.sim with movingTickRunning := false } },
    ticksInProgress := s.ticksInProgress - 1 }

/-- One step of the event loop; `none` when the event cannot happen (the
timer is not a live mobility timer, or no tick body is in progress). -/
def Sched.step (s : Sched) : Event → Option Sched
  | .fire h =>
    if s.engine.timers.any (fun t => t.handle == h && t.task == Task.vehicleMove) then
      some (moveTimerFires s)
    else none
  | .complete => if 0 < s.ticksInProgress then some (moveTickCompletes s) else none
  | .pause => some { s with engine := pause s.engine }
  | .resume => some { s with engine := resume s.engine }
  | .setSpeed m => some { s with engine := setSpeed m s.engine }

/-- A sequence of steps of the event loop. -/
def Sched.run (s : Sched) : List Event → Option Sched
  | [] => some s
  | ev :: rest =>
    match s.step ev with
    | none => none
    | some s' => s'.run rest

/-- The scheduler state of a freshly constructed simulation. -/
def Sched.new : Sched :=
  { engine := Engine.new, ticksInProgress := 0 }

/-! ## JavaScript primitives used by the contract -/

/-- The errors a contract function can throw: `new Error(message)` from the
contract itself, and the built-in errors of `JSON.parse` and of property
access. -/
inductive Err where
  | error (message : String)
  | syntaxError
  | typeError
  | rangeError
  deriving Repr, DecidableEq

/-- White space skipped by `parseInt` and by the conversion of strings to
numbers. -/
def isStrWhiteSpace (c : Char) : Bool :=
  c.toNat = 0x20 || c.toNat = 0x09 || c.toNat = 0x0A || c.toNat = 0x0D || c.toNat = 0x0B
    || c.toNat = 0x0C || c.toNat = 0xA0 || c.toNat = 0xFEFF || c.toNat = 0x1680
    || (0x2000 ≤ c.toNat && c.toNat ≤ 0x200A) || c.toNat = 0x2028 || c.toNat = 0x2029
    || c.toNat = 0x202F || c.toNat = 0x205F || c.toNat = 0x3000

/-- The value of a character as a digit in the given radix, if it is one. -/
def digitValue (radix : Nat) (c : Char) : Option Nat :=
  let d : Option Nat :=
    if 48 ≤ c.toNat ∧ c.toNat ≤ 57 then some (c.toNat - 48)
    else if 97 ≤ c.toNat ∧ c.toNat ≤ 122 then some (c.toNat - 87)
    else if 65 ≤ c.toNat ∧ c.toNat ≤ 90 then some (c.toNat - 55)
    else none
  match d with
  | some v => if v < radix then some v else none
  | none => none

/-- The longest prefix of digits of the given radix, as digit values. -/
def takeDigits (radix : Nat) : List Char → List Nat
  | [] => []
  | c :: cs =>
    match digitValue radix c with
    | some v => v :: takeDigits radix cs
    | none => []

/-- The number written by a list of digit values, most significant first. -/
def digitsToNat (radix : Nat) (ds : List Nat) : Nat :=
  ds.foldl (fun acc d => acc * radix + d) 0

/-- Whether the characters start with `0x` or `0X`. -/
def hasHexPrefix : List Char → Bool
  | c0 :: c1 :: _ => c0.toNat = 48 && (c1.toNat = 120 || c1.toNat = 88)
  | _ => false

/-- The built-in `parseInt(string, radix)`; the radix `none` is an omitted
radix and the result `none` is `NaN`.  Leading white space and a sign are
skipped, a hexadecimal prefix is honoured when the radix is omitted or 16,
and the longest prefix of digits is read; what follows it is ignored.  The
result is exact, where JavaScript rounds integers beyond 2^53. -/
def parseInt (string : String) (radix : Option Nat) : Option Int :=
  let cs := string.data.dropWhile isStrWhiteSpace
  let negative : Bool := match cs with
    | c :: _ => c.toNat = 45
    | [] => false
  let cs := match cs with
    | c :: rest => if c.toNat = 45 || c.toNat = 43 then rest else cs
    | [] => cs
  let r : Nat := match radix with
    | none => 10
    | some 0 => 10
    | some r => r
  let stripPrefix : Bool := match radix with
    | none => true
    | some 0 => true
    | some r => r = 16
  if r < 2 ∨ 36 < r then none
  else
    let hex := stripPrefix && hasHexPrefix cs
    let cs := if hex then cs.drop 2 else cs
    let r := if hex then 16 else r
    match takeDigits r cs with
    | [] => none
    | ds =>
      let n : Int := (digitsToNat r ds : Nat)
      some (if negative then -n else n)

/-- A number as `JSON.stringify` writes it: `NaN` becomes `null`. -/
def numToJson : Option Int → JVal
  | some n => .num n
  | none => .null

/-- The conversion of a string to a number (`none` is `NaN`): surrounding
white space is dropped, the empty string is 0, and an optionally signed run
of decimal digits or an unsigned hexadecimal literal is its value.  Spellings
of non-integers (a fraction, an exponent, `Infinity`) have no value in this
integer model and are treated as `NaN`. -/
def stringToNumber (s : String) : Option Int :=
  let cs := s.data.dropWhile isStrWhiteSpace
  let cs := (cs.reverse.dropWhile isStrWhiteSpace).reverse
  match cs with
  | [] => some 0
  | c :: rest =>
    if hasHexPrefix cs then
      let ds := takeDigits 16 (cs.drop 2)
      if ds.length = (cs.drop 2).length ∧ ds ≠ [] then some (digitsToNat 16 ds : Nat) else none
    else
      let body := if c.toNat = 45 || c.toNat = 43 then rest else cs
      let ds := takeDigits 10 body
      if ds.length = body.length ∧ ds ≠ [] then
        let n : Int := (digitsToNat 10 ds : Nat)
        some (if c.toNat = 45 then -n else n)
      else none

/-- The number that the string form of an array element converts to: the
element of a one-element array decides the number the array converts to. -/
def elementToNumber : JVal → Option Int
  | .null => some 0
  | .bool _ => none
  | .num n => some n
  | .str s => stringToNumber s
  | .arr [] => some 0
  | .arr [v] => elementToNumber v
  | .arr _ => none
  | .obj _ => none

/-- The conversion `ToNumber` applied by the operators `>` and `-` to a value
read out of parsed JSON (`none` is `undefined`); the result `none` is `NaN`. -/
def toNumber : Option JVal → Option Int
  | none => none
  | some .null => some 0
  | some (.bool b) => some (if b then 1 else 0)
  | some (.num n) => some n
  | some (.str s) => stringToNumber s
  | some (.arr xs) => elementToNumber (.arr xs)
  | some (.obj _) => none

/-- The comparison `a > b` on numbers; it is false when either is `NaN`. -/
def numGt : Option Int → Option Int → Bool
  | some a, some b => decide (b < a)
  | _, _ => false

/-- The difference `a - b` on numbers; `NaN` when either is `NaN`. -/
def numSub : Option Int → Option Int → Option Int
  | some a, some b => some (a - b)
  | _, _ => none

/-- Truthiness of a value read out of parsed JSON. -/
def truthy : Option JVal → Bool
  | none => false
  | some .null => false
  | some (.bool b) => b
  | some (.num n) => decide (n ≠ 0)
  | some (.str s) => decide (s ≠ "")
  | some (.arr _) => true
  | some (.obj _) => true

/-- Property read `v.k` on a parsed JSON value, for a key `k` that is not
`length` nor an index: reading from `null` throws, and a string, number,
boolean or array has no such property. -/
def readProp (v : JVal) (k : String) : Except Err (Option JVal) :=
  match v with
  | .null => .error .typeError
  | .obj fields => .ok (getProp fields k)
  | _ => .ok none

/-- Property assignment `v.k = x` on a parsed JSON value in strict mode,
followed by `JSON.stringify`: it throws on `null` and on primitives; on an
array a named property is set but not serialised, and `length` resizes the
array (or throws when the value is not an array length). -/
def writeProp (v : JVal) (k : String) (x : JVal) : Except Err JVal :=
  match v with
  | .obj fields => .ok (.obj (setProp fields k x))
  | .arr items =>
    if k = "length" then
      match x with
      | .num n =>
        if 0 ≤ n ∧ n < 4294967296 then
          .ok (.arr (items.take n.toNat ++ List.replicate (n.toNat - items.length) .null))
        else .error .rangeError
      | _ => .error .rangeError
    else .ok (.arr items)
  | _ => .error .typeError

/-- An object literal as `JSON.stringify` writes it: properties whose value
is `undefined` are left out. -/
def mkObj (fields : List (String × Option JVal)) : Obj :=
  fields.filterMap (fun f => f.2.map (fun v => (f.1, v)))

/-! ## The ledger (`ctx.stub`) -/

/-- A byte buffer, by what it decodes to: no bytes at all, text that
`JSON.parse` rejects, or the JSON text of a value. -/
inductive Buffer where
  | empty
  | garbage (text : String)
  | json (v : JVal)
  deriving Repr, DecidableEq

/-- The world state: the value stored under each key. -/
abbrev World := List (String × Buffer)

/-- A world state holds one value per key. -/
def World.WF (w : World) : Prop := (w.map Prod.fst).Nodup

instance (w : World) : Decidable w.WF := by unfold World.WF; infer_instance

/-- The call `ctx.stub.getState(key)`; `none` is a missing result. -/
def getState : World → String → Option Buffer
  | [], _ => none
  | (k', v) :: rest, k => if k' = k then some v else getState rest k

/-- The call `ctx.stub.putState(key, value)`. -/
def putState : World → String → Buffer → World
  | [], k, v => [(k, v)]
  | (k', v') :: rest, k, v =>
    if k' = k then (k, v) :: rest else (k', v') :: putState rest k v

/-- The call `ctx.stub.deleteState(key)`. -/
def deleteState (w : World) (key : String) : World :=
  w.filter (fun e => decide (e.1 ≠ key))

/-- The test `assetJSON && assetJSON.length > 0` on the result of
`getState`; its negation is `!assetJSON || assetJSON.length === 0`. -/
def hasBytes : Option Buffer → Bool
  | none => false
  | some .empty => false
  | some (.garbage _) => true
  | some (.json _) => true

/-- The expression `JSON.parse(assetJSON.toString())`. -/
def jsonParse : Option Buffer → Except Err JVal
  | some (.json v) => .ok v
  | some (.garbage _) => .error .syntaxError
  | some .empty => .error .syntaxError
  | none => .error .typeError

/-- The transaction context: the two numbers read from
`ctx.stub.getTxTimestamp()`, `seconds` being the value of
`ts.seconds.low ?? ts.seconds` and `nanos` the value of `ts.nanos ?? 0`.
The time they give is taken to lie in the range of `Date`, as every ledger
timestamp does. -/
structure Ctx where
  seconds : Int
  nanos : Int
  deriving Repr, DecidableEq

/-- A natural number in decimal, padded with zeros to a width. -/
def padDigits : Nat → Nat → List Char
  | 0, _ => []
  | width + 1, n => padDigits width (n / 10) ++ [Char.ofNat (48 + n % 10)]

/-- The civil date (year, month, day) of a day number counted from
1970-01-01, in the proleptic Gregorian calendar. -/
def civilFromDays (days : Int) : Int × Nat × Nat :=
  let z := days + 719468
  let era := Int.fdiv z 146097
  let doe := (z - era * 146097).toNat
  let yoe := (doe - doe / 1460 + doe / 36524 - doe / 146096) / 365
  let doy := doe - (365 * yoe + yoe / 4 - yoe / 100)
  let mp := (5 * doy + 2) / 153
  let d := doy - (153 * mp + 2) / 5 + 1
  let m := if mp < 10 then mp + 3 else mp - 9
  let y : Int := (yoe : Int) + era * 400
  (if m ≤ 2 then y + 1 else y, m, d)

/-- The method `Date.prototype.toISOString` of `new Date(ms)`:
`YYYY-MM-DDTHH:mm:ss.sssZ`, with a signed six-digit year outside 0..9999. -/
def toISOString (ms : Int) : String :=
  let days := Int.fdiv ms 86400000
  let rem := (ms - days * 86400000).toNat
  let (y, m, d) := civilFromDays days
  let year : List Char :=
    if 0 ≤ y ∧ y ≤ 9999 then padDigits 4 y.toNat
    else (if y < 0 then [Char.ofNat 45] else [Char.ofNat 43]) ++ padDigits 6 y.natAbs
  String.mk (year ++ [Char.ofNat 45] ++ padDigits 2 m ++ [Char.ofNat 45] ++ padDigits 2 d
    ++ [Char.ofNat 84] ++ padDigits 2 (rem / 3600000) ++ [Char.ofNat 58]
    ++ padDigits 2 (rem / 60000 % 60) ++ [Char.ofNat 58] ++ padDigits 2 (rem / 1000 % 60)
    ++ [Char.ofNat 46] ++ padDigits 3 (rem % 1000) ++ [Char.ofNat 90])

/-- The helper `_getTxTimestamp(ctx)`. -/
def _getTxTimestamp (ctx : Ctx) : String :=
  let seconds := ctx.seconds
  let nanos := ctx.nanos
  let ms := (seconds * 1000) + Int.fdiv nanos 1000000
  toISOString ms

/-- The expression `txTime.replace(/[:.]/g, '')`: the timestamp without its
colons and dots. -/
def stripColonsDots (txTime : String) : String :=
  String.mk (txTime.data.filter (fun c => !(c.toNat = 58 || c.toNat = 46)))

/-- The helper `_assetExists(ctx, id)`. -/
def _assetExists (w : World) (id : String) : Bool :=
  let assetJSON := getState w id
  hasBytes assetJSON

/-- The helper `_getAssetsByType(ctx, assetType)`: the records of the range
scan whose `assetType` is the given one.  A value that does not parse, or
whose `assetType` cannot be read, is caught and skipped. -/
def _getAssetsByType (w : World) (assetType : String) : List JVal :=
  w.filterMap (fun e =>
    match jsonParse (some e.2) with
    | .ok record =>
      match readProp record "assetType" with
      | .ok t => if strictEq t (some (.str assetType)) then some record else none
      | .error _ => none
    | .error _ => none)

/-! ## The contract (`trafficContract.js`)

Every transaction function takes the context and the world state it reads,
and returns either the error it throws or the world state after its writes
together with the bytes it returns.  A transaction that throws writes
nothing.  The arguments of a transaction are strings. -/

deriving instance DecidableEq for Except

/-- What a transaction function produces. -/
abbrev Outcome := Except Err (World × Buffer)

/-- The world state after a transaction was submitted against `w`: the
writes of a successful transaction, and `w` itself when it threw. -/
def commit (w : World) : Outcome → World
  | .ok (w', _) => w'
  | .error _ => w

/-! ### Vehicles -/

/-- The transaction `CreateVehicle`. -/
def CreateVehicle (ctx : Ctx) (w : World)
    (id type currentRoad currentIntersection speed direction : String) : Outcome :=
  let «exists» := _assetExists w id
  if «exists» then
    .error (.error ("Vehicle " ++ id ++ " already exists"))
  else
    let txTime := _getTxTimestamp ctx
    let vehicle : JVal := .obj (mkObj [
      ("id", some (.str id)),
      ("assetType", some (.str "vehicle")),
      ("type", some (.str type)),
      ("currentRoad", some (.str currentRoad)),
      ("currentIntersection", some (.str currentIntersection)),
      ("speed", some (numToJson (parseInt speed (some 10)))),
      ("direction", some (.str direction)),
      ("timestamp", some (.str txTime)),
      ("isEmergency", some (.bool (decide (type = "emergency")))),
      ("status", some (.str "active"))])
    .ok (putState w id (.json vehicle), .json vehicle)

/-- The transaction `ReadVehicle`. -/
def ReadVehicle (w : World) (id : String) : Outcome :=
  let assetJSON := getState w id
  if hasBytes assetJSON = false then
    .error (.error ("Vehicle " ++ id ++ " does not exist"))
  else
    .ok (w, assetJSON.getD .empty)

/-- The helper `_checkSpeedViolation(ctx, vehicleId, roadId, vehicleSpeed,
txTime)`; the result is the world state after its write, if it makes one. -/
def _checkSpeedViolation (w : World) (vehicleId roadId : String) (vehicleSpeed : Option Int)
    (txTime : String) : Except Err World :=
  let roadJSON := getState w roadId
  if hasBytes roadJSON = false then
    .ok w
  else do
    let road ← jsonParse roadJSON
    let maxSpeed ← readProp road "maxSpeed"
    if numGt vehicleSpeed (toNumber maxSpeed) then
      let violationId := "VIO_" ++ vehicleId ++ "_" ++ stripColonsDots txTime
      let name ← readProp road "name"
      let violation : JVal := .obj (mkObj [
        ("id", some (.str violationId)),
        ("assetType", some (.str "violation")),
        ("vehicleId", some (.str vehicleId)),
        ("roadId", some (.str roadId)),
        ("speedLimit", maxSpeed),
        ("actualSpeed", some (numToJson vehicleSpeed)),
        ("excessSpeed", some (numToJson (numSub vehicleSpeed (toNumber maxSpeed)))),
        ("timestamp", some (.str txTime)),
        ("location", name)])
      .ok (putState w violationId (.json violation))
    else
      .ok w

/-- The transaction `UpdateVehiclePosition`. -/
def UpdateVehiclePosition (ctx : Ctx) (w : World)
    (id newRoad newIntersection newSpeed newDirection : String) : Outcome :=
  let assetJSON := getState w id
  if hasBytes assetJSON = false then
    .error (.error ("Vehicle " ++ id ++ " does not exist"))
  else do
    let vehicle ← jsonParse assetJSON
    let txTime := _getTxTimestamp ctx
    let vehicle ← writeProp vehicle "currentRoad" (.str newRoad)
    let vehicle ← writeProp vehicle "currentIntersection" (.str newIntersection)
    let vehicle ← writeProp vehicle "speed" (numToJson (parseInt newSpeed none))
    let vehicle ← writeProp vehicle "direction" (.str newDirection)
    let vehicle ← writeProp vehicle "timestamp" (.str txTime)
    let w ← _checkSpeedViolation w id newRoad (parseInt newSpeed none) txTime
    .ok (putState w id (.json vehicle), .json vehicle)

/-- The transaction `GetAllVehicles`. -/
def GetAllVehicles (w : World) : List JVal :=
  _getAssetsByType w "vehicle"

/-- The transaction `DeleteVehicle`. -/
def DeleteVehicle (w : World) (id : String) : Outcome :=
  let «exists» := _assetExists w id
  if «exists» = false then
    .error (.error ("Vehicle " ++ id ++ " does not exist"))
  else
    .ok (deleteState w id,
      .json (.obj [("message", .str ("Vehicle " ++ id ++ " deleted successfully"))]))

/-- The transaction `UpdateVehicleStatus`. -/
def UpdateVehicleStatus (ctx : Ctx) (w : World) (id newStatus : String) : Outcome :=
  let assetJSON := getState w id
  if hasBytes assetJSON = false then
    .error (.error ("Vehicle " ++ id ++ " does not exist"))
  else do
    let vehicle ← jsonParse assetJSON
    let txTime := _getTxTimestamp ctx
    let vehicle ← writeProp vehicle "status" (.str newStatus)
    let vehicle ← writeProp vehicle "timestamp" (.str txTime)
    .ok (putState w id (.json vehicle), .json vehicle)

/-- The transaction `GetAllViolations`. -/
def GetAllViolations (w : World) : List JVal :=
  _getAssetsByType w "violation"

/-! ### Roads -/

/-- The transaction `CreateRoad`. -/
def CreateRoad (ctx : Ctx) (w : World)
    (id name startIntersection endIntersection lanes maxSpeed length : String) : Outcome :=
  let «exists» := _assetExists w id
  if «exists» then
    .error (.error ("Road " ++ id ++ " already exists"))
  else
    let txTime := _getTxTimestamp ctx
    let road : JVal := .obj (mkObj [
      ("id", some (.str id)),
      ("assetType", some (.str "road")),
      ("name", some (.str name)),
      ("startIntersection", some (.str startIntersection)),
      ("endIntersection", some (.str endIntersection)),
      ("lanes", some (numToJson (parseInt lanes none))),
      ("maxSpeed", some (numToJson (parseInt maxSpeed none))),
      ("length", some (numToJson (parseInt length none))),
      ("currentVehicleCount", some (.num 0)),
      ("status", some (.str "open")),
      ("congestionLevel", some (.str "low")),
      ("timestamp", some (.str txTime))])
    .ok (putState w id (.json road), .json road)

/-- The transaction `ReadRoad`. -/
def ReadRoad (w : World) (id : String) : Outcome :=
  let assetJSON := getState w id
  if hasBytes assetJSON = false then
    .error (.error ("Road " ++ id ++ " does not exist"))
  else
    .ok (w, assetJSON.getD .empty)

/-- The transaction `UpdateRoadStatus`. -/
def UpdateRoadStatus (ctx : Ctx) (w : World) (id newStatus : String) : Outcome :=
  let assetJSON := getState w id
  if hasBytes assetJSON = false then
    .error (.error ("Road " ++ id ++ " does not exist"))
  else do
    let road ← jsonParse assetJSON
    let txTime := _getTxTimestamp ctx
    let road ← writeProp road "status" (.str newStatus)
    let road ← writeProp road "timestamp" (.str txTime)
    .ok (putState w id (.json road), .json road)

/-- The transaction `UpdateRoadProperties`. -/
def UpdateRoadProperties (ctx : Ctx) (w : World) (id lanes maxSpeed length : String) :
    Outcome :=
  let assetJSON := getState w id
  if hasBytes assetJSON = false then
    .error (.error ("Road " ++ id ++ " does not exist"))
  else do
    let road ← jsonParse assetJSON
    let txTime := _getTxTimestamp ctx
    let road ← writeProp road "lanes" (numToJson (parseInt lanes none))
    let road ← writeProp road "maxSpeed" (numToJson (parseInt maxSpeed none))
    let road ← writeProp road "length" (numToJson (parseInt length none))
    let road ← writeProp road "timestamp" (.str txTime)
    .ok (putState w id (.json road), .json road)

/-- The transaction `UpdateRoadCongestion`. -/
def UpdateRoadCongestion (ctx : Ctx) (w : World) (id congestionLevel : String) : Outcome :=
  let assetJSON := getState w id
  if hasBytes assetJSON = false then
    .error (.error ("Road " ++ id ++ " does not exist"))
  else do
    let road ← jsonParse assetJSON
    let txTime := _getTxTimestamp ctx
    let road ← writeProp road "congestionLevel" (.str congestionLevel)
    let road ← writeProp road "timestamp" (.str txTime)
    .ok (putState w id (.json road), .json road)

/-- The transaction `GetAllRoads`. -/
def GetAllRoads (w : World) : List JVal :=
  _getAssetsByType w "road"

/-- The transaction `DeleteRoad`. -/
def DeleteRoad (w : World) (id : String) : Outcome :=
  let «exists» := _assetExists w id
  if «exists» = false then
    .error (.error ("Road " ++ id ++ " does not exist"))
  else
    .ok (deleteState w id,
      .json (.obj [("message", .str ("Road " ++ id ++ " deleted successfully"))]))

/-! ### Intersections

The built-in `parseFloat` yields floating-point numbers, which this model
does not have; the functions that call it take as `parseFloat` the map from
the argument string to the JSON value that is stored for it. -/

/-- The transaction `CreateIntersection`; `connectedRoadsJSON` is the
argument string by what it decodes to. -/
def CreateIntersection (parseFloat : String → JVal) (ctx : Ctx) (w : World)
    (id name latitude longitude : String) (connectedRoadsJSON : Buffer) : Outcome :=
  let «exists» := _assetExists w id
  if «exists» then
    .error (.error ("Intersection " ++ id ++ " already exists"))
  else do
    let txTime := _getTxTimestamp ctx
    let connectedRoads ← jsonParse (some connectedRoadsJSON)
    let intersection : JVal := .obj (mkObj [
      ("id", some (.str id)),
      ("assetType", some (.str "intersection")),
      ("name", some (.str name)),
      ("latitude", some (parseFloat latitude)),
      ("longitude", some (parseFloat longitude)),
      ("connectedRoads", some connectedRoads),
      ("trafficLightState", some (.str "green")),
      ("trafficDensity", some (.str "low")),
      ("timestamp", some (.str txTime))])
    .ok (putState w id (.json intersection), .json intersection)

/-- The transaction `ReadIntersection`. -/
def ReadIntersection (w : World) (id : String) : Outcome :=
  let assetJSON := getState w id
  if hasBytes assetJSON = false then
    .error (.error ("Intersection " ++ id ++ " does not exist"))
  else
    .ok (w, assetJSON.getD .empty)

/-- The transaction `UpdateTrafficLight`. -/
def UpdateTrafficLight (ctx : Ctx) (w : World) (id newState : String) : Outcome :=
  let assetJSON := getState w id
  if hasBytes assetJSON = false then
    .error (.error ("Intersection " ++ id ++ " does not exist"))
  else do
    let intersection ← jsonParse assetJSON
    let txTime := _getTxTimestamp ctx
    let intersection ← writeProp intersection "trafficLightState" (.str newState)
    let intersection ← writeProp intersection "timestamp" (.str txTime)
    .ok (putState w id (.json intersection), .json intersection)

/-- The transaction `UpdateIntersectionLocation`. -/
def UpdateIntersectionLocation (parseFloat : String → JVal) (ctx : Ctx) (w : World)
    (id latitude longitude : String) : Outcome :=
  let assetJSON := getState w id
  if hasBytes assetJSON = false then
    .error (.error ("Intersection " ++ id ++ " does not exist"))
  else do
    let intersection ← jsonParse assetJSON
    let txTime := _getTxTimestamp ctx
    let intersection ← writeProp intersection "latitude" (parseFloat latitude)
    let intersection ← writeProp intersection "longitude" (parseFloat longitude)
    let intersection ← writeProp intersection "timestamp" (.str txTime)
    .ok (putState w id (.json intersection), .json intersection)

/-- The transaction `UpdateIntersectionDensity`. -/
def UpdateIntersectionDensity (ctx : Ctx) (w : World) (id density : String) : Outcome :=
  let assetJSON := getState w id
  if hasBytes assetJSON = false then
    .error (.error ("Intersection " ++ id ++ " does not exist"))
  else do
    let intersection ← jsonParse assetJSON
    let txTime := _getTxTimestamp ctx
    let intersection ← writeProp intersection "trafficDensity" (.str density)
    let intersection ← writeProp intersection "timestamp" (.str txTime)
    .ok (putState w id (.json intersection), .json intersection)

/-- The transaction `GetAllIntersections`. -/
def GetAllIntersections (w : World) : List JVal :=
  _getAssetsByType w "intersection"

/-- The transaction `DeleteIntersection`. -/
def DeleteIntersection (w : World) (id : String) : Outcome :=
  let «exists» := _assetExists w id
  if «exists» = false then
    .error (.error ("Intersection " ++ id ++ " does not exist"))
  else
    .ok (deleteState w id,
      .json (.obj [("message", .str ("Intersection " ++ id ++ " deleted successfully"))]))

/-! ### Incidents -/

/-- The transaction `ReportIncident`. -/
def ReportIncident (ctx : Ctx) (w : World)
    (id type location roadId severity description : String) : Outcome :=
  let «exists» := _assetExists w id
  if «exists» then
    .error (.error ("Incident " ++ id ++ " already exists"))
  else
    let txTime := _getTxTimestamp ctx
    let incident : JVal := .obj (mkObj [
      ("id", some (.str id)),
      ("assetType", some (.str "incident")),
      ("type", some (.str type)),
      ("location", some (.str location)),
      ("roadId", some (.str roadId)),
      ("severity", some (.str severity)),
      ("description", some (.str description)),
      ("status", some (.str "active")),
      ("reportedAt", some (.str txTime)),
      ("resolvedAt", some .null),
      ("timestamp", some (.str txTime))])
    .ok (putState w id (.json incident), .json incident)

/-- The transaction `ResolveIncident`. -/
def ResolveIncident (ctx : Ctx) (w : World) (id : String) : Outcome :=
  let assetJSON := getState w id
  if hasBytes assetJSON = false then
    .error (.error ("Incident " ++ id ++ " does not exist"))
  else do
    let incident ← jsonParse assetJSON
    let txTime := _getTxTimestamp ctx
    let incident ← writeProp incident "status" (.str "resolved")
    let incident ← writeProp incident "resolvedAt" (.str txTime)
    let incident ← writeProp incident "timestamp" (.str txTime)
    .ok (putState w id (.json incident), .json incident)

/-- The transaction `GetAllIncidents`. -/
def GetAllIncidents (w : World) : List JVal :=
  _getAssetsByType w "incident"

/-! ### Security alerts -/

/-- The expression `s || fallback` on strings. -/
def strOr (s fallback : String) : String :=
  if s = "" then fallback else s

/-- The transaction `ReportSecurityAlert`; `keyFeaturesJSON` is the argument
string by what it decodes to. -/
def ReportSecurityAlert (parseFloat : String → JVal) (ctx : Ctx) (w : World)
    (id source dataset scenario windowMinutes entityType entityId score severity
      justification : String) (keyFeaturesJSON : Buffer) : Outcome :=
  let «exists» := _assetExists w id
  if «exists» then
    .error (.error ("SecurityAlert " ++ id ++ " already exists"))
  else
    let txTime := _getTxTimestamp ctx
    let keyFeatures : JVal :=
      match keyFeaturesJSON with
      | .empty => .arr []
      | .garbage _ => .arr []
      | .json (.arr items) => .arr items
      | .json _ => .arr []
    let alert : JVal := .obj (mkObj [
      ("id", some (.str id)),
      ("assetType", some (.str "securityAlert")),
      ("source", some (.str (strOr source "GNN"))),
      ("dataset", some (.str (strOr dataset ""))),
      ("scenario", some (.str (strOr scenario ""))),
      ("windowMinutes", some (
        if truthy (some (numToJson (parseInt windowMinutes (some 10)))) then
          numToJson (parseInt windowMinutes (some 10))
        else .num 5)),
      ("entityType", some (.str (strOr entityType "host"))),
      ("entityId", some (.str (strOr entityId ""))),
      ("score", some (if truthy (some (parseFloat score)) then parseFloat score else .num 0)),
      ("severity", some (.str (strOr severity "medium"))),
      ("status", some (.str "active")),
      ("justification", some (.str (strOr justification ""))),
      ("keyFeatures", some keyFeatures),
      ("createdAt", some (.str txTime)),
      ("resolvedAt", some .null),
      ("timestamp", some (.str txTime))])
    .ok (putState w id (.json alert), .json alert)

/-- The transaction `ResolveSecurityAlert`. -/
def ResolveSecurityAlert (ctx : Ctx) (w : World) (id : String) : Outcome :=
  let assetJSON := getState w id
  if hasBytes assetJSON = false then
    .error (.error ("SecurityAlert " ++ id ++ " does not exist"))
  else do
    let alert ← jsonParse assetJSON
    let txTime := _getTxTimestamp ctx
    let alert ← writeProp alert "status" (.str "resolved")
    let alert ← writeProp alert "resolvedAt" (.str txTime)
    let alert ← writeProp alert "timestamp" (.str txTime)
    .ok (putState w id (.json alert), .json alert)

/-- The transaction `GetAllSecurityAlerts`. -/
def GetAllSecurityAlerts (w : World) : List JVal :=
  _getAssetsByType w "securityAlert"

/-! ### Vehicle history -/

/-- One item yielded by the iterator of `ctx.stub.getHistoryForKey`: the
transaction id, the timestamp object, the value bytes (`none` when the item
carries no value) and the delete flag. -/
structure KeyModification where
  txId : String
  timestamp : JVal
  value : Option Buffer
  isDelete : Bool
  deriving Repr, DecidableEq

/-- The `while (!result.done)` loop of `GetVehicleHistory` over the items of
the feed: an item without value bytes is passed over, and so is an item whose
value does not parse (the `catch` only logs). -/
def historyLoop : List KeyModification → List JVal
  | [] => []
  | result :: rest =>
    if hasBytes result.value then
      match jsonParse result.value with
      | .ok record =>
        .obj (mkObj [
          ("txId", some (.str result.txId)),
          ("timestamp", some result.timestamp),
          ("data", some record),
          ("isDelete", some (.bool result.isDelete))]) :: historyLoop rest
      | .error _ => historyLoop rest
    else historyLoop rest

/-- The transaction `GetVehicleHistory`; `feed` is what
`getHistoryForKey(vehicleId)` yields, in the order it yields it. -/
def GetVehicleHistory (feed : List KeyModification) (vehicleId : String) : JVal :=
  let history := historyLoop feed
  .obj (mkObj [
    ("vehicleId", some (.str vehicleId)),
    ("totalRecords", some (.num history.length)),
    ("history", some (.arr history))])

/-- The predicate `h => !h.isDelete && h.data.currentRoad` of the filter in
`GetVehicleMovementPath`, as a truth value. -/
def pathKeeps (h : JVal) : Except Err Bool := do
  let isDelete ← readProp h "isDelete"
  if truthy isDelete then pure false
  else
    let data ← readProp h "data"
    match data with
    | none => throw .typeError
    | some d =>
      let currentRoad ← readProp d "currentRoad"
      pure (truthy currentRoad)

/-- The call `.filter(h => !h.isDelete && h.data.currentRoad)`. -/
def pathFilter : List JVal → Except Err (List JVal)
  | [] => pure []
  | h :: rest => do
    let keep ← pathKeeps h
    let kept ← pathFilter rest
    pure (if keep then h :: kept else kept)

/-- The arrow function of the `.map(...)` in `GetVehicleMovementPath`. -/
def pathElement (h : JVal) : Except Err JVal := do
  let timestamp ← readProp h "timestamp"
  let data ← readProp h "data"
  match data with
  | none => throw .typeError
  | some d =>
    let road ← readProp d "currentRoad"
    let intersection ← readProp d "currentIntersection"
    let speed ← readProp d "speed"
    let direction ← readProp d "direction"
    pure (.obj (mkObj [
      ("timestamp", timestamp),
      ("road", road),
      ("intersection", intersection),
      ("speed", speed),
      ("direction", direction)]))

/-- The call `.map(h => (...))`. -/
def pathMap : List JVal → Except Err (List JVal)
  | [] => pure []
  | h :: rest => do
    let p ← pathElement h
    let ps ← pathMap rest
    pure (p :: ps)

/-- The transaction `GetVehicleMovementPath`. -/
def GetVehicleMovementPath (feed : List KeyModification) (vehicleId : String) :
    Except Err JVal := do
  let historyData := GetVehicleHistory feed vehicleId
  let history ← readProp historyData "history"
  match history with
  | some (.arr items) =>
    let kept ← pathFilter items
    let path ← pathMap kept
    pure (.obj (mkObj [
      ("vehicleId", some (.str vehicleId)),
      ("pathLength", some (.num path.length)),
      ("path", some (.arr path))]))
  | _ => throw .typeError

/-! ### The keyed operations as one family -/

/-- A call of one of the transactions that target an id, with its
arguments. -/
inductive Op where
  | createVehicle (id type currentRoad currentIntersection speed direction : String)
  | readVehicle (id : String)
  | updateVehiclePosition (id newRoad newIntersection newSpeed newDirection : String)
  | deleteVehicle (id : String)
  | updateVehicleStatus (id newStatus : String)
  | createRoad (id name startIntersection endIntersection lanes maxSpeed length : String)
  | readRoad (id : String)
  | updateRoadStatus (id newStatus : String)
  | updateRoadProperties (id lanes maxSpeed length : String)
  | updateRoadCongestion (id congestionLevel : String)
  | deleteRoad (id : String)
  | createIntersection (id name latitude longitude : String) (connectedRoadsJSON : Buffer)
  | readIntersection (id : String)
  | updateTrafficLight (id newState : String)
  | updateIntersectionLocation (id latitude longitude : String)
  | updateIntersectionDensity (id density : String)
  | deleteIntersection (id : String)
  | reportIncident (id type location roadId severity description : String)
  | resolveIncident (id : String)
  | reportSecurityAlert (id source dataset scenario windowMinutes entityType entityId score
      severity justification : String) (keyFeaturesJSON : Buffer)
  | resolveSecurityAlert (id : String)
  deriving Repr, DecidableEq

/-- The transaction function that a call runs. -/
def Op.exec (parseFloat : String → JVal) (ctx : Ctx) (w : World) : Op → Outcome
  | .createVehicle id type currentRoad currentIntersection speed direction =>
    CreateVehicle ctx w id type currentRoad currentIntersection speed direction
  | .readVehicle id => ReadVehicle w id
  | .updateVehiclePosition id newRoad newIntersection newSpeed newDirection =>
    UpdateVehiclePosition ctx w id newRoad newIntersection newSpeed newDirection
  | .deleteVehicle id => DeleteVehicle w id
  | .updateVehicleStatus id newStatus => UpdateVehicleStatus ctx w id newStatus
  | .createRoad id name startIntersection endIntersection lanes maxSpeed length =>
    CreateRoad ctx w id name startIntersection endIntersection lanes maxSpeed length
  | .readRoad id => ReadRoad w id
  | .updateRoadStatus id newStatus => UpdateRoadStatus ctx w id newStatus
  | .updateRoadProperties id lanes maxSpeed length =>
    UpdateRoadProperties ctx w id lanes maxSpeed length
  | .updateRoadCongestion id congestionLevel => UpdateRoadCongestion ctx w id congestionLevel
  | .deleteRoad id => DeleteRoad w id
  | .createIntersection id name latitude longitude connectedRoadsJSON =>
    CreateIntersection parseFloat ctx w id name latitude longitude connectedRoadsJSON
  | .readIntersection id => ReadIntersection w id
  | .updateTrafficLight id newState => UpdateTrafficLight ctx w id newState
  | .updateIntersectionLocation id latitude longitude =>
    UpdateIntersectionLocation parseFloat ctx w id latitude longitude
  | .updateIntersectionDensity id density => UpdateIntersectionDensity ctx w id density
  | .deleteIntersection id => DeleteIntersection w id
  | .reportIncident id type location roadId severity description =>
    ReportIncident ctx w id type location roadId severity description
  | .resolveIncident id => ResolveIncident ctx w id
  | .reportSecurityAlert id source dataset scenario windowMinutes entityType entityId score
      severity justification keyFeaturesJSON =>
    ReportSecurityAlert parseFloat ctx w id source dataset scenario windowMinutes entityType
      entityId score severity justification keyFeaturesJSON
  | .resolveSecurityAlert id => ResolveSecurityAlert ctx w id

/-- The id a call targets (its first argument). -/
def Op.target : Op → String
  | .createVehicle id _ _ _ _ _ => id
  | .readVehicle id => id
  | .updateVehiclePosition id _ _ _ _ => id
  | .deleteVehicle id => id
  | .updateVehicleStatus id _ => id
  | .createRoad id _ _ _ _ _ _ => id
  | .readRoad id => id
  | .updateRoadStatus id _ => id
  | .updateRoadProperties id _ _ _ => id
  | .updateRoadCongestion id _ => id
  | .deleteRoad id => id
  | .createIntersection id _ _ _ _ => id
  | .readIntersection id => id
  | .updateTrafficLight id _ => id
  | .updateIntersectionLocation id _ _ => id
  | .updateIntersectionDensity id _ => id
  | .deleteIntersection id => id
  | .reportIncident id _ _ _ _ _ => id
  | .resolveIncident id => id
  | .reportSecurityAlert id _ _ _ _ _ _ _ _ _ _ => id
  | .resolveSecurityAlert id => id

/-- The kind of asset a call names in its error messages. -/
def Op.kind : Op → String
  | .createVehicle .. | .readVehicle .. | .updateVehiclePosition .. | .deleteVehicle ..
  | .updateVehicleStatus .. => "Vehicle"
  | .createRoad .. | .readRoad .. | .updateRoadStatus .. | .updateRoadProperties ..
  | .updateRoadCongestion .. | .deleteRoad .. => "Road"
  | .createIntersection .. | .readIntersection .. | .updateTrafficLight ..
  | .updateIntersectionLocation .. | .updateIntersectionDensity .. | .deleteIntersection .. =>
    "Intersection"
  | .reportIncident .. | .resolveIncident .. => "Incident"
  | .reportSecurityAlert .. | .resolveSecurityAlert .. => "SecurityAlert"

/-- Whether a call is one of the five create operations. -/
def Op.isCreate : Op → Bool
  | .createVehicle .. | .createRoad .. | .createIntersection .. | .reportIncident ..
  | .reportSecurityAlert .. => true
  | _ => false

/-! ### Ledger initialisation -/

/-- An intersection object literal of `InitLedger`. -/
def initIntersection (id name : String) (latitude longitude : JVal)
    (connectedRoads : List String) (trafficLightState trafficDensity txTime : String) : Obj :=
  [("id", .str id), ("assetType", .str "intersection"), ("name", .str name),
   ("latitude", latitude), ("longitude", longitude),
   ("connectedRoads", .arr (connectedRoads.map JVal.str)),
   ("trafficLightState", .str trafficLightState), ("trafficDensity", .str trafficDensity),
   ("timestamp", .str txTime)]

/-- A road object literal of `InitLedger`. -/
def initRoad (id name startIntersection endIntersection : String) (lanes maxSpeed length : Int)
    (congestionLevel txTime : String) : Obj :=
  [("id", .str id), ("assetType", .str "road"), ("name", .str name),
   ("startIntersection", .str startIntersection), ("endIntersection", .str endIntersection),
   ("lanes", .num lanes), ("maxSpeed", .num maxSpeed), ("length", .num length),
   ("currentVehicleCount", .num 0), ("status", .str "open"),
   ("congestionLevel", .str congestionLevel), ("timestamp", .str txTime)]

/-- A vehicle object literal of `InitLedger`. -/
def initVehicle (id type currentRoad currentIntersection : String) (speed : Int)
    (direction txTime : String) (isEmergency : Bool) : Obj :=
  [("id", .str id), ("assetType", .str "vehicle"), ("type", .str type),
   ("currentRoad", .str currentRoad), ("currentIntersection", .str currentIntersection),
   ("speed", .num speed), ("direction", .str direction), ("timestamp", .str txTime),
   ("isEmergency", .bool isEmergency), ("status", .str "active")]

/-- The array `assets` of `InitLedger`, as pairs of `asset.id` and the
asset.  The coordinates are non-integer literals; each is given by the value
`parseFloat` has at its spelling. -/
def initAssets (parseFloat : String → JVal) (txTime : String) : List (String × Obj) :=
  [("I001", initIntersection "I001" "Central Plaza" (parseFloat "33.5731")
      (parseFloat "-7.5898") ["R001", "R002", "R005"] "green" "low" txTime),
   ("I002", initIntersection "I002" "North Gate" (parseFloat "33.5850")
      (parseFloat "-7.5898") ["R001", "R003"] "red" "medium" txTime),
   ("I003", initIntersection "I003" "East Junction" (parseFloat "33.5731")
      (parseFloat "-7.5750") ["R002", "R004"] "green" "low" txTime),
   ("I004", initIntersection "I004" "South Hub" (parseFloat "33.5612")
      (parseFloat "-7.5898") ["R005", "R006"] "yellow" "high" txTime),
   ("I005", initIntersection "I005" "West Terminal" (parseFloat "33.5731")
      (parseFloat "-7.6046") ["R003", "R004", "R006"] "green" "medium" txTime),
   ("R001", initRoad "R001" "Mohammed V Avenue" "I001" "I002" 4 60 1500 "low" txTime),
   ("R002", initRoad "R002" "Hassan II Boulevard" "I001" "I003" 3 50 1200 "low" txTime),
   ("R003", initRoad "R003" "Anfa Street" "I002" "I005" 2 40 800 "medium" txTime),
   ("R004", initRoad "R004" "Corniche Road" "I003" "I005" 3 70 2000 "low" txTime),
   ("R005", initRoad "R005" "Zerktouni Avenue" "I001" "I004" 3 50 1000 "high" txTime),
   ("R006", initRoad "R006" "Mers Sultan Road" "I004" "I005" 2 40 900 "medium" txTime),
   ("V001", initVehicle "V001" "car" "R001" "I001" 50 "north" txTime false),
   ("V002", initVehicle "V002" "truck" "R002" "I001" 40 "east" txTime false),
   ("V003", initVehicle "V003" "bus" "R003" "I002" 45 "west" txTime false),
   ("V004", initVehicle "V004" "car" "R004" "I003" 60 "west" txTime false),
   ("V005", initVehicle "V005" "emergency" "R005" "I001" 80 "south" txTime true)]

/-- The transaction `InitLedger`: every asset is put under its id, in
order. -/
def InitLedger (parseFloat : String → JVal) (ctx : Ctx) (w : World) : Outcome :=
  let txTime := _getTxTimestamp ctx
  let assets := initAssets parseFloat txTime
  let w := assets.foldl (fun w asset => putState w asset.1 (.json (.obj asset.2))) w
  .ok (w, .json (.obj [
    ("message", .str "Traffic Core Ledger initialized successfully"),
    ("intersections", .num 5), ("roads", .num 6), ("vehicles", .num 5), ("total", .num 16)]))

/-- A transaction that can write to the store: one of the keyed operations
or `InitLedger`.  The remaining contract functions (the `Get...` queries)
call neither `putState` nor `deleteState`. -/
inductive Tx where
  | keyed (op : Op)
  | initLedger
  deriving Repr, DecidableEq

/-- The transaction function that a transaction runs. -/
def Tx.exec (parseFloat : String → JVal) (ctx : Ctx) (w : World) : Tx → Outcome
  | .keyed op => op.exec parseFloat ctx w
  | .initLedger => InitLedger parseFloat ctx w

/-- The store after a list of transactions, each with its context, submitted
one after the other; a transaction that fails leaves the store as it is. -/
def ledgerAfter (parseFloat : String → JVal) (txs : List (Ctx × Tx)) : World :=
  txs.foldl (fun w t => commit w (t.2.exec parseFloat t.1 w)) []

/-! ## The connection cache (`server.js`) -/

/-- What `connectToNetwork` resolves to: gateway, network and contract of one
connection, told apart by `id`. -/
structure Conn where
  id : Nat
  deriving Repr, DecidableEq

/-- A thrown value: an `Error` object with its `name` and `message`, or any
other value, given by what `String(value)` is. -/
inductive Thrown where
  | error (name message : String)
  | other (text : String)
  deriving Repr, DecidableEq

/-- The expression `String(err && err.message ? err.message : err)`.  An
error with an empty message is converted by `Error.prototype.toString`, which
gives its name. -/
def Thrown.text : Thrown → String
  | .error name message => if message = "" then name else message
  | .other text => text

/-- Whether `sub` occurs in `l` as a block of consecutive characters. -/
def includesChars (sub : List Char) : List Char → Bool
  | [] => sub.isEmpty
  | c :: cs => sub.isPrefixOf (c :: cs) || includesChars sub cs

/-- The method `String.prototype.includes`. -/
def includes (s sub : String) : Bool := includesChars sub.data s.data

/-- The test `transient` of `withFabricConn`. -/
def transient (err : Thrown) : Bool :=
  let msg := err.text
  includes msg "Failed to connect"
    || includes msg "UNAVAILABLE"
    || includes msg "deadline"
    || includes msg "timeout"
    || includes msg "connectFailed"

/-- The module variables `_fabricConn` and `_fabricConnPromise`.  A promise is
given by what it settles to.  `connects` counts the calls of
`connectToNetwork` and `disconnected` lists the connections whose gateway was
disconnected; both are bookkeeping of the model. -/
structure ConnState where
  fabricConn : Option Conn
  fabricConnPromise : Option (Except Thrown Conn)
  connects : Nat
  disconnected : List Conn

/-- The module state at load: no connection, no promise. -/
def ConnState.init : ConnState :=
  { fabricConn := none, fabricConnPromise := none, connects := 0, disconnected := [] }

/-- The function `_resetFabricConn`.  A failure of `disconnect` is ignored. -/
def _resetFabricConn (s : ConnState) : ConnState :=
  { s with
    fabricConn := none,
    fabricConnPromise := none,
    disconnected := match s.fabricConn with
      | some c => s.disconnected ++ [c]
      | none => s.disconnected }

/-- Awaiting the connect promise: on success the connection is cached, on
failure the `catch` handler clears the promise and rethrows. -/
def settle (p : Except Thrown Conn) (s : ConnState) : ConnState × Except Thrown Conn :=
  match p with
  | .ok conn => ({ s with fabricConn := some conn, fabricConnPromise := some p }, .ok conn)
  | .error err => ({ s with fabricConnPromise := none }, .error err)

/-- The function `getFabricConn`, awaited.  `connect k` is what the call
number `k` of `connectToNetwork` settles to. -/
def getFabricConn (connect : Nat → Except Thrown Conn) (s : ConnState) :
    ConnState × Except Thrown Conn :=
  match s.fabricConn with
  | some conn => (s, .ok conn)
  | none =>
    match s.fabricConnPromise with
    | some p => settle p s
    | none => settle (connect s.connects) { s with connects := s.connects + 1 }

/-- A run of `withFabricConn`: the module state afterwards, the connections
`fn` was invoked with, in order, and what the caller gets. -/
structure Run (α : Type) where
  state : ConnState
  calls : List Conn
  result : Except Thrown α

/-- The two statements `const conn = await getFabricConn(); return await
fn(conn);`, which `withFabricConn` has in its `try` block and again in its
`catch` block.  `fn k conn` is what invocation number `k` of `fn` settles
to. -/
def attempt {α : Type} (connect : Nat → Except Thrown Conn)
    (fn : Nat → Conn → Except Thrown α) (calls : List Conn) (s : ConnState) : Run α :=
  match getFabricConn connect s with
  | (s, .error err) => { state := s, calls := calls, result := .error err }
  | (s, .ok conn) => { state := s, calls := calls ++ [conn], result := fn calls.length conn }

/-- The function `withFabricConn`. -/
def withFabricConn {α : Type} (connect : Nat → Except Thrown Conn)
    (fn : Nat → Conn → Except Thrown α) (s : ConnState) : Run α :=
  let first := attempt connect fn [] s
  match first.result with
  | .ok v => { first with result := .ok v }
  | .error err =>
    if transient err then
      attempt connect fn first.calls (_resetFabricConn first.state)
    else { first with result := .error err }

/-! ## The security-alert route (`server.js`) -/

/-- The decimal digits of a natural number, most significant first; `fuel`
bounds the number of digits. -/
def decimalDigits : Nat → Nat → List Char
  | 0, _ => []
  | fuel + 1, n =>
    if n < 10 then [Char.ofNat (48 + n)]
    else decimalDigits fuel (n / 10) ++ [Char.ofNat (48 + n % 10)]

/-- The string form of an integer. -/
def intToString (n : Int) : String :=
  let digits := decimalDigits (n.natAbs + 1) n.natAbs
  ⟨if n < 0 then '-' :: digits else digits⟩

mutual
/-- The conversion `String(value)` of a value of the request body. -/
def jsString : JVal → String
  | .null => "null"
  | .bool b => if b then "true" else "false"
  | .num n => intToString n
  | .str s => s
  | .arr items => joinItems items
  | .obj _ => "[object Object]"
/-- The method `Array.prototype.join` with its default separator; a `null`
element is written as the empty string. -/
def joinItems : List JVal → String
  | [] => ""
  | v :: rest =>
    let first := match v with
      | .null => ""
      | v => jsString v
    match rest with
    | [] => first
    | _ :: _ => first ++ "," ++ joinItems rest
end

/-- The method `toLowerCase`, on the letters A to Z.  No other character has
a lower case that is a letter of `high` or of `critical`, so the comparisons
of the route are decided as JavaScript decides them. -/
def toLowerCase (s : String) : String :=
  ⟨s.data.map (fun c => if 65 ≤ c.toNat ∧ c.toNat ≤ 90 then Char.ofNat (c.toNat + 32) else c)⟩

/-- The call `s.replace(/\./g, '_')`. -/
def replaceDots (s : String) : String :=
  ⟨s.data.map (fun c => if c = '.' then '_' else c)⟩

/-- The expression `String(v || '')`. -/
def stringOrEmpty (v : JVal) : String :=
  if truthy (some v) then jsString v else ""

/-- The argument conversion of `submitWithTxWithEndorsingOrgs`: `null` and
`undefined` become the empty string, anything else its string form. -/
def submitArg : Option JVal → String
  | none => ""
  | some .null => ""
  | some v => jsString v

/-- A destructured property with its default: the default is taken when the
property is `undefined`, not when it is `null`. -/
def withDefault (body : Obj) (k : String) (d : JVal) : JVal :=
  (getProp body k).getD d

/-- The object `mitigation` of the response. -/
structure Mitigation where
  scheduled : Bool
  vehicleId : Option String
  status : String
  reason : Option String
  deriving Repr, DecidableEq

/-- What the route answers: status 400 with an error text, status 500 after
a failure of the connection or of the transaction, or status 200 with
`\x7bok: true, alertTx, mitigation\x7d`, where `alertTx` is given by its
payload. -/
inductive Response where
  | badRequest (error : String)
  | connectionFailed (err : Thrown)
  | transactionFailed (err : Err)
  | ok (payload : Buffer) (mitigation : Mitigation)
  deriving Repr, DecidableEq

/-- The outcome of a request to `POST /api/security/alerts`: the store after
it, the response, and the vehicle id of the check handed to `setImmediate`,
if one was. -/
structure AlertResult where
  world : World
  response : Response
  check : Option String
  deriving Repr, DecidableEq

/-- The handler of `POST /api/security/alerts`.  `body` is `req.body || \x7b\x7d`
and `conn` is what `await getFabricConn()` settles to; a submitted
transaction is run on the store and committed. -/
def postSecurityAlert (parseFloat : String → JVal) (ctx : Ctx) (conn : Except Thrown Conn)
    (w : World) (body : Obj) : AlertResult :=
  let id := getProp body "id"
  let source := withDefault body "source" (.str "GNN_GraphSAGE")
  let dataset := withDefault body "dataset" (.str "")
  let scenario := withDefault body "scenario" (.str "")
  let windowMinutes := withDefault body "windowMinutes" (.num 5)
  let entityType := withDefault body "entityType" (.str "host")
  let entityId := withDefault body "entityId" (.str "")
  let score := withDefault body "score" (.num 0)
  let severity := withDefault body "severity" (.str "medium")
  let justification := withDefault body "justification" (.str "")
  let keyFeatures := withDefault body "keyFeatures" (.arr [])
  if truthy id = false then
    { world := w, response := .badRequest "Missing id", check := none }
  else if truthy (some entityId) = false then
    { world := w, response := .badRequest "Missing entityId", check := none }
  else
    match conn with
    | .error err => { world := w, response := .connectionFailed err, check := none }
    | .ok _ =>
      let features : JVal := match keyFeatures with
        | .arr items => .arr items
        | _ => .arr []
      match ReportSecurityAlert parseFloat ctx w (submitArg id) (submitArg (some source))
          (submitArg (some dataset)) (submitArg (some scenario)) (submitArg (some windowMinutes))
          (submitArg (some entityType)) (submitArg (some entityId)) (submitArg (some score))
          (submitArg (some severity)) (submitArg (some justification)) (.json features) with
      | .error err => { world := w, response := .transactionFailed err, check := none }
      | .ok (w, payload) =>
        let sev := toLowerCase (stringOrEmpty severity)
        if (sev = "high" ∨ sev = "critical") ∧ stringOrEmpty entityType = "host" then
          let vehicleId := "V_" ++ replaceDots (stringOrEmpty entityId)
          { world := w,
            response := .ok payload
              { scheduled := true, vehicleId := some vehicleId, status := "pending",
                reason := none },
            check := some vehicleId }
        else
          { world := w,
            response := .ok payload
              { scheduled := false, vehicleId := none, status := "none", reason := none },
            check := none }

/-- What the scheduled check did: the transactions it submitted, and the
failure it caught and logged, if any. -/
structure CheckResult where
  world : World
  submitted : List Op
  caught : Option Err
  deriving Repr, DecidableEq

/-- The function handed to `setImmediate`: evaluate `ReadVehicle`, then
submit `UpdateVehicleStatus` with `quarantine`; a failure of either is caught
and logged. -/
def mitigationCheck (ctx : Ctx) (w : World) (vehicleId : String) : CheckResult :=
  match ReadVehicle w vehicleId with
  | .error err => { world := w, submitted := [], caught := some err }
  | .ok _ =>
    match UpdateVehicleStatus ctx w vehicleId "quarantine" with
    | .error err =>
      { world := w, submitted := [.updateVehicleStatus vehicleId "quarantine"],
        caught := some err }
    | .ok (w, _) =>
      { world := w, submitted := [.updateVehicleStatus vehicleId "quarantine"], caught := none }

/-! ## Vehicle movement and spawning (`simulation-engine.js`)

`Math.random()` is a parameter of every function that calls it: a rational
`rand`, which JavaScript takes from the interval from 0 (included) to 1
(excluded).  A JavaScript number that need not be an integer is a rational,
and `none` is `NaN`; the arithmetic is exact. -/

/-- The method `getNextIntersection(road, currentIntersection)`. -/
def getNextIntersection (road : Obj) (currentIntersection : Option JVal) : Option JVal :=
  if strictEq (getProp road "startIntersection") currentIntersection then
    getProp road "endIntersection"
  else if strictEq (getProp road "endIntersection") currentIntersection then
    getProp road "startIntersection"
  else
    getProp road "endIntersection"

/-- The method `calculateSpeed(vehicle, road)`.  `road.maxSpeed` is taken to
be a number, `null` or absent, which is what the contract stores there; a
value of another kind is treated as absent.  `Math.min` and `Math.max`
convert `null` to 0 and give `NaN` when an argument is `undefined`. -/
def calculateSpeed (rand : ℚ) (vehicle road : Obj) : Option ℚ :=
  let maxSpeed := getProp road "maxSpeed"
  let baseSpeed : ℚ := match maxSpeed with
    | some (.num m) => if m = 0 then 50 else m
    | _ => 50
  let variation := (rand * 20) - 10
  if truthy (getProp vehicle "isEmergency") then
    some (min (baseSpeed + 30 + variation) 120)
  else
    match maxSpeed with
    | some (.num m) => some (max (min (baseSpeed + variation) m) 20)
    | some .null => some (max (min (baseSpeed + variation) 0) 20)
    | _ => none

/-- The field `vehicleTypeDistribution` set by the constructor, as
`Object.entries` lists it. -/
def vehicleTypeDistribution : List (String × ℚ) :=
  [("car", 7 / 10), ("truck", 15 / 100), ("bus", 1 / 10), ("emergency", 5 / 100)]

/-- The loop of `getRandomVehicleType` over the entries that are left, with
the value of `cumulative` so far; `none` when the loop ends without a
`return`. -/
def walkDistribution (rand : ℚ) : ℚ → List (String × ℚ) → Option String
  | _, [] => none
  | cumulative, (type, probability) :: rest =>
    if rand ≤ cumulative + probability then some type
    else walkDistribution rand (cumulative + probability) rest

/-- The method `getRandomVehicleType()`. -/
def getRandomVehicleType (rand : ℚ) : String :=
  match walkDistribution rand 0 vehicleTypeDistribution with
  | some type => type
  | none => "car"

/-- The index `Math.floor(Math.random() * n)` for a draw `rand` that is not
negative. -/
def pickIndex (rand : ℚ) (n : Nat) : Nat :=
  (Int.floor (rand * n)).toNat

/-- The two endpoint fields of a road. -/
inductive Endpoint where
  | start
  | finish
  deriving Repr, DecidableEq

/-- The property name of an endpoint field. -/
def Endpoint.key : Endpoint → String
  | .start => "startIntersection"
  | .finish => "endIntersection"

/-- The endpoint field whose value `getNextIntersection` returns. -/
def nextEndpoint (road : Obj) (currentIntersection : Option JVal) : Endpoint :=
  if strictEq (getProp road "startIntersection") currentIntersection then .finish
  else if strictEq (getProp road "endIntersection") currentIntersection then .start
  else .finish

/-- The call `this.roads.find(predicate)`, with the position of the road that
is found; positions are counted from `i`. -/
def findFrom (predicate : Obj → Bool) : Nat → List Obj → Option (Nat × Obj)
  | _, [] => none
  | i, r :: rest => if predicate r then some (i, r) else findFrom predicate (i + 1) rest

/-- The roads with their positions, counted from `i`. -/
def indexedFrom : Nat → List Obj → List (Nat × Obj)
  | _, [] => []
  | i, r :: rest => (i, r) :: indexedFrom (i + 1) rest

/-- The comparison `r.startIntersection === nextIntersection` (or the same
with `endIntersection`) for the road `r` at position `j`, where
`nextIntersection` is the value that was read from the field `origin.2` of the
road at position `origin.1`.  A value is identical to itself, also when it is
an array or an object; values read at two different places are compared by
`strictEq`. -/
def sameAsNext (origin : Nat × Endpoint) (nextIntersection : Option JVal) (j : Nat)
    (e : Endpoint) (r : Obj) : Bool :=
  decide ((j, e) = origin) || strictEq (getProp r e.key) nextIntersection

/-- The array `directions` of `moveVehicle` and of `spawnVehicle`. -/
def directions : List String := ["north", "south", "east", "west"]

/-- The three draws of `Math.random()` in `moveVehicle`, in the order in
which they are made. -/
structure MoveDraws where
  road : ℚ
  speed : ℚ
  direction : ℚ

/-- The request `PUT /vehicles/<vehicle.id>/position` with its body. -/
structure PositionPut where
  vehicleId : Option JVal
  newRoad : Option JVal
  newIntersection : Option JVal
  newSpeed : Option ℚ
  newDirection : Option String
  deriving DecidableEq

/-- The method `moveVehicle(vehicle)`: the simulation afterwards and the
request that was submitted, if one was.  `putOk` tells whether the
`axios.put` resolves.  A road index outside the list gives `undefined`, on
which `calculateSpeed` throws; the `catch` block only logs. -/
def moveVehicle (draws : MoveDraws) (putOk : Bool) (sim : TrafficSimulation) (vehicle : Obj) :
    TrafficSimulation × Option PositionPut :=
  if strictEq (getProp vehicle "status") (some (.str "quarantine")) then (sim, none)
  else
    match findFrom (fun r => strictEq (getProp r "id") (getProp vehicle "currentRoad")) 0
        sim.roads with
    | none => (sim, none)
    | some (i, currentRoad) =>
      let nextIntersection :=
        getNextIntersection currentRoad (getProp vehicle "currentIntersection")
      if truthy nextIntersection = false then (sim, none)
      else
        let origin := (i, nextEndpoint currentRoad (getProp vehicle "currentIntersection"))
        let connectedRoads := (indexedFrom 0 sim.roads).filter (fun jr =>
          sameAsNext origin nextIntersection jr.1 .start jr.2
            || sameAsNext origin nextIntersection jr.1 .finish jr.2)
        if connectedRoads.length = 0 then (sim, none)
        else
          match connectedRoads.get? (pickIndex draws.road connectedRoads.length) with
          | none => (sim, none)
          | some (_, nextRoad) =>
            let newSpeed := calculateSpeed draws.speed vehicle nextRoad
            let newDirection := directions.get? (pickIndex draws.direction directions.length)
            let request : PositionPut :=
              { vehicleId := getProp vehicle "id", newRoad := getProp nextRoad "id",
                newIntersection := nextIntersection, newSpeed := newSpeed,
                newDirection := newDirection }
            if putOk then
              ({ sim with transactionCount := sim.transactionCount + 1 }, some request)
            else (sim, some request)

/-- The five draws of `Math.random()` in `spawnVehicle`, in the order in
which they are made. -/
structure SpawnDraws where
  type : ℚ
  road : ℚ
  intersection : ℚ
  speed : ℚ
  direction : ℚ

/-- The request `POST /vehicles` with its body. -/
structure VehiclePost where
  id : String
  type : String
  currentRoad : Option JVal
  currentIntersection : Option JVal
  speed : Option Int
  direction : Option String
  deriving DecidableEq

/-- The method `spawnVehicle()`: the simulation afterwards and the request
that was submitted, if one was.  `postOk` tells whether the `axios.post`
resolves.  With no road at the index that is drawn, reading
`road.startIntersection` throws and the `catch` block only logs. -/
def spawnVehicle (draws : SpawnDraws) (postOk : Bool) (sim : TrafficSimulation) :
    TrafficSimulation × Option VehiclePost :=
  let type := getRandomVehicleType draws.type
  match sim.roads.get? (pickIndex draws.road sim.roads.length) with
  | none => (sim, none)
  | some road =>
    let intersection :=
      if draws.intersection > 1 / 2 then getProp road "startIntersection"
      else getProp road "endIntersection"
    let speed : Option Int :=
      (numSub (toNumber (getProp road "maxSpeed")) (some 20)).map
        (fun range => Int.floor (draws.speed * range) + 20)
    let direction := directions.get? (pickIndex draws.direction directions.length)
    let vehicleId := "SIM" ++ intToString sim.vehicleCounter
    let sim := { sim with vehicleCounter := sim.vehicleCounter + 1 }
    let request : VehiclePost :=
      { id := vehicleId, type := type, currentRoad := getProp road "id",
        currentIntersection := intersection, speed := speed, direction := direction }
    if postOk then ({ sim with transactionCount := sim.transactionCount + 1 }, some request)
    else (sim, some request)

/-- The loop `for (const vehicle of batch)` of the mobility tick, from
position `i` of the batch: the simulation afterwards and what each call of
`moveVehicle` submitted.  `draws j` and `putOk j` belong to the vehicle at
position `j`. -/
def moveBatch (draws : Nat → MoveDraws) (putOk : Nat → Bool) :
    Nat → List Obj → TrafficSimulation → TrafficSimulation × List (Option PositionPut)
  | _, [], sim => (sim, [])
  | i, vehicle :: rest, sim =>
    let moved := moveVehicle (draws i) (putOk i) sim vehicle
    let later := moveBatch draws putOk (i + 1) rest moved.1
    (later.1, moved.2 :: later.2)

/-- What a mobility tick did: the batch it moved and the requests it
submitted; `failed` when the reload threw. -/
structure MobilityRun where
  batch : List Obj
  submitted : List (Option PositionPut)
  failed : Bool

/-- The `try` body of the mobility tick.  `response` is the body of
`GET /vehicles` (`none` when the request fails).  `Array.prototype.sort` is
called with a comparator that answers at random and sorts `this.vehicles` in
place; `shuffle` is the order it leaves. -/
def mobilityTick (response : Option (List Obj)) (shuffle : List Obj → List Obj)
    (draws : Nat → MoveDraws) (putOk : Nat → Bool) (sim : TrafficSimulation) :
    TrafficSimulation × MobilityRun :=
  match response with
  | none => (sim, { batch := [], submitted := [], failed := true })
  | some data =>
    let sim := { sim with vehicles := shuffle (activeVehicles data) }
    let batch := sim.vehicles.take 10
    let moved := moveBatch draws putOk 0 batch sim
    (moved.1, { batch := batch, submitted := moved.2, failed := false })

/-! ## The position route (`server.js`) -/

/-- The expression `String(newSpeed)` of the route
`PUT /api/vehicles/:id/position` on the speed of a request of `moveVehicle`.
`numberToString` is the built-in conversion of a number to a string; `NaN`
is `null` in the JSON body, which `String` turns into `null`. -/
def speedArg (numberToString : ℚ → String) : Option ℚ → String
  | some newSpeed => numberToString newSpeed
  | none => "null"

/-- The route `PUT /api/vehicles/:id/position` on the body of a request of
`moveVehicle`: the transaction `UpdateVehiclePosition` that `submitWithTx`
submits, with the arguments converted as `submitWithTx` converts them. `id`
is `req.params.id`. -/
def putVehiclePosition (numberToString : ℚ → String) (ctx : Ctx) (w : World) (id : String)
    (body : PositionPut) : Outcome :=
  UpdateVehiclePosition ctx w id (submitArg body.newRoad) (submitArg body.newIntersection)
    (speedArg numberToString body.newSpeed) (submitArg (body.newDirection.map JVal.str))

/-! ## Definitions used by the statements

The counts and predicates that the statements speak of, worded after the
specification, the closed forms that the proofs compare the contract with,
and the data of the scenarios. -/

/-- The number of vehicles of the reloaded list whose status is `active` and
whose `currentRoad` is the id of the road: the count the claims speak of. -/
def activeOnRoad (data : List Obj) (road : Obj) : Nat :=
  data.countP (fun v => strictEq (getProp v "status") (some (.str "active"))
    && strictEq (getProp v "currentRoad") (getProp road "id"))

/-- The band of a count as the specification words it: low up to 2, medium
for 3 and 4, high from 5. -/
def bandOfCount (n : Nat) : String :=
  if n ≤ 2 then "low" else if n ≤ 4 then "medium" else "high"

/-- Whether the cached `congestionLevel` of a road is the band of its count
(then `updateCongestion` has nothing to write for it). -/
def settled (vehicles : List Obj) (road : Obj) : Bool :=
  strictEq (getProp road "congestionLevel")
    (some (.str (congestionLevelOf (vehiclesOnRoad vehicles road))))

/-- The congestion write that a road calls for: none when its cached level is
the band of its count, else the request carrying that band. -/
def pendingWrite (vehicles : List Obj) (road : Obj) : Option CongestionPut :=
  if settled vehicles road then none
  else some { roadId := getProp road "id",
              level := congestionLevelOf (vehiclesOnRoad vehicles road) }

/-- The road R1 of the scenarios: maxSpeed 60, cached level low. -/
def roadR1 : Obj :=
  [("id", .str "R1"), ("assetType", .str "road"), ("name", .str "Mohammed V Avenue"),
   ("startIntersection", .str "I1"), ("endIntersection", .str "I2"), ("maxSpeed", .num 60),
   ("status", .str "open"), ("congestionLevel", .str "low")]

/-- An active vehicle on a road. -/
def vehicleOn (id road : String) : Obj :=
  [("id", .str id), ("assetType", .str "vehicle"), ("type", .str "car"),
   ("currentRoad", .str road), ("currentIntersection", .str "I1"), ("speed", .num 40),
   ("direction", .str "north"), ("isEmergency", .bool false), ("status", .str "active")]

/-- Five active vehicles on R1. -/
def fiveOnR1 : List Obj :=
  [vehicleOn "V1" "R1", vehicleOn "V2" "R1", vehicleOn "V3" "R1", vehicleOn "V4" "R1",
   vehicleOn "V5" "R1"]

/-- A simulation whose road list is R1 alone. -/
def simR1 : TrafficSimulation :=
  { TrafficSimulation.new with roads := [roadR1] }

/-- The intersection I1 of the scenarios, its light red. -/
def intersectionI1 : Obj :=
  [("id", .str "I1"), ("assetType", .str "intersection"), ("name", .str "Central Plaza"),
   ("trafficLightState", .str "red"), ("trafficDensity", .str "low")]

/-- The field of a parsed value, `undefined` when the value is not an object
or has no such field. -/
def fieldOf (v : JVal) (k : String) : Option JVal :=
  match v with
  | .obj fields => getProp fields k
  | _ => none

/-- The key under which a speeding update of a vehicle is recorded. -/
def violationKey (ctx : Ctx) (vehicleId : String) : String :=
  "VIO_" ++ vehicleId ++ "_" ++ stripColonsDots (_getTxTimestamp ctx)

/-- The violation record of a speeding update, given the road's `maxSpeed`
and `name` as read from the road record. -/
def violationRecord (ctx : Ctx) (vehicleId roadId : String) (maxSpeed : Option JVal)
    (vehicleSpeed : Option Int) (name : Option JVal) : Obj :=
  mkObj [
    ("id", some (.str (violationKey ctx vehicleId))),
    ("assetType", some (.str "violation")),
    ("vehicleId", some (.str vehicleId)),
    ("roadId", some (.str roadId)),
    ("speedLimit", maxSpeed),
    ("actualSpeed", some (numToJson vehicleSpeed)),
    ("excessSpeed", some (numToJson (numSub vehicleSpeed (toNumber maxSpeed)))),
    ("timestamp", some (.str (_getTxTimestamp ctx))),
    ("location", name)]

/-- The vehicle object after the five assignments of
`UpdateVehiclePosition`. -/
def movedVehicle (ctx : Ctx) (vehicle : Obj)
    (newRoad newIntersection newSpeed newDirection : String) : Obj :=
  setProp (setProp (setProp (setProp (setProp vehicle
    "currentRoad" (.str newRoad))
    "currentIntersection" (.str newIntersection))
    "speed" (numToJson (parseInt newSpeed none)))
    "direction" (.str newDirection))
    "timestamp" (.str (_getTxTimestamp ctx))

/-- Whether a position update onto a road is speeding: the parsed speed
exceeds the number the road's `maxSpeed` converts to. -/
def speeding (w : World) (newRoad newSpeed : String) : Bool :=
  match getState w newRoad with
  | some (.json road) => numGt (parseInt newSpeed none) (toNumber (fieldOf road "maxSpeed"))
  | _ => false

/-- What one entry of the range scan contributes to
`_getAssetsByType(ctx, assetType)`. -/
def assetOfType (assetType : String) (e : String × Buffer) : Option JVal :=
  match jsonParse (some e.2) with
  | .ok record =>
    match readProp record "assetType" with
    | .ok t => if strictEq t (some (.str assetType)) then some record else none
    | .error _ => none
  | .error _ => none

/-- A committed world state for the scenarios: vehicle V1 and a road R2 with
maxSpeed 50. -/
def worldV1R2 : World :=
  [("V1", .json (.obj (vehicleOn "V1" "R1"))),
   ("R2", .json (.obj [("id", .str "R2"), ("assetType", .str "road"),
      ("name", .str "Hassan II Boulevard"), ("maxSpeed", .num 50)]))]

/-- A transaction context for the scenarios (2023-11-14T22:13:21.005Z). -/
def ctxA : Ctx := { seconds := 1700000001, nanos := 5000000 }

/-- The decimal numeral a speed is submitted as (an optional minus sign,
digits, and an optional fraction), as a pair of a mantissa and a scale: the
numeral spells mantissa / 10 ^ scale. -/
def decimalOf (s : String) : Option (Int × Nat) :=
  let cs := s.data
  let negative : Bool := match cs with
    | c :: _ => c.toNat = 45
    | [] => false
  let cs := if negative then cs.drop 1 else cs
  let whole := takeDigits 10 cs
  let mk (ds : List Nat) (scale : Nat) : Option (Int × Nat) :=
    let n : Int := (digitsToNat 10 ds : Nat)
    some (if negative then -n else n, scale)
  match cs.drop whole.length with
  | [] => if whole = [] then none else mk whole 0
  | c :: rest =>
    let frac := takeDigits 10 rest
    if c.toNat = 46 ∧ frac.length = rest.length ∧ (whole ≠ [] ∨ frac ≠ []) then
      mk (whole ++ frac) frac.length
    else none

/-- Whether the speed a numeral spells exceeds an integer limit. -/
def submittedExceeds (newSpeed : String) (limit : Int) : Bool :=
  match decimalOf newSpeed with
  | some (mantissa, scale) => decide (limit * 10 ^ scale < mantissa)
  | none => false

/-- Whether an integer is the speed a numeral spells. -/
def submittedIs (newSpeed : String) (n : Int) : Bool :=
  match decimalOf newSpeed with
  | some (mantissa, scale) => decide (n * 10 ^ scale = mantissa)
  | none => false

/-- The parsed payload of a feed item, if it has bytes and they parse. -/
def KeyModification.payload (e : KeyModification) : Option JVal :=
  match e.value with
  | some (.json v) => some v
  | _ => none

/-- The history entry `{txId, timestamp, data, isDelete}` of a feed item
that has a parsed payload. -/
def KeyModification.entry (e : KeyModification) : Option JVal :=
  e.payload.map (fun record => .obj [
    ("txId", .str e.txId),
    ("timestamp", e.timestamp),
    ("data", record),
    ("isDelete", .bool e.isDelete)])

/-- A field of the payload of a feed item; `none` when the item has no
parsed payload or the payload has no such field. -/
def KeyModification.field (e : KeyModification) (k : String) : Option JVal :=
  match e.payload with
  | some v => fieldOf v k
  | none => none

/-- Whether a feed item is left out of the movement path: it is a delete
entry, or its payload has no road (no parsed payload, no `currentRoad`, or an
empty one). -/
def KeyModification.leftOut (e : KeyModification) : Bool :=
  e.isDelete || !truthy (e.field "currentRoad")

/-- The path element `{timestamp, road, intersection, speed, direction}`
taken from a feed item. -/
def KeyModification.pathPoint (e : KeyModification) : JVal :=
  .obj (mkObj [
    ("timestamp", some e.timestamp),
    ("road", e.field "currentRoad"),
    ("intersection", e.field "currentIntersection"),
    ("speed", e.field "speed"),
    ("direction", e.field "direction")])

/-- A write of a vehicle record, as a feed item. -/
def writeItem (txId : String) (seconds : Int) (record : Obj) : KeyModification :=
  { txId := txId, timestamp := .obj [("seconds", .num seconds), ("nanos", .num 0)],
    value := some (.json (.obj record)), isDelete := false }

/-- A delete of the key, as a feed item: no value bytes, the delete flag
set. -/
def deleteItem (txId : String) (seconds : Int) : KeyModification :=
  { txId := txId, timestamp := .obj [("seconds", .num seconds), ("nanos", .num 0)],
    value := some .empty, isDelete := true }

/-- A feed for the scenarios: V1 created on R1, moved to R2, then deleted. -/
def feedV1 : List KeyModification :=
  [writeItem "tx1" 1700000000 (vehicleOn "V1" "R1"),
   writeItem "tx2" 1700000001 (vehicleOn "V1" "R2"),
   deleteItem "tx3" 1700000002]

/-- Whether the value of a feed item has bytes that fail to parse. -/
def failsToParse : Option Buffer → Bool
  | some (.garbage _) => true
  | _ => false

/-- Whether an error is one the contract throws itself with
`throw new Error(...)`, as the not-found and already-exists failures are. -/
def Err.isContractError : Err → Bool
  | .error _ => true
  | _ => false

/-- A computation that does not fail with an error thrown by the contract
itself. -/
def NoContractError {α : Type} (x : Except Err α) : Prop :=
  ∀ e, x = .error e → e.isContractError = false

/-- The interval field in which the simulation keeps the handle of a task. -/
def TrafficSimulation.handleOf (s : TrafficSimulation) : Task → Option Nat
  | .vehicleMove => s.vehicleMoveInterval
  | .trafficLight => s.trafficLightInterval
  | .vehicleSpawn => s.vehicleSpawnInterval
  | .congestionUpdate => s.congestionUpdateInterval

/-- Whether the handle of a timer is kept in one of the four interval
fields. -/
def Engine.holds (e : Engine) (t : Timer) : Bool :=
  decide (e.sim.vehicleMoveInterval = some t.handle)
    || decide (e.sim.trafficLightInterval = some t.handle)
    || decide (e.sim.vehicleSpawnInterval = some t.handle)
    || decide (e.sim.congestionUpdateInterval = some t.handle)

/-- The bookkeeping that the lifecycle calls keep when they run one at a
time: handles are fresh and distinct, every live timer is a timer of a
running simulation whose handle is kept in the field of its task, and
different fields keep different handles. -/
def Engine.Tidy (e : Engine) : Prop :=
  (∀ t ∈ e.timers, t.handle < e.nextHandle)
    ∧ (e.timers.map Timer.handle).Nodup
    ∧ (∀ t ∈ e.timers, e.sim.isRunning = true ∧ e.sim.handleOf t.task = some t.handle)
    ∧ (∀ task h, e.sim.handleOf task = some h → h < e.nextHandle)
    ∧ (∀ a b h, e.sim.handleOf a = some h → e.sim.handleOf b = some h → a = b)

/-- A call of one of the lifecycle methods, with its argument; for `start`
and `reset` the argument is what `loadState` receives. -/
inductive Call where
  | start (loaded : Option Snapshot)
  | pause
  | resume
  | reset (loaded : Option Snapshot)
  | setSpeed (multiplier : ℚ)
  | setSpawnRate (rate : Int)
  deriving Repr, DecidableEq

/-- The effect of a lifecycle call that runs without interruption. -/
def Engine.apply (e : Engine) : Call → Engine
  | .start loaded => start loaded e
  | .pause => pause e
  | .resume => resume e
  | .reset loaded => reset loaded e
  | .setSpeed m => setSpeed m e
  | .setSpawnRate r => setSpawnRate r e

/-- The state of a freshly constructed simulation after a sequence of
lifecycle calls, each run without interruption. -/
def Engine.after (calls : List Call) : Engine :=
  calls.foldl Engine.apply Engine.new

/-- The state reached from construction when `pause()` runs while `start()`
awaits `loadState`, and `resume()` is called after `start()` has finished. -/
def resumedAfterPausedStart : Option Engine :=
  (startBegin Engine.new).map (fun e1 => resume (startFinish none (pause e1)))

/-- The timers that launching the periodic tasks adds, for a speed, a spawn
rate and the next free handle: mobility, light cycler, spawner (unless the
rate is 0) and congestion, in this order. -/
def launched (speed : ℚ) (spawnRate : Int) (n : Nat) : List Timer :=
  [{ handle := n, task := .vehicleMove, interval := floorQuot 3000 speed },
   { handle := n + 1, task := .trafficLight, interval := floorQuot 15000 speed }]
  ++ (if spawnRate = 0 then
        [{ handle := n + 2, task := .congestionUpdate, interval := floorQuot 10000 speed }]
      else
        [{ handle := n + 2, task := .vehicleSpawn,
           interval := floorQuot 60000 ((spawnRate : ℚ) * speed) },
         { handle := n + 3, task := .congestionUpdate, interval := floorQuot 10000 speed }])

/-- A connect failure whose message is classified as transient. -/
def connectDown : Thrown := .error "Error" "Failed to connect before the deadline"

/-- A failure of `fn` whose message is classified as transient. -/
def peerUnavailable : Thrown := .error "Error" "14 UNAVAILABLE: no connection established"

/-- A run in which nothing is cached and every call of `connectToNetwork`
fails. -/
def runNetworkDown : Run Nat :=
  withFabricConn (fun _ => .error connectDown) (fun _ _ => .ok 7) ConnState.init

/-- A run in which connection 0 is cached, `fn` fails on it and the reconnect
fails. -/
def runReconnectFails : Run Nat :=
  withFabricConn (fun _ => .error connectDown) (fun _ _ => .error peerUnavailable)
    { ConnState.init with fabricConn := some ⟨0⟩ }

/-- The field of a stored or returned record, `undefined` when the bytes are
not the JSON text of an object or the object has no such field. -/
def Buffer.field (b : Buffer) (k : String) : Option JVal :=
  match b with
  | .json v => fieldOf v k
  | _ => none

/-- A request body for alert `A1` about host `10.0.0.5`. -/
def alertBody (severity entityType : JVal) : Obj :=
  [("id", .str "A1"), ("entityId", .str "10.0.0.5"), ("severity", severity),
   ("entityType", entityType)]

/-- The request of `alertBody` answered on an empty store. -/
def alertOnEmpty (severity entityType : JVal) : AlertResult :=
  postSecurityAlert (fun _ => .num 0) ctxA (.ok ⟨0⟩) [] (alertBody severity entityType)

/-- The payload and the mitigation of a response with status 200. -/
def Response.parts : Response → Option (Buffer × Mitigation)
  | .ok payload mitigation => some (payload, mitigation)
  | _ => none

/-- Whether a call deletes the record under its id. -/
def Op.removes : Op → Bool
  | .deleteVehicle .. | .deleteRoad .. | .deleteIntersection .. => true
  | _ => false

/-- The assignments an update makes to the record under its id, in order;
empty for the creates, reads and deletes. -/
def Op.writes (parseFloat : String → JVal) (ctx : Ctx) : Op → List (String × JVal)
  | .updateVehiclePosition _ newRoad newIntersection newSpeed newDirection =>
    [("currentRoad", .str newRoad), ("currentIntersection", .str newIntersection),
     ("speed", numToJson (parseInt newSpeed none)), ("direction", .str newDirection),
     ("timestamp", .str (_getTxTimestamp ctx))]
  | .updateVehicleStatus _ newStatus =>
    [("status", .str newStatus), ("timestamp", .str (_getTxTimestamp ctx))]
  | .updateRoadStatus _ newStatus =>
    [("status", .str newStatus), ("timestamp", .str (_getTxTimestamp ctx))]
  | .updateRoadProperties _ lanes maxSpeed length =>
    [("lanes", numToJson (parseInt lanes none)), ("maxSpeed", numToJson (parseInt maxSpeed none)),
     ("length", numToJson (parseInt length none)), ("timestamp", .str (_getTxTimestamp ctx))]
  | .updateRoadCongestion _ congestionLevel =>
    [("congestionLevel", .str congestionLevel), ("timestamp", .str (_getTxTimestamp ctx))]
  | .updateTrafficLight _ newState =>
    [("trafficLightState", .str newState), ("timestamp", .str (_getTxTimestamp ctx))]
  | .updateIntersectionLocation _ latitude longitude =>
    [("latitude", parseFloat latitude), ("longitude", parseFloat longitude),
     ("timestamp", .str (_getTxTimestamp ctx))]
  | .updateIntersectionDensity _ density =>
    [("trafficDensity", .str density), ("timestamp", .str (_getTxTimestamp ctx))]
  | .resolveIncident _ =>
    [("status", .str "resolved"), ("resolvedAt", .str (_getTxTimestamp ctx)),
     ("timestamp", .str (_getTxTimestamp ctx))]
  | .resolveSecurityAlert _ =>
    [("status", .str "resolved"), ("resolvedAt", .str (_getTxTimestamp ctx)),
     ("timestamp", .str (_getTxTimestamp ctx))]
  | _ => []

/-- A list of property assignments made one after the other to a parsed
value. -/
def writeAll : JVal → List (String × JVal) → Except Err JVal
  | v, [] => .ok v
  | v, (k, x) :: rest => (writeProp v k x).bind (fun v => writeAll v rest)

/-- A list of property assignments made one after the other to an object. -/
def assignAll (fields : Obj) (writes : List (String × JVal)) : Obj :=
  writes.foldl (fun o kv => setProp o kv.1 kv.2) fields

/-- The keys a call can write or delete: its id and, for a position update,
the violation key. -/
def Op.keys (ctx : Ctx) : Op → List String
  | .updateVehiclePosition id _ _ _ _ => [id, violationKey ctx id]
  | op => [op.target]

/-- The keys a transaction can write or delete. -/
def Tx.keys (parseFloat : String → JVal) (ctx : Ctx) : Tx → List String
  | .keyed op => op.keys ctx
  | .initLedger => (initAssets parseFloat (_getTxTimestamp ctx)).map Prod.fst

/-- The store after a transaction is submitted. -/
def Tx.submit (parseFloat : String → JVal) (ctx : Ctx) (w : World) (tx : Tx) : World :=
  commit w (tx.exec parseFloat ctx w)

/-- The transactions that can take the status `resolved` from the record
under key `k`: a status update of `k` to another status, a delete of `k`, and
the two transactions that can put a whole new record under `k` (the violation
of a position update, the assets of `InitLedger`). -/
def Tx.mayUnresolve (parseFloat : String → JVal) (ctx : Ctx) (k : String) : Tx → Bool
  | .keyed (.updateVehicleStatus id newStatus) => decide (id = k ∧ newStatus ≠ "resolved")
  | .keyed (.updateRoadStatus id newStatus) => decide (id = k ∧ newStatus ≠ "resolved")
  | .keyed (.deleteVehicle id) => decide (id = k)
  | .keyed (.deleteRoad id) => decide (id = k)
  | .keyed (.deleteIntersection id) => decide (id = k)
  | .keyed (.updateVehiclePosition id _ _ _ _) => decide (violationKey ctx id = k)
  | .initLedger => decide (k ∈ Tx.keys parseFloat ctx .initLedger)
  | _ => false

/-- The transactions that can change the `trafficLightState` of the record
under key `k`: a light update of `k`, a delete of `k`, and the two
transactions that can put a whole new record under `k`. -/
def Tx.mayChangeLight (parseFloat : String → JVal) (ctx : Ctx) (k : String) : Tx → Bool
  | .keyed (.updateTrafficLight id _) => decide (id = k)
  | .keyed (.deleteVehicle id) => decide (id = k)
  | .keyed (.deleteRoad id) => decide (id = k)
  | .keyed (.deleteIntersection id) => decide (id = k)
  | .keyed (.updateVehiclePosition id _ _ _ _) => decide (violationKey ctx id = k)
  | .initLedger => decide (k ∈ Tx.keys parseFloat ctx .initLedger)
  | _ => false

/-- The store in which incident `INC1` was reported at time `ctxA` and then
resolved. -/
def resolvedIncidentLedger : World :=
  ledgerAfter (fun _ => .num 0)
    [(ctxA, .keyed (.reportIncident "INC1" "accident" "Central Plaza" "R001" "high" "collision")),
     (ctxA, .keyed (.resolveIncident "INC1"))]

/-- The store in which intersection `I1` was created, with a green light. -/
def greenLightLedger : World :=
  ledgerAfter (fun _ => .num 0)
    [(ctxA, .keyed (.createIntersection "I1" "Central Plaza" "33" "-7" (.json (.arr []))))]

/-- The `status` of the record under a key, `undefined` when there is
none. -/
def statusAt (w : World) (k : String) : Option JVal :=
  match getState w k with
  | some b => b.field "status"
  | none => none

/-- The `trafficLightState` of the record under a key, `undefined` when there
is none. -/
def lightAt (w : World) (k : String) : Option JVal :=
  match getState w k with
  | some b => b.field "trafficLightState"
  | none => none

/-- A list of property assignments made one after the other to a parsed
value, followed by the rest of the transaction. -/
def writeAllThen (v : JVal) (writes : List (String × JVal)) (rest : JVal → Outcome) : Outcome :=
  match writes with
  | [] => rest v
  | (k, x) :: more => (writeProp v k x).bind (fun v => writeAllThen v more rest)

/-- The common shape of the update transactions: the not-found failure, the
parse of the stored bytes, the assignments, and the write under the same
id. -/
def updateRecord (notFound : String) (w : World) (id : String)
    (writes : List (String × JVal)) : Outcome :=
  if hasBytes (getState w id) = false then
    .error (.error notFound)
  else
    (jsonParse (getState w id)).bind fun v =>
      writeAllThen v writes (fun v => .ok (putState w id (.json v), .json v))

/-- Whether a call is an update made of assignments and one write (every
update but the position update, and the two resolve operations). -/
def Op.isPlainUpdate : Op → Bool
  | .updateVehicleStatus .. | .updateRoadStatus .. | .updateRoadProperties ..
  | .updateRoadCongestion .. | .updateTrafficLight .. | .updateIntersectionLocation ..
  | .updateIntersectionDensity .. | .resolveIncident .. | .resolveSecurityAlert .. => true
  | _ => false

/-- The record of incident `INC1` in `resolvedIncidentLedger`. -/
def resolvedIncidentRecord : Obj :=
  match getState resolvedIncidentLedger "INC1" with
  | some (.json (.obj fields)) => fields
  | _ => []

/-- The store in which an incident was reported under the id `V001` and then
resolved. -/
def resolvedUnderAssetId : World :=
  ledgerAfter (fun _ => .num 0)
    [(ctxA, .keyed (.reportIncident "V001" "accident" "Central Plaza" "R001" "high" "collision")),
     (ctxA, .keyed (.resolveIncident "V001"))]

/-- The store with vehicle `V1`, road `R2` of maximum speed 50, and an
incident that was reported under the violation key of `V1` at time `ctxA`
and then resolved. -/
def resolvedUnderViolationKey : World :=
  ledgerAfter (fun _ => .num 0)
    [(ctxA, .keyed (.createVehicle "V1" "car" "R1" "I1" "40" "north")),
     (ctxA, .keyed (.createRoad "R2" "Hassan II Boulevard" "I1" "I3" "3" "50" "1200")),
     (ctxA, .keyed (.reportIncident (violationKey ctxA "V1") "accident" "Central Plaza" "R2"
        "high" "collision")),
     (ctxA, .keyed (.resolveIncident (violationKey ctxA "V1")))]

/-- The `assetType` of the record under a key, `undefined` when there is
none. -/
def assetTypeAt (w : World) (k : String) : Option JVal :=
  match getState w k with
  | some b => b.field "assetType"
  | none => none

/-- Whether a change of `trafficLightState` is a step of the cycle green,
yellow, red, green. -/
def alongCycle (before after : Option JVal) : Bool :=
  decide ((before, after) ∈
    [(some (JVal.str "green"), some (JVal.str "yellow")),
     (some (JVal.str "yellow"), some (JVal.str "red")),
     (some (JVal.str "red"), some (JVal.str "green"))])

/-- The record of intersection `I1` in `greenLightLedger`. -/
def greenLightRecord : Obj :=
  match getState greenLightLedger "I1" with
  | some (.json (.obj fields)) => fields
  | _ => []

/-- The store after `InitLedger` and one step of the light of `I001`, from
green to yellow. -/
def yellowAfterInit : World :=
  ledgerAfter (fun _ => .num 0)
    [(ctxA, .initLedger), (ctxA, .keyed (.updateTrafficLight "I001" "yellow"))]

/-- The store with vehicle `V1`, road `R2` of maximum speed 50, and an
intersection created under the violation key of `V1` at time `ctxA`. -/
def lightUnderViolationKey : World :=
  ledgerAfter (fun _ => .num 0)
    [(ctxA, .keyed (.createVehicle "V1" "car" "R1" "I1" "40" "north")),
     (ctxA, .keyed (.createRoad "R2" "Hassan II Boulevard" "I1" "I3" "3" "50" "1200")),
     (ctxA, .keyed (.createIntersection (violationKey ctxA "V1") "Central Plaza" "33" "-7"
        (.json (.arr []))))]

/-- A run in which connection 0 is cached, `fn` fails on it with a transient
error, and the reconnect gives connection 1, on which `fn` succeeds. -/
def runRetrySucceeds : Run Nat :=
  withFabricConn (fun k => .ok ⟨k + 1⟩)
    (fun k _ => if k = 0 then .error peerUnavailable else .ok 7)
    { ConnState.init with fabricConn := some ⟨0⟩ }

/-- Every value in the store is the JSON text of an object. -/
def AllObjects (w : World) : Prop :=
  ∀ k b, getState w k = some b → ∃ fields, b = .json (.obj fields)

/-- A cached road with the given `maxSpeed`. -/
def roadWithLimit (maxSpeed : Int) : Obj :=
  [("id", .str "R9"), ("assetType", .str "road"), ("startIntersection", .str "I1"),
   ("endIntersection", .str "I2"), ("maxSpeed", .num maxSpeed)]

/-- A vehicle that is, or is not, an emergency vehicle. -/
def vehicleOfKind (isEmergency : Bool) : Obj :=
  [("id", .str "V1"), ("assetType", .str "vehicle"), ("isEmergency", .bool isEmergency),
   ("status", .str "active")]

/-- The list `connectedRoads` of `moveVehicle`, with the positions of its
roads in `this.roads`. -/
def connectedTo (roads : List Obj) (origin : Nat × Endpoint) (nextIntersection : Option JVal) :
    List (Nat × Obj) :=
  (indexedFrom 0 roads).filter (fun jr =>
    sameAsNext origin nextIntersection jr.1 .start jr.2
      || sameAsNext origin nextIntersection jr.1 .finish jr.2)

/-- The predicate of the `find` in `moveVehicle`. -/
def isCurrentRoadOf (vehicle : Obj) (r : Obj) : Bool :=
  strictEq (getProp r "id") (getProp vehicle "currentRoad")

/-- A cached road between two intersections, with `maxSpeed` 60. -/
def roadBetween (id startIntersection endIntersection : String) : Obj :=
  [("id", .str id), ("assetType", .str "road"), ("startIntersection", .str startIntersection),
   ("endIntersection", .str endIntersection), ("maxSpeed", .num 60)]

/-- A simulation whose cache holds the roads R1 (I1 to I2) and R2 (I2 to
I3). -/
def simTwoRoads : TrafficSimulation :=
  { TrafficSimulation.new with roads := [roadBetween "R1" "I1" "I2", roadBetween "R2" "I2" "I3"] }

/-- The number of live interval timers of a task. -/
def Engine.liveCount (e : Engine) (task : Task) : Nat :=
  e.timers.countP (fun t => decide (t.task = task))

/-- While the simulation is running, the mobility, light-cycler and
congestion tasks each have a live timer, and the spawner has one exactly when
the spawn rate is not 0. -/
def Engine.Live (e : Engine) : Prop :=
  e.sim.isRunning = true →
    (∃ t ∈ e.timers, t.task = .vehicleMove)
      ∧ (∃ t ∈ e.timers, t.task = .trafficLight)
      ∧ (∃ t ∈ e.timers, t.task = .congestionUpdate)
      ∧ ((∃ t ∈ e.timers, t.task = .vehicleSpawn) ↔ e.sim.spawnRate ≠ 0)

/-- A second transaction context for the scenarios, in the same millisecond
as `ctxA` and 999999 nanoseconds later. -/
def ctxSameMs : Ctx := { seconds := 1700000001, nanos := 5999999 }

/-- A third transaction context for the scenarios, one millisecond after
`ctxA` (2023-11-14T22:13:21.006Z). -/
def ctxNextMs : Ctx := { seconds := 1700000001, nanos := 6000000 }

/-- Whether a string is a decimal numeral (digits with an optional fraction
and no exponent) whose integer part is the integer part of a number. -/
def spellsNumber (s : String) (q : ℚ) : Bool :=
  match decimalOf s with
  | some (mantissa, scale) => decide (mantissa / 10 ^ scale = Int.floor q)
  | none => false

/-- A ledger that holds vehicle V1 and the road R2 with the `maxSpeed` 60 of
the cached copy `roadBetween`. -/
def worldV1R2Limit60 : World :=
  [("V1", .json (.obj (vehicleOn "V1" "R1"))),
   ("R2", .json (.obj [("id", .str "R2"), ("assetType", .str "road"),
      ("name", .str "Hassan II Boulevard"), ("maxSpeed", .num 60)]))]

/-- The draws that send the vehicle of the scenario onto R2 with the jitter
-3.8. -/
def drawsToR2 : MoveDraws := { road := 1 / 2, speed := 31 / 100, direction := 0 }

/-- The request `moveVehicle` submits in the scenario: onto R2 at I2 with
the speed 56.2. -/
def requestToR2 : PositionPut :=
  { vehicleId := some (.str "V1"), newRoad := some (.str "R2"),
    newIntersection := some (.str "I2"), newSpeed := some (281 / 5),
    newDirection := some "north" }

/-! # Theorems -/

/-! ## Objects and strict equality -/

theorem getProp_setProp_same (o : Obj) (k : String) (v : JVal) :
    getProp (setProp o k v) k = some v := by
  induction o with
  | nil => simp [setProp, getProp]
  | cons kv rest ih =>
    obtain ⟨k', v'⟩ := kv
    by_cases h : k' = k
    · simp [setProp, getProp, h]
    · simp [setProp, getProp, h, ih]

theorem getProp_setProp_ne (o : Obj) (k k' : String) (v : JVal) (hne : k' ≠ k) :
    getProp (setProp o k v) k' = getProp o k' := by
  induction o with
  | nil => simp [setProp, getProp, Ne.symm hne]
  | cons kv rest ih =>
    obtain ⟨k₀, v₀⟩ := kv
    by_cases h : k₀ = k
    · subst h
      simp [setProp, getProp, Ne.symm hne]
    · by_cases h' : k₀ = k'
      · subst h'
        simp [setProp, getProp, h]
      · simp [setProp, getProp, h, h', ih]

theorem strictEq_str_iff (x : Option JVal) (s : String) :
    strictEq x (some (.str s)) = true ↔ x = some (.str s) := by
  rcases x with _ | v
  · simp [strictEq]
  · cases v <;> simp [strictEq]

theorem strictEq_str_self (s : String) : strictEq (some (.str s)) (some (.str s)) = true :=
  (strictEq_str_iff _ _).2 rfl

/-! ## Congestion updates -/

theorem vehiclesOnRoad_active (data : List Obj) (road : Obj) :
    vehiclesOnRoad (activeVehicles data) road = activeOnRoad data road := by
  unfold vehiclesOnRoad activeVehicles activeOnRoad
  rw [List.filter_filter, List.countP_eq_length_filter]
  congr 1
  apply List.filter_congr
  intro v _
  exact Bool.and_comm _ _

theorem congestionLevelOf_eq_band (n : Nat) : congestionLevelOf n = bandOfCount n := by
  unfold congestionLevelOf bandOfCount
  by_cases h0 : n = 0
  · simp [h0]
  · simp [h0]

theorem vehiclesOnRoad_setLevel (vehicles : List Obj) (road : Obj) (v : JVal) :
    vehiclesOnRoad vehicles (setProp road "congestionLevel" v) = vehiclesOnRoad vehicles road := by
  unfold vehiclesOnRoad
  rw [getProp_setProp_ne road "congestionLevel" "id" v (by decide)]

theorem congestionLoop_writes (putOk : Nat → Bool) (vehicles : List Obj) (roads : List Obj) :
    ∀ (i tc : Nat) (req : CongestionPut),
      req ∈ (congestionLoop putOk vehicles i roads tc).writes →
      ∃ road ∈ roads, req.roadId = getProp road "id"
        ∧ req.level = congestionLevelOf (vehiclesOnRoad vehicles road) := by
  induction roads with
  | nil => intro i tc req h; simp [congestionLoop] at h
  | cons road rest ih =>
    intro i tc req h
    simp only [congestionLoop] at h
    by_cases hd : strictEq (getProp road "congestionLevel")
        (some (.str (congestionLevelOf (vehiclesOnRoad vehicles road)))) = false
    · cases hp : putOk i
      · simp [congestionIteration, hd, hp] at h
        exact ⟨road, List.mem_cons_self _ _, by simp [h], by simp [h]⟩
      · simp [congestionIteration, hd, hp] at h
        rcases h with h | h
        · exact ⟨road, List.mem_cons_self _ _, by simp [h], by simp [h]⟩
        · obtain ⟨r, hr, h1, h2⟩ := ih _ _ req h
          exact ⟨r, List.mem_cons_of_mem _ hr, h1, h2⟩
    · simp [congestionIteration, hd] at h
      obtain ⟨r, hr, h1, h2⟩ := ih _ _ req h
      exact ⟨r, List.mem_cons_of_mem _ hr, h1, h2⟩

/-- C1: in `updateCongestion` the band computed for a road is a function of
the number n of vehicles of the reloaded list whose status is `active` and
whose `currentRoad` equals the road's id; it is low for n ≤ 2, medium for n
of 3 or 4 and high for n ≥ 5, and every congestion write of a run carries the
band of the count of the road it is issued for. -/
theorem C1_band_of_active_count (data : List Obj) (road : Obj) (putOk : Nat → Bool)
    (sim : TrafficSimulation) :
    congestionLevelOf (vehiclesOnRoad (activeVehicles data) road)
        = bandOfCount (activeOnRoad data road)
      ∧ (activeOnRoad data road ≤ 2 → bandOfCount (activeOnRoad data road) = "low")
      ∧ (activeOnRoad data road = 3 ∨ activeOnRoad data road = 4 →
          bandOfCount (activeOnRoad data road) = "medium")
      ∧ (5 ≤ activeOnRoad data road → bandOfCount (activeOnRoad data road) = "high")
      ∧ (∀ (b : Bool) (tc : Nat) (req : CongestionPut),
          (congestionIteration b (activeVehicles data) road tc).issued = some req →
          req.level = bandOfCount (activeOnRoad data road))
      ∧ (∀ req ∈ (updateCongestion (some data) putOk sim).2.writes,
          ∃ r ∈ sim.roads, req.roadId = getProp r "id"
            ∧ req.level = bandOfCount (activeOnRoad data r)) := by
  refine ⟨?_, ?_, ?_, ?_, ?_, ?_⟩
  · rw [vehiclesOnRoad_active, congestionLevelOf_eq_band]
  · intro h; simp [bandOfCount, h]
  · intro h
    rcases h with h | h <;> simp [bandOfCount, h]
  · intro h
    have h2 : ¬ activeOnRoad data road ≤ 2 := by omega
    have h4 : ¬ activeOnRoad data road ≤ 4 := by omega
    simp [bandOfCount, h2, h4]
  · intro b tc req h
    rw [← congestionLevelOf_eq_band, ← vehiclesOnRoad_active]
    unfold congestionIteration at h
    by_cases hd : strictEq (getProp road "congestionLevel")
        (some (.str (congestionLevelOf (vehiclesOnRoad (activeVehicles data) road)))) = false
    · cases b <;> simp [hd] at h <;> simp [← h]
    · simp [hd] at h
  · intro req h
    simp only [updateCongestion] at h
    obtain ⟨r, hr, h1, h2⟩ := congestionLoop_writes putOk _ _ _ _ req h
    exact ⟨r, hr, h1, by rw [h2, vehiclesOnRoad_active, congestionLevelOf_eq_band]⟩

theorem congestionIteration_settled (b : Bool) (vehicles : List Obj) (road : Obj) (tc : Nat)
    (h : settled vehicles road = true) :
    congestionIteration b vehicles road tc
      = { road := road, transactionCount := tc, issued := none, threw := false } := by
  unfold settled at h
  simp [congestionIteration, h]

theorem congestionIteration_pending (b : Bool) (vehicles : List Obj) (road : Obj) (tc : Nat)
    (h : settled vehicles road = false) :
    congestionIteration b vehicles road tc
      = if b then
          { road := setProp road "congestionLevel"
              (.str (congestionLevelOf (vehiclesOnRoad vehicles road))),
            transactionCount := tc + 1,
            issued := some { roadId := getProp road "id",
                             level := congestionLevelOf (vehiclesOnRoad vehicles road) },
            threw := false }
        else
          { road := road, transactionCount := tc,
            issued := some { roadId := getProp road "id",
                             level := congestionLevelOf (vehiclesOnRoad vehicles road) },
            threw := true } := by
  unfold settled at h
  cases b <;> simp [congestionIteration, h]

theorem settled_after_write (vehicles : List Obj) (road : Obj) :
    settled vehicles (setProp road "congestionLevel"
      (.str (congestionLevelOf (vehiclesOnRoad vehicles road)))) = true := by
  unfold settled
  rw [vehiclesOnRoad_setLevel, getProp_setProp_same]
  exact strictEq_str_self _

theorem congestionLoop_of_settled (putOk : Nat → Bool) (vehicles : List Obj)
    (roads : List Obj) (h : ∀ r ∈ roads, settled vehicles r = true) :
    ∀ (i tc : Nat), congestionLoop putOk vehicles i roads tc
      = { roads := roads, transactionCount := tc, writes := [], failed := false } := by
  induction roads with
  | nil => intro i tc; simp [congestionLoop]
  | cons road rest ih =>
    intro i tc
    have hr := h road (List.mem_cons_self _ _)
    have hrest := ih (fun r hr' => h r (List.mem_cons_of_mem _ hr'))
    simp [congestionLoop, congestionIteration_settled _ _ _ _ hr, hrest]

theorem congestionLoop_of_ok (putOk : Nat → Bool) (vehicles : List Obj) (roads : List Obj) :
    ∀ (i tc : Nat), (congestionLoop putOk vehicles i roads tc).failed = false →
      (congestionLoop putOk vehicles i roads tc).writes = roads.filterMap (pendingWrite vehicles)
      ∧ (∀ r ∈ (congestionLoop putOk vehicles i roads tc).roads, settled vehicles r = true)
      ∧ (congestionLoop putOk vehicles i roads tc).transactionCount
          = tc + (roads.filterMap (pendingWrite vehicles)).length := by
  induction roads with
  | nil => intro i tc _; simp [congestionLoop]
  | cons road rest ih =>
    intro i tc hf
    cases hs : settled vehicles road
    · -- a write is due
      cases hp : putOk i
      · simp [congestionLoop, congestionIteration_pending _ _ _ _ hs, hp] at hf
      · simp only [congestionLoop, congestionIteration_pending _ _ _ _ hs, hp] at hf ⊢
        simp only [if_true] at hf ⊢
        obtain ⟨h1, h2, h3⟩ := ih (i + 1) (tc + 1) (by simpa using hf)
        refine ⟨?_, ?_, ?_⟩
        · simp [h1, pendingWrite, hs]
        · intro r hr
          simp at hr
          rcases hr with hr | hr
          · rw [hr]; exact settled_after_write _ _
          · exact h2 r hr
        · simp [h3, pendingWrite, hs]; omega
    · simp only [congestionLoop, congestionIteration_settled _ _ _ _ hs] at hf ⊢
      obtain ⟨h1, h2, h3⟩ := ih (i + 1) tc (by simpa using hf)
      refine ⟨?_, ?_, ?_⟩
      · simp [h1, pendingWrite, hs]
      · intro r hr
        simp at hr
        rcases hr with hr | hr
        · rw [hr]; exact hs
        · exact h2 r hr
      · simp [h3, pendingWrite, hs]

/-- C2: `updateCongestion` issues a congestion write for a road exactly when
the band computed for it differs from the cached `congestionLevel`; a write
that succeeded leaves the cached level equal to the band and counts one
transaction, a failed one changes nothing.  When no write of a run failed,
the run wrote exactly the roads whose level differed, every road is then
cached at its band, and a second run on the same vehicle list issues no write
and leaves the simulation, `transactionCount` included, as it was.  A road
with no vehicle and cached level low is never written. -/
theorem C2_write_only_on_change (data : List Obj) (putOk putOk2 : Nat → Bool)
    (sim : TrafficSimulation)
    (hok : (updateCongestion (some data) putOk sim).2.failed = false) :
    (∀ (b : Bool) (vehicles : List Obj) (road : Obj) (tc : Nat),
        ((congestionIteration b vehicles road tc).issued.isSome = true ↔
          getProp road "congestionLevel"
            ≠ some (.str (congestionLevelOf (vehiclesOnRoad vehicles road)))))
      ∧ (∀ (vehicles : List Obj) (road : Obj) (tc : Nat),
          (congestionIteration true vehicles road tc).issued.isSome = true →
          getProp (congestionIteration true vehicles road tc).road "congestionLevel"
              = some (.str (congestionLevelOf (vehiclesOnRoad vehicles road)))
            ∧ (congestionIteration true vehicles road tc).transactionCount = tc + 1)
      ∧ (∀ (vehicles : List Obj) (road : Obj) (tc : Nat),
          (congestionIteration false vehicles road tc).road = road
            ∧ (congestionIteration false vehicles road tc).transactionCount = tc)
      ∧ (updateCongestion (some data) putOk sim).2.writes
          = sim.roads.filterMap (pendingWrite (activeVehicles data))
      ∧ (∀ r ∈ (updateCongestion (some data) putOk sim).1.roads,
          getProp r "congestionLevel"
            = some (.str (congestionLevelOf (vehiclesOnRoad (activeVehicles data) r))))
      ∧ (updateCongestion (some data) putOk2 (updateCongestion (some data) putOk sim).1).2.writes
          = []
      ∧ (updateCongestion (some data) putOk2 (updateCongestion (some data) putOk sim).1).1
          = (updateCongestion (some data) putOk sim).1
      ∧ (∀ (b : Bool) (vehicles : List Obj) (road : Obj) (tc : Nat),
          vehiclesOnRoad vehicles road = 0 →
          getProp road "congestionLevel" = some (.str "low") →
          (congestionIteration b vehicles road tc).issued = none
            ∧ (congestionIteration b vehicles road tc).road = road) := by
  simp only [updateCongestion] at hok
  obtain ⟨h1, h2, _⟩ := congestionLoop_of_ok putOk (activeVehicles data) sim.roads 0
    sim.transactionCount hok
  have hsecond := congestionLoop_of_settled putOk2 (activeVehicles data) _ h2 0
    (congestionLoop putOk (activeVehicles data) 0 sim.roads sim.transactionCount).transactionCount
  refine ⟨?_, ?_, ?_, ?_, ?_, ?_, ?_, ?_⟩
  · intro b vehicles road tc
    rw [Ne, ← strictEq_str_iff]
    cases hs : settled vehicles road
    · rw [congestionIteration_pending _ _ _ _ hs]
      unfold settled at hs
      cases b <;> simp [hs]
    · rw [congestionIteration_settled _ _ _ _ hs]
      unfold settled at hs
      simp [hs]
  · intro vehicles road tc hi
    cases hs : settled vehicles road
    · rw [congestionIteration_pending _ _ _ _ hs]
      simp [getProp_setProp_same]
    · rw [congestionIteration_settled _ _ _ _ hs] at hi
      simp at hi
  · intro vehicles road tc
    cases hs : settled vehicles road
    · rw [congestionIteration_pending _ _ _ _ hs]; simp
    · rw [congestionIteration_settled _ _ _ _ hs]; simp
  · simpa [updateCongestion] using h1
  · intro r hr
    have := h2 r (by simpa [updateCongestion] using hr)
    unfold settled at this
    exact (strictEq_str_iff _ _).1 this
  · simp [updateCongestion, hsecond]
  · simp [updateCongestion, hsecond]
  · intro b vehicles road tc h0 hlow
    have hs : settled vehicles road = true := by
      unfold settled
      rw [h0, hlow]
      exact (strictEq_str_iff _ _).2 (by simp [congestionLevelOf])
    rw [congestionIteration_settled _ _ _ _ hs]
    simp

/-- C2, at the scenario of road R1 with five active vehicles and every write
succeeding: the first run does not fail, and the second run issues no
write. -/
theorem C2_write_only_on_change_witness :
    (updateCongestion (some fiveOnR1) (fun _ => true) simR1).2.failed = false
      ∧ (updateCongestion (some fiveOnR1) (fun _ => false)
          (updateCongestion (some fiveOnR1) (fun _ => true) simR1).1).2.writes = [] :=
  ⟨by decide,
   (C2_write_only_on_change fiveOnR1 (fun _ => true) (fun _ => false) simR1
      (by decide)).2.2.2.2.2.1⟩

/-! ## Traffic lights -/

theorem nextLightState_cases (cur : Option JVal) :
    (cur = some (.str "green") → nextLightState cur = "yellow")
      ∧ (cur = some (.str "yellow") → nextLightState cur = "red")
      ∧ (cur = some (.str "red") → nextLightState cur = "green")
      ∧ (cur ≠ some (.str "green") → cur ≠ some (.str "yellow") → cur ≠ some (.str "red") →
          nextLightState cur = "green") := by
  refine ⟨?_, ?_, ?_, ?_⟩
  · intro h; subst h; decide
  · intro h; subst h; decide
  · intro h; subst h; decide
  · intro hg hy hr
    have h1 : strictEq cur (some (.str "green")) = false := by
      rw [← Bool.not_eq_true, strictEq_str_iff]; exact hg
    have h2 : strictEq cur (some (.str "yellow")) = false := by
      rw [← Bool.not_eq_true, strictEq_str_iff]; exact hy
    simp [nextLightState, h1, h2]

/-- C3: `cycleTrafficLight` submits yellow when the cached state is green,
red when it is yellow, green when it is red, and green for every other value
(a missing one included).  When the write succeeds the cached
`trafficLightState` is the submitted state and `transactionCount` is one
more; when it fails the intersection and the counter are as before.  From
red, two successful calls give green and then yellow. -/
theorem C3_light_cycle (intersection : Obj) (tc : Nat) (putOk : Bool) :
    (getProp intersection "trafficLightState" = some (.str "green") →
        (cycleTrafficLight putOk intersection tc).submitted.state = "yellow")
      ∧ (getProp intersection "trafficLightState" = some (.str "yellow") →
        (cycleTrafficLight putOk intersection tc).submitted.state = "red")
      ∧ (getProp intersection "trafficLightState" = some (.str "red") →
        (cycleTrafficLight putOk intersection tc).submitted.state = "green")
      ∧ (getProp intersection "trafficLightState" ≠ some (.str "green") →
          getProp intersection "trafficLightState" ≠ some (.str "yellow") →
          getProp intersection "trafficLightState" ≠ some (.str "red") →
        (cycleTrafficLight putOk intersection tc).submitted.state = "green")
      ∧ (cycleTrafficLight putOk intersection tc).submitted.intersectionId
          = getProp intersection "id"
      ∧ getProp (cycleTrafficLight true intersection tc).intersection "trafficLightState"
          = some (.str (cycleTrafficLight true intersection tc).submitted.state)
      ∧ (cycleTrafficLight true intersection tc).transactionCount = tc + 1
      ∧ (cycleTrafficLight false intersection tc).intersection = intersection
      ∧ (cycleTrafficLight false intersection tc).transactionCount = tc
      ∧ (getProp intersection "trafficLightState" = some (.str "red") →
          getProp (cycleTrafficLight true intersection tc).intersection "trafficLightState"
              = some (.str "green")
            ∧ getProp (cycleTrafficLight true (cycleTrafficLight true intersection tc).intersection
                (cycleTrafficLight true intersection tc).transactionCount).intersection
                "trafficLightState" = some (.str "yellow")
            ∧ (cycleTrafficLight true (cycleTrafficLight true intersection tc).intersection
                (cycleTrafficLight true intersection tc).transactionCount).transactionCount
                = tc + 2) := by
  have hsub : ∀ (b : Bool) (i : Obj) (n : Nat), (cycleTrafficLight b i n).submitted.state
      = nextLightState (getProp i "trafficLightState") := by
    intro b i n; cases b <;> simp [cycleTrafficLight]
  have hok : ∀ (i : Obj) (n : Nat),
      getProp (cycleTrafficLight true i n).intersection "trafficLightState"
        = some (.str (nextLightState (getProp i "trafficLightState"))) := by
    intro i n; simp [cycleTrafficLight, getProp_setProp_same]
  obtain ⟨hg, hy, hr, hd⟩ := nextLightState_cases (getProp intersection "trafficLightState")
  refine ⟨?_, ?_, ?_, ?_, ?_, ?_, ?_, ?_, ?_, ?_⟩
  · intro h; rw [hsub, hg h]
  · intro h; rw [hsub, hy h]
  · intro h; rw [hsub, hr h]
  · intro h1 h2 h3; rw [hsub, hd h1 h2 h3]
  · cases putOk <;> simp [cycleTrafficLight]
  · rw [hok, hsub]
  · simp [cycleTrafficLight]
  · simp [cycleTrafficLight]
  · simp [cycleTrafficLight]
  · intro h
    have h1 : getProp (cycleTrafficLight true intersection tc).intersection "trafficLightState"
        = some (.str "green") := by rw [hok, hr h]
    refine ⟨h1, ?_, ?_⟩
    · rw [hok, h1]; decide
    · simp [cycleTrafficLight]

/-! ## The ledger -/

theorem getState_putState_same (w : World) (k : String) (v : Buffer) :
    getState (putState w k v) k = some v := by
  induction w with
  | nil => simp [putState, getState]
  | cons kv rest ih =>
    obtain ⟨k', v'⟩ := kv
    by_cases h : k' = k
    · simp [putState, getState, h]
    · simp [putState, getState, h, ih]

theorem getState_putState_ne (w : World) (k k' : String) (v : Buffer) (hne : k' ≠ k) :
    getState (putState w k v) k' = getState w k' := by
  induction w with
  | nil => simp [putState, getState, Ne.symm hne]
  | cons kv rest ih =>
    obtain ⟨k₀, v₀⟩ := kv
    by_cases h : k₀ = k
    · subst h
      simp [putState, getState, Ne.symm hne]
    · by_cases h' : k₀ = k'
      · subst h'
        simp [putState, getState, h]
      · simp [putState, getState, h, h', ih]

theorem putState_of_absent (w : World) (k : String) (v : Buffer) (h : getState w k = none) :
    putState w k v = w ++ [(k, v)] := by
  induction w with
  | nil => simp [putState]
  | cons kv rest ih =>
    obtain ⟨k', v'⟩ := kv
    by_cases hk : k' = k
    · simp [getState, hk] at h
    · simp [getState, hk] at h
      simp [putState, hk, ih h]

theorem filterMap_putState_same {α : Type} (f : String × Buffer → Option α) (w : World)
    (k : String) (old new : Buffer) (h : getState w k = some old)
    (hf : f (k, new) = f (k, old)) :
    (putState w k new).filterMap f = w.filterMap f := by
  induction w with
  | nil => simp [getState] at h
  | cons kv rest ih =>
    obtain ⟨k', v'⟩ := kv
    by_cases hk : k' = k
    · subst hk
      simp [getState] at h
      subst h
      simp [putState, List.filterMap_cons, hf]
    · simp [getState, hk] at h
      simp [putState, hk, List.filterMap_cons, ih h]

/-! ## Position updates and speed violations -/

theorem readProp_of_ne_null (v : JVal) (k : String) (h : v ≠ .null) :
    readProp v k = .ok (fieldOf v k) := by
  cases v <;> simp [readProp, fieldOf] at h ⊢

theorem checkSpeedViolation_absent (w : World) (vehicleId roadId : String)
    (vehicleSpeed : Option Int) (txTime : String) (h : hasBytes (getState w roadId) = false) :
    _checkSpeedViolation w vehicleId roadId vehicleSpeed txTime = .ok w := by
  simp [_checkSpeedViolation, h]

theorem checkSpeedViolation_json (ctx : Ctx) (w : World) (vehicleId roadId : String)
    (vehicleSpeed : Option Int) (road : JVal) (h : getState w roadId = some (.json road))
    (hn : road ≠ .null) :
    _checkSpeedViolation w vehicleId roadId vehicleSpeed (_getTxTimestamp ctx)
      = .ok (if numGt vehicleSpeed (toNumber (fieldOf road "maxSpeed")) then
          putState w (violationKey ctx vehicleId)
            (.json (.obj (violationRecord ctx vehicleId roadId (fieldOf road "maxSpeed")
              vehicleSpeed (fieldOf road "name"))))
        else w) := by
  have hrp : ∀ k, readProp road k = .ok (fieldOf road k) :=
    fun k => readProp_of_ne_null road k hn
  unfold _checkSpeedViolation
  by_cases hg : numGt vehicleSpeed (toNumber (fieldOf road "maxSpeed")) = true
  · simp [h, hasBytes, jsonParse, hrp, hg, violationRecord, violationKey, bind, Except.bind]
  · simp [h, hasBytes, jsonParse, hrp, hg, bind, Except.bind]

theorem updateVehiclePosition_eq (ctx : Ctx) (w : World)
    (id newRoad newIntersection newSpeed newDirection : String) (vehicle : Obj)
    (hv : getState w id = some (.json (.obj vehicle))) :
    UpdateVehiclePosition ctx w id newRoad newIntersection newSpeed newDirection
      = (_checkSpeedViolation w id newRoad (parseInt newSpeed none) (_getTxTimestamp ctx)).map
          (fun w1 =>
            (putState w1 id
              (.json (.obj (movedVehicle ctx vehicle newRoad newIntersection newSpeed newDirection))),
             .json (.obj (movedVehicle ctx vehicle newRoad newIntersection newSpeed newDirection)))) := by
  unfold UpdateVehiclePosition
  simp only [hv, hasBytes, jsonParse, writeProp, movedVehicle]
  cases _checkSpeedViolation w id newRoad (parseInt newSpeed none) (_getTxTimestamp ctx) <;>
    simp [bind, Except.bind, Except.map]

theorem getProp_movedVehicle (ctx : Ctx) (vehicle : Obj)
    (newRoad newIntersection newSpeed newDirection : String) :
    getProp (movedVehicle ctx vehicle newRoad newIntersection newSpeed newDirection) "currentRoad"
        = some (.str newRoad)
      ∧ getProp (movedVehicle ctx vehicle newRoad newIntersection newSpeed newDirection)
          "currentIntersection" = some (.str newIntersection)
      ∧ getProp (movedVehicle ctx vehicle newRoad newIntersection newSpeed newDirection) "speed"
          = some (numToJson (parseInt newSpeed none))
      ∧ getProp (movedVehicle ctx vehicle newRoad newIntersection newSpeed newDirection)
          "direction" = some (.str newDirection)
      ∧ getProp (movedVehicle ctx vehicle newRoad newIntersection newSpeed newDirection)
          "timestamp" = some (.str (_getTxTimestamp ctx))
      ∧ ∀ k, k ≠ "currentRoad" → k ≠ "currentIntersection" → k ≠ "speed" → k ≠ "direction" →
          k ≠ "timestamp" →
          getProp (movedVehicle ctx vehicle newRoad newIntersection newSpeed newDirection) k
            = getProp vehicle k := by
  unfold movedVehicle
  refine ⟨?_, ?_, ?_, ?_, ?_, ?_⟩
  · rw [getProp_setProp_ne _ _ _ _ (by decide), getProp_setProp_ne _ _ _ _ (by decide),
      getProp_setProp_ne _ _ _ _ (by decide), getProp_setProp_ne _ _ _ _ (by decide),
      getProp_setProp_same]
  · rw [getProp_setProp_ne _ _ _ _ (by decide), getProp_setProp_ne _ _ _ _ (by decide),
      getProp_setProp_ne _ _ _ _ (by decide), getProp_setProp_same]
  · rw [getProp_setProp_ne _ _ _ _ (by decide), getProp_setProp_ne _ _ _ _ (by decide),
      getProp_setProp_same]
  · rw [getProp_setProp_ne _ _ _ _ (by decide), getProp_setProp_same]
  · rw [getProp_setProp_same]
  · intro k h1 h2 h3 h4 h5
    rw [getProp_setProp_ne _ _ _ _ h5, getProp_setProp_ne _ _ _ _ h4,
      getProp_setProp_ne _ _ _ _ h3, getProp_setProp_ne _ _ _ _ h2,
      getProp_setProp_ne _ _ _ _ h1]

theorem getAssetsByType_eq (w : World) (t : String) :
    _getAssetsByType w t = w.filterMap (assetOfType t) := rfl

theorem assetOfType_obj (t k : String) (o : Obj) :
    assetOfType t (k, .json (.obj o))
      = if getProp o "assetType" = some (.str t) then some (.obj o) else none := by
  by_cases h : getProp o "assetType" = some (.str t)
  · simp [assetOfType, jsonParse, readProp, h, strictEq_str_self]
  · have h' : strictEq (getProp o "assetType") (some (.str t)) = false := by
      rw [← Bool.not_eq_true, strictEq_str_iff]; exact h
    simp [assetOfType, jsonParse, readProp, h, h']

theorem violationRecord_assetType (ctx : Ctx) (vehicleId roadId : String)
    (maxSpeed : Option JVal) (vehicleSpeed : Option Int) (name : Option JVal) :
    getProp (violationRecord ctx vehicleId roadId maxSpeed vehicleSpeed name) "assetType"
      = some (.str "violation") := by
  simp [violationRecord, mkObj, getProp]

/-- C4: where the vehicle id holds a record (not itself of type violation),
the destination road holds a record with a numeric maxSpeed m and nothing is
stored under the violation key of this update, `UpdateVehiclePosition`
succeeds; when the parsed speed exceeds m the violation records afterwards
are those before followed by one new record, so their number grows by exactly
one, and when the parsed speed is at most m (or is not a number) the
violation records are exactly those before. -/
theorem C4_violation_count (ctx : Ctx) (w : World)
    (id newRoad newIntersection newSpeed newDirection : String) (vehicle road : Obj) (m : Int)
    (hv : getState w id = some (.json (.obj vehicle)))
    (hvt : getProp vehicle "assetType" ≠ some (.str "violation"))
    (hr : getState w newRoad = some (.json (.obj road)))
    (hm : getProp road "maxSpeed" = some (.num m))
    (hfree : getState w (violationKey ctx id) = none) :
    ∃ w' out,
      UpdateVehiclePosition ctx w id newRoad newIntersection newSpeed newDirection
          = .ok (w', out)
        ∧ (∀ n : Int, parseInt newSpeed none = some n → m < n →
            GetAllViolations w' = GetAllViolations w
                ++ [.obj (violationRecord ctx id newRoad (some (.num m)) (some n)
                      (getProp road "name"))]
              ∧ (GetAllViolations w').length = (GetAllViolations w).length + 1)
        ∧ (∀ n : Int, parseInt newSpeed none = some n → n ≤ m →
            GetAllViolations w' = GetAllViolations w)
        ∧ (parseInt newSpeed none = none → GetAllViolations w' = GetAllViolations w) := by
  have hne : id ≠ violationKey ctx id := by
    intro h; rw [← h, hv] at hfree; simp at hfree
  have hmoved :
      assetOfType "violation"
          (id, .json (.obj (movedVehicle ctx vehicle newRoad newIntersection newSpeed newDirection)))
        = assetOfType "violation" (id, .json (.obj vehicle)) := by
    rw [assetOfType_obj, assetOfType_obj,
      (getProp_movedVehicle ctx vehicle newRoad newIntersection newSpeed newDirection).2.2.2.2.2
        "assetType" (by decide) (by decide) (by decide) (by decide) (by decide)]
    simp [hvt]
  rw [updateVehiclePosition_eq ctx w id newRoad newIntersection newSpeed newDirection vehicle hv,
    checkSpeedViolation_json ctx w id newRoad _ (.obj road) hr (by simp)]
  simp only [fieldOf, hm, toNumber, Except.map]
  refine ⟨_, _, rfl, ?_, ?_, ?_⟩
  · intro n hn hlt
    have hg : numGt (some n) (some m) = true := by simp [numGt, hlt]
    simp only [hn, hg, if_true]
    have h1 : GetAllViolations (putState (putState w (violationKey ctx id)
          (.json (.obj (violationRecord ctx id newRoad (some (.num m)) (some n)
            (getProp road "name"))))) id
          (.json (.obj (movedVehicle ctx vehicle newRoad newIntersection newSpeed newDirection))))
        = GetAllViolations w
            ++ [.obj (violationRecord ctx id newRoad (some (.num m)) (some n)
                  (getProp road "name"))] := by
      unfold GetAllViolations
      rw [getAssetsByType_eq, getAssetsByType_eq,
        filterMap_putState_same _ _ id (.json (.obj vehicle)) _
          (by rw [getState_putState_ne _ _ _ _ hne]; exact hv) hmoved,
        putState_of_absent _ _ _ hfree, List.filterMap_append]
      simp [assetOfType_obj, violationRecord_assetType]
    refine ⟨h1, ?_⟩
    rw [h1]; simp
  · intro n hn hle
    have hg : numGt (some n) (some m) = false := by simp [numGt, hle]
    simp only [hn, hg]
    unfold GetAllViolations
    rw [getAssetsByType_eq, getAssetsByType_eq]
    exact filterMap_putState_same _ _ id (.json (.obj vehicle)) _ hv hmoved
  · intro hn
    simp only [hn, numGt]
    unfold GetAllViolations
    rw [getAssetsByType_eq, getAssetsByType_eq]
    exact filterMap_putState_same _ _ id (.json (.obj vehicle)) _ hv hmoved

/-- C4, at the scenario of vehicle V1 moving at 70 onto road R2 of maxSpeed
50: the hypotheses hold there and the update adds exactly one violation
record. -/
theorem C4_violation_count_witness :
    getState worldV1R2 (violationKey ctxA "V1") = none
      ∧ (GetAllViolations (commit worldV1R2
            (UpdateVehiclePosition ctxA worldV1R2 "V1" "R2" "I2" "70" "east"))).length
          = (GetAllViolations worldV1R2).length + 1 := by
  refine ⟨by decide, ?_⟩
  obtain ⟨w', out, h, h1, _⟩ := C4_violation_count ctxA worldV1R2 "V1" "R2" "I2" "70" "east"
    (vehicleOn "V1" "R1")
    [("id", .str "R2"), ("assetType", .str "road"), ("name", .str "Hassan II Boulevard"),
     ("maxSpeed", .num 50)] 50 (by decide) (by decide) (by decide) (by decide) (by decide)
  rw [h]
  exact (h1 70 (by decide) (by decide)).2

theorem violationRecord_fields (ctx : Ctx) (vehicleId roadId : String) (maxSpeed : JVal)
    (vehicleSpeed : Option Int) (name : Option JVal) :
    getProp (violationRecord ctx vehicleId roadId (some maxSpeed) vehicleSpeed name) "id"
        = some (.str (violationKey ctx vehicleId))
      ∧ getProp (violationRecord ctx vehicleId roadId (some maxSpeed) vehicleSpeed name)
          "vehicleId" = some (.str vehicleId)
      ∧ getProp (violationRecord ctx vehicleId roadId (some maxSpeed) vehicleSpeed name)
          "roadId" = some (.str roadId)
      ∧ getProp (violationRecord ctx vehicleId roadId (some maxSpeed) vehicleSpeed name)
          "speedLimit" = some maxSpeed
      ∧ getProp (violationRecord ctx vehicleId roadId (some maxSpeed) vehicleSpeed name)
          "actualSpeed" = some (numToJson vehicleSpeed)
      ∧ getProp (violationRecord ctx vehicleId roadId (some maxSpeed) vehicleSpeed name)
          "excessSpeed" = some (numToJson (numSub vehicleSpeed (toNumber (some maxSpeed))))
      ∧ getProp (violationRecord ctx vehicleId roadId (some maxSpeed) vehicleSpeed name)
          "timestamp" = some (.str (_getTxTimestamp ctx))
      ∧ getProp (violationRecord ctx vehicleId roadId (some maxSpeed) vehicleSpeed name)
          "location" = name := by
  cases name <;> simp [violationRecord, mkObj, getProp]

theorem numGt_true_iff (a b : Option Int) :
    numGt a b = true ↔ ∃ n m : Int, a = some n ∧ b = some m ∧ m < n := by
  cases a <;> cases b <;> simp [numGt]

/-- C5: every record that a successful position update of a vehicle writes
under a key other than the vehicle's own is the violation record of that
update.  It is stored under the violation key, its vehicleId is the updated
vehicle's id, its roadId the destination road, its speedLimit the road's
maxSpeed, its actualSpeed the parsed submitted speed n, its excessSpeed
n minus the limit and positive, its timestamp the transaction time and its
location the road's name. -/
theorem C5_violation_record (ctx : Ctx) (w : World)
    (id newRoad newIntersection newSpeed newDirection : String) (vehicle : Obj)
    (w' : World) (out : Buffer) (k : String) (written : Buffer)
    (hv : getState w id = some (.json (.obj vehicle)))
    (h : UpdateVehiclePosition ctx w id newRoad newIntersection newSpeed newDirection
      = .ok (w', out))
    (hk : k ≠ id) (hnew : getState w' k = some written) (hold : getState w k ≠ some written) :
    ∃ (road maxSpeed : JVal) (n lim : Int) (violation : Obj),
      getState w newRoad = some (.json road)
        ∧ fieldOf road "maxSpeed" = some maxSpeed
        ∧ toNumber (some maxSpeed) = some lim
        ∧ parseInt newSpeed none = some n
        ∧ k = violationKey ctx id
        ∧ written = .json (.obj violation)
        ∧ getProp violation "id" = some (.str (violationKey ctx id))
        ∧ getProp violation "assetType" = some (.str "violation")
        ∧ getProp violation "vehicleId" = some (.str id)
        ∧ getProp violation "roadId" = some (.str newRoad)
        ∧ getProp violation "speedLimit" = some maxSpeed
        ∧ getProp violation "actualSpeed" = some (.num n)
        ∧ getProp violation "excessSpeed" = some (.num (n - lim))
        ∧ 0 < n - lim
        ∧ getProp violation "timestamp" = some (.str (_getTxTimestamp ctx))
        ∧ getProp violation "location" = fieldOf road "name" := by
  rw [updateVehiclePosition_eq ctx w id newRoad newIntersection newSpeed newDirection vehicle hv]
    at h
  have hplain : ∀ w1 : World, getState w1 k = getState w k →
      w' = putState w1 id
        (.json (.obj (movedVehicle ctx vehicle newRoad newIntersection newSpeed newDirection))) →
      False := by
    intro w1 h1 h2
    rw [h2, getState_putState_ne _ _ _ _ hk, h1] at hnew
    exact hold hnew
  rcases hgs : getState w newRoad with _ | b
  · rw [checkSpeedViolation_absent _ _ _ _ _ (by simp [hgs, hasBytes])] at h
    simp [Except.map] at h
    exact (hplain w rfl h.1.symm).elim
  · cases b with
    | empty =>
      rw [checkSpeedViolation_absent _ _ _ _ _ (by simp [hgs, hasBytes])] at h
      simp [Except.map] at h
      exact (hplain w rfl h.1.symm).elim
    | garbage t =>
      simp [_checkSpeedViolation, hgs, hasBytes, jsonParse, bind, Except.bind, Except.map] at h
    | json road =>
      by_cases hn : road = .null
      · subst hn
        simp [_checkSpeedViolation, hgs, hasBytes, jsonParse, readProp, bind, Except.bind,
          Except.map] at h
      · rw [checkSpeedViolation_json ctx w id newRoad _ road hgs hn] at h
        by_cases hg : numGt (parseInt newSpeed none) (toNumber (fieldOf road "maxSpeed")) = true
        · simp only [hg, if_true, Except.map] at h
          obtain ⟨n, lim, hn', hlim, hlt⟩ := (numGt_true_iff _ _).1 hg
          rcases hms : fieldOf road "maxSpeed" with _ | maxSpeed
          · rw [hms] at hlim; simp [toNumber] at hlim
          · rw [hms] at hlim
            have hw' : w' = putState (putState w (violationKey ctx id)
                (.json (.obj (violationRecord ctx id newRoad (fieldOf road "maxSpeed")
                  (parseInt newSpeed none) (fieldOf road "name"))))) id
                (.json (.obj (movedVehicle ctx vehicle newRoad newIntersection newSpeed
                  newDirection))) := by
              injection h with h; exact (congrArg Prod.fst h).symm
            by_cases hkv : k = violationKey ctx id
            · rw [hw', getState_putState_ne _ _ _ _ hk, hkv, getState_putState_same] at hnew
              injection hnew with hnew
              obtain ⟨f1, f2, f3, f4, f5, f6, f7, f8⟩ := violationRecord_fields ctx id newRoad
                maxSpeed (parseInt newSpeed none) (fieldOf road "name")
              refine ⟨road, maxSpeed, n, lim,
                violationRecord ctx id newRoad (some maxSpeed) (parseInt newSpeed none)
                  (fieldOf road "name"),
                rfl, hms, hlim, hn', hkv, ?_, ?_, ?_, ?_, ?_, ?_, ?_, ?_, ?_, ?_, ?_⟩
              · rw [← hnew, hms]
              · exact f1
              · exact violationRecord_assetType _ _ _ _ _ _
              · exact f2
              · exact f3
              · exact f4
              · rw [f5, hn']; rfl
              · rw [f6, hn', hlim]; rfl
              · omega
              · exact f7
              · exact f8
            · exfalso
              apply hplain (putState w (violationKey ctx id)
                (.json (.obj (violationRecord ctx id newRoad (fieldOf road "maxSpeed")
                  (parseInt newSpeed none) (fieldOf road "name")))))
                (getState_putState_ne _ _ _ _ hkv) hw'
        · simp only [hg, Except.map] at h
          simp at h
          exact (hplain w rfl h.1.symm).elim

/-- C5, at the scenario of vehicle V1 moving at 70 onto road R2 of maxSpeed
50: the record written under the violation key has speedLimit 50,
actualSpeed 70 and excessSpeed 20. -/
theorem C5_violation_record_witness :
    ∃ violation : Obj,
      getState (commit worldV1R2
          (UpdateVehiclePosition ctxA worldV1R2 "V1" "R2" "I2" "70" "east"))
          (violationKey ctxA "V1") = some (.json (.obj violation))
        ∧ getProp violation "speedLimit" = some (.num 50)
        ∧ getProp violation "actualSpeed" = some (.num 70)
        ∧ getProp violation "excessSpeed" = some (.num 20) := by
  obtain ⟨road, ms, n, lim, viol, h1, h2, h3, h4, _, h6, _, _, _, _, h11, h12, h13, _⟩ :=
    C5_violation_record ctxA worldV1R2 "V1" "R2" "I2" "70" "east" (vehicleOn "V1" "R1")
      (commit worldV1R2 (UpdateVehiclePosition ctxA worldV1R2 "V1" "R2" "I2" "70" "east"))
      (.json (.obj (movedVehicle ctxA (vehicleOn "V1" "R1") "R2" "I2" "70" "east")))
      (violationKey ctxA "V1")
      (.json (.obj (violationRecord ctxA "V1" "R2" (some (.num 50)) (some 70)
        (some (.str "Hassan II Boulevard")))))
      (by decide) (by decide) (by decide) (by decide) (by decide)
  have hroad : getState worldV1R2 "R2" = some (.json (.obj [("id", .str "R2"),
      ("assetType", .str "road"), ("name", .str "Hassan II Boulevard"),
      ("maxSpeed", .num 50)])) := by decide
  rw [hroad] at h1
  injection h1 with h1
  injection h1 with h1
  subst h1
  have hms : ms = .num 50 := by
    have : fieldOf (.obj [("id", .str "R2"), ("assetType", .str "road"),
      ("name", .str "Hassan II Boulevard"), ("maxSpeed", .num 50)]) "maxSpeed"
        = some (.num 50) := by decide
    rw [this] at h2
    injection h2 with h2
    exact h2.symm
  subst hms
  have hlim : lim = 50 := by
    simp [toNumber] at h3
    exact h3.symm
  have hn : n = 70 := by
    have : parseInt "70" none = some 70 := by decide
    rw [this] at h4
    injection h4 with h4
    exact h4.symm
  subst hlim hn
  refine ⟨viol, ?_, h11, h12, h13⟩
  rw [← h6]
  decide

theorem violationKey_ne (ctx : Ctx) (id : String) : violationKey ctx id ≠ id := by
  intro h
  have hl := congrArg String.length h
  simp [violationKey, String.length_append] at hl
  have h4 : "VIO_".length = 4 := by decide
  have h1 : "_".length = 1 := by decide
  omega

/-- C6: `UpdateVehiclePosition` on an id that holds a vehicle record succeeds
for every submitted speed, whether the destination road is absent or holds a
record (the hypotheses only exclude a value under newRoad that is not JSON or
is the JSON null).  The record stored under the id afterwards has
currentRoad, currentIntersection, speed (the integer parse of newSpeed),
direction and timestamp set from the call and every other field, among them
id, assetType, type, isEmergency and status, as before.  No key other than
the vehicle's and the violation key is written; the violation key is written
exactly when the update is speeding. -/
theorem C6_position_update_frame (ctx : Ctx) (w : World)
    (id newRoad newIntersection newSpeed newDirection : String) (vehicle : Obj)
    (hv : getState w id = some (.json (.obj vehicle)))
    (hg : ∀ t, getState w newRoad ≠ some (.garbage t))
    (hn : getState w newRoad ≠ some (.json .null)) :
    ∃ (w' : World) (moved : Obj),
      UpdateVehiclePosition ctx w id newRoad newIntersection newSpeed newDirection
          = .ok (w', .json (.obj moved))
        ∧ getState w' id = some (.json (.obj moved))
        ∧ getProp moved "currentRoad" = some (.str newRoad)
        ∧ getProp moved "currentIntersection" = some (.str newIntersection)
        ∧ getProp moved "speed" = some (numToJson (parseInt newSpeed none))
        ∧ getProp moved "direction" = some (.str newDirection)
        ∧ getProp moved "timestamp" = some (.str (_getTxTimestamp ctx))
        ∧ getProp moved "id" = getProp vehicle "id"
        ∧ getProp moved "assetType" = getProp vehicle "assetType"
        ∧ getProp moved "type" = getProp vehicle "type"
        ∧ getProp moved "isEmergency" = getProp vehicle "isEmergency"
        ∧ getProp moved "status" = getProp vehicle "status"
        ∧ (∀ k, k ≠ "currentRoad" → k ≠ "currentIntersection" → k ≠ "speed" →
            k ≠ "direction" → k ≠ "timestamp" → getProp moved k = getProp vehicle k)
        ∧ (∀ k, k ≠ id → k ≠ violationKey ctx id → getState w' k = getState w k)
        ∧ (speeding w newRoad newSpeed = false → ∀ k, k ≠ id → getState w' k = getState w k)
        ∧ (speeding w newRoad newSpeed = true →
            ∃ violation : Obj, getState w' (violationKey ctx id) = some (.json (.obj violation))
              ∧ getProp violation "assetType" = some (.str "violation")) := by
  obtain ⟨m1, m2, m3, m4, m5, m6⟩ :=
    getProp_movedVehicle ctx vehicle newRoad newIntersection newSpeed newDirection
  have hcsv : _checkSpeedViolation w id newRoad (parseInt newSpeed none) (_getTxTimestamp ctx)
      = .ok (if speeding w newRoad newSpeed then
          putState w (violationKey ctx id)
            (.json (.obj (violationRecord ctx id newRoad
              (match getState w newRoad with
                | some (.json road) => fieldOf road "maxSpeed"
                | _ => none)
              (parseInt newSpeed none)
              (match getState w newRoad with
                | some (.json road) => fieldOf road "name"
                | _ => none))))
        else w) := by
    rcases hgs : getState w newRoad with _ | b
    · rw [checkSpeedViolation_absent _ _ _ _ _ (by simp [hgs, hasBytes])]
      simp [speeding, hgs]
    · cases b with
      | empty =>
        rw [checkSpeedViolation_absent _ _ _ _ _ (by simp [hgs, hasBytes])]
        simp [speeding, hgs]
      | garbage t => exact (hg t hgs).elim
      | json road =>
        have hne : road ≠ .null := by
          intro h; subst h; exact hn hgs
        rw [checkSpeedViolation_json ctx w id newRoad _ road hgs hne]
        simp [speeding, hgs]
  rw [updateVehiclePosition_eq ctx w id newRoad newIntersection newSpeed newDirection vehicle hv,
    hcsv]
  refine ⟨_, movedVehicle ctx vehicle newRoad newIntersection newSpeed newDirection, rfl,
    getState_putState_same _ _ _, m1, m2, m3, m4, m5,
    m6 "id" (by decide) (by decide) (by decide) (by decide) (by decide),
    m6 "assetType" (by decide) (by decide) (by decide) (by decide) (by decide),
    m6 "type" (by decide) (by decide) (by decide) (by decide) (by decide),
    m6 "isEmergency" (by decide) (by decide) (by decide) (by decide) (by decide),
    m6 "status" (by decide) (by decide) (by decide) (by decide) (by decide),
    m6, ?_, ?_, ?_⟩
  · intro k hk hkv
    rw [getState_putState_ne _ _ _ _ hk]
    by_cases hs : speeding w newRoad newSpeed = true
    · simp only [hs, if_true]
      exact getState_putState_ne _ _ _ _ hkv
    · simp [hs]
  · intro hs k hk
    rw [getState_putState_ne _ _ _ _ hk]
    simp [hs]
  · intro hs
    rw [getState_putState_ne _ _ _ _ (violationKey_ne ctx id)]
    simp only [hs, if_true]
    exact ⟨_, getState_putState_same _ _ _, violationRecord_assetType _ _ _ _ _ _⟩

/-- C6, at the scenarios of vehicle V1 moving at 70 onto road R2 (maxSpeed
50) and onto a road R9 that is not in the store: both updates succeed. -/
theorem C6_position_update_frame_witness :
    (∃ w' out, UpdateVehiclePosition ctxA worldV1R2 "V1" "R2" "I2" "70" "east" = .ok (w', out))
      ∧ (∃ w' out,
          UpdateVehiclePosition ctxA worldV1R2 "V1" "R9" "I2" "70" "east" = .ok (w', out)) := by
  obtain ⟨w1, m1, h1, _⟩ := C6_position_update_frame ctxA worldV1R2 "V1" "R2" "I2" "70" "east"
    (vehicleOn "V1" "R1") (by decide) (by intro t; simp [worldV1R2, getState]) (by decide)
  obtain ⟨w2, m2, h2, _⟩ := C6_position_update_frame ctxA worldV1R2 "V1" "R9" "I2" "70" "east"
    (vehicleOn "V1" "R1") (by decide) (by intro t; simp [worldV1R2, getState]) (by decide)
  exact ⟨⟨w1, _, h1⟩, ⟨w2, _, h2⟩⟩

/-- C4 fails as stated: in a store where V1 exists, road R2 exists with
maxSpeed 50 and nothing is stored under the violation key, the update
submitting speed 50.5 (which exceeds 50) adds no violation record, the
integer parse of 50.5 being 50. -/
theorem C4_counterexample_fractional_speed :
    getState worldV1R2 "V1" = some (.json (.obj (vehicleOn "V1" "R1")))
      ∧ fieldOf (.obj [("id", .str "R2"), ("assetType", .str "road"),
          ("name", .str "Hassan II Boulevard"), ("maxSpeed", .num 50)]) "maxSpeed"
          = some (.num 50)
      ∧ getState worldV1R2 "R2" = some (.json (.obj [("id", .str "R2"),
          ("assetType", .str "road"), ("name", .str "Hassan II Boulevard"),
          ("maxSpeed", .num 50)]))
      ∧ getState worldV1R2 (violationKey ctxA "V1") = none
      ∧ submittedExceeds "50.5" 50 = true
      ∧ parseInt "50.5" none = some 50
      ∧ (∃ w' out, UpdateVehiclePosition ctxA worldV1R2 "V1" "R2" "I2" "50.5" "east"
            = .ok (w', out)
          ∧ GetAllViolations w' = GetAllViolations worldV1R2
          ∧ (GetAllViolations w').length ≠ (GetAllViolations worldV1R2).length + 1) := by
  refine ⟨by decide, by decide, by decide, by decide, by decide, by decide,
    commit worldV1R2 (UpdateVehiclePosition ctxA worldV1R2 "V1" "R2" "I2" "50.5" "east"),
    .json (.obj (movedVehicle ctxA (vehicleOn "V1" "R1") "R2" "I2" "50.5" "east")),
    by decide, by decide, by decide⟩

/-- C5 fails as stated: the update of V1 submitting speed 70.9 onto road R2
of maxSpeed 50 writes a violation record whose actualSpeed is 70, not the
submitted 70.9, and whose excessSpeed is 20. -/
theorem C5_counterexample_fractional_speed :
    submittedIs "70.9" 70 = false
      ∧ (∃ violation : Obj,
          getState (commit worldV1R2
              (UpdateVehiclePosition ctxA worldV1R2 "V1" "R2" "I2" "70.9" "east"))
              (violationKey ctxA "V1") = some (.json (.obj violation))
            ∧ getState worldV1R2 (violationKey ctxA "V1") = none
            ∧ getProp violation "actualSpeed" = some (.num 70)
            ∧ getProp violation "excessSpeed" = some (.num 20)) := by
  refine ⟨by decide,
    violationRecord ctxA "V1" "R2" (some (.num 50)) (some 70)
      (some (.str "Hassan II Boulevard")),
    by decide, by decide, by decide, by decide⟩

/-! ## Vehicle history and movement path -/

theorem historyLoop_eq (feed : List KeyModification) :
    historyLoop feed = feed.filterMap KeyModification.entry := by
  induction feed with
  | nil => rfl
  | cons e rest ih =>
    rcases hv : e.value with _ | b
    · simp [historyLoop, hv, hasBytes, KeyModification.entry, KeyModification.payload, ih]
    · cases b <;>
        simp [historyLoop, hv, hasBytes, jsonParse, mkObj, KeyModification.entry,
          KeyModification.payload, ih]

theorem readProp_obj (fields : Obj) (k : String) :
    readProp (.obj fields) k = .ok (getProp fields k) := rfl

theorem pathKeeps_entry (txId : String) (timestamp v : JVal) (isDelete : Bool)
    (h : isDelete = false → v ≠ .null) :
    pathKeeps (.obj [("txId", .str txId), ("timestamp", timestamp), ("data", v),
        ("isDelete", .bool isDelete)])
      = .ok (!isDelete && truthy (fieldOf v "currentRoad")) := by
  cases isDelete with
  | true =>
    simp [pathKeeps, readProp_obj, getProp, truthy, bind, Except.bind, pure, Except.pure]
  | false =>
    have hrp := readProp_of_ne_null v "currentRoad" (h rfl)
    simp [pathKeeps, readProp_obj, getProp, truthy, hrp, bind, Except.bind, pure, Except.pure]

theorem pathElement_entry (txId : String) (timestamp v : JVal) (isDelete : Bool)
    (h : v ≠ .null) :
    pathElement (.obj [("txId", .str txId), ("timestamp", timestamp), ("data", v),
        ("isDelete", .bool isDelete)])
      = .ok (.obj (mkObj [
          ("timestamp", some timestamp),
          ("road", fieldOf v "currentRoad"),
          ("intersection", fieldOf v "currentIntersection"),
          ("speed", fieldOf v "speed"),
          ("direction", fieldOf v "direction")])) := by
  have hrp : ∀ k, readProp v k = .ok (fieldOf v k) := fun k => readProp_of_ne_null v k h
  simp [pathElement, readProp_obj, getProp, hrp, bind, Except.bind, pure, Except.pure]

theorem historyLoop_cons_json (e : KeyModification) (rest : List KeyModification) (v : JVal)
    (hv : e.value = some (.json v)) :
    historyLoop (e :: rest)
      = .obj [("txId", .str e.txId), ("timestamp", e.timestamp), ("data", v),
          ("isDelete", .bool e.isDelete)] :: historyLoop rest := by
  simp [historyLoop, hv, hasBytes, jsonParse, mkObj]

theorem historyLoop_cons_skip (e : KeyModification) (rest : List KeyModification)
    (hv : e.payload = none) : historyLoop (e :: rest) = historyLoop rest := by
  rcases hval : e.value with _ | b
  · simp [historyLoop, hval, hasBytes]
  · cases b with
    | empty => simp [historyLoop, hval, hasBytes]
    | garbage t => simp [historyLoop, hval, hasBytes, jsonParse]
    | json v => simp [KeyModification.payload, hval] at hv

theorem leftOut_of_no_payload (e : KeyModification) (hv : e.payload = none) :
    e.leftOut = true := by
  simp [KeyModification.leftOut, KeyModification.field, hv, truthy]

theorem payload_cases (e : KeyModification) :
    e.payload = none ∨ ∃ v, e.value = some (.json v) ∧ e.payload = some v := by
  rcases hval : e.value with _ | b
  · left; simp [KeyModification.payload, hval]
  · cases b with
    | empty => left; simp [KeyModification.payload, hval]
    | garbage t => left; simp [KeyModification.payload, hval]
    | json v => right; exact ⟨v, rfl, by simp [KeyModification.payload, hval]⟩

theorem pathFilter_historyLoop (feed : List KeyModification)
    (h : ∀ e ∈ feed, e.value ≠ some (.json .null)) :
    pathFilter (historyLoop feed)
      = .ok (historyLoop (feed.filter (fun e => !e.leftOut))) := by
  induction feed with
  | nil => rfl
  | cons e rest ih =>
    have ih' := ih (fun x hx => h x (List.mem_cons_of_mem _ hx))
    have he := h e (List.mem_cons_self _ _)
    rcases payload_cases e with hp | ⟨v, hv, hp⟩
    · rw [historyLoop_cons_skip e rest hp, ih', List.filter_cons]
      simp [leftOut_of_no_payload e hp]
    · have hvn : v ≠ .null := by
        intro hn; subst hn; exact he hv
      have hlo : e.leftOut = (e.isDelete || !truthy (fieldOf v "currentRoad")) := by
        simp [KeyModification.leftOut, KeyModification.field, hp]
      rw [historyLoop_cons_json e rest v hv]
      simp only [pathFilter, pathKeeps_entry e.txId e.timestamp v e.isDelete (fun _ => hvn), ih',
        bind, Except.bind, pure, Except.pure, List.filter_cons]
      cases hd : e.isDelete <;> cases ht : truthy (fieldOf v "currentRoad") <;>
        simp [hlo, hd, ht, historyLoop_cons_json e _ v hv]

theorem pathMap_historyLoop (feed : List KeyModification)
    (h : ∀ e ∈ feed, e.leftOut = false) :
    pathMap (historyLoop feed) = .ok (feed.map KeyModification.pathPoint) := by
  induction feed with
  | nil => rfl
  | cons e rest ih =>
    have ih' := ih (fun x hx => h x (List.mem_cons_of_mem _ hx))
    have he := h e (List.mem_cons_self _ _)
    rcases payload_cases e with hp | ⟨v, hv, hp⟩
    · rw [leftOut_of_no_payload e hp] at he
      cases he
    · have hvn : v ≠ .null := by
        intro hn; subst hn
        simp [KeyModification.leftOut, KeyModification.field, hp, fieldOf, truthy] at he
      rw [historyLoop_cons_json e rest v hv]
      simp only [pathMap, pathElement_entry e.txId e.timestamp v e.isDelete hvn, ih',
        bind, Except.bind, pure, Except.pure, List.map_cons]
      simp [KeyModification.pathPoint, KeyModification.field, hp]

theorem length_filter_not_leftOut (feed : List KeyModification) :
    (feed.filter (fun e => !e.leftOut)).length
      = feed.length - feed.countP KeyModification.leftOut := by
  induction feed with
  | nil => rfl
  | cons e rest ih =>
    have hle : rest.countP KeyModification.leftOut ≤ rest.length := List.countP_le_length _
    cases h : e.leftOut
    · simp [List.filter_cons, List.countP_cons, h, ih]; omega
    · simp [List.filter_cons, List.countP_cons, h, ih]

/-- C7: for a history feed of N items none of which carries the JSON text
null, `GetVehicleMovementPath` returns; its path is the projection
`{timestamp, road, intersection, speed, direction}` (road being currentRoad
and intersection currentIntersection) of the feed items that are kept, in
feed order, and pathLength is its length N - K, where K counts the items
left out: the delete entries and the items whose payload has no road (no
parsed payload, or a currentRoad that is missing or empty). -/
theorem C7_movement_path (feed : List KeyModification) (vehicleId : String)
    (h : ∀ e ∈ feed, e.value ≠ some (.json .null)) :
    GetVehicleMovementPath feed vehicleId
        = .ok (.obj [
            ("vehicleId", .str vehicleId),
            ("pathLength",
              .num ((feed.length - feed.countP KeyModification.leftOut : Nat) : Int)),
            ("path", .arr ((feed.filter (fun e => !e.leftOut)).map
              KeyModification.pathPoint))])
      ∧ ((feed.filter (fun e => !e.leftOut)).map KeyModification.pathPoint).length
          = feed.length - feed.countP KeyModification.leftOut
      ∧ (feed.filter (fun e => !e.leftOut)).Sublist feed := by
  have hmap := pathMap_historyLoop (feed.filter (fun e => !e.leftOut)) (by
    intro e he
    have := (List.mem_filter.1 he).2
    simpa using this)
  refine ⟨?_, ?_, List.filter_sublist _⟩
  · simp only [GetVehicleMovementPath, GetVehicleHistory, mkObj, List.filterMap_cons,
      Option.map_some', List.filterMap_nil, readProp_obj, getProp, bind, Except.bind, pure,
      Except.pure]
    simp [pathFilter_historyLoop feed h, hmap, length_filter_not_leftOut]
  · rw [List.length_map, length_filter_not_leftOut]

/-- C7, at the feed of V1 created on R1, moved to R2 and then deleted: the
path has the two writes, in feed order, and pathLength 2 = 3 - 1. -/
theorem C7_movement_path_witness :
    GetVehicleMovementPath feedV1 "V1"
      = .ok (.obj [
          ("vehicleId", .str "V1"),
          ("pathLength", .num 2),
          ("path", .arr [
            .obj [("timestamp", .obj [("seconds", .num 1700000000), ("nanos", .num 0)]),
                  ("road", .str "R1"), ("intersection", .str "I1"), ("speed", .num 40),
                  ("direction", .str "north")],
            .obj [("timestamp", .obj [("seconds", .num 1700000001), ("nanos", .num 0)]),
                  ("road", .str "R2"), ("intersection", .str "I1"), ("speed", .num 40),
                  ("direction", .str "north")]])]) := by
  have h := (C7_movement_path feedV1 "V1" (by decide)).1
  rw [h]
  decide

/-- What `GetVehicleHistory` computes: in feed order, one entry
`{txId, timestamp, data, isDelete}` for every feed item that has value bytes
which parse, `data` being the parsed payload; an item without value bytes (as
the delete entries of the ledger are) and an item whose payload fails to
parse are skipped without aborting the read, and totalRecords is the number
of returned entries. -/
theorem getVehicleHistory_entries (feed : List KeyModification) (vehicleId : String) :
    GetVehicleHistory feed vehicleId
        = .obj [
            ("vehicleId", .str vehicleId),
            ("totalRecords", .num ((feed.filterMap KeyModification.entry).length : Nat)),
            ("history", .arr (feed.filterMap KeyModification.entry))]
      ∧ (∀ e ∈ feed, hasBytes e.value = false → e.entry = none)
      ∧ (∀ e ∈ feed, ∀ t, e.value = some (.garbage t) → e.entry = none)
      ∧ (∀ e ∈ feed, ∀ v, e.value = some (.json v) →
          e.entry = some (.obj [("txId", .str e.txId), ("timestamp", e.timestamp),
            ("data", v), ("isDelete", .bool e.isDelete)])) := by
  refine ⟨?_, ?_, ?_, ?_⟩
  · simp [GetVehicleHistory, mkObj, historyLoop_eq]
  · intro e _ hb
    rcases hv : e.value with _ | b
    · simp [KeyModification.entry, KeyModification.payload, hv]
    · cases b <;> simp [hv, hasBytes] at hb
      simp [KeyModification.entry, KeyModification.payload, hv]
  · intro e _ t hv
    simp [KeyModification.entry, KeyModification.payload, hv]
  · intro e _ v hv
    simp [KeyModification.entry, KeyModification.payload, hv]

/-- C8 fails on the code: for the feed of V1 created, moved and then deleted,
none of whose payloads fails to parse, the guard
`result.value.value.length > 0` skips the delete item (its value is empty),
so the returned history has two entries and totalRecords 2, and every
returned `isDelete` is false, although the loop records `isDelete` for each
entry and the route calls the result the complete history. -/
theorem C8_delete_entry_dropped :
    feedV1.length = 3
      ∧ feedV1.countP (fun e => failsToParse e.value) = 0
      ∧ feedV1.countP (fun e => e.isDelete) = 1
      ∧ fieldOf (GetVehicleHistory feedV1 "V1") "totalRecords" = some (.num 2)
      ∧ fieldOf (GetVehicleHistory feedV1 "V1") "history" = some (.arr (historyLoop feedV1))
      ∧ (historyLoop feedV1).length = 2
      ∧ (∀ h ∈ historyLoop feedV1, fieldOf h "isDelete" = some (.bool false)) := by
  refine ⟨by decide, by decide, by decide, by decide, by decide, by decide, by decide⟩

/-! ## The mobility task -/

/-- C9 fails on the code: after `resume()` the mobility timer (handle 0)
fires and its tick body is entered; `setSpeed(2)` then runs `pause()` and
`resume()`, and `startVehicleMovement` clears `_movingTickRunning` while that
body is still in progress; when the new mobility timer (handle 4) fires, a
second tick body is entered, so two are in progress at once. -/
theorem C9_overlap_after_restart :
    (Sched.new.run [.resume, .fire 0]).map (fun s => s.ticksInProgress) = some 1
      ∧ (Sched.new.run [.resume, .fire 0, .setSpeed 2, .fire 4]).map
          (fun s => s.ticksInProgress) = some 2
      ∧ (Sched.new.run [.resume, .fire 0, .pause, .resume, .fire 4]).map
          (fun s => s.ticksInProgress) = some 2 := by
  refine ⟨by decide, by decide, by decide⟩

/-! ## Not-found and already-exists failures -/

theorem noContractError_ok {α : Type} (a : α) : NoContractError (Except.ok a : Except Err α) := by
  intro e h; cases h

theorem noContractError_bind {α β : Type} (x : Except Err α) (f : α → Except Err β)
    (hx : NoContractError x) (hf : ∀ a, NoContractError (f a)) : NoContractError (x >>= f) := by
  intro e h
  cases x with
  | error e' =>
    simp [bind, Except.bind] at h
    subst h
    exact hx e' rfl
  | ok a => exact hf a e h

theorem noContractError_jsonParse (b : Option Buffer) : NoContractError (jsonParse b) := by
  intro e h
  rcases b with _ | b
  · simp [jsonParse] at h; subst h; rfl
  · cases b <;> simp [jsonParse] at h <;> subst h <;> rfl

theorem noContractError_writeProp (v : JVal) (k : String) (x : JVal) :
    NoContractError (writeProp v k x) := by
  intro e h
  unfold writeProp at h
  split at h
  · cases h
  · split at h
    · split at h
      · split at h
        · cases h
        · cases h; rfl
      · cases h; rfl
    · cases h
  · cases h; rfl

theorem noContractError_readProp (v : JVal) (k : String) : NoContractError (readProp v k) := by
  intro e h
  cases v <;> simp [readProp] at h
  subst h; rfl

theorem noContractError_checkSpeedViolation (w : World) (vehicleId roadId : String)
    (vehicleSpeed : Option Int) (txTime : String) :
    NoContractError (_checkSpeedViolation w vehicleId roadId vehicleSpeed txTime) := by
  unfold _checkSpeedViolation
  simp only []
  split
  · exact noContractError_ok _
  · refine noContractError_bind _ _ (noContractError_jsonParse _) (fun road => ?_)
    refine noContractError_bind _ _ (noContractError_readProp _ _) (fun maxSpeed => ?_)
    split
    · refine noContractError_bind _ _ (noContractError_readProp _ _) (fun name => ?_)
      exact noContractError_ok _
    · exact noContractError_ok _

theorem kind_space :
    "Vehicle" ++ " " = "Vehicle " ∧ "Road" ++ " " = "Road "
      ∧ "Intersection" ++ " " = "Intersection " ∧ "Incident" ++ " " = "Incident "
      ∧ "SecurityAlert" ++ " " = "SecurityAlert " := by
  refine ⟨by decide, by decide, by decide, by decide, by decide⟩

/-- C10: every contract operation that targets an id (the reads, updates,
deletes and the two resolve operations) fails with the error
`<Kind> <id> does not exist` when `getState` yields nothing or an empty value
for the id, and every create operation fails with `<Kind> <id> already
exists` when it yields a non-empty value.  A failed operation leaves the
world state as it was.  In the other cases (the id present for the former,
absent for the latter) the operation does not fail with an error of the
contract's own: it succeeds, or a built-in error of `JSON.parse` or of a
property assignment surfaces. -/
theorem C10_existence_failures (parseFloat : String → JVal) (ctx : Ctx) (w : World)
    (op : Op) :
    (op.isCreate = false → hasBytes (getState w op.target) = false →
        op.exec parseFloat ctx w
          = .error (.error (op.kind ++ " " ++ op.target ++ " does not exist")))
      ∧ (op.isCreate = true → hasBytes (getState w op.target) = true →
        op.exec parseFloat ctx w
          = .error (.error (op.kind ++ " " ++ op.target ++ " already exists")))
      ∧ (∀ e, op.exec parseFloat ctx w = .error e → commit w (op.exec parseFloat ctx w) = w)
      ∧ (op.isCreate = false → hasBytes (getState w op.target) = true →
        NoContractError (op.exec parseFloat ctx w))
      ∧ (op.isCreate = true → hasBytes (getState w op.target) = false →
        NoContractError (op.exec parseFloat ctx w)) := by
  obtain ⟨k1, k2, k3, k4, k5⟩ := kind_space
  refine ⟨?_, ?_, ?_, ?_, ?_⟩
  · intro hc hb
    cases op <;> simp [Op.isCreate] at hc <;>
      simp [Op.exec, Op.kind, Op.target, ReadVehicle, UpdateVehiclePosition, DeleteVehicle,
        UpdateVehicleStatus, ReadRoad, UpdateRoadStatus, UpdateRoadProperties,
        UpdateRoadCongestion, DeleteRoad, ReadIntersection, UpdateTrafficLight,
        UpdateIntersectionLocation, UpdateIntersectionDensity, DeleteIntersection,
        ResolveIncident, ResolveSecurityAlert, _assetExists, k1, k2, k3, k4, k5] at hb ⊢ <;>
      simp [hb]
  · intro hc hb
    cases op <;> simp [Op.isCreate] at hc <;>
      simp [Op.exec, Op.kind, Op.target, CreateVehicle, CreateRoad, CreateIntersection,
        ReportIncident, ReportSecurityAlert, _assetExists, k1, k2, k3, k4, k5] at hb ⊢ <;>
      simp [hb]
  · intro e he
    rw [he]; rfl
  · intro hc hb
    cases op <;> simp [Op.isCreate] at hc <;>
      simp only [Op.exec, Op.target, ReadVehicle, UpdateVehiclePosition, DeleteVehicle,
        UpdateVehicleStatus, ReadRoad, UpdateRoadStatus, UpdateRoadProperties,
        UpdateRoadCongestion, DeleteRoad, ReadIntersection, UpdateTrafficLight,
        UpdateIntersectionLocation, UpdateIntersectionDensity, DeleteIntersection,
        ResolveIncident, ResolveSecurityAlert, _assetExists] at hb ⊢ <;>
      simp only [hb, Bool.true_eq_false, Bool.false_eq_true, if_false] <;>
      repeat' first
        | exact noContractError_ok _
        | exact noContractError_jsonParse _
        | exact noContractError_writeProp _ _ _
        | exact noContractError_checkSpeedViolation _ _ _ _ _
        | refine noContractError_bind _ _ ?_ (fun _ => ?_)
  · intro hc hb
    cases op <;> simp [Op.isCreate] at hc <;>
      simp only [Op.exec, Op.target, CreateVehicle, CreateRoad, CreateIntersection,
        ReportIncident, ReportSecurityAlert, _assetExists] at hb ⊢ <;>
      simp only [hb, Bool.true_eq_false, Bool.false_eq_true, if_false] <;>
      repeat' first
        | exact noContractError_ok _
        | exact noContractError_jsonParse _
        | refine noContractError_bind _ _ ?_ (fun _ => ?_)

/-! ## Lifecycle -/

theorem clearInterval_eq (h : Option Nat) (e : Engine) :
    clearInterval h e = { e with timers := e.timers.filter (fun t => decide (h ≠ some t.handle)) }
    := by
  cases h with
  | none => simp [clearInterval]
  | some n =>
    simp only [clearInterval]
    congr 1
    apply List.filter_congr
    intro t _
    by_cases hn : t.handle = n
    · simp [hn]
    · simp [hn, Ne.symm hn]

theorem clearAllIntervals_eq (e : Engine) :
    clearAllIntervals e = { e with timers := e.timers.filter (fun t => !e.holds t) } := by
  have hif : ∀ (h : Option Nat) (x : Engine),
      (if h.isSome then clearInterval h x else x) = clearInterval h x := by
    intro h x
    cases h <;> simp [clearInterval]
  have hsim : ∀ (h : Option Nat) (x : Engine), (clearInterval h x).sim = x.sim := by
    intro h x
    cases h <;> simp [clearInterval]
  unfold clearAllIntervals
  simp only [hif, hsim]
  simp only [clearInterval_eq, List.filter_filter]
  congr 1
  apply List.filter_congr
  intro t _
  simp only [Engine.holds]
  by_cases h1 : e.sim.vehicleMoveInterval = some t.handle <;>
    by_cases h2 : e.sim.trafficLightInterval = some t.handle <;>
    by_cases h3 : e.sim.vehicleSpawnInterval = some t.handle <;>
    by_cases h4 : e.sim.congestionUpdateInterval = some t.handle <;>
    simp [h1, h2, h3, h4]

theorem pause_of_not_running (e : Engine) (h : e.sim.isRunning = false) : pause e = e := by
  simp [pause, h]

theorem pause_of_running (e : Engine) (h : e.sim.isRunning = true) :
    pause e = { e with sim := { e.sim with isRunning := false },
                       timers := e.timers.filter (fun t => !e.holds t) } := by
  simp [pause, h, clearAllIntervals_eq]

theorem resume_of_running (e : Engine) (h : e.sim.isRunning = true) : resume e = e := by
  simp [resume, h]

theorem launch_eq (e : Engine) :
    startCongestionUpdates (startVehicleSpawning (startTrafficLightCycling
        (startVehicleMovement e)))
      = { sim := { e.sim with
              movingTickRunning := false,
              vehicleMoveInterval := some e.nextHandle,
              trafficLightInterval := some (e.nextHandle + 1),
              vehicleSpawnInterval :=
                if e.sim.spawnRate = 0 then e.sim.vehicleSpawnInterval
                else some (e.nextHandle + 2),
              congestionUpdateInterval :=
                some (if e.sim.spawnRate = 0 then e.nextHandle + 2 else e.nextHandle + 3) },
          timers := e.timers ++ launched e.sim.speed e.sim.spawnRate e.nextHandle,
          nextHandle := if e.sim.spawnRate = 0 then e.nextHandle + 3 else e.nextHandle + 4 } := by
  by_cases hr : e.sim.spawnRate = 0
  · simp [startCongestionUpdates, startVehicleSpawning, startTrafficLightCycling,
      startVehicleMovement, setInterval, launched, hr]
  · simp [startCongestionUpdates, startVehicleSpawning, startTrafficLightCycling,
      startVehicleMovement, setInterval, launched, hr]

theorem resume_of_not_running (e : Engine) (h : e.sim.isRunning = false) :
    resume e
      = { sim := { e.sim with
              isRunning := true,
              movingTickRunning := false,
              vehicleMoveInterval := some e.nextHandle,
              trafficLightInterval := some (e.nextHandle + 1),
              vehicleSpawnInterval :=
                if e.sim.spawnRate = 0 then e.sim.vehicleSpawnInterval
                else some (e.nextHandle + 2),
              congestionUpdateInterval :=
                some (if e.sim.spawnRate = 0 then e.nextHandle + 2 else e.nextHandle + 3) },
          timers := e.timers ++ launched e.sim.speed e.sim.spawnRate e.nextHandle,
          nextHandle := if e.sim.spawnRate = 0 then e.nextHandle + 3 else e.nextHandle + 4 } := by
  unfold resume
  simp only [h, Bool.false_eq_true, if_false]
  rw [launch_eq]

theorem tidy_new : Engine.new.Tidy := by
  refine ⟨?_, ?_, ?_, ?_, ?_⟩
  · intro t ht; simp [Engine.new] at ht
  · simp [Engine.new]
  · intro t ht; simp [Engine.new] at ht
  · intro task h hh
    cases task <;> simp [Engine.new, TrafficSimulation.new, TrafficSimulation.handleOf] at hh
  · intro a b h ha
    cases a <;> simp [Engine.new, TrafficSimulation.new, TrafficSimulation.handleOf] at ha

theorem tidy_of_same (e e' : Engine) (ht : e'.timers = e.timers)
    (hn : e'.nextHandle = e.nextHandle) (hr : e'.sim.isRunning = e.sim.isRunning)
    (hh : ∀ task, e'.sim.handleOf task = e.sim.handleOf task) (h : e.Tidy) : e'.Tidy := by
  obtain ⟨h1, h2, h3, h4, h5⟩ := h
  refine ⟨?_, ?_, ?_, ?_, ?_⟩
  · intro t htm; rw [ht] at htm; rw [hn]; exact h1 t htm
  · rw [ht]; exact h2
  · intro t htm; rw [ht] at htm; rw [hr, hh]; exact h3 t htm
  · intro task x hx; rw [hh] at hx; rw [hn]; exact h4 task x hx
  · intro a b x ha hb; rw [hh] at ha hb; exact h5 a b x ha hb

theorem holds_of_tidy (e : Engine) (h : e.Tidy) (t : Timer) (ht : t ∈ e.timers) :
    e.holds t = true := by
  have h3 := (h.2.2.1 t ht).2
  cases htask : t.task <;> simp [htask, TrafficSimulation.handleOf] at h3 <;>
    simp [Engine.holds, h3]

theorem timers_nil_of_tidy (e : Engine) (h : e.Tidy) (hr : e.sim.isRunning = false) :
    e.timers = [] := by
  cases hts : e.timers with
  | nil => rfl
  | cons t rest =>
    have := (h.2.2.1 t (by rw [hts]; exact List.mem_cons_self _ _)).1
    rw [hr] at this
    cases this

theorem pause_timers_of_tidy (e : Engine) (h : e.Tidy) : (pause e).timers = [] := by
  cases hr : e.sim.isRunning
  · rw [pause_of_not_running e hr]; exact timers_nil_of_tidy e h hr
  · rw [pause_of_running e hr]
    simp only [List.filter_eq_nil_iff]
    intro t ht
    simp [holds_of_tidy e h t ht]

theorem tidy_pause (e : Engine) (h : e.Tidy) : (pause e).Tidy := by
  cases hr : e.sim.isRunning
  · rw [pause_of_not_running e hr]; exact h
  · have hnil := pause_timers_of_tidy e h
    obtain ⟨_, _, _, h4, h5⟩ := h
    refine ⟨?_, ?_, ?_, ?_, ?_⟩
    · intro t ht; rw [hnil] at ht; cases ht
    · rw [hnil]; simp
    · intro t ht; rw [hnil] at ht; cases ht
    · intro task x hx
      rw [pause_of_running e hr] at hx ⊢
      cases task <;> simp [TrafficSimulation.handleOf] at hx <;>
        first
          | exact h4 .vehicleMove x hx
          | exact h4 .trafficLight x hx
          | exact h4 .vehicleSpawn x hx
          | exact h4 .congestionUpdate x hx
    · intro a b x ha hb
      rw [pause_of_running e hr] at ha hb
      apply h5 a b x
      · cases a <;> simpa [TrafficSimulation.handleOf] using ha
      · cases b <;> simpa [TrafficSimulation.handleOf] using hb

theorem tidy_launch (x : Engine) (hrun : x.sim.isRunning = true) (hnil : x.timers = [])
    (h4 : ∀ task h, x.sim.handleOf task = some h → h < x.nextHandle) :
    (startCongestionUpdates (startVehicleSpawning (startTrafficLightCycling
      (startVehicleMovement x)))).Tidy := by
  rw [launch_eq]
  have hs := h4 .vehicleSpawn
  simp only [TrafficSimulation.handleOf] at hs
  by_cases hr : x.sim.spawnRate = 0
  · refine ⟨?_, ?_, ?_, ?_, ?_⟩
    · intro t ht
      simp [hnil, launched, hr] at ht ⊢
      rcases ht with ht | ht | ht <;> subst ht <;> simp
    · simp [hnil, launched, hr]
    · intro t ht
      simp [hnil, launched, hr] at ht
      rcases ht with ht | ht | ht <;> subst ht <;> simp [hrun, TrafficSimulation.handleOf, hr]
    · intro task h hh
      cases task <;> simp [TrafficSimulation.handleOf, hr] at hh ⊢ <;>
        first
          | omega
          | (have hq := hs h hh; omega)
    · intro a b h ha hb
      cases a <;> cases b <;> simp [TrafficSimulation.handleOf, hr] at ha hb ⊢ <;>
        first
          | omega
          | (have hq := hs h ha; omega)
          | (have hq := hs h hb; omega)
  · refine ⟨?_, ?_, ?_, ?_, ?_⟩
    · intro t ht
      simp [hnil, launched, hr] at ht ⊢
      rcases ht with ht | ht | ht | ht <;> subst ht <;> simp
    · simp [hnil, launched, hr]
    · intro t ht
      simp [hnil, launched, hr] at ht
      rcases ht with ht | ht | ht | ht <;> subst ht <;>
        simp [hrun, TrafficSimulation.handleOf, hr]
    · intro task h hh
      cases task <;> simp [TrafficSimulation.handleOf, hr] at hh ⊢ <;> omega
    · intro a b h ha hb
      cases a <;> cases b <;> simp [TrafficSimulation.handleOf, hr] at ha hb ⊢ <;> omega

theorem tidy_resume (e : Engine) (h : e.Tidy) : (resume e).Tidy := by
  cases hr : e.sim.isRunning
  · have hnil := timers_nil_of_tidy e h hr
    unfold resume
    simp only [hr, Bool.false_eq_true, if_false]
    apply tidy_launch
    · rfl
    · exact hnil
    · intro task x hx
      apply h.2.2.2.1 task x
      cases task <;> simpa [TrafficSimulation.handleOf] using hx
  · rw [resume_of_running e hr]; exact h

theorem tidy_start (loaded : Option Snapshot) (e : Engine) (h : e.Tidy) :
    (start loaded e).Tidy := by
  cases hr : e.sim.isRunning
  · have hnil := timers_nil_of_tidy e h hr
    simp only [start, startBegin, hr, Bool.false_eq_true, if_false, startFinish]
    cases loaded <;>
    · simp only [loadState]
      apply tidy_launch
      · rfl
      · exact hnil
      · intro task x hx
        apply h.2.2.2.1 task x
        cases task <;> simpa [TrafficSimulation.handleOf] using hx
  · simp [start, startBegin, hr]; exact h

theorem tidy_reset (loaded : Option Snapshot) (e : Engine) (h : e.Tidy) :
    (reset loaded e).Tidy := by
  apply tidy_of_same (pause e) _ _ _ _ _ (tidy_pause e h)
  · cases loaded <;> rfl
  · cases loaded <;> rfl
  · cases loaded <;> rfl
  · intro task
    cases loaded <;> cases task <;> rfl

theorem tidy_setSpeed (m : ℚ) (e : Engine) (h : e.Tidy) : (setSpeed m e).Tidy := by
  have h' : ({ e with sim := { e.sim with speed := m } } : Engine).Tidy := by
    apply tidy_of_same e _ rfl rfl rfl _ h
    intro task; cases task <;> rfl
  unfold setSpeed
  simp only []
  split
  · exact tidy_resume _ (tidy_pause _ h')
  · exact h'

theorem tidy_setSpawnRate (r : Int) (e : Engine) (h : e.Tidy) : (setSpawnRate r e).Tidy := by
  have h' : ({ e with sim := { e.sim with spawnRate := r } } : Engine).Tidy := by
    apply tidy_of_same e _ rfl rfl rfl _ h
    intro task; cases task <;> rfl
  cases hr : e.sim.isRunning
  · have hq : setSpawnRate r e = { e with sim := { e.sim with spawnRate := r } } := by
      simp [setSpawnRate, hr]
    rw [hq]; exact h'
  · obtain ⟨h1, h2, h3, h4, h5⟩ := h
    have hkeep : ∀ t ∈ e.timers, e.sim.vehicleSpawnInterval ≠ some t.handle →
        t.task ≠ .vehicleSpawn := by
      intro t ht hne htask
      have := (h3 t ht).2
      rw [htask] at this
      exact hne this
    by_cases hz : r = 0
    · simp only [setSpawnRate, hr, if_true, startVehicleSpawning, clearInterval_eq, hz]
      refine ⟨?_, ?_, ?_, ?_, ?_⟩
      · intro t ht
        exact h1 t (List.mem_filter.1 ht).1
      · exact (List.filter_sublist _).map _ |>.nodup h2
      · intro t ht
        obtain ⟨htm, hne⟩ := List.mem_filter.1 ht
        have hne' : e.sim.vehicleSpawnInterval ≠ some t.handle := by simpa using hne
        have h3' := h3 t htm
        refine ⟨rfl, ?_⟩
        have hts := hkeep t htm hne'
        cases htask : t.task <;> simp [htask, TrafficSimulation.handleOf] at h3' hts ⊢ <;>
          exact h3'.2
      · intro task x hx
        apply h4 task x
        cases task <;> simpa [TrafficSimulation.handleOf] using hx
      · intro a b x ha hb
        apply h5 a b x
        · cases a <;> simpa [TrafficSimulation.handleOf] using ha
        · cases b <;> simpa [TrafficSimulation.handleOf] using hb
    · simp only [setSpawnRate, hr, if_true, startVehicleSpawning, clearInterval_eq, hz,
        if_false, setInterval]
      refine ⟨?_, ?_, ?_, ?_, ?_⟩
      · intro t ht
        simp only [List.mem_append, List.mem_singleton] at ht
        rcases ht with ht | ht
        · have := h1 t (List.mem_filter.1 ht).1
          simp; omega
        · subst ht; simp
      · simp only [List.map_append, List.map_cons, List.map_nil]
        rw [List.nodup_append]
        refine ⟨(List.filter_sublist _).map _ |>.nodup h2, by simp, ?_⟩
        intro x hx1 hx2
        simp only [List.mem_singleton] at hx2
        obtain ⟨t, ht, hte⟩ := List.mem_map.1 hx1
        have := h1 t (List.mem_filter.1 ht).1
        omega
      · intro t ht
        simp only [List.mem_append, List.mem_singleton] at ht
        rcases ht with ht | ht
        · obtain ⟨htm, hne⟩ := List.mem_filter.1 ht
          have hne' : e.sim.vehicleSpawnInterval ≠ some t.handle := by simpa using hne
          have h3' := h3 t htm
          refine ⟨rfl, ?_⟩
          have hts := hkeep t htm hne'
          cases htask : t.task <;> simp [htask, TrafficSimulation.handleOf] at h3' hts ⊢ <;>
            exact h3'.2
        · subst ht
          exact ⟨rfl, by simp [TrafficSimulation.handleOf]⟩
      · intro task x hx
        cases task <;> simp [TrafficSimulation.handleOf] at hx ⊢ <;>
          first
            | omega
            | (have hq := h4 .vehicleMove x hx; omega)
            | (have hq := h4 .trafficLight x hx; omega)
            | (have hq := h4 .congestionUpdate x hx; omega)
      · intro a b x ha hb
        have hm := h4 .vehicleMove
        have hl := h4 .trafficLight
        have hc := h4 .congestionUpdate
        simp only [TrafficSimulation.handleOf] at hm hl hc
        have d12 : ∀ y, e.sim.vehicleMoveInterval = some y →
            e.sim.trafficLightInterval = some y → False :=
          fun y h1' h2' => by cases h5 .vehicleMove .trafficLight y h1' h2'
        have d14 : ∀ y, e.sim.vehicleMoveInterval = some y →
            e.sim.congestionUpdateInterval = some y → False :=
          fun y h1' h2' => by cases h5 .vehicleMove .congestionUpdate y h1' h2'
        have d24 : ∀ y, e.sim.trafficLightInterval = some y →
            e.sim.congestionUpdateInterval = some y → False :=
          fun y h1' h2' => by cases h5 .trafficLight .congestionUpdate y h1' h2'
        cases a <;> cases b <;> simp [TrafficSimulation.handleOf] at ha hb ⊢ <;>
          first
            | exact d12 x ha hb
            | exact d12 x hb ha
            | exact d14 x ha hb
            | exact d14 x hb ha
            | exact d24 x ha hb
            | exact d24 x hb ha
            | (have hq := hm x ha; omega)
            | (have hq := hl x ha; omega)
            | (have hq := hc x ha; omega)
            | (have hq := hm x hb; omega)
            | (have hq := hl x hb; omega)
            | (have hq := hc x hb; omega)

theorem tidy_apply (e : Engine) (c : Call) (h : e.Tidy) : (e.apply c).Tidy := by
  cases c with
  | start loaded => exact tidy_start loaded e h
  | pause => exact tidy_pause e h
  | resume => exact tidy_resume e h
  | reset loaded => exact tidy_reset loaded e h
  | setSpeed m => exact tidy_setSpeed m e h
  | setSpawnRate r => exact tidy_setSpawnRate r e h

theorem tidy_foldl (calls : List Call) : ∀ e : Engine, e.Tidy →
    (calls.foldl Engine.apply e).Tidy := by
  induction calls with
  | nil => intro e h; exact h
  | cons c rest ih => intro e h; exact ih _ (tidy_apply e c h)

theorem tidy_after (calls : List Call) : (Engine.after calls).Tidy :=
  tidy_foldl calls Engine.new tidy_new

theorem pause_frame (e : Engine) :
    (pause e).sim.isRunning = false
      ∧ (pause e).sim.vehicleCounter = e.sim.vehicleCounter
      ∧ (pause e).sim.transactionCount = e.sim.transactionCount
      ∧ (pause e).sim.speed = e.sim.speed
      ∧ (pause e).sim.spawnRate = e.sim.spawnRate
      ∧ (pause e).sim.vehicles = e.sim.vehicles
      ∧ (pause e).sim.roads = e.sim.roads
      ∧ (pause e).sim.intersections = e.sim.intersections
      ∧ (pause e).nextHandle = e.nextHandle
      ∧ (∀ t ∈ (pause e).timers, t ∈ e.timers) := by
  cases hr : e.sim.isRunning
  · rw [pause_of_not_running e hr]
    exact ⟨hr, rfl, rfl, rfl, rfl, rfl, rfl, rfl, rfl, fun _ h => h⟩
  · rw [pause_of_running e hr]
    exact ⟨rfl, rfl, rfl, rfl, rfl, rfl, rfl, rfl, rfl, fun _ h => (List.mem_filter.1 h).1⟩

/-- C14 fails as stated: `start()` sets `isRunning`, then awaits `loadState`;
a `pause()` that runs in between finds no timer to clear and sets `isRunning`
false; when `start()` goes on it launches the four timers.  From that state
`pause()` returns at its guard and the four timers stay live. -/
theorem C14_counterexample_paused_during_start :
    (startBegin Engine.new).map (fun e1 =>
        ((startFinish none (pause e1)).sim.isRunning,
         (pause (startFinish none (pause e1))).sim.isRunning,
         (pause (startFinish none (pause e1))).timers.map Timer.task))
      = some (false, false,
          [Task.vehicleMove, Task.trafficLight, Task.vehicleSpawn, Task.congestionUpdate]) := by
  decide

/-- C14 as amended: `pause()` is idempotent; it leaves `isRunning` false and
leaves `vehicleCounter`, `transactionCount`, `speed`, `spawnRate` and the
loaded vehicles, roads and intersections unchanged, and it launches no timer.
When `isRunning` is already false it changes nothing; when `isRunning` is
true it cancels the timers whose handles are kept in the four interval
fields.  In every state that lifecycle calls run one at a time lead to, no
task timer is live after it. -/
theorem C14_pause (e : Engine) (calls : List Call) :
    pause (pause e) = pause e
      ∧ (pause e).sim.isRunning = false
      ∧ (pause e).sim.vehicleCounter = e.sim.vehicleCounter
      ∧ (pause e).sim.transactionCount = e.sim.transactionCount
      ∧ (pause e).sim.speed = e.sim.speed
      ∧ (pause e).sim.spawnRate = e.sim.spawnRate
      ∧ (pause e).sim.vehicles = e.sim.vehicles
      ∧ (pause e).sim.roads = e.sim.roads
      ∧ (pause e).sim.intersections = e.sim.intersections
      ∧ (∀ t ∈ (pause e).timers, t ∈ e.timers)
      ∧ (e.sim.isRunning = false → pause e = e)
      ∧ (e.sim.isRunning = true →
          (pause e).timers = e.timers.filter (fun t => !e.holds t))
      ∧ (e.Tidy → (pause e).timers = [])
      ∧ (pause (Engine.after calls)).timers = [] := by
  obtain ⟨f1, f2, f3, f4, f5, f6, f7, f8, _, f10⟩ := pause_frame e
  refine ⟨pause_of_not_running _ f1, f1, f2, f3, f4, f5, f6, f7, f8, f10,
    pause_of_not_running e, ?_, pause_timers_of_tidy e, ?_⟩
  · intro hr; rw [pause_of_running e hr]
  · exact pause_timers_of_tidy _ (tidy_after calls)

/-- C15: `start()` and `resume()` change nothing when `isRunning` is already
true: no reload, no new timer.  From a paused state `resume()` sets
`isRunning` true and launches the periodic tasks (the spawner unless the
spawn rate is 0), and leaves `vehicleCounter`, `transactionCount`, `speed`,
`spawnRate` and the loaded vehicles, roads and intersections exactly as they
were. -/
theorem C15_start_resume_frame (e : Engine) (loaded : Option Snapshot) :
    (e.sim.isRunning = true → start loaded e = e ∧ resume e = e)
      ∧ (e.sim.isRunning = false →
          (resume e).sim.isRunning = true
            ∧ (resume e).timers
                = e.timers ++ launched e.sim.speed e.sim.spawnRate e.nextHandle
            ∧ (resume e).sim.vehicleCounter = e.sim.vehicleCounter
            ∧ (resume e).sim.transactionCount = e.sim.transactionCount
            ∧ (resume e).sim.speed = e.sim.speed
            ∧ (resume e).sim.spawnRate = e.sim.spawnRate
            ∧ (resume e).sim.vehicles = e.sim.vehicles
            ∧ (resume e).sim.roads = e.sim.roads
            ∧ (resume e).sim.intersections = e.sim.intersections) := by
  refine ⟨?_, ?_⟩
  · intro hr
    exact ⟨by simp [start, startBegin, hr], resume_of_running e hr⟩
  · intro hr
    rw [resume_of_not_running e hr]
    exact ⟨rfl, rfl, rfl, rfl, rfl, rfl, rfl, rfl, rfl⟩

/-- C16 fails as stated.  In the state reached when `pause()` runs while
`start()` awaits `loadState` (`isRunning` false, four timers live), `reset()`
calls `pause()`, which returns at its guard, and the four timers stay live.
From the running state after `resume()`: `reset()` zeroes `transactionCount`
and then awaits `loadState`; a light-cycle step whose request was in flight
increments the counter to 1 when the request resolves, and a `resume()` that
runs during the await leaves `isRunning` true and four timers live when
`reset()` completes. -/
theorem C16_counterexample_reset_after_paused_start :
    (startBegin Engine.new).map (fun e1 =>
        ((reset none (startFinish none (pause e1))).sim.isRunning,
         (reset none (startFinish none (pause e1))).timers.map Timer.task))
      = some (false,
          [Task.vehicleMove, Task.trafficLight, Task.vehicleSpawn, Task.congestionUpdate])
      ∧ (resume Engine.new).sim.isRunning = true
      ∧ (resetBegin (resume Engine.new)).sim.transactionCount = 0
      ∧ (cycleTrafficLight true intersectionI1
          (resetBegin (resume Engine.new)).sim.transactionCount).transactionCount = 1
      ∧ (resetFinish none (resume (resetBegin (resume Engine.new)))).sim.isRunning = true
      ∧ (resetFinish none (resume (resetBegin (resume Engine.new)))).timers.map Timer.task
          = [Task.vehicleMove, Task.trafficLight, Task.vehicleSpawn, Task.congestionUpdate] := by
  refine ⟨by decide, by decide, by decide, by decide, by decide, by decide⟩

/-- C16 as amended.  `reset()` runs `pause()`, sets `vehicleCounter` to 1000
and `transactionCount` to 0, and then awaits `loadState`.  At that point,
from any state `e`, `isRunning` is false, the two counters have their initial
values, `speed` and `spawnRate` are unchanged and no timer has been launched:
the live timers are those that `pause()` leaves, and in every state that
lifecycle calls run one at a time lead to none is live.  When `loadState`
settles, in whatever state `x` the event loop is in by then, `reset()` only
assigns the reloaded lists (nothing when the reload fails): `isRunning`, the
counters, `speed`, `spawnRate` and the timers stay what they are in `x`.
Hence after a `reset()` during which nothing else ran, `isRunning` is false,
the counters are 1000 and 0, `speed` and `spawnRate` are unchanged and the
live timers are those that `pause()` leaves. -/
theorem C16_reset (e x : Engine) (loaded : Option Snapshot) (calls : List Call) :
    ((resetBegin e).sim.isRunning = false
      ∧ (resetBegin e).sim.vehicleCounter = 1000
      ∧ (resetBegin e).sim.vehicleCounter = TrafficSimulation.new.vehicleCounter
      ∧ (resetBegin e).sim.transactionCount = 0
      ∧ (resetBegin e).sim.transactionCount = TrafficSimulation.new.transactionCount
      ∧ (resetBegin e).sim.speed = e.sim.speed
      ∧ (resetBegin e).sim.spawnRate = e.sim.spawnRate
      ∧ (resetBegin e).timers = (pause e).timers
      ∧ (∀ t ∈ (resetBegin e).timers, t ∈ e.timers)
      ∧ (e.Tidy → (resetBegin e).timers = [])
      ∧ (resetBegin (Engine.after calls)).timers = [])
    ∧ ((resetFinish loaded x).sim.isRunning = x.sim.isRunning
      ∧ (resetFinish loaded x).sim.vehicleCounter = x.sim.vehicleCounter
      ∧ (resetFinish loaded x).sim.transactionCount = x.sim.transactionCount
      ∧ (resetFinish loaded x).sim.speed = x.sim.speed
      ∧ (resetFinish loaded x).sim.spawnRate = x.sim.spawnRate
      ∧ (resetFinish loaded x).timers = x.timers
      ∧ (resetFinish loaded x).nextHandle = x.nextHandle
      ∧ (loaded = none → resetFinish loaded x = x)
      ∧ (∀ s, loaded = some s →
          (resetFinish loaded x).sim.vehicles = s.vehicles
            ∧ (resetFinish loaded x).sim.roads = s.roads
            ∧ (resetFinish loaded x).sim.intersections = s.intersections))
    ∧ (reset loaded e = resetFinish loaded (resetBegin e)
      ∧ (reset loaded e).sim.isRunning = false
      ∧ (reset loaded e).sim.vehicleCounter = 1000
      ∧ (reset loaded e).sim.vehicleCounter = TrafficSimulation.new.vehicleCounter
      ∧ (reset loaded e).sim.transactionCount = 0
      ∧ (reset loaded e).sim.transactionCount = TrafficSimulation.new.transactionCount
      ∧ (reset loaded e).sim.speed = e.sim.speed
      ∧ (reset loaded e).sim.spawnRate = e.sim.spawnRate
      ∧ (reset loaded e).timers = (pause e).timers
      ∧ (∀ t ∈ (reset loaded e).timers, t ∈ e.timers)
      ∧ (e.Tidy → (reset loaded e).timers = [])
      ∧ (reset loaded (Engine.after calls)).timers = []
      ∧ (∀ s, loaded = some s →
          (reset loaded e).sim.vehicles = s.vehicles
            ∧ (reset loaded e).sim.roads = s.roads
            ∧ (reset loaded e).sim.intersections = s.intersections)) := by
  obtain ⟨f1, _, _, f4, f5, _, _, _, _, f10⟩ := pause_frame e
  have hb : (resetBegin e).timers = (pause e).timers := rfl
  have hbs : ∀ y : Engine, (resetBegin y).timers = (pause y).timers := fun _ => rfl
  have ht : (reset loaded e).timers = (pause e).timers := by cases loaded <;> rfl
  have hts : ∀ y : Engine, (reset loaded y).timers = (pause y).timers := by
    intro y; cases loaded <;> rfl
  refine ⟨⟨f1, rfl, rfl, rfl, rfl, f4, f5, hb, ?_, ?_, ?_⟩,
    ⟨?_, ?_, ?_, ?_, ?_, ?_, ?_, ?_, ?_⟩,
    ⟨rfl, ?_, ?_, ?_, ?_, ?_, ?_, ?_, ht, ?_, ?_, ?_, ?_⟩⟩
  · rw [hb]; exact f10
  · intro h; rw [hb]; exact pause_timers_of_tidy e h
  · rw [hbs]; exact pause_timers_of_tidy _ (tidy_after calls)
  · cases loaded <;> rfl
  · cases loaded <;> rfl
  · cases loaded <;> rfl
  · cases loaded <;> rfl
  · cases loaded <;> rfl
  · cases loaded <;> rfl
  · cases loaded <;> rfl
  · intro h; subst h; rfl
  · intro s hs; subst hs; exact ⟨rfl, rfl, rfl⟩
  · cases loaded <;> exact f1
  · cases loaded <;> rfl
  · cases loaded <;> rfl
  · cases loaded <;> rfl
  · cases loaded <;> rfl
  · cases loaded <;> exact f4
  · cases loaded <;> exact f5
  · rw [ht]; exact f10
  · intro h; rw [ht]; exact pause_timers_of_tidy e h
  · rw [hts]; exact pause_timers_of_tidy _ (tidy_after calls)
  · intro s hs
    subst hs
    exact ⟨rfl, rfl, rfl⟩

theorem floorQuot_pos (a : Int) (m : ℚ) (hm : 0 < m) :
    floorQuot a m = some (Int.floor ((a : ℚ) / m)) := by
  have hne : m ≠ 0 := ne_of_gt hm
  have hnum : 0 < m.num := Rat.num_pos.2 hm
  have hq : (a : ℚ) / m = ((a * m.den : Int) : ℚ) / ((m.num.toNat : ℕ) : ℚ) := by
    have hcast : ((m.num.toNat : ℕ) : ℚ) = (m.num : ℚ) := by
      have : ((m.num.toNat : ℕ) : Int) = m.num := Int.toNat_of_nonneg (le_of_lt hnum)
      exact_mod_cast this
    have hden : (m.den : ℚ) ≠ 0 := by exact_mod_cast m.den_nz
    have hnumq : (m.num : ℚ) ≠ 0 := by exact_mod_cast (ne_of_gt hnum)
    rw [hcast]
    conv_lhs => rw [← Rat.num_div_den m]
    push_cast
    field_simp
  simp only [floorQuot, hne, if_false]
  congr 1
  rw [hq, Rat.floor_intCast_div_natCast, Int.fdiv_eq_ediv _ (le_of_lt hnum),
    Int.toNat_of_nonneg (le_of_lt hnum)]

theorem launched_pos (m : ℚ) (r : Int) (n : Nat) (hm : 0 < m) (hr : 0 < r) :
    launched m r n
      = [{ handle := n, task := .vehicleMove,
           interval := some (Int.floor ((3000 : ℚ) / m)) },
         { handle := n + 1, task := .trafficLight,
           interval := some (Int.floor ((15000 : ℚ) / m)) },
         { handle := n + 2, task := .vehicleSpawn,
           interval := some (Int.floor (((60000 : ℚ) / (r : ℚ)) / m)) },
         { handle := n + 3, task := .congestionUpdate,
           interval := some (Int.floor ((10000 : ℚ) / m)) }] := by
  have hr0 : r ≠ 0 := by omega
  have hrq : (0 : ℚ) < (r : ℚ) := by exact_mod_cast hr
  have hrm : 0 < (r : ℚ) * m := mul_pos hrq hm
  have h1 := floorQuot_pos 3000 m hm
  have h2 := floorQuot_pos 15000 m hm
  have h3 := floorQuot_pos 60000 ((r : ℚ) * m) hrm
  have h4 := floorQuot_pos 10000 m hm
  have hq : ((60000 : Int) : ℚ) / ((r : ℚ) * m) = ((60000 : ℚ) / (r : ℚ)) / m := by
    push_cast
    rw [div_div]
  rw [hq] at h3
  simp only [launched, hr0, if_false, h1, h2, h3, h4]
  norm_num

/-- C17: whenever the tasks are launched with a speed multiplier m > 0 (any
positive rational number, fractional ones included) and an integer spawn
rate r > 0 (by `resume`, by `start`, or by `setSpeed` on a running
simulation), the timers installed have the intervals
floor(3000/m) for mobility, floor(15000/m) for the light cycler,
floor((60000/r)/m) for the spawner and floor(10000/m) for congestion.
`setSpeed(m)` on a running simulation cancels the timers kept in the
interval fields and launches the four tasks with these intervals, leaving
`isRunning` true and both counters unchanged; on a paused simulation it only
records m.  The part of `start` that follows its `await` launches the same
timers in whatever state it runs in with speed m and spawn rate r. -/
theorem C17_intervals (e : Engine) (m : ℚ) (r : Int) (hm : 0 < m) (hr : 0 < r)
    (hrate : e.sim.spawnRate = r) :
    (∀ n, launched m r n
        = [{ handle := n, task := .vehicleMove,
             interval := some (Int.floor ((3000 : ℚ) / m)) },
           { handle := n + 1, task := .trafficLight,
             interval := some (Int.floor ((15000 : ℚ) / m)) },
           { handle := n + 2, task := .vehicleSpawn,
             interval := some (Int.floor (((60000 : ℚ) / (r : ℚ)) / m)) },
           { handle := n + 3, task := .congestionUpdate,
             interval := some (Int.floor ((10000 : ℚ) / m)) }])
      ∧ (e.sim.isRunning = false → e.sim.speed = m →
          (resume e).timers = e.timers ++ launched m r e.nextHandle
            ∧ ∀ loaded, (start loaded e).timers = e.timers ++ launched m r e.nextHandle)
      ∧ (e.sim.isRunning = true →
          (setSpeed m e).timers = (pause e).timers ++ launched m r e.nextHandle
            ∧ (setSpeed m e).sim.isRunning = true
            ∧ (setSpeed m e).sim.speed = m
            ∧ (setSpeed m e).sim.spawnRate = r
            ∧ (setSpeed m e).sim.vehicleCounter = e.sim.vehicleCounter
            ∧ (setSpeed m e).sim.transactionCount = e.sim.transactionCount
            ∧ (e.Tidy → (setSpeed m e).timers = launched m r e.nextHandle))
      ∧ (e.sim.isRunning = false →
          setSpeed m e = { e with sim := { e.sim with speed := m } })
      ∧ (∀ (loaded : Option Snapshot) (x : Engine), x.sim.speed = m → x.sim.spawnRate = r →
          (startFinish loaded x).timers = x.timers ++ launched m r x.nextHandle) := by
  refine ⟨fun n => launched_pos m r n hm hr, ?_, ?_, ?_, ?_⟩
  · intro hrun hs
    refine ⟨?_, ?_⟩
    · rw [resume_of_not_running e hrun, hs, hrate]
    · intro loaded
      simp only [start, startBegin, hrun, Bool.false_eq_true, if_false, startFinish]
      rw [launch_eq]
      cases loaded <;> simp [loadState, hs, hrate]
  · intro hrun
    have hp : pause ({ e with sim := { e.sim with speed := m } } : Engine)
        = { sim := { e.sim with speed := m, isRunning := false },
            timers := (pause e).timers, nextHandle := e.nextHandle } := by
      rw [pause_of_running _ (by exact hrun), pause_of_running e hrun]
      rfl
    have hs : setSpeed m e
        = resume { sim := { e.sim with speed := m, isRunning := false },
                   timers := (pause e).timers, nextHandle := e.nextHandle } := by
      have hc : (({ e with sim := { e.sim with speed := m } } : Engine).sim.isRunning) = true :=
        hrun
      show (if ({ e with sim := { e.sim with speed := m } } : Engine).sim.isRunning = true
          then resume (pause { e with sim := { e.sim with speed := m } })
          else { e with sim := { e.sim with speed := m } }) = _
      rw [if_pos hc, hp]
    rw [hs, resume_of_not_running _ rfl]
    subst hrate
    refine ⟨rfl, rfl, rfl, rfl, rfl, rfl, ?_⟩
    intro ht
    show (pause e).timers ++ launched m e.sim.spawnRate e.nextHandle = _
    rw [pause_timers_of_tidy e ht]
    rfl
  · intro hrun
    simp [setSpeed, hrun]
  · intro loaded x hs hx
    simp only [startFinish]
    rw [launch_eq]
    cases loaded <;> simp [loadState, hs, hx]

/-- C17, at a simulation resumed from construction (spawn rate 2) whose
speed is set to 1.5: the four timers have intervals 2000, 10000, 20000 and
6666. -/
theorem C17_intervals_witness :
    (setSpeed (3 / 2) (resume Engine.new)).timers.map (fun t => (t.task, t.interval))
      = [(Task.vehicleMove, some 2000), (Task.trafficLight, some 10000),
         (Task.vehicleSpawn, some 20000), (Task.congestionUpdate, some 6666)] := by
  obtain ⟨hl, _, hs, _⟩ := C17_intervals (resume Engine.new) (3 / 2) 2 (by norm_num)
    (by decide) (by decide)
  rw [(hs (by decide)).2.2.2.2.2.2 (tidy_resume _ tidy_new), hl]
  simp only [List.map]
  norm_num

theorem setSpawnRate_of_running (r : Int) (e : Engine) (hr : e.sim.isRunning = true) :
    setSpawnRate r e
      = if r = 0 then
          { sim := { e.sim with spawnRate := r },
            timers := e.timers.filter (fun t => decide (e.sim.vehicleSpawnInterval ≠ some t.handle)),
            nextHandle := e.nextHandle }
        else
          { sim := { e.sim with spawnRate := r, vehicleSpawnInterval := some e.nextHandle },
            timers := e.timers.filter (fun t => decide (e.sim.vehicleSpawnInterval ≠ some t.handle))
              ++ [{ handle := e.nextHandle, task := .vehicleSpawn,
                    interval := floorQuot 60000 (r * e.sim.speed) }],
            nextHandle := e.nextHandle + 1 } := by
  by_cases hz : r = 0
  · simp only [setSpawnRate, hr, if_true, startVehicleSpawning, clearInterval_eq, hz]
  · simp only [setSpawnRate, hr, if_true, startVehicleSpawning, clearInterval_eq, hz,
      if_false, setInterval]

theorem spawn_filter_of_tidy (e : Engine) (h : e.Tidy) :
    e.timers.filter (fun t => decide (e.sim.vehicleSpawnInterval ≠ some t.handle))
      = e.timers.filter (fun t => decide (t.task ≠ .vehicleSpawn)) := by
  apply List.filter_congr
  intro t ht
  have h3 := (h.2.2.1 t ht).2
  have h5 := h.2.2.2.2
  by_cases hh : e.sim.vehicleSpawnInterval = some t.handle
  · have : t.task = .vehicleSpawn := h5 t.task .vehicleSpawn t.handle h3 hh
    simp [hh, this]
  · have : t.task ≠ .vehicleSpawn := by
      intro htask
      rw [htask] at h3
      exact hh h3
    simp [hh, this]

theorem launched_zero_no_spawn (s : ℚ) (n : Nat) :
    ∀ t ∈ launched s 0 n, t.task ≠ .vehicleSpawn := by
  intro t ht
  simp only [launched, if_true, List.cons_append, List.nil_append, List.mem_cons,
    List.mem_singleton, List.not_mem_nil, or_false] at ht
  rcases ht with ht | ht | ht <;> subst ht <;> simp

theorem spawn_rate_of_tidy (e : Engine) (r : Int) (ht : e.Tidy) :
    (e.sim.spawnRate = 0 → startVehicleSpawning e = e)
      ∧ (e.sim.spawnRate = 0 → e.sim.isRunning = false →
          (∀ t ∈ (resume e).timers, t.task ≠ .vehicleSpawn)
            ∧ ∀ loaded, ∀ t ∈ (start loaded e).timers, t.task ≠ .vehicleSpawn)
      ∧ (e.sim.isRunning = true →
          ∀ t ∈ (setSpawnRate 0 e).timers, t.task ≠ .vehicleSpawn)
      ∧ (e.sim.isRunning = true →
          (setSpawnRate r e).timers.filter (fun t => decide (t.task ≠ .vehicleSpawn))
              = e.timers.filter (fun t => decide (t.task ≠ .vehicleSpawn))
            ∧ (setSpawnRate r e).timers.filter (fun t => decide (t.task = .vehicleSpawn))
              = (if r = 0 then []
                 else [{ handle := e.nextHandle, task := .vehicleSpawn,
                         interval := floorQuot 60000 (r * e.sim.speed) }])
            ∧ (setSpawnRate r e).sim.isRunning = true
            ∧ (setSpawnRate r e).sim.speed = e.sim.speed
            ∧ (setSpawnRate r e).sim.spawnRate = r
            ∧ (setSpawnRate r e).sim.vehicleCounter = e.sim.vehicleCounter
            ∧ (setSpawnRate r e).sim.transactionCount = e.sim.transactionCount
            ∧ (setSpawnRate r e).sim.vehicleMoveInterval = e.sim.vehicleMoveInterval
            ∧ (setSpawnRate r e).sim.trafficLightInterval = e.sim.trafficLightInterval
            ∧ (setSpawnRate r e).sim.congestionUpdateInterval = e.sim.congestionUpdateInterval)
      ∧ (e.sim.isRunning = false →
          setSpawnRate r e = { e with sim := { e.sim with spawnRate := r } }) := by
  refine ⟨?_, ?_, ?_, ?_, ?_⟩
  · intro hz
    simp [startVehicleSpawning, hz]
  · intro hz hrun
    have hnil := timers_nil_of_tidy e ht hrun
    have hres : (resume e).timers = launched e.sim.speed 0 e.nextHandle := by
      rw [resume_of_not_running e hrun, hz, hnil]; rfl
    refine ⟨?_, ?_⟩
    · rw [hres]; exact launched_zero_no_spawn _ _
    · intro loaded
      have hst : (start loaded e).timers = launched e.sim.speed 0 e.nextHandle := by
        simp only [start, startBegin, hrun, Bool.false_eq_true, if_false, startFinish]
        rw [launch_eq]
        cases loaded <;> simp [loadState, hz, hnil]
      rw [hst]; exact launched_zero_no_spawn _ _
  · intro hrun t hmem
    rw [setSpawnRate_of_running 0 e hrun, if_pos rfl] at hmem
    simp only [spawn_filter_of_tidy e ht] at hmem
    simpa using (List.mem_filter.1 hmem).2
  · intro hrun
    rw [setSpawnRate_of_running r e hrun]
    have hnone : List.filter (fun t : Timer =>
        (decide (t.task = .vehicleSpawn) && decide (t.task ≠ .vehicleSpawn))) e.timers = [] := by
      rw [List.filter_eq_nil_iff]
      intro t _
      by_cases h : t.task = .vehicleSpawn <;> simp [h]
    by_cases hz : r = 0
    · rw [if_pos hz]
      refine ⟨?_, ?_, hrun, rfl, rfl, rfl, rfl, rfl, rfl, rfl⟩
      · show List.filter _ (List.filter _ e.timers) = _
        rw [spawn_filter_of_tidy e ht, List.filter_filter]
        simp
      · show List.filter _ (List.filter _ e.timers) = _
        rw [spawn_filter_of_tidy e ht, List.filter_filter, hnone, if_pos hz]
    · rw [if_neg hz]
      refine ⟨?_, ?_, hrun, rfl, rfl, rfl, rfl, rfl, rfl, rfl⟩
      · show List.filter _ (List.filter _ e.timers ++ _) = _
        rw [spawn_filter_of_tidy e ht, List.filter_append, List.filter_filter]
        simp
      · show List.filter _ (List.filter _ e.timers ++ _) = _
        rw [spawn_filter_of_tidy e ht, List.filter_append, List.filter_filter, hnone, if_neg hz]
        simp
  · intro hrun
    simp [setSpawnRate, hrun]

/-- C18 fails as stated: when `pause()` runs while `start()` awaits
`loadState` and `resume()` is called afterwards, the simulation is running
with two timers per task, those of `start` (handles 0 to 3) being in no
interval field.  `setSpawnRate(0)` then cancels the spawn timer 6 only, and
the spawn timer 2 stays live with spawn rate 0; `setSpawnRate(5)` cancels 6
and starts 8, and two spawn timers are live. -/
theorem C18_counterexample_orphan_spawn_timer :
    resumedAfterPausedStart.map (fun e =>
        (e.sim.isRunning, e.sim.vehicleSpawnInterval,
          e.timers.map (fun t => (t.handle, t.task))))
      = some (true, some 6,
          [(0, Task.vehicleMove), (1, Task.trafficLight), (2, Task.vehicleSpawn),
           (3, Task.congestionUpdate), (4, Task.vehicleMove), (5, Task.trafficLight),
           (6, Task.vehicleSpawn), (7, Task.congestionUpdate)])
      ∧ resumedAfterPausedStart.map (fun e =>
          ((setSpawnRate 0 e).sim.isRunning, (setSpawnRate 0 e).sim.spawnRate,
            ((setSpawnRate 0 e).timers.filter
              (fun t => decide (t.task = .vehicleSpawn))).map Timer.handle))
        = some (true, 0, [2])
      ∧ resumedAfterPausedStart.map (fun e =>
          ((setSpawnRate 5 e).timers.filter
            (fun t => decide (t.task = .vehicleSpawn))).map Timer.handle)
        = some [2, 8] := by
  refine ⟨by decide, by decide, by decide⟩

/-- C18 as amended.  In every state: with spawn rate 0
`startVehicleSpawning` schedules nothing, so `resume` and the part of `start`
that follows its `await` add only the mobility, light-cycler and congestion
timers; `setSpawnRate(r)` on a running simulation cancels the timer whose
handle is in `vehicleSpawnInterval`, starts one spawn timer with the interval
of rate r unless r is 0, and touches no other timer, nor `isRunning`, `speed`
or the counters; on a paused simulation it only records r.  In a state where
every live timer is the one kept in the interval field of its task (`Tidy`),
as is every state that lifecycle calls run one at a time lead to: with spawn
rate 0 no spawn timer is live after `resume` or `start` of a paused
simulation, nor after `setSpawnRate(0)` on a running one, and after
`setSpawnRate(r)` on a running simulation the timers of the other three
tasks are unchanged and the spawn timers are none when r is 0 and else the
one new timer. -/
theorem C18_spawn_rate (e : Engine) (r : Int) (calls : List Call) :
    (e.sim.spawnRate = 0 → startVehicleSpawning e = e)
      ∧ (e.sim.spawnRate = 0 → e.sim.isRunning = false →
          (resume e).timers = e.timers ++ launched e.sim.speed 0 e.nextHandle)
      ∧ (e.sim.spawnRate = 0 → ∀ loaded,
          (startFinish loaded e).timers = e.timers ++ launched e.sim.speed 0 e.nextHandle)
      ∧ (∀ (s : ℚ) (n : Nat), ∀ t ∈ launched s 0 n, t.task ≠ .vehicleSpawn)
      ∧ (e.sim.isRunning = true →
          (setSpawnRate r e).timers
              = e.timers.filter (fun t => decide (e.sim.vehicleSpawnInterval ≠ some t.handle))
                ++ (if r = 0 then []
                    else [{ handle := e.nextHandle, task := .vehicleSpawn,
                            interval := floorQuot 60000 (r * e.sim.speed) }])
            ∧ (setSpawnRate r e).sim.isRunning = true
            ∧ (setSpawnRate r e).sim.speed = e.sim.speed
            ∧ (setSpawnRate r e).sim.spawnRate = r
            ∧ (setSpawnRate r e).sim.vehicleCounter = e.sim.vehicleCounter
            ∧ (setSpawnRate r e).sim.transactionCount = e.sim.transactionCount
            ∧ (setSpawnRate r e).sim.vehicleMoveInterval = e.sim.vehicleMoveInterval
            ∧ (setSpawnRate r e).sim.trafficLightInterval = e.sim.trafficLightInterval
            ∧ (setSpawnRate r e).sim.congestionUpdateInterval = e.sim.congestionUpdateInterval)
      ∧ (e.sim.isRunning = false →
          setSpawnRate r e = { e with sim := { e.sim with spawnRate := r } })
      ∧ (Engine.after calls).Tidy
      ∧ (e.Tidy →
          (e.sim.spawnRate = 0 → startVehicleSpawning e = e)
            ∧ (e.sim.spawnRate = 0 → e.sim.isRunning = false →
                (∀ t ∈ (resume e).timers, t.task ≠ .vehicleSpawn)
                  ∧ ∀ loaded, ∀ t ∈ (start loaded e).timers, t.task ≠ .vehicleSpawn)
            ∧ (e.sim.isRunning = true →
                ∀ t ∈ (setSpawnRate 0 e).timers, t.task ≠ .vehicleSpawn)
            ∧ (e.sim.isRunning = true →
                (setSpawnRate r e).timers.filter (fun t => decide (t.task ≠ .vehicleSpawn))
                    = e.timers.filter (fun t => decide (t.task ≠ .vehicleSpawn))
                  ∧ (setSpawnRate r e).timers.filter (fun t => decide (t.task = .vehicleSpawn))
                    = (if r = 0 then []
                       else [{ handle := e.nextHandle, task := .vehicleSpawn,
                               interval := floorQuot 60000 (r * e.sim.speed) }])
                  ∧ (setSpawnRate r e).sim.isRunning = true
                  ∧ (setSpawnRate r e).sim.speed = e.sim.speed
                  ∧ (setSpawnRate r e).sim.spawnRate = r
                  ∧ (setSpawnRate r e).sim.vehicleCounter = e.sim.vehicleCounter
                  ∧ (setSpawnRate r e).sim.transactionCount = e.sim.transactionCount
                  ∧ (setSpawnRate r e).sim.vehicleMoveInterval = e.sim.vehicleMoveInterval
                  ∧ (setSpawnRate r e).sim.trafficLightInterval = e.sim.trafficLightInterval
                  ∧ (setSpawnRate r e).sim.congestionUpdateInterval = e.sim.congestionUpdateInterval)
            ∧ (e.sim.isRunning = false →
                setSpawnRate r e = { e with sim := { e.sim with spawnRate := r } })) := by
  refine ⟨?_, ?_, ?_, launched_zero_no_spawn, ?_, ?_, tidy_after calls,
    spawn_rate_of_tidy e r⟩
  · intro hz
    simp [startVehicleSpawning, hz]
  · intro hz hrun
    rw [resume_of_not_running e hrun, hz]
  · intro hz loaded
    simp only [startFinish]
    rw [launch_eq]
    cases loaded <;> simp [loadState, hz]
  · intro hrun
    rw [setSpawnRate_of_running r e hrun]
    by_cases hz : r = 0
    · rw [if_pos hz, if_pos hz]
      exact ⟨by simp, hrun, rfl, rfl, rfl, rfl, rfl, rfl, rfl⟩
    · rw [if_neg hz, if_neg hz]
      exact ⟨rfl, hrun, rfl, rfl, rfl, rfl, rfl, rfl, rfl⟩
  · intro hrun
    simp [setSpawnRate, hrun]

/-- C18 as amended, at a simulation resumed from construction: it is tidy,
and after `setSpawnRate(0)` no spawn timer is live. -/
theorem C18_spawn_rate_witness :
    (resume Engine.new).Tidy
      ∧ ∀ t ∈ (setSpawnRate 0 (resume Engine.new)).timers, t.task ≠ .vehicleSpawn :=
  ⟨tidy_resume _ tidy_new,
    ((C18_spawn_rate (resume Engine.new) 0 []).2.2.2.2.2.2.2
      (tidy_resume _ tidy_new)).2.2.1 (by decide)⟩

/-! ## The connection cache -/

theorem includesChars_iff (sub l : List Char) :
    includesChars sub l = true ↔ ∃ a b, l = a ++ sub ++ b := by
  induction l with
  | nil =>
    simp only [includesChars, List.isEmpty_iff]
    constructor
    · intro h; exact ⟨[], [], by simp [h]⟩
    · rintro ⟨a, b, h⟩
      have := congrArg List.length h
      simp only [List.length_nil, List.length_append] at this
      exact List.length_eq_zero.1 (by omega)
  | cons c cs ih =>
    simp only [includesChars, Bool.or_eq_true, ih, List.isPrefixOf_iff_prefix]
    constructor
    · rintro (⟨b, hb⟩ | ⟨a, b, hb⟩)
      · exact ⟨[], b, by simpa using hb.symm⟩
      · exact ⟨c :: a, b, by simp [hb]⟩
    · rintro ⟨a, b, h⟩
      cases a with
      | nil => exact Or.inl ⟨b, by simpa using h.symm⟩
      | cons x a =>
        simp only [List.cons_append, List.cons.injEq] at h
        exact Or.inr ⟨a, b, h.2⟩

theorem withFabricConn_retry_succeeds :
    runRetrySucceeds.calls = [⟨0⟩, ⟨1⟩]
      ∧ runRetrySucceeds.result = .ok 7
      ∧ runRetrySucceeds.state.fabricConn = some ⟨1⟩
      ∧ runRetrySucceeds.state.disconnected = [⟨0⟩] := by
  decide

/-- C11 fails as stated: when the connection cannot be re-established the
retry ends before `fn` is run.  First run: nothing is cached and both calls
of `connectToNetwork` fail with a transient error; `fn` is never invoked.
Second run: connection 0 is cached, `fn` fails on it with a transient error,
the connection is discarded and the reconnect fails; `fn` was invoked once
and the caller gets the failure of the reconnect. -/
theorem C11_counterexample_reconnect_fails :
    transient connectDown = true
      ∧ runNetworkDown.calls = []
      ∧ runNetworkDown.result = .error connectDown
      ∧ runNetworkDown.state.connects = 2
      ∧ transient peerUnavailable = true
      ∧ runReconnectFails.calls = [⟨0⟩]
      ∧ runReconnectFails.result = .error connectDown
      ∧ runReconnectFails.state.disconnected = [⟨0⟩] := by
  decide

theorem transient_iff (err : Thrown) :
    transient err = true ↔
      ∃ k ∈ ["Failed to connect", "UNAVAILABLE", "deadline", "timeout", "connectFailed"],
        ∃ a b, err.text.data = a ++ String.data k ++ b := by
  simp only [transient, includes, Bool.or_eq_true, includesChars_iff, List.mem_cons,
    List.mem_singleton, List.not_mem_nil, or_false, exists_eq_or_imp, exists_eq_left, or_assoc]

theorem getFabricConn_disconnected (connect : Nat → Except Thrown Conn) (s : ConnState) :
    (getFabricConn connect s).1.disconnected = s.disconnected := by
  unfold getFabricConn
  cases s.fabricConn with
  | some c => rfl
  | none =>
    cases s.fabricConnPromise with
    | some p => cases p <;> rfl
    | none => simp only []; cases connect s.connects <;> rfl

theorem attempt_calls {α : Type} (connect : Nat → Except Thrown Conn)
    (fn : Nat → Conn → Except Thrown α) (calls : List Conn) (s : ConnState) :
    (attempt connect fn calls s).calls.length ≤ calls.length + 1 := by
  unfold attempt
  split <;> simp

theorem attempt_after_reset {α : Type} (connect : Nat → Except Thrown Conn)
    (fn : Nat → Conn → Except Thrown α) (calls : List Conn) (s : ConnState) :
    attempt connect fn calls (_resetFabricConn s)
      = match connect s.connects with
        | .ok c =>
          { state := { _resetFabricConn s with
                        fabricConn := some c, fabricConnPromise := some (.ok c),
                        connects := s.connects + 1 },
            calls := calls ++ [c], result := fn calls.length c }
        | .error e =>
          { state := { _resetFabricConn s with connects := s.connects + 1 },
            calls := calls, result := .error e } := by
  simp only [attempt, getFabricConn, _resetFabricConn]
  cases connect s.connects <;> rfl

/-- C11, amended: when the first attempt (obtaining the connection or
running `fn`) fails with an error classified as transient, the cached
connection is disconnected and forgotten and `connectToNetwork` is called
once more; if that call gives a connection, `fn` is run exactly once more,
on that connection, and its result or failure is what the caller gets; if
it fails, `fn` is not run again and the caller gets the failure of the
connect.  A first failure that is not transient is what the caller gets, with
no retry; a first success is returned.  `fn` is invoked at most twice.  An
error is transient when its text contains one of the five markers. -/
theorem C11_retry_once {α : Type} (connect : Nat → Except Thrown Conn)
    (fn : Nat → Conn → Except Thrown α) (s : ConnState) :
    (∀ v, (attempt connect fn [] s).result = .ok v →
        withFabricConn connect fn s = attempt connect fn [] s)
      ∧ (∀ err, (attempt connect fn [] s).result = .error err → transient err = false →
          withFabricConn connect fn s = attempt connect fn [] s)
      ∧ (∀ err, (attempt connect fn [] s).result = .error err → transient err = true →
          (∀ c, (attempt connect fn [] s).state.fabricConn = some c →
              c ∈ (withFabricConn connect fn s).state.disconnected)
            ∧ (withFabricConn connect fn s).state.connects
                = (attempt connect fn [] s).state.connects + 1
            ∧ (∀ c, connect (attempt connect fn [] s).state.connects = .ok c →
                (withFabricConn connect fn s).calls = (attempt connect fn [] s).calls ++ [c]
                  ∧ (withFabricConn connect fn s).result
                      = fn (attempt connect fn [] s).calls.length c
                  ∧ (withFabricConn connect fn s).state.fabricConn = some c)
            ∧ (∀ e, connect (attempt connect fn [] s).state.connects = .error e →
                (withFabricConn connect fn s).calls = (attempt connect fn [] s).calls
                  ∧ (withFabricConn connect fn s).result = .error e
                  ∧ (withFabricConn connect fn s).state.fabricConn = none))
      ∧ (attempt connect fn [] s).calls.length ≤ 1
      ∧ (withFabricConn connect fn s).calls.length ≤ 2
      ∧ (∀ err, transient err = true ↔
          ∃ k ∈ ["Failed to connect", "UNAVAILABLE", "deadline", "timeout", "connectFailed"],
            ∃ a b, err.text.data = a ++ String.data k ++ b) := by
  have h1 := attempt_calls connect fn [] s
  simp only [List.length_nil, Nat.zero_add] at h1
  refine ⟨?_, ?_, ?_, h1, ?_, transient_iff⟩
  · intro v hv
    simp only [withFabricConn, hv]
    rw [← hv]
  · intro err he ht
    simp only [withFabricConn, he, ht, Bool.false_eq_true, if_false]
    rw [← he]
  · intro err he ht
    have hw : withFabricConn connect fn s
        = attempt connect fn (attempt connect fn [] s).calls
            (_resetFabricConn (attempt connect fn [] s).state) := by
      simp only [withFabricConn, he, ht, if_true]
    rw [hw, attempt_after_reset]
    refine ⟨?_, ?_, ?_, ?_⟩
    · intro c hc
      cases connect (attempt connect fn [] s).state.connects <;>
        simp [_resetFabricConn, hc]
    · cases connect (attempt connect fn [] s).state.connects <;> rfl
    · intro c hc
      rw [hc]
      exact ⟨rfl, rfl, rfl⟩
    · intro e hc
      rw [hc]
      exact ⟨rfl, rfl, rfl⟩
  · unfold withFabricConn
    simp only []
    split
    · exact Nat.le_succ_of_le h1
    · split
      · have := attempt_calls connect fn (attempt connect fn [] s).calls
          (_resetFabricConn (attempt connect fn [] s).state)
        omega
      · exact Nat.le_succ_of_le h1

/-! ## The security-alert route -/

theorem reportSecurityAlert_ok (parseFloat : String → JVal) (ctx : Ctx) (w : World)
    (id source dataset scenario windowMinutes entityType entityId score severity
      justification : String) (keyFeaturesJSON : Buffer) (w' : World) (payload : Buffer)
    (h : ReportSecurityAlert parseFloat ctx w id source dataset scenario windowMinutes
      entityType entityId score severity justification keyFeaturesJSON = .ok (w', payload)) :
    w' = putState w id payload
      ∧ payload.field "assetType" = some (.str "securityAlert")
      ∧ payload.field "entityType" = some (.str (strOr entityType "host"))
      ∧ payload.field "entityId" = some (.str (strOr entityId ""))
      ∧ payload.field "severity" = some (.str (strOr severity "medium")) := by
  unfold ReportSecurityAlert at h
  simp only [] at h
  split at h
  · exact absurd h (by simp)
  · simp only [Except.ok.injEq, Prod.mk.injEq] at h
    obtain ⟨hw, hp⟩ := h
    subst hp
    refine ⟨hw.symm, ?_, ?_, ?_, ?_⟩ <;> rfl

theorem stringOrEmpty_of_truthy (v : JVal) (h : truthy (some v) = true) :
    stringOrEmpty v = submitArg (some v) := by
  cases v <;> simp_all [stringOrEmpty, submitArg, truthy]

theorem submitArg_of_falsy (v : JVal) (h : truthy (some v) = false) :
    stringOrEmpty v = ""
      ∧ (submitArg (some v) = "" ∨ submitArg (some v) = "0" ∨ submitArg (some v) = "false") := by
  cases v with
  | null => simp [stringOrEmpty, submitArg, truthy]
  | bool b =>
    have hb : b = false := by simpa [truthy] using h
    subst hb
    simp [stringOrEmpty, submitArg, truthy, jsString]
  | num n =>
    have hn : n = 0 := by simpa [truthy] using h
    subst hn
    refine ⟨by simp [stringOrEmpty, truthy], Or.inr (Or.inl ?_)⟩
    decide
  | str s =>
    have hs : s = "" := by simpa [truthy] using h
    subst hs
    simp [stringOrEmpty, submitArg, truthy, jsString]
  | arr _ => simp [truthy] at h
  | obj _ => simp [truthy] at h

theorem severity_recorded (v : JVal) :
    (toLowerCase (stringOrEmpty v) = "high" ∨ toLowerCase (stringOrEmpty v) = "critical")
      ↔ (toLowerCase (strOr (submitArg (some v)) "medium") = "high"
          ∨ toLowerCase (strOr (submitArg (some v)) "medium") = "critical") := by
  cases ht : truthy (some v)
  · obtain ⟨h0, h1⟩ := submitArg_of_falsy v ht
    rw [h0]
    rcases h1 with h1 | h1 | h1 <;> rw [h1] <;> decide
  · rw [stringOrEmpty_of_truthy v ht]
    by_cases he : submitArg (some v) = ""
    · rw [he]; decide
    · simp [strOr, he]

theorem entityType_submitted (v : JVal) :
    stringOrEmpty v = "host" ↔ submitArg (some v) = "host" := by
  cases ht : truthy (some v)
  · obtain ⟨h0, h1⟩ := submitArg_of_falsy v ht
    rw [h0]
    rcases h1 with h1 | h1 | h1 <;> rw [h1] <;> decide
  · rw [stringOrEmpty_of_truthy v ht]

theorem postSecurityAlert_ok (parseFloat : String → JVal) (ctx : Ctx)
    (conn : Except Thrown Conn) (w : World) (body : Obj) (payload : Buffer) (m : Mitigation)
    (h : (postSecurityAlert parseFloat ctx conn w body).response = .ok payload m) :
    truthy (some (withDefault body "entityId" (.str ""))) = true
      ∧ (postSecurityAlert parseFloat ctx conn w body).world
          = putState w (submitArg (getProp body "id")) payload
      ∧ payload.field "entityType"
          = some (.str (strOr (submitArg (some (withDefault body "entityType" (.str "host"))))
              "host"))
      ∧ payload.field "entityId"
          = some (.str (strOr (submitArg (some (withDefault body "entityId" (.str "")))) ""))
      ∧ payload.field "severity"
          = some (.str (strOr (submitArg (some (withDefault body "severity" (.str "medium"))))
              "medium"))
      ∧ (m, (postSecurityAlert parseFloat ctx conn w body).check)
          = (if (toLowerCase (stringOrEmpty (withDefault body "severity" (.str "medium"))) = "high"
                  ∨ toLowerCase (stringOrEmpty (withDefault body "severity" (.str "medium")))
                      = "critical")
                ∧ stringOrEmpty (withDefault body "entityType" (.str "host")) = "host" then
              ({ scheduled := true,
                 vehicleId := some ("V_" ++ replaceDots
                   (stringOrEmpty (withDefault body "entityId" (.str "")))),
                 status := "pending", reason := none },
               some ("V_" ++ replaceDots (stringOrEmpty (withDefault body "entityId" (.str "")))))
            else
              ({ scheduled := false, vehicleId := none, status := "none", reason := none },
               none)) := by
  unfold postSecurityAlert at h ⊢
  simp only [] at h ⊢
  split at h
  · exact absurd h (by simp)
  · split at h
    · exact absurd h (by simp)
    · rename_i hid heid
      rw [if_neg hid, if_neg heid]
      split at h
      · exact absurd h (by simp)
      · split at h
        · exact absurd h (by simp)
        · rename_i w' payload' hrep
          obtain ⟨hw, _, h2, h3, h4⟩ := reportSecurityAlert_ok _ _ _ _ _ _ _ _ _ _ _ _ _ _ _ _ hrep
          have he : truthy (some (withDefault body "entityId" (.str ""))) = true := by
            simpa using heid
          split at h
          · rename_i hc
            rw [if_pos hc, if_pos hc]
            simp only [Response.ok.injEq] at h
            obtain ⟨hp, hm⟩ := h
            subst hp hm
            exact ⟨he, hw, h2, h3, h4, rfl⟩
          · rename_i hc
            rw [if_neg hc, if_neg hc]
            simp only [Response.ok.injEq] at h
            obtain ⟨hp, hm⟩ := h
            subst hp hm
            exact ⟨he, hw, h2, h3, h4, rfl⟩

theorem strOr_empty (s : String) : strOr s "" = s := by
  unfold strOr
  split
  · rename_i h; exact h.symm
  · rfl

/-- C12 fails as stated.  A request with severity `critical` and an empty
`entityType` is recorded by the contract as an alert of severity `critical`
and entity type `host`, and no mitigation is scheduled for it.  A request
with severity `HIGH` is recorded with severity `HIGH`, which is neither
`high` nor `critical`, and mitigation is scheduled for it. -/
theorem C12_counterexample_empty_entity_type :
    (alertOnEmpty (.str "critical") (.str "")).response.parts.map
        (fun p => (p.1.field "severity", p.1.field "entityType", p.2))
      = some (some (.str "critical"), some (.str "host"),
          { scheduled := false, vehicleId := none, status := "none", reason := none })
    ∧ (alertOnEmpty (.str "HIGH") (.str "host")).response.parts.map
        (fun p => (p.1.field "severity", p.1.field "entityType", p.2))
      = some (some (.str "HIGH"), some (.str "host"),
          { scheduled := true, vehicleId := some "V_10_0_0_5", status := "pending",
            reason := none }) := by
  decide

/-- C12, amended: when a security alert is recorded (the route answers with
status 200), the record is stored under the alert id and mitigation is
scheduled if and only if the recorded severity, with its letters in lower
case, is `high` or `critical` and the entity type submitted to the contract
is `host`.  The submitted entity type is `host` when the request has none,
and it is what the contract records unless it is the empty string (which the
contract records as `host`).  When scheduled, the mitigation is
`scheduled: true, vehicleId, status: 'pending'` and the check is handed that
vehicle id, which is `V_` followed by the recorded entity id with every dot
replaced by an underscore; otherwise it is `scheduled: false, vehicleId:
null, status: 'none'` and no check is handed over. -/
theorem C12_mitigation_scheduling (parseFloat : String → JVal) (ctx : Ctx)
    (conn : Except Thrown Conn) (w : World) (body : Obj) (payload : Buffer) (m : Mitigation)
    (h : (postSecurityAlert parseFloat ctx conn w body).response = .ok payload m) :
    getState (postSecurityAlert parseFloat ctx conn w body).world (submitArg (getProp body "id"))
        = some payload
      ∧ ∃ severity entityType entityId : String,
          payload.field "severity" = some (.str severity)
            ∧ entityType = submitArg (some (withDefault body "entityType" (.str "host")))
            ∧ payload.field "entityType" = some (.str (strOr entityType "host"))
            ∧ (getProp body "entityType" = none → entityType = "host")
            ∧ (entityType ≠ "" → strOr entityType "host" = entityType)
            ∧ payload.field "entityId" = some (.str entityId)
            ∧ (m.scheduled = true ↔
                (toLowerCase severity = "high" ∨ toLowerCase severity = "critical")
                  ∧ entityType = "host")
            ∧ (m.scheduled = true →
                m = { scheduled := true, vehicleId := some ("V_" ++ replaceDots entityId),
                      status := "pending", reason := none }
                  ∧ (postSecurityAlert parseFloat ctx conn w body).check
                      = some ("V_" ++ replaceDots entityId))
            ∧ (m.scheduled = false →
                m = { scheduled := false, vehicleId := none, status := "none", reason := none }
                  ∧ (postSecurityAlert parseFloat ctx conn w body).check = none)
            ∧ "V_" ++ replaceDots "10.0.0.5" = "V_10_0_0_5" := by
  obtain ⟨he, hw, h2, h3, h4, hm⟩ := postSecurityAlert_ok parseFloat ctx conn w body payload m h
  refine ⟨by rw [hw, getState_putState_same], _, _, _, h4, rfl, h2, ?_, ?_, h3, ?_, ?_, ?_,
    by decide⟩
  · intro hnone
    simp only [withDefault, hnone, Option.getD_none]
    rfl
  · intro hne
    simp [strOr, hne]
  · rw [← severity_recorded, ← entityType_submitted]
    split at hm
    · rename_i hc
      have := (Prod.mk.inj hm).1
      subst this
      simpa using hc
    · rename_i hc
      have := (Prod.mk.inj hm).1
      subst this
      simpa using hc
  · intro hs
    rw [strOr_empty, ← stringOrEmpty_of_truthy _ he]
    split at hm
    · exact ⟨(Prod.mk.inj hm).1, (Prod.mk.inj hm).2⟩
    · have := (Prod.mk.inj hm).1
      subst this
      simp at hs
  · intro hs
    split at hm
    · have := (Prod.mk.inj hm).1
      subst this
      simp at hs
    · exact ⟨(Prod.mk.inj hm).1, (Prod.mk.inj hm).2⟩

/-- C12, at a request with severity `critical` and entity type `host` for
host `10.0.0.5` on an empty store: the route answers with status 200, and
the mitigation is scheduled for `V_10_0_0_5`. -/
theorem C12_mitigation_scheduling_witness :
    ∃ payload m,
      (alertOnEmpty (.str "critical") (.str "host")).response = .ok payload m
        ∧ m.scheduled = true
        ∧ (alertOnEmpty (.str "critical") (.str "host")).check = some "V_10_0_0_5" := by
  have hr : (alertOnEmpty (.str "critical") (.str "host")).response.parts.isSome = true := by
    decide
  cases hresp : (alertOnEmpty (.str "critical") (.str "host")).response with
  | ok payload m =>
    have h := C12_mitigation_scheduling (fun _ => .num 0) ctxA (.ok ⟨0⟩) []
      (alertBody (.str "critical") (.str "host")) payload m hresp
    refine ⟨payload, m, rfl, ?_, by decide⟩
    obtain ⟨_, severity, entityType, entityId, hsev, hty, _, _, _, _, hiff, _⟩ := h
    rw [hiff]
    have h1 : payload.field "severity" = some (.str "critical") := by
      have : (alertOnEmpty (.str "critical") (.str "host")).response.parts.map
          (fun p => p.1.field "severity") = some (some (.str "critical")) := by decide
      rw [hresp] at this
      simpa [Response.parts] using this
    rw [h1] at hsev
    have hs : severity = "critical" := by
      simpa using hsev.symm
    subst hs
    subst hty
    exact ⟨Or.inr (by decide), by decide⟩
  | badRequest _ => rw [hresp] at hr; simp [Response.parts] at hr
  | connectionFailed _ => rw [hresp] at hr; simp [Response.parts] at hr
  | transactionFailed _ => rw [hresp] at hr; simp [Response.parts] at hr

/-! ## What a transaction writes -/

theorem getState_deleteState_ne (w : World) (id k : String) (h : k ≠ id) :
    getState (deleteState w id) k = getState w k := by
  unfold deleteState
  induction w with
  | nil => rfl
  | cons kv rest ih =>
    obtain ⟨k', v'⟩ := kv
    by_cases hk : k' = id
    · have hne : k' ≠ k := by rw [hk]; exact Ne.symm h
      rw [List.filter_cons_of_neg (by simpa using hk), ih]
      simp [getState, hne]
    · rw [List.filter_cons_of_pos (by simpa using hk)]
      by_cases hkk : k' = k
      · simp [getState, hkk]
      · simp only [getState, hkk, if_false]
        exact ih

theorem writeAll_obj (fields : Obj) (writes : List (String × JVal)) :
    writeAll (.obj fields) writes = .ok (.obj (assignAll fields writes)) := by
  induction writes generalizing fields with
  | nil => rfl
  | cons kv rest ih =>
    obtain ⟨k, x⟩ := kv
    simp only [writeAll, writeProp, Except.bind, assignAll, List.foldl_cons]
    exact ih _

theorem getProp_assignAll_of_not_mem (fields : Obj) (writes : List (String × JVal))
    (f : String) (h : f ∉ writes.map Prod.fst) :
    getProp (assignAll fields writes) f = getProp fields f := by
  induction writes generalizing fields with
  | nil => rfl
  | cons kv rest ih =>
    obtain ⟨k, x⟩ := kv
    simp only [List.map_cons, List.mem_cons, not_or] at h
    simp only [assignAll, List.foldl_cons]
    have := ih (setProp fields k x) h.2
    simp only [assignAll] at this
    rw [this, getProp_setProp_ne _ _ _ _ h.1]

theorem writeAllThen_eq (v : JVal) (writes : List (String × JVal)) (rest : JVal → Outcome) :
    writeAllThen v writes rest = (writeAll v writes).bind rest := by
  induction writes generalizing v with
  | nil => rfl
  | cons kv more ih =>
    obtain ⟨k, x⟩ := kv
    simp only [writeAllThen, writeAll]
    cases writeProp v k x with
    | error e => rfl
    | ok v1 => exact ih v1

theorem exec_plainUpdate (parseFloat : String → JVal) (ctx : Ctx) (w : World) (op : Op)
    (h : op.isPlainUpdate = true) :
    ∃ notFound, op.exec parseFloat ctx w
      = updateRecord notFound w op.target (op.writes parseFloat ctx) := by
  cases op <;> first | exact ⟨_, rfl⟩ | simp [Op.isPlainUpdate] at h

theorem updateRecord_other (notFound : String) (w : World) (id k : String)
    (writes : List (String × JVal)) (hk : k ≠ id) :
    getState (commit w (updateRecord notFound w id writes)) k = getState w k := by
  unfold updateRecord
  split
  · rfl
  · simp only [writeAllThen_eq]
    cases jsonParse (getState w id) with
    | error e => rfl
    | ok v =>
      cases hw : writeAll v writes with
      | error e => simp [Except.bind, hw, commit]
      | ok v1 => simp [Except.bind, hw, commit, getState_putState_ne _ _ _ _ hk]

theorem updateRecord_obj (notFound : String) (w : World) (id : String)
    (writes : List (String × JVal)) (fields : Obj)
    (h : getState w id = some (.json (.obj fields))) :
    updateRecord notFound w id writes
      = .ok (putState w id (.json (.obj (assignAll fields writes))),
             .json (.obj (assignAll fields writes))) := by
  unfold updateRecord
  simp [writeAllThen_eq, h, hasBytes, jsonParse, writeAll_obj, Except.bind]

theorem checkSpeedViolation_shape (w : World) (vehicleId roadId : String)
    (vehicleSpeed : Option Int) (ctx : Ctx) :
    (∃ e, _checkSpeedViolation w vehicleId roadId vehicleSpeed (_getTxTimestamp ctx) = .error e)
      ∨ _checkSpeedViolation w vehicleId roadId vehicleSpeed (_getTxTimestamp ctx) = .ok w
      ∨ ∃ fields, _checkSpeedViolation w vehicleId roadId vehicleSpeed (_getTxTimestamp ctx)
          = .ok (putState w (violationKey ctx vehicleId) (.json (.obj fields))) := by
  unfold _checkSpeedViolation
  simp only []
  split
  · exact Or.inr (Or.inl rfl)
  · cases jsonParse (getState w roadId) with
    | error e => exact Or.inl ⟨e, rfl⟩
    | ok road =>
      cases hm : readProp road "maxSpeed" with
      | error e => exact Or.inl ⟨e, by simp [bind, Except.bind, hm]⟩
      | ok maxSpeed =>
        by_cases hg : numGt vehicleSpeed (toNumber maxSpeed) = true
        · cases hn : readProp road "name" with
          | error e => exact Or.inl ⟨e, by simp [bind, Except.bind, hm, hg, hn]⟩
          | ok name =>
            refine Or.inr (Or.inr ?_)
            simp only [bind, Except.bind, hm, hg, hn, if_true]
            exact ⟨_, rfl⟩
        · exact Or.inr (Or.inl (by simp [bind, Except.bind, hm, hg]))

theorem updateVehiclePosition_shape (ctx : Ctx) (w : World)
    (id newRoad newIntersection newSpeed newDirection : String) :
    UpdateVehiclePosition ctx w id newRoad newIntersection newSpeed newDirection
      = if hasBytes (getState w id) = false then
          .error (.error ("Vehicle " ++ id ++ " does not exist"))
        else
          (jsonParse (getState w id)).bind fun v =>
            (writeAll v (Op.writes (fun _ => .null) ctx
                (.updateVehiclePosition id newRoad newIntersection newSpeed newDirection))).bind
              fun v =>
                (_checkSpeedViolation w id newRoad (parseInt newSpeed none)
                    (_getTxTimestamp ctx)).bind
                  fun w1 => .ok (putState w1 id (.json v), .json v) := by
  simp only [← writeAllThen_eq]
  rfl

theorem exec_other_key (parseFloat : String → JVal) (ctx : Ctx) (w : World) (op : Op)
    (k : String) (hk : k ∉ op.keys ctx) :
    getState (commit w (op.exec parseFloat ctx w)) k = getState w k := by
  by_cases hp : op.isPlainUpdate = true
  · obtain ⟨m, hm⟩ := exec_plainUpdate parseFloat ctx w op hp
    rw [hm]
    apply updateRecord_other
    cases op <;> first | simpa [Op.keys, Op.target] using hk | simp [Op.isPlainUpdate] at hp
  · cases op with
    | createVehicle id _ _ _ _ _ =>
      have hne : k ≠ id := by simpa [Op.keys, Op.target] using hk
      simp only [Op.exec, CreateVehicle]
      split
      · rfl
      · simp [commit, getState_putState_ne _ _ _ _ hne]
    | createRoad id _ _ _ _ _ _ =>
      have hne : k ≠ id := by simpa [Op.keys, Op.target] using hk
      simp only [Op.exec, CreateRoad]
      split
      · rfl
      · simp [commit, getState_putState_ne _ _ _ _ hne]
    | createIntersection id _ _ _ roads =>
      have hne : k ≠ id := by simpa [Op.keys, Op.target] using hk
      simp only [Op.exec, CreateIntersection]
      split
      · rfl
      · cases jsonParse (some roads) with
        | error e => rfl
        | ok v => simp [bind, Except.bind, commit, getState_putState_ne _ _ _ _ hne]
    | reportIncident id _ _ _ _ _ =>
      have hne : k ≠ id := by simpa [Op.keys, Op.target] using hk
      simp only [Op.exec, ReportIncident]
      split
      · rfl
      · simp [commit, getState_putState_ne _ _ _ _ hne]
    | reportSecurityAlert id _ _ _ _ _ _ _ _ _ _ =>
      have hne : k ≠ id := by simpa [Op.keys, Op.target] using hk
      simp only [Op.exec, ReportSecurityAlert]
      split
      · rfl
      · simp [commit, getState_putState_ne _ _ _ _ hne]
    | readVehicle id =>
      simp only [Op.exec, ReadVehicle]
      split <;> rfl
    | readRoad id =>
      simp only [Op.exec, ReadRoad]
      split <;> rfl
    | readIntersection id =>
      simp only [Op.exec, ReadIntersection]
      split <;> rfl
    | deleteVehicle id =>
      have hne : k ≠ id := by simpa [Op.keys, Op.target] using hk
      simp only [Op.exec, DeleteVehicle]
      split
      · rfl
      · simp [commit, getState_deleteState_ne _ _ _ hne]
    | deleteRoad id =>
      have hne : k ≠ id := by simpa [Op.keys, Op.target] using hk
      simp only [Op.exec, DeleteRoad]
      split
      · rfl
      · simp [commit, getState_deleteState_ne _ _ _ hne]
    | deleteIntersection id =>
      have hne : k ≠ id := by simpa [Op.keys, Op.target] using hk
      simp only [Op.exec, DeleteIntersection]
      split
      · rfl
      · simp [commit, getState_deleteState_ne _ _ _ hne]
    | updateVehiclePosition id newRoad newIntersection newSpeed newDirection =>
      have hne : k ≠ id ∧ k ≠ violationKey ctx id := by simpa [Op.keys] using hk
      simp only [Op.exec]
      rw [updateVehiclePosition_shape]
      split
      · rfl
      · cases jsonParse (getState w id) with
        | error e => rfl
        | ok v =>
          cases hw : writeAll v (Op.writes (fun _ => .null) ctx
              (.updateVehiclePosition id newRoad newIntersection newSpeed newDirection)) with
          | error e => simp [Except.bind, hw, commit]
          | ok v1 =>
            rcases checkSpeedViolation_shape w id newRoad (parseInt newSpeed none) ctx with
              ⟨e, hc⟩ | hc | ⟨b, hc⟩
            · simp [Except.bind, hw, hc, commit]
            · simp [Except.bind, hw, hc, commit, getState_putState_ne _ _ _ _ hne.1]
            · simp [Except.bind, hw, hc, commit, getState_putState_ne _ _ _ _ hne.1,
                getState_putState_ne _ _ _ _ hne.2]
    | updateVehicleStatus _ _ => simp [Op.isPlainUpdate] at hp
    | updateRoadStatus _ _ => simp [Op.isPlainUpdate] at hp
    | updateRoadProperties _ _ _ _ => simp [Op.isPlainUpdate] at hp
    | updateRoadCongestion _ _ => simp [Op.isPlainUpdate] at hp
    | updateTrafficLight _ _ => simp [Op.isPlainUpdate] at hp
    | updateIntersectionLocation _ _ _ => simp [Op.isPlainUpdate] at hp
    | updateIntersectionDensity _ _ => simp [Op.isPlainUpdate] at hp
    | resolveIncident _ => simp [Op.isPlainUpdate] at hp
    | resolveSecurityAlert _ => simp [Op.isPlainUpdate] at hp

theorem exec_target_obj (parseFloat : String → JVal) (ctx : Ctx) (w : World) (op : Op)
    (fields : Obj) (h : getState w op.target = some (.json (.obj fields)))
    (hrm : op.removes = false) :
    ∃ fields', getState (commit w (op.exec parseFloat ctx w)) op.target
          = some (.json (.obj fields'))
      ∧ (fields' = fields ∨ fields' = assignAll fields (op.writes parseFloat ctx))
      ∧ (op.isPlainUpdate = true → fields' = assignAll fields (op.writes parseFloat ctx)) := by
  by_cases hp : op.isPlainUpdate = true
  · obtain ⟨m, hm⟩ := exec_plainUpdate parseFloat ctx w op hp
    rw [hm, updateRecord_obj m w op.target _ fields h]
    exact ⟨_, getState_putState_same _ _ _, Or.inr rfl, fun _ => rfl⟩
  · have same : ∀ out : Outcome, commit w out = w →
        ∃ fields', getState (commit w out) op.target = some (.json (.obj fields'))
          ∧ (fields' = fields ∨ fields' = assignAll fields (op.writes parseFloat ctx))
          ∧ (op.isPlainUpdate = true → fields' = assignAll fields (op.writes parseFloat ctx)) :=
      fun out ho => ⟨fields, by rw [ho, h], Or.inl rfl, fun hh => absurd hh hp⟩
    cases op with
    | createVehicle id _ _ _ _ _ =>
      apply same
      have he : _assetExists w id = true := by
        simp only [Op.target] at h; simp [_assetExists, h, hasBytes]
      simp [Op.exec, CreateVehicle, he, commit]
    | createRoad id _ _ _ _ _ _ =>
      apply same
      have he : _assetExists w id = true := by
        simp only [Op.target] at h; simp [_assetExists, h, hasBytes]
      simp [Op.exec, CreateRoad, he, commit]
    | createIntersection id _ _ _ roads =>
      apply same
      have he : _assetExists w id = true := by
        simp only [Op.target] at h; simp [_assetExists, h, hasBytes]
      simp [Op.exec, CreateIntersection, he, commit]
    | reportIncident id _ _ _ _ _ =>
      apply same
      have he : _assetExists w id = true := by
        simp only [Op.target] at h; simp [_assetExists, h, hasBytes]
      simp [Op.exec, ReportIncident, he, commit]
    | reportSecurityAlert id _ _ _ _ _ _ _ _ _ _ =>
      apply same
      have he : _assetExists w id = true := by
        simp only [Op.target] at h; simp [_assetExists, h, hasBytes]
      simp [Op.exec, ReportSecurityAlert, he, commit]
    | readVehicle id =>
      apply same
      simp only [Op.exec, ReadVehicle]
      split <;> rfl
    | readRoad id =>
      apply same
      simp only [Op.exec, ReadRoad]
      split <;> rfl
    | readIntersection id =>
      apply same
      simp only [Op.exec, ReadIntersection]
      split <;> rfl
    | deleteVehicle id => simp [Op.removes] at hrm
    | deleteRoad id => simp [Op.removes] at hrm
    | deleteIntersection id => simp [Op.removes] at hrm
    | updateVehiclePosition id newRoad newIntersection newSpeed newDirection =>
      simp only [Op.target] at h
      have hw : writeAll (.obj fields) (Op.writes (fun _ => .null) ctx
            (.updateVehiclePosition id newRoad newIntersection newSpeed newDirection))
          = .ok (.obj (assignAll fields (Op.writes parseFloat ctx
            (.updateVehiclePosition id newRoad newIntersection newSpeed newDirection)))) :=
        writeAll_obj _ _
      simp only [Op.exec, Op.target]
      rw [updateVehiclePosition_shape]
      simp only [h, hasBytes, jsonParse, Except.bind, hw]
      rcases checkSpeedViolation_shape w id newRoad (parseInt newSpeed none) ctx with
        ⟨e, hc⟩ | hc | ⟨b, hc⟩
      · refine ⟨fields, ?_, Or.inl rfl, fun hh => absurd hh hp⟩
        simp [hc, commit, h]
      · refine ⟨_, ?_, Or.inr rfl, fun _ => rfl⟩
        simp [hc, commit, getState_putState_same]
      · refine ⟨_, ?_, Or.inr rfl, fun _ => rfl⟩
        simp [hc, commit, getState_putState_same]
    | updateVehicleStatus _ _ => simp [Op.isPlainUpdate] at hp
    | updateRoadStatus _ _ => simp [Op.isPlainUpdate] at hp
    | updateRoadProperties _ _ _ _ => simp [Op.isPlainUpdate] at hp
    | updateRoadCongestion _ _ => simp [Op.isPlainUpdate] at hp
    | updateTrafficLight _ _ => simp [Op.isPlainUpdate] at hp
    | updateIntersectionLocation _ _ _ => simp [Op.isPlainUpdate] at hp
    | updateIntersectionDensity _ _ => simp [Op.isPlainUpdate] at hp
    | resolveIncident _ => simp [Op.isPlainUpdate] at hp
    | resolveSecurityAlert _ => simp [Op.isPlainUpdate] at hp

theorem initLedger_other_key (parseFloat : String → JVal) (ctx : Ctx) (w : World) (k : String)
    (hk : k ∉ Tx.keys parseFloat ctx .initLedger) :
    getState (commit w (InitLedger parseFloat ctx w)) k = getState w k := by
  have gen : ∀ (assets : List (String × Obj)) (w : World), k ∉ assets.map Prod.fst →
      getState (assets.foldl (fun w a => putState w a.1 (.json (.obj a.2))) w) k
        = getState w k := by
    intro assets
    induction assets with
    | nil => intro w _; rfl
    | cons a rest ih =>
      intro w hmem
      simp only [List.map_cons, List.mem_cons, not_or] at hmem
      simp only [List.foldl_cons]
      rw [ih _ hmem.2, getState_putState_ne _ _ _ _ hmem.1]
  simp only [InitLedger, commit]
  exact gen _ w hk

theorem submit_other_key (parseFloat : String → JVal) (ctx : Ctx) (w : World) (tx : Tx)
    (k : String) (hk : k ∉ tx.keys parseFloat ctx) :
    getState (tx.submit parseFloat ctx w) k = getState w k := by
  cases tx with
  | keyed op => exact exec_other_key parseFloat ctx w op k hk
  | initLedger => exact initLedger_other_key parseFloat ctx w k hk

theorem getState_deleteState_same (w : World) (id : String) :
    getState (deleteState w id) id = none := by
  unfold deleteState
  induction w with
  | nil => rfl
  | cons kv rest ih =>
    obtain ⟨k', v'⟩ := kv
    by_cases hk : k' = id
    · rw [List.filter_cons_of_neg (by simpa using hk)]
      exact ih
    · rw [List.filter_cons_of_pos (by simpa using hk)]
      simp only [getState, hk, if_false]
      exact ih

theorem allObjects_putState (w : World) (id : String) (fields : Obj) (h : AllObjects w) :
    AllObjects (putState w id (.json (.obj fields))) := by
  intro k b hb
  by_cases hk : k = id
  · subst hk
    rw [getState_putState_same] at hb
    exact ⟨fields, (Option.some.inj hb).symm⟩
  · rw [getState_putState_ne _ _ _ _ hk] at hb
    exact h k b hb

theorem allObjects_deleteState (w : World) (id : String) (h : AllObjects w) :
    AllObjects (deleteState w id) := by
  intro k b hb
  by_cases hk : k = id
  · subst hk
    rw [getState_deleteState_same] at hb
    exact absurd hb (by simp)
  · rw [getState_deleteState_ne _ _ _ hk] at hb
    exact h k b hb

theorem allObjects_updateRecord (notFound : String) (w : World) (id : String)
    (writes : List (String × JVal)) (h : AllObjects w) :
    AllObjects (commit w (updateRecord notFound w id writes)) := by
  cases hg : getState w id with
  | none => simpa [updateRecord, hg, hasBytes, commit] using h
  | some b =>
    obtain ⟨fields, hb⟩ := h id b hg
    subst hb
    rw [updateRecord_obj notFound w id writes fields hg]
    exact allObjects_putState _ _ _ h

theorem allObjects_exec (parseFloat : String → JVal) (ctx : Ctx) (w : World) (op : Op)
    (h : AllObjects w) : AllObjects (commit w (op.exec parseFloat ctx w)) := by
  by_cases hp : op.isPlainUpdate = true
  · obtain ⟨m, hm⟩ := exec_plainUpdate parseFloat ctx w op hp
    rw [hm]
    exact allObjects_updateRecord _ _ _ _ h
  · cases op with
    | createVehicle id _ _ _ _ _ =>
      simp only [Op.exec, CreateVehicle]
      split
      · exact h
      · exact allObjects_putState _ _ _ h
    | createRoad id _ _ _ _ _ _ =>
      simp only [Op.exec, CreateRoad]
      split
      · exact h
      · exact allObjects_putState _ _ _ h
    | createIntersection id _ _ _ roads =>
      simp only [Op.exec, CreateIntersection]
      split
      · exact h
      · cases jsonParse (some roads) with
        | error e => exact h
        | ok v => exact allObjects_putState _ _ _ h
    | reportIncident id _ _ _ _ _ =>
      simp only [Op.exec, ReportIncident]
      split
      · exact h
      · exact allObjects_putState _ _ _ h
    | reportSecurityAlert id _ _ _ _ _ _ _ _ _ _ =>
      simp only [Op.exec, ReportSecurityAlert]
      split
      · exact h
      · exact allObjects_putState _ _ _ h
    | readVehicle id =>
      simp only [Op.exec, ReadVehicle]
      split <;> exact h
    | readRoad id =>
      simp only [Op.exec, ReadRoad]
      split <;> exact h
    | readIntersection id =>
      simp only [Op.exec, ReadIntersection]
      split <;> exact h
    | deleteVehicle id =>
      simp only [Op.exec, DeleteVehicle]
      split
      · exact h
      · exact allObjects_deleteState _ _ h
    | deleteRoad id =>
      simp only [Op.exec, DeleteRoad]
      split
      · exact h
      · exact allObjects_deleteState _ _ h
    | deleteIntersection id =>
      simp only [Op.exec, DeleteIntersection]
      split
      · exact h
      · exact allObjects_deleteState _ _ h
    | updateVehiclePosition id newRoad newIntersection newSpeed newDirection =>
      simp only [Op.exec]
      cases hg : getState w id with
      | none => simpa [UpdateVehiclePosition, hg, hasBytes, commit] using h
      | some b =>
        obtain ⟨fields, hb⟩ := h id b hg
        subst hb
        rw [updateVehiclePosition_eq ctx w id newRoad newIntersection newSpeed newDirection
          fields hg]
        cases hc : _checkSpeedViolation w id newRoad (parseInt newSpeed none)
            (_getTxTimestamp ctx) with
        | error e => exact h
        | ok w1 =>
          have h1 : AllObjects w1 := by
            rcases checkSpeedViolation_shape w id newRoad (parseInt newSpeed none) ctx with
              ⟨e, he⟩ | he | ⟨vf, he⟩
            · rw [he] at hc; cases hc
            · rw [he] at hc; cases hc; exact h
            · rw [he] at hc; cases hc; exact allObjects_putState _ _ _ h
          exact allObjects_putState _ _ _ h1
    | updateVehicleStatus _ _ => simp [Op.isPlainUpdate] at hp
    | updateRoadStatus _ _ => simp [Op.isPlainUpdate] at hp
    | updateRoadProperties _ _ _ _ => simp [Op.isPlainUpdate] at hp
    | updateRoadCongestion _ _ => simp [Op.isPlainUpdate] at hp
    | updateTrafficLight _ _ => simp [Op.isPlainUpdate] at hp
    | updateIntersectionLocation _ _ _ => simp [Op.isPlainUpdate] at hp
    | updateIntersectionDensity _ _ => simp [Op.isPlainUpdate] at hp
    | resolveIncident _ => simp [Op.isPlainUpdate] at hp
    | resolveSecurityAlert _ => simp [Op.isPlainUpdate] at hp

theorem allObjects_submit (parseFloat : String → JVal) (ctx : Ctx) (w : World) (tx : Tx)
    (h : AllObjects w) : AllObjects (tx.submit parseFloat ctx w) := by
  cases tx with
  | keyed op => exact allObjects_exec parseFloat ctx w op h
  | initLedger =>
    have gen : ∀ (assets : List (String × Obj)) (w : World), AllObjects w →
        AllObjects (assets.foldl (fun w a => putState w a.1 (.json (.obj a.2))) w) := by
      intro assets
      induction assets with
      | nil => intro w hw; exact hw
      | cons a rest ih =>
        intro w hw
        simp only [List.foldl_cons]
        exact ih _ (allObjects_putState _ _ _ hw)
    simp only [Tx.submit, Tx.exec, InitLedger, commit]
    exact gen _ w h

theorem allObjects_ledgerAfter (parseFloat : String → JVal) (txs : List (Ctx × Tx)) :
    AllObjects (ledgerAfter parseFloat txs) := by
  have gen : ∀ (txs : List (Ctx × Tx)) (w : World), AllObjects w →
      AllObjects (txs.foldl (fun w t => commit w (t.2.exec parseFloat t.1 w)) w) := by
    intro txs
    induction txs with
    | nil => intro w hw; exact hw
    | cons t rest ih =>
      intro w hw
      simp only [List.foldl_cons]
      exact ih _ (allObjects_submit parseFloat t.1 w t.2 hw)
  exact gen txs [] (fun k b hb => by simp [getState] at hb)

/-! ## The scheduled mitigation check -/

theorem updateVehicleStatus_obj (ctx : Ctx) (w : World) (id newStatus : String) (fields : Obj)
    (h : getState w id = some (.json (.obj fields))) :
    UpdateVehicleStatus ctx w id newStatus
      = .ok (putState w id (.json (.obj (setProp (setProp fields "status" (.str newStatus))
                "timestamp" (.str (_getTxTimestamp ctx))))),
             .json (.obj (setProp (setProp fields "status" (.str newStatus))
                "timestamp" (.str (_getTxTimestamp ctx))))) := by
  simp only [UpdateVehicleStatus, h, hasBytes, jsonParse, writeProp]
  rfl

/-- C13: the scheduled check, for a vehicle id with no record in the store,
fails at `ReadVehicle` with the not-found error, submits nothing, leaves the
store as it is and only records the failure it caught.  For an id whose
record is a JSON object it submits one `UpdateVehicleStatus` with
`quarantine`, catches nothing, and afterwards the record has status
`quarantine` and the transaction time as timestamp, every other field of the
record is as before, and every other key of the store is as before.  In a
store that transactions of the contract have built from the empty store,
every id that has a record has a JSON object as its record. -/
theorem C13_mitigation_check (ctx : Ctx) (w : World) (vehicleId : String) :
    (hasBytes (getState w vehicleId) = false →
        ReadVehicle w vehicleId = .error (.error ("Vehicle " ++ vehicleId ++ " does not exist"))
          ∧ mitigationCheck ctx w vehicleId
              = { world := w, submitted := [],
                  caught := some (.error ("Vehicle " ++ vehicleId ++ " does not exist")) })
      ∧ (∀ fields, getState w vehicleId = some (.json (.obj fields)) →
          (mitigationCheck ctx w vehicleId).submitted
              = [.updateVehicleStatus vehicleId "quarantine"]
            ∧ (mitigationCheck ctx w vehicleId).caught = none
            ∧ (mitigationCheck ctx w vehicleId).world
                = commit w (UpdateVehicleStatus ctx w vehicleId "quarantine")
            ∧ (∃ fields',
                getState (mitigationCheck ctx w vehicleId).world vehicleId
                    = some (.json (.obj fields'))
                  ∧ getProp fields' "status" = some (.str "quarantine")
                  ∧ getProp fields' "timestamp" = some (.str (_getTxTimestamp ctx))
                  ∧ ∀ k, k ≠ "status" → k ≠ "timestamp" → getProp fields' k = getProp fields k)
            ∧ ∀ k, k ≠ vehicleId →
                getState (mitigationCheck ctx w vehicleId).world k = getState w k)
      ∧ (∀ parseFloat txs, w = ledgerAfter parseFloat txs →
          hasBytes (getState w vehicleId) = true →
          ∃ fields, getState w vehicleId = some (.json (.obj fields))) := by
  refine ⟨?_, ?_, ?_⟩
  · intro h
    have hr : ReadVehicle w vehicleId
        = .error (.error ("Vehicle " ++ vehicleId ++ " does not exist")) := by
      simp [ReadVehicle, h]
    exact ⟨hr, by simp only [mitigationCheck, hr]⟩
  · intro fields h
    have hr : ReadVehicle w vehicleId = .ok (w, .json (.obj fields)) := by
      simp [ReadVehicle, h, hasBytes]
    have hu := updateVehicleStatus_obj ctx w vehicleId "quarantine" fields h
    have hm : mitigationCheck ctx w vehicleId
        = { world := putState w vehicleId (.json (.obj (setProp (setProp fields "status"
                (.str "quarantine")) "timestamp" (.str (_getTxTimestamp ctx))))),
            submitted := [.updateVehicleStatus vehicleId "quarantine"], caught := none } := by
      simp only [mitigationCheck, hr, hu]
    rw [hm, hu]
    refine ⟨rfl, rfl, rfl, ⟨_, getState_putState_same _ _ _, ?_, ?_, ?_⟩, ?_⟩
    · rw [getProp_setProp_ne _ _ _ _ (by decide), getProp_setProp_same]
    · rw [getProp_setProp_same]
    · intro k h1 h2
      rw [getProp_setProp_ne _ _ _ _ h2, getProp_setProp_ne _ _ _ _ h1]
    · intro k hk
      exact getState_putState_ne _ _ _ _ hk
  · intro parseFloat txs hw hb
    cases hg : getState w vehicleId with
    | none => rw [hg] at hb; simp [hasBytes] at hb
    | some b =>
      have hall := allObjects_ledgerAfter parseFloat txs
      rw [← hw] at hall
      obtain ⟨fields, hf⟩ := hall vehicleId b hg
      exact ⟨fields, by rw [hf]⟩

/-- C13, at the store with vehicle `V1`: the check for `V1` catches nothing
and leaves `V1` with status `quarantine`; the check for `V_10_0_0_5`, which
has no record, submits nothing and leaves the store as it is. -/
theorem C13_mitigation_check_witness :
    (mitigationCheck ctxA worldV1R2 "V1").caught = none
      ∧ (∃ fields', getState (mitigationCheck ctxA worldV1R2 "V1").world "V1"
            = some (.json (.obj fields'))
          ∧ getProp fields' "status" = some (.str "quarantine"))
      ∧ (mitigationCheck ctxA worldV1R2 "V_10_0_0_5").submitted = []
      ∧ (mitigationCheck ctxA worldV1R2 "V_10_0_0_5").world = worldV1R2 := by
  have h := C13_mitigation_check ctxA worldV1R2 "V1"
  have h' := C13_mitigation_check ctxA worldV1R2 "V_10_0_0_5"
  obtain ⟨_, hc, _, ⟨fields', hg, hs, _⟩, _⟩ := h.2.1 (vehicleOn "V1" "R1") (by decide)
  have ha := (h'.1 (by decide)).2
  exact ⟨hc, ⟨fields', hg, hs⟩, by rw [ha], by rw [ha]⟩

/-! ## Resolved incidents and traffic lights -/

/-- C19 fails as stated.  On the store in which incident `INC1` was reported
and resolved, `UpdateVehicleStatus("INC1", "active")` and
`UpdateRoadStatus("INC1", "open")` succeed and leave the incident with the
status they were given, and `DeleteRoad("INC1")` removes it.  An incident
stored under the id `V001` is replaced by a vehicle when `InitLedger` runs,
and one stored under the violation key of a speeding position update is
replaced by the violation record, which has no status. -/
theorem C19_counterexample_status_update :
    (assetTypeAt resolvedIncidentLedger "INC1", statusAt resolvedIncidentLedger "INC1")
        = (some (.str "incident"), some (.str "resolved"))
      ∧ (assetTypeAt (Tx.submit (fun _ => .num 0) ctxA resolvedIncidentLedger
            (.keyed (.updateVehicleStatus "INC1" "active"))) "INC1",
          statusAt (Tx.submit (fun _ => .num 0) ctxA resolvedIncidentLedger
            (.keyed (.updateVehicleStatus "INC1" "active"))) "INC1")
        = (some (.str "incident"), some (.str "active"))
      ∧ statusAt (Tx.submit (fun _ => .num 0) ctxA resolvedIncidentLedger
            (.keyed (.updateRoadStatus "INC1" "open"))) "INC1" = some (.str "open")
      ∧ getState (Tx.submit (fun _ => .num 0) ctxA resolvedIncidentLedger
            (.keyed (.deleteRoad "INC1"))) "INC1" = none
      ∧ (assetTypeAt resolvedUnderAssetId "V001", statusAt resolvedUnderAssetId "V001")
        = (some (.str "incident"), some (.str "resolved"))
      ∧ (assetTypeAt (Tx.submit (fun _ => .num 0) ctxA resolvedUnderAssetId .initLedger) "V001",
          statusAt (Tx.submit (fun _ => .num 0) ctxA resolvedUnderAssetId .initLedger) "V001")
        = (some (.str "vehicle"), some (.str "active"))
      ∧ (assetTypeAt resolvedUnderViolationKey (violationKey ctxA "V1"),
          statusAt resolvedUnderViolationKey (violationKey ctxA "V1"))
        = (some (.str "incident"), some (.str "resolved"))
      ∧ (assetTypeAt (Tx.submit (fun _ => .num 0) ctxA resolvedUnderViolationKey
            (.keyed (.updateVehiclePosition "V1" "R2" "I3" "80" "east"))) (violationKey ctxA "V1"),
          statusAt (Tx.submit (fun _ => .num 0) ctxA resolvedUnderViolationKey
            (.keyed (.updateVehiclePosition "V1" "R2" "I3" "80" "east"))) (violationKey ctxA "V1"))
        = (some (.str "violation"), none) := by
  refine ⟨by decide, by decide, by decide, by decide, by decide, by decide, by decide, by decide⟩

theorem writes_keep_identity (parseFloat : String → JVal) (ctx : Ctx) (op : Op) :
    "assetType" ∉ (op.writes parseFloat ctx).map Prod.fst
      ∧ "id" ∉ (op.writes parseFloat ctx).map Prod.fst := by
  cases op <;> exact ⟨by simp [Op.writes], by simp [Op.writes]⟩

theorem status_after_writes (parseFloat : String → JVal) (ctx : Ctx) (op : Op) (fields : Obj)
    (hres : getProp fields "status" = some (.str "resolved"))
    (hno : Tx.mayUnresolve parseFloat ctx op.target (.keyed op) = false) :
    getProp (assignAll fields (op.writes parseFloat ctx)) "status" = some (.str "resolved") := by
  have keep : "status" ∉ (op.writes parseFloat ctx).map Prod.fst →
      getProp (assignAll fields (op.writes parseFloat ctx)) "status" = some (.str "resolved") :=
    fun h => by rw [getProp_assignAll_of_not_mem _ _ _ h, hres]
  cases op with
  | updateVehicleStatus id newStatus =>
    have hs : newStatus = "resolved" := by simpa [Tx.mayUnresolve, Op.target] using hno
    subst hs
    simp only [assignAll, Op.writes, List.foldl_cons, List.foldl_nil]
    rw [getProp_setProp_ne _ _ _ _ (by decide), getProp_setProp_same]
  | updateRoadStatus id newStatus =>
    have hs : newStatus = "resolved" := by simpa [Tx.mayUnresolve, Op.target] using hno
    subst hs
    simp only [assignAll, Op.writes, List.foldl_cons, List.foldl_nil]
    rw [getProp_setProp_ne _ _ _ _ (by decide), getProp_setProp_same]
  | resolveIncident id =>
    simp only [assignAll, Op.writes, List.foldl_cons, List.foldl_nil]
    rw [getProp_setProp_ne _ _ _ _ (by decide), getProp_setProp_ne _ _ _ _ (by decide),
      getProp_setProp_same]
  | resolveSecurityAlert id =>
    simp only [assignAll, Op.writes, List.foldl_cons, List.foldl_nil]
    rw [getProp_setProp_ne _ _ _ _ (by decide), getProp_setProp_ne _ _ _ _ (by decide),
      getProp_setProp_same]
  | createVehicle _ _ _ _ _ _ => exact keep (by simp [Op.writes])
  | readVehicle _ => exact keep (by simp [Op.writes])
  | updateVehiclePosition _ _ _ _ _ => exact keep (by simp [Op.writes])
  | deleteVehicle _ => exact keep (by simp [Op.writes])
  | createRoad _ _ _ _ _ _ _ => exact keep (by simp [Op.writes])
  | readRoad _ => exact keep (by simp [Op.writes])
  | updateRoadProperties _ _ _ _ => exact keep (by simp [Op.writes])
  | updateRoadCongestion _ _ => exact keep (by simp [Op.writes])
  | deleteRoad _ => exact keep (by simp [Op.writes])
  | createIntersection _ _ _ _ _ => exact keep (by simp [Op.writes])
  | readIntersection _ => exact keep (by simp [Op.writes])
  | updateTrafficLight _ _ => exact keep (by simp [Op.writes])
  | updateIntersectionLocation _ _ _ => exact keep (by simp [Op.writes])
  | updateIntersectionDensity _ _ => exact keep (by simp [Op.writes])
  | deleteIntersection _ => exact keep (by simp [Op.writes])
  | reportIncident _ _ _ _ _ _ => exact keep (by simp [Op.writes])
  | reportSecurityAlert _ _ _ _ _ _ _ _ _ _ _ => exact keep (by simp [Op.writes])

theorem keys_of_not_target (ctx : Ctx) (op : Op) (k : String) (ht : op.target ≠ k)
    (hv : ∀ id r i s d, op = .updateVehiclePosition id r i s d → violationKey ctx id ≠ k) :
    k ∉ op.keys ctx := by
  cases op <;>
    first
    | (simp only [Op.keys, Op.target, List.mem_singleton] at ht ⊢; exact fun h => ht h.symm)
    | (simp only [Op.keys, Op.target, List.mem_cons, List.mem_singleton, List.not_mem_nil,
        or_false, not_or] at ht ⊢
       exact ⟨fun h => ht h.symm, fun h => hv _ _ _ _ _ rfl h.symm⟩)

/-- C19, amended: a record whose status is `resolved` keeps that status, its
`assetType` and its `id` under every transaction except these: a status
update (`UpdateVehicleStatus`, `UpdateRoadStatus`) of its id to another
status, a delete (`DeleteVehicle`, `DeleteRoad`, `DeleteIntersection`) of its
id, a position update whose violation key is its id, and `InitLedger` when
its id is one of the sixteen asset ids.  In particular `ResolveIncident`,
`ResolveSecurityAlert` and every create, read and other update leave a
resolved incident resolved. -/
theorem C19_resolved_kept (parseFloat : String → JVal) (ctx : Ctx) (w : World) (tx : Tx)
    (k : String) (fields : Obj)
    (hrec : getState w k = some (.json (.obj fields)))
    (hres : getProp fields "status" = some (.str "resolved"))
    (hno : tx.mayUnresolve parseFloat ctx k = false) :
    ∃ fields', getState (tx.submit parseFloat ctx w) k = some (.json (.obj fields'))
      ∧ getProp fields' "status" = some (.str "resolved")
      ∧ getProp fields' "assetType" = getProp fields "assetType"
      ∧ getProp fields' "id" = getProp fields "id" := by
  have other : k ∉ tx.keys parseFloat ctx →
      ∃ fields', getState (tx.submit parseFloat ctx w) k = some (.json (.obj fields'))
        ∧ getProp fields' "status" = some (.str "resolved")
        ∧ getProp fields' "assetType" = getProp fields "assetType"
        ∧ getProp fields' "id" = getProp fields "id" :=
    fun hk => ⟨fields, by rw [submit_other_key parseFloat ctx w tx k hk, hrec], hres, rfl, rfl⟩
  cases tx with
  | initLedger =>
    apply other
    simpa [Tx.mayUnresolve] using hno
  | keyed op =>
    by_cases ht : op.target = k
    · subst ht
      have hrm : op.removes = false := by
        cases op <;> first | rfl | simp [Tx.mayUnresolve, Op.target] at hno
      obtain ⟨fields', hget, hor, _⟩ := exec_target_obj parseFloat ctx w op fields hrec hrm
      refine ⟨fields', hget, ?_, ?_, ?_⟩
      · rcases hor with h | h
        · rw [h, hres]
        · rw [h]; exact status_after_writes parseFloat ctx op fields hres hno
      · rcases hor with h | h
        · rw [h]
        · rw [h, getProp_assignAll_of_not_mem _ _ _ (writes_keep_identity parseFloat ctx op).1]
      · rcases hor with h | h
        · rw [h]
        · rw [h, getProp_assignAll_of_not_mem _ _ _ (writes_keep_identity parseFloat ctx op).2]
    · apply other
      apply keys_of_not_target ctx op k ht
      intro id r i s d hop
      subst hop
      simpa [Tx.mayUnresolve] using hno

/-- C19, at the store in which incident `INC1` was reported and resolved:
`UpdateRoadCongestion("INC1", "high")` succeeds on the incident record and
leaves it resolved. -/
theorem C19_resolved_kept_witness :
    ∃ fields', getState (Tx.submit (fun _ => .num 0) ctxA resolvedIncidentLedger
          (.keyed (.updateRoadCongestion "INC1" "high"))) "INC1" = some (.json (.obj fields'))
      ∧ getProp fields' "status" = some (.str "resolved")
      ∧ getProp fields' "assetType" = getProp resolvedIncidentRecord "assetType"
      ∧ getProp fields' "id" = getProp resolvedIncidentRecord "id" :=
  C19_resolved_kept (fun _ => .num 0) ctxA resolvedIncidentLedger
    (.keyed (.updateRoadCongestion "INC1" "high")) "INC1" resolvedIncidentRecord
    (by decide) (by decide) (by decide)

/-- C20 fails as stated.  On the store in which intersection `I1` was created
(green), `UpdateTrafficLight("I1", "red")` succeeds and takes the light from
green to red, and `UpdateTrafficLight("I1", "blue")` takes it to `blue`.
After `InitLedger` and a step of `I001` to yellow, a second `InitLedger`
takes `I001` from yellow to green.  A speeding position update whose
violation key holds an intersection replaces it by the violation record,
which has no light. -/
theorem C20_counterexample_any_state :
    (assetTypeAt greenLightLedger "I1", lightAt greenLightLedger "I1")
        = (some (.str "intersection"), some (.str "green"))
      ∧ lightAt (Tx.submit (fun _ => .num 0) ctxA greenLightLedger
            (.keyed (.updateTrafficLight "I1" "red"))) "I1" = some (.str "red")
      ∧ alongCycle (some (.str "green")) (some (.str "red")) = false
      ∧ lightAt (Tx.submit (fun _ => .num 0) ctxA greenLightLedger
            (.keyed (.updateTrafficLight "I1" "blue"))) "I1" = some (.str "blue")
      ∧ lightAt yellowAfterInit "I001" = some (.str "yellow")
      ∧ lightAt (Tx.submit (fun _ => .num 0) ctxA yellowAfterInit .initLedger) "I001"
          = some (.str "green")
      ∧ alongCycle (some (.str "yellow")) (some (.str "green")) = false
      ∧ lightAt lightUnderViolationKey (violationKey ctxA "V1") = some (.str "green")
      ∧ lightAt (Tx.submit (fun _ => .num 0) ctxA lightUnderViolationKey
            (.keyed (.updateVehiclePosition "V1" "R2" "I3" "80" "east"))) (violationKey ctxA "V1")
          = none := by
  refine ⟨by decide, by decide, by decide, by decide, by decide, by decide, by decide,
    by decide, by decide⟩

theorem light_after_writes (parseFloat : String → JVal) (ctx : Ctx) (op : Op) (fields : Obj)
    (hno : Tx.mayChangeLight parseFloat ctx op.target (.keyed op) = false) :
    getProp (assignAll fields (op.writes parseFloat ctx)) "trafficLightState"
      = getProp fields "trafficLightState" := by
  apply getProp_assignAll_of_not_mem
  cases op <;> first | (simp [Op.writes]; done) | simp [Tx.mayChangeLight, Op.target] at hno

/-- C20, amended: the contract does not check the step.  On a stored record,
`UpdateTrafficLight(id, s)` sets `trafficLightState` to the submitted `s`
whatever the state was, so the change is along the cycle exactly when the
caller submits the successor of the current state, as the simulator's light
cycler does from green, yellow and red.  No other transaction changes the
`trafficLightState` of a stored record, except by deleting the record
(`DeleteVehicle`, `DeleteRoad`, `DeleteIntersection` of its id) or by putting
a whole new record under its key (a position update whose violation key it
is, `InitLedger` when it is one of the sixteen asset ids). -/
theorem C20_light_changes (parseFloat : String → JVal) (ctx : Ctx) (w : World) (k : String)
    (fields : Obj) (hrec : getState w k = some (.json (.obj fields))) :
    (∀ newState, ∃ fields',
        getState (Tx.submit parseFloat ctx w (.keyed (.updateTrafficLight k newState))) k
            = some (.json (.obj fields'))
          ∧ getProp fields' "trafficLightState" = some (.str newState)
          ∧ (alongCycle (getProp fields "trafficLightState")
                (getProp fields' "trafficLightState") = true
              ↔ (getProp fields "trafficLightState", newState)
                  ∈ [(some (JVal.str "green"), "yellow"), (some (JVal.str "yellow"), "red"),
                     (some (JVal.str "red"), "green")]))
      ∧ (∀ current ∈ ["green", "yellow", "red"],
          alongCycle (some (.str current)) (some (.str (nextLightState (some (.str current)))))
            = true)
      ∧ (∀ tx : Tx, tx.mayChangeLight parseFloat ctx k = false →
          ∃ fields', getState (tx.submit parseFloat ctx w) k = some (.json (.obj fields'))
            ∧ getProp fields' "trafficLightState" = getProp fields "trafficLightState") := by
  refine ⟨?_, by decide, ?_⟩
  · intro newState
    obtain ⟨fields', hget, _, hpl⟩ := exec_target_obj parseFloat ctx w
      (.updateTrafficLight k newState) fields hrec rfl
    have hf := hpl rfl
    refine ⟨fields', hget, ?_, ?_⟩
    · rw [hf]
      simp only [assignAll, Op.writes, List.foldl_cons, List.foldl_nil]
      rw [getProp_setProp_ne _ _ _ _ (by decide), getProp_setProp_same]
    · have hl : getProp fields' "trafficLightState" = some (.str newState) := by
        rw [hf]
        simp only [assignAll, Op.writes, List.foldl_cons, List.foldl_nil]
        rw [getProp_setProp_ne _ _ _ _ (by decide), getProp_setProp_same]
      rw [hl]
      simp [alongCycle]
  · intro tx hno
    have other : k ∉ tx.keys parseFloat ctx →
        ∃ fields', getState (tx.submit parseFloat ctx w) k = some (.json (.obj fields'))
          ∧ getProp fields' "trafficLightState" = getProp fields "trafficLightState" :=
      fun hk => ⟨fields, by rw [submit_other_key parseFloat ctx w tx k hk, hrec], rfl⟩
    cases tx with
    | initLedger =>
      apply other
      simpa [Tx.mayChangeLight] using hno
    | keyed op =>
      by_cases ht : op.target = k
      · subst ht
        have hrm : op.removes = false := by
          cases op <;> first | rfl | simp [Tx.mayChangeLight, Op.target] at hno
        obtain ⟨fields', hget, hor, _⟩ := exec_target_obj parseFloat ctx w op fields hrec hrm
        refine ⟨fields', hget, ?_⟩
        rcases hor with h | h
        · rw [h]
        · rw [h]; exact light_after_writes parseFloat ctx op fields hno
      · apply other
        apply keys_of_not_target ctx op k ht
        intro id r i s d hop
        subst hop
        simpa [Tx.mayChangeLight] using hno

/-- C20, at the store in which intersection `I1` was created:
`UpdateTrafficLight("I1", "red")` takes the light to red, and
`UpdateIntersectionDensity("I1", "high")` leaves it green. -/
theorem C20_light_changes_witness :
    (∃ fields', getState (Tx.submit (fun _ => .num 0) ctxA greenLightLedger
            (.keyed (.updateTrafficLight "I1" "red"))) "I1" = some (.json (.obj fields'))
        ∧ getProp fields' "trafficLightState" = some (.str "red"))
      ∧ ∃ fields', getState (Tx.submit (fun _ => .num 0) ctxA greenLightLedger
            (.keyed (.updateIntersectionDensity "I1" "high"))) "I1" = some (.json (.obj fields'))
        ∧ getProp fields' "trafficLightState" = getProp greenLightRecord "trafficLightState" := by
  have h := C20_light_changes (fun _ => .num 0) ctxA greenLightLedger "I1" greenLightRecord
    (by decide)
  refine ⟨?_, h.2.2 (.keyed (.updateIntersectionDensity "I1" "high")) (by decide)⟩
  obtain ⟨fields', h1, h2, _⟩ := h.1 "red"
  exact ⟨fields', h1, h2⟩

/-! ## Vehicle movement and spawning -/

theorem strictEq_eq (a b : Option JVal) (h : strictEq a b = true) : a = b := by
  cases a with
  | none => cases b with
    | none => rfl
    | some y => simp [strictEq] at h
  | some x =>
    cases b with
    | none => cases x <;> simp [strictEq] at h
    | some y =>
      cases x <;> cases y <;> simp [strictEq] at h <;> simp [h]

/-- C23: `getNextIntersection(road, current)` returns the road's
`endIntersection` when `current` is strictly equal to its
`startIntersection`; its `startIntersection` when `current` is strictly
equal to its `endIntersection` and not to its `startIntersection`; and its
`endIntersection` when `current` is strictly equal to neither.  The result is
always one of the two.  For string values strict equality is equality of the
strings. -/
theorem C23_next_intersection (road : Obj) (current : Option JVal) :
    (strictEq (getProp road "startIntersection") current = true →
        getNextIntersection road current = getProp road "endIntersection")
      ∧ (strictEq (getProp road "startIntersection") current = false →
          strictEq (getProp road "endIntersection") current = true →
          getNextIntersection road current = getProp road "startIntersection")
      ∧ (strictEq (getProp road "startIntersection") current = false →
          strictEq (getProp road "endIntersection") current = false →
          getNextIntersection road current = getProp road "endIntersection")
      ∧ (getNextIntersection road current = getProp road "startIntersection"
          ∨ getNextIntersection road current = getProp road "endIntersection")
      ∧ (∀ s e c : String, getProp road "startIntersection" = some (.str s) →
          getProp road "endIntersection" = some (.str e) → current = some (.str c) →
          getNextIntersection road current
            = some (.str (if c = s then e else if c = e then s else e))) := by
  refine ⟨?_, ?_, ?_, ?_, ?_⟩
  · intro h; simp [getNextIntersection, h]
  · intro h1 h2; simp [getNextIntersection, h1, h2]
  · intro h1 h2; simp [getNextIntersection, h1, h2]
  · unfold getNextIntersection
    split
    · exact Or.inr rfl
    · split
      · exact Or.inl rfl
      · exact Or.inr rfl
  · intro s e c hs he hc
    subst hc
    simp only [getNextIntersection, hs, he, strictEq, beq_iff_eq]
    by_cases h1 : c = s
    · subst h1; simp
    · have h1' : ¬ s = c := fun h => h1 h.symm
      by_cases h2 : c = e
      · subst h2; simp [h1, h1']
      · have h2' : ¬ e = c := fun h => h2 h.symm
        simp [h1, h1', h2, h2']

/-- C25: for every draw `u` below 1, so for every draw with 0 ≤ u < 1,
`getRandomVehicleType` returns
the first type whose cumulative weight (7/10, 17/20, 19/20, 1, in exact
arithmetic) is at least `u`: `car` for u ≤ 7/10, `truck` for 7/10 < u ≤
17/20, `bus` for 17/20 < u ≤ 19/20 and `emergency` for 19/20 < u.  The
result is one of the four types, and the loop always returns: the `car`
fallback after it is not reached. -/
theorem C25_vehicle_type (u : ℚ) (h1 : u < 1) :
    (u ≤ 7 / 10 → getRandomVehicleType u = "car")
      ∧ (7 / 10 < u → u ≤ 17 / 20 → getRandomVehicleType u = "truck")
      ∧ (17 / 20 < u → u ≤ 19 / 20 → getRandomVehicleType u = "bus")
      ∧ (19 / 20 < u → getRandomVehicleType u = "emergency")
      ∧ getRandomVehicleType u ∈ ["car", "truck", "bus", "emergency"]
      ∧ walkDistribution u 0 vehicleTypeDistribution ≠ none
      ∧ (∀ type, walkDistribution u 0 vehicleTypeDistribution = some type →
          ∃ before weight after,
            vehicleTypeDistribution = before ++ (type, weight) :: after
              ∧ u ≤ (before.map Prod.snd).sum + weight
              ∧ ∀ k < before.length, (((before.take (k + 1)).map Prod.snd).sum < u)) := by
  have e1 : (0 : ℚ) + 7 / 10 = 7 / 10 := by norm_num
  have e2 : (7 : ℚ) / 10 + 15 / 100 = 17 / 20 := by norm_num
  have e3 : (17 : ℚ) / 20 + 1 / 10 = 19 / 20 := by norm_num
  have e4 : (19 : ℚ) / 20 + 5 / 100 = 1 := by norm_num
  have hw : walkDistribution u 0 vehicleTypeDistribution
      = if u ≤ 7 / 10 then some "car" else if u ≤ 17 / 20 then some "truck"
        else if u ≤ 19 / 20 then some "bus" else if u ≤ 1 then some "emergency" else none := by
    simp only [walkDistribution, vehicleTypeDistribution, e1, e2, e3, e4]
  have hle : u ≤ 1 := le_of_lt h1
  refine ⟨?_, ?_, ?_, ?_, ?_, ?_, ?_⟩
  · intro h
    simp [getRandomVehicleType, hw, h]
  · intro ha hb
    simp [getRandomVehicleType, hw, not_le.2 ha, hb]
  · intro ha hb
    have h7 : (7 : ℚ) / 10 < u := lt_trans (by norm_num) ha
    simp [getRandomVehicleType, hw, not_le.2 ha, not_le.2 h7, hb]
  · intro ha
    have h17 : (17 : ℚ) / 20 < u := lt_trans (by norm_num) ha
    have h7 : (7 : ℚ) / 10 < u := lt_trans (by norm_num) ha
    simp [getRandomVehicleType, hw, not_le.2 ha, not_le.2 h7, not_le.2 h17, hle]
  · simp only [getRandomVehicleType, hw]
    split_ifs <;> simp
  · rw [hw]
    split_ifs <;> simp
  · intro type ht
    rw [hw] at ht
    split_ifs at ht with c1 c2 c3
    · cases ht
      exact ⟨[], 7 / 10, _, rfl, by simpa using c1, by simp⟩
    · cases ht
      refine ⟨[("car", 7 / 10)], 15 / 100, _, rfl, ?_, ?_⟩
      · simp only [List.map_cons, List.map_nil, List.sum_cons, List.sum_nil, add_zero, e2]
        exact c2
      · intro k hk
        have : k = 0 := by simpa using hk
        subst this
        simpa using not_le.1 c1
    · cases ht
      refine ⟨[("car", 7 / 10), ("truck", 15 / 100)], 1 / 10, _, rfl, ?_, ?_⟩
      · simp only [List.map_cons, List.map_nil, List.sum_cons, List.sum_nil, add_zero, e2, e3]
        exact c3
      · intro k hk
        have : k = 0 ∨ k = 1 := by simp at hk; omega
        rcases this with rfl | rfl
        · simpa using not_le.1 c1
        · simp only [List.take, List.map_cons, List.map_nil, List.sum_cons, List.sum_nil,
            add_zero, e2]
          exact not_le.1 c2
    · cases ht
      refine ⟨[("car", 7 / 10), ("truck", 15 / 100), ("bus", 1 / 10)], 5 / 100, _, rfl, ?_, ?_⟩
      · simp only [List.map_cons, List.map_nil, List.sum_cons, List.sum_nil, add_zero]
        norm_num
        exact hle
      · intro k hk
        have : k = 0 ∨ k = 1 ∨ k = 2 := by simp at hk; omega
        rcases this with rfl | rfl | rfl
        · simpa using not_le.1 c1
        · simp only [List.take, List.map_cons, List.map_nil, List.sum_cons, List.sum_nil,
            add_zero, e2]
          exact not_le.1 c2
        · simp only [List.take, List.map_cons, List.map_nil, List.sum_cons, List.sum_nil,
            add_zero]
          have := not_le.1 c3
          norm_num
          linarith

/-- C25, at the draw 9/10: the type is `bus`. -/
theorem C25_vehicle_type_witness : getRandomVehicleType (9 / 10) = "bus" :=
  (C25_vehicle_type (9 / 10) (by norm_num)).2.2.1 (by norm_num) (by norm_num)

/-- C24 fails as stated.  On a road with `maxSpeed` 10 a non-emergency
vehicle gets the speed 20 (jitter 0), above the road's `maxSpeed`.  On a road
with `maxSpeed` 0 the base speed is 50, so an emergency vehicle gets
min(50 + 30 + 0, 120) = 80 and not min(0 + 30 + 0, 120) = 30. -/
theorem C24_counterexample_low_limit :
    calculateSpeed (1 / 2) (vehicleOfKind false) (roadWithLimit 10) = some 20
      ∧ calculateSpeed (1 / 2) (vehicleOfKind true) (roadWithLimit 0) = some 80 := by
  have m10 : getProp (roadWithLimit 10) "maxSpeed" = some (.num 10) := by decide
  have m0 : getProp (roadWithLimit 0) "maxSpeed" = some (.num 0) := by decide
  have ef : truthy (getProp (vehicleOfKind false) "isEmergency") = false := by decide
  have et : truthy (getProp (vehicleOfKind true) "isEmergency") = true := by decide
  constructor
  · simp only [calculateSpeed, m10, ef]
    norm_num
  · simp only [calculateSpeed, m0, et]
    norm_num

/-- C24, amended: for a road whose `maxSpeed` is the number `m` and a draw
`rand` with 0 ≤ rand < 1, the jitter `j = rand * 20 - 10` satisfies
-10 ≤ j < 10; with the base speed `b` that is `m`, or 50 when `m` is 0,
`calculateSpeed` returns min(b + 30 + j, 120) for an emergency vehicle, which
never exceeds 120, and for a non-emergency vehicle it returns
max(min(b + j, m), 20), which is at least 20 and at most the larger of `m`
and 20, hence at most `m` when `m` is at least 20. -/
theorem C24_speed_bounds (rand : ℚ) (vehicle road : Obj) (m : Int)
    (h0 : 0 ≤ rand) (h1 : rand < 1) (hm : getProp road "maxSpeed" = some (.num m)) :
    (-10 ≤ rand * 20 - 10 ∧ rand * 20 - 10 < 10)
      ∧ (truthy (getProp vehicle "isEmergency") = true →
          calculateSpeed rand vehicle road
              = some (min ((if m = 0 then 50 else (m : ℚ)) + 30 + (rand * 20 - 10)) 120)
            ∧ ∀ v, calculateSpeed rand vehicle road = some v → v ≤ 120)
      ∧ (truthy (getProp vehicle "isEmergency") = false →
          calculateSpeed rand vehicle road
              = some (max (min ((if m = 0 then 50 else (m : ℚ)) + (rand * 20 - 10)) m) 20)
            ∧ ∀ v, calculateSpeed rand vehicle road = some v →
                20 ≤ v ∧ v ≤ max (m : ℚ) 20 ∧ (20 ≤ m → v ≤ m)) := by
  refine ⟨⟨by linarith, by linarith⟩, ?_, ?_⟩
  · intro he
    have hc : calculateSpeed rand vehicle road
        = some (min ((if m = 0 then 50 else (m : ℚ)) + 30 + (rand * 20 - 10)) 120) := by
      simp only [calculateSpeed, hm, he, if_true]
    refine ⟨hc, ?_⟩
    intro v hv
    rw [hc] at hv
    cases hv
    exact min_le_right _ _
  · intro he
    have hc : calculateSpeed rand vehicle road
        = some (max (min ((if m = 0 then 50 else (m : ℚ)) + (rand * 20 - 10)) m) 20) := by
      simp only [calculateSpeed, hm, he, Bool.false_eq_true, if_false]
    refine ⟨hc, ?_⟩
    intro v hv
    rw [hc] at hv
    cases hv
    refine ⟨le_max_right _ _, max_le_max (min_le_right _ _) le_rfl, ?_⟩
    intro h20
    have : (20 : ℚ) ≤ m := by exact_mod_cast h20
    exact max_le (min_le_right _ _) this

/-- C24, at a road with `maxSpeed` 60, a non-emergency vehicle and the draw
3/4 (jitter 5): the speed is 60. -/
theorem C24_speed_bounds_witness :
    calculateSpeed (3 / 4) (vehicleOfKind false) (roadWithLimit 60) = some 60 := by
  have h := (C24_speed_bounds (3 / 4) (vehicleOfKind false) (roadWithLimit 60) 60
    (by norm_num) (by norm_num) (by decide)).2.2 (by decide)
  rw [h.1]
  norm_num

theorem moveBatch_length (draws : Nat → MoveDraws) (putOk : Nat → Bool) (i : Nat)
    (batch : List Obj) (sim : TrafficSimulation) :
    (moveBatch draws putOk i batch sim).2.length = batch.length := by
  induction batch generalizing i sim with
  | nil => rfl
  | cons v rest ih =>
    simp only [moveBatch, List.length_cons]
    rw [ih]

theorem activeVehicles_length (data : List Obj) :
    (activeVehicles data).length
      = data.countP (fun v => decide (getProp v "status" = some (.str "active"))) := by
  unfold activeVehicles
  rw [List.countP_eq_length_filter]
  congr 1
  apply List.filter_congr
  intro v _
  by_cases h : getProp v "status" = some (.str "active")
  · simp [h, strictEq_str_self]
  · have : strictEq (getProp v "status") (some (.str "active")) = false := by
      cases hs : strictEq (getProp v "status") (some (.str "active")) with
      | false => rfl
      | true => exact absurd ((strictEq_str_iff _ _).1 hs) h
    simp [h, this]

/-- C26: in a mobility tick whose reload succeeds, the batch that is moved
has length min(10, a), where a is the number of reloaded vehicles whose
status is `active`; every vehicle of the batch is a reloaded vehicle with
status `active`; the batch is the first ten of a permutation of the active
list, so no vehicle occurs in it more often than in the active list, and not
twice when the active list has no vehicle twice; `moveVehicle` is called
once for each vehicle of the batch.  The order that `sort` leaves is a
permutation of the list it sorts. -/
theorem C26_batch (data : List Obj) (shuffle : List Obj → List Obj) (draws : Nat → MoveDraws)
    (putOk : Nat → Bool) (sim : TrafficSimulation)
    (hperm : (shuffle (activeVehicles data)).Perm (activeVehicles data)) :
    (mobilityTick (some data) shuffle draws putOk sim).2.batch.length
        = min 10 (data.countP (fun v => decide (getProp v "status" = some (.str "active"))))
      ∧ (∀ v ∈ (mobilityTick (some data) shuffle draws putOk sim).2.batch,
          v ∈ data ∧ getProp v "status" = some (.str "active"))
      ∧ (∃ p : List Obj, p.Perm (activeVehicles data)
          ∧ (mobilityTick (some data) shuffle draws putOk sim).2.batch = p.take 10)
      ∧ (∀ v, (mobilityTick (some data) shuffle draws putOk sim).2.batch.countP
            (fun x => decide (x = v))
          ≤ (activeVehicles data).countP (fun x => decide (x = v)))
      ∧ ((activeVehicles data).Nodup →
          (mobilityTick (some data) shuffle draws putOk sim).2.batch.Nodup)
      ∧ (mobilityTick (some data) shuffle draws putOk sim).2.submitted.length
          = (mobilityTick (some data) shuffle draws putOk sim).2.batch.length
      ∧ (mobilityTick (some data) shuffle draws putOk sim).2.failed = false := by
  have hb : (mobilityTick (some data) shuffle draws putOk sim).2.batch
      = (shuffle (activeVehicles data)).take 10 := rfl
  have hs : (mobilityTick (some data) shuffle draws putOk sim).2.submitted.length
      = ((shuffle (activeVehicles data)).take 10).length := by
    simp only [mobilityTick]
    exact moveBatch_length _ _ _ _ _
  rw [hb]
  refine ⟨?_, ?_, ⟨_, hperm, rfl⟩, ?_, ?_, hs, rfl⟩
  · rw [List.length_take, hperm.length_eq, activeVehicles_length]
  · intro v hv
    have hm : v ∈ activeVehicles data := hperm.subset (List.mem_of_mem_take hv)
    have := List.mem_filter.1 hm
    exact ⟨this.1, (strictEq_str_iff _ _).1 this.2⟩
  · intro v
    calc ((shuffle (activeVehicles data)).take 10).countP (fun x => decide (x = v))
        ≤ (shuffle (activeVehicles data)).countP (fun x => decide (x = v)) :=
          (List.take_sublist _ _).countP_le _
      _ = (activeVehicles data).countP (fun x => decide (x = v)) := hperm.countP_eq _
  · intro hn
    exact (hperm.nodup_iff.2 hn).sublist (List.take_sublist _ _)

/-- C26, for a reload with three vehicles, two of them active, and a `sort`
that reverses the list: the batch has length 2. -/
theorem C26_batch_witness :
    (mobilityTick (some [vehicleOn "V1" "R1", vehicleOfKind false, [("id", .str "V3")]])
        List.reverse (fun _ => { road := 0, speed := 0, direction := 0 }) (fun _ => true)
        TrafficSimulation.new).2.batch.length = 2 := by
  have h := (C26_batch [vehicleOn "V1" "R1", vehicleOfKind false, [("id", .str "V3")]]
    List.reverse (fun _ => { road := 0, speed := 0, direction := 0 }) (fun _ => true)
    TrafficSimulation.new (List.reverse_perm _)).1
  rw [h]
  decide

theorem getNextIntersection_eq (road : Obj) (current : Option JVal) :
    getNextIntersection road current = getProp road (nextEndpoint road current).key := by
  unfold getNextIntersection nextEndpoint
  split
  · rfl
  · split <;> rfl

theorem findFrom_some (p : Obj → Bool) (k : Nat) (l : List Obj) (i : Nat) (r : Obj)
    (h : findFrom p k l = some (i, r)) : (i, r) ∈ indexedFrom k l ∧ p r = true := by
  induction l generalizing k with
  | nil => simp [findFrom] at h
  | cons x rest ih =>
    simp only [findFrom] at h
    split at h
    · rename_i hp
      cases h
      exact ⟨List.mem_cons_self _ _, hp⟩
    · obtain ⟨hm, hp⟩ := ih (k + 1) h
      exact ⟨List.mem_cons_of_mem _ hm, hp⟩

theorem mem_indexedFrom (k : Nat) (l : List Obj) (j : Nat) (r : Obj)
    (h : (j, r) ∈ indexedFrom k l) : k ≤ j ∧ l.get? (j - k) = some r := by
  induction l generalizing k with
  | nil => simp [indexedFrom] at h
  | cons x rest ih =>
    simp only [indexedFrom, List.mem_cons, Prod.mk.injEq] at h
    rcases h with ⟨hj, hr⟩ | h
    · subst hj hr
      simp
    · obtain ⟨hle, hg⟩ := ih (k + 1) h
      refine ⟨by omega, ?_⟩
      have : j - k = (j - (k + 1)) + 1 := by omega
      rw [this]
      simpa using hg

theorem indexedFrom_unique (k : Nat) (l : List Obj) (j : Nat) (r r' : Obj)
    (h : (j, r) ∈ indexedFrom k l) (h' : (j, r') ∈ indexedFrom k l) : r = r' := by
  have h1 := (mem_indexedFrom k l j r h).2
  have h2 := (mem_indexedFrom k l j r' h').2
  rw [h1] at h2
  exact Option.some.inj h2

theorem mem_of_mem_indexedFrom (k : Nat) (l : List Obj) (j : Nat) (r : Obj)
    (h : (j, r) ∈ indexedFrom k l) : r ∈ l :=
  List.get?_mem (mem_indexedFrom k l j r h).2

theorem pickIndex_lt (rand : ℚ) (n : Nat) (h0 : 0 ≤ rand) (h1 : rand < 1) (hn : 0 < n) :
    pickIndex rand n < n := by
  unfold pickIndex
  have hn' : (0 : ℚ) < n := by exact_mod_cast hn
  have hlt : rand * n < n := by nlinarith
  have hnn : 0 ≤ rand * n := mul_nonneg h0 (le_of_lt hn')
  have hf : Int.floor (rand * n) < (n : Int) := by
    rw [Int.floor_lt]
    exact_mod_cast hlt
  have hf0 : 0 ≤ Int.floor (rand * n) := Int.floor_nonneg.2 hnn
  omega

theorem pickIndex_div (k n : Nat) (hn : 0 < n) : pickIndex ((k : ℚ) / n) n = k := by
  unfold pickIndex
  have hn' : (n : ℚ) ≠ 0 := by exact_mod_cast (Nat.pos_iff_ne_zero.1 hn)
  rw [div_mul_cancel₀ _ hn']
  simp

theorem moveVehicle_eq (draws : MoveDraws) (putOk : Bool) (sim : TrafficSimulation)
    (vehicle : Obj) (i : Nat) (currentRoad : Obj)
    (hq : strictEq (getProp vehicle "status") (some (.str "quarantine")) = false)
    (hfind : findFrom (isCurrentRoadOf vehicle) 0 sim.roads = some (i, currentRoad))
    (hnext : truthy (getNextIntersection currentRoad (getProp vehicle "currentIntersection"))
      = true) :
    (moveVehicle draws putOk sim vehicle).2
      = ((connectedTo sim.roads
            (i, nextEndpoint currentRoad (getProp vehicle "currentIntersection"))
            (getNextIntersection currentRoad (getProp vehicle "currentIntersection"))).get?
          (pickIndex draws.road (connectedTo sim.roads
            (i, nextEndpoint currentRoad (getProp vehicle "currentIntersection"))
            (getNextIntersection currentRoad (getProp vehicle "currentIntersection"))).length)).map
        (fun jr =>
          { vehicleId := getProp vehicle "id", newRoad := getProp jr.2 "id",
            newIntersection :=
              getNextIntersection currentRoad (getProp vehicle "currentIntersection"),
            newSpeed := calculateSpeed draws.speed vehicle jr.2,
            newDirection := directions.get? (pickIndex draws.direction directions.length) }) := by
  have hfind' : findFrom (fun r => strictEq (getProp r "id") (getProp vehicle "currentRoad")) 0
      sim.roads = some (i, currentRoad) := hfind
  unfold moveVehicle
  rw [if_neg (by simp [hq])]
  simp only [hfind']
  rw [if_neg (by simp [hnext])]
  simp only [connectedTo]
  generalize List.filter _ (indexedFrom 0 sim.roads) = L
  by_cases h0 : L.length = 0
  · rw [if_pos h0]
    have : L = [] := List.length_eq_zero.1 h0
    subst this
    rfl
  · rw [if_neg h0]
    cases hg : L.get? (pickIndex draws.road L.length) with
    | none => rfl
    | some jr =>
      obtain ⟨j, r⟩ := jr
      cases putOk <;> rfl

theorem current_mem_connectedTo (roads : List Obj) (vehicle : Obj) (i : Nat) (currentRoad : Obj)
    (hfind : findFrom (isCurrentRoadOf vehicle) 0 roads = some (i, currentRoad)) :
    (i, currentRoad) ∈ connectedTo roads
      (i, nextEndpoint currentRoad (getProp vehicle "currentIntersection"))
      (getNextIntersection currentRoad (getProp vehicle "currentIntersection")) := by
  unfold connectedTo
  refine List.mem_filter.2 ⟨(findFrom_some _ _ _ _ _ hfind).1, ?_⟩
  cases he : nextEndpoint currentRoad (getProp vehicle "currentIntersection") <;>
    simp [sameAsNext]

theorem connectedTo_endpoint (roads : List Obj) (vehicle : Obj) (i : Nat) (currentRoad : Obj)
    (hfind : findFrom (isCurrentRoadOf vehicle) 0 roads = some (i, currentRoad))
    (j : Nat) (r : Obj)
    (hmem : (j, r) ∈ connectedTo roads
      (i, nextEndpoint currentRoad (getProp vehicle "currentIntersection"))
      (getNextIntersection currentRoad (getProp vehicle "currentIntersection"))) :
    r ∈ roads
      ∧ (getNextIntersection currentRoad (getProp vehicle "currentIntersection")
            = getProp r "startIntersection"
          ∨ getNextIntersection currentRoad (getProp vehicle "currentIntersection")
            = getProp r "endIntersection") := by
  unfold connectedTo at hmem
  obtain ⟨hin, hp⟩ := List.mem_filter.1 hmem
  refine ⟨mem_of_mem_indexedFrom _ _ _ _ hin, ?_⟩
  have hcur := (findFrom_some _ _ _ _ _ hfind).1
  have same : ∀ e : Endpoint,
      sameAsNext (i, nextEndpoint currentRoad (getProp vehicle "currentIntersection"))
        (getNextIntersection currentRoad (getProp vehicle "currentIntersection")) j e r = true →
      getNextIntersection currentRoad (getProp vehicle "currentIntersection")
        = getProp r e.key := by
    intro e he
    simp only [sameAsNext, Bool.or_eq_true, decide_eq_true_eq, Prod.mk.injEq] at he
    rcases he with ⟨hj, hE⟩ | hs
    · subst hj
      have hr : r = currentRoad := indexedFrom_unique _ _ _ _ _ hin hcur
      rw [hr, hE]
      exact getNextIntersection_eq _ _
    · exact (strictEq_eq _ _ hs).symm
  simp only [Bool.or_eq_true] at hp
  rcases hp with hp | hp
  · exact Or.inl (same .start hp)
  · exact Or.inr (same .finish hp)

/-- C27: in `moveVehicle`, when the vehicle is not quarantined, its current
road is found in the cached road list and the next intersection is truthy,
the list of roads connected to the next intersection contains the current
road itself, so it is not empty and the dead-end return is not taken: for
every draw between 0 (included) and 1 (excluded) a request is submitted.
Some draw sends the vehicle back onto the road it came from. -/
theorem C27_no_dead_end (draws : MoveDraws) (putOk : Bool) (sim : TrafficSimulation)
    (vehicle : Obj) (i : Nat) (currentRoad : Obj)
    (hq : strictEq (getProp vehicle "status") (some (.str "quarantine")) = false)
    (hfind : findFrom (isCurrentRoadOf vehicle) 0 sim.roads = some (i, currentRoad))
    (hnext : truthy (getNextIntersection currentRoad (getProp vehicle "currentIntersection"))
      = true) :
    (i, currentRoad) ∈ connectedTo sim.roads
        (i, nextEndpoint currentRoad (getProp vehicle "currentIntersection"))
        (getNextIntersection currentRoad (getProp vehicle "currentIntersection"))
      ∧ (connectedTo sim.roads
          (i, nextEndpoint currentRoad (getProp vehicle "currentIntersection"))
          (getNextIntersection currentRoad (getProp vehicle "currentIntersection"))).length ≠ 0
      ∧ (0 ≤ draws.road → draws.road < 1 →
          ∃ request, (moveVehicle draws putOk sim vehicle).2 = some request)
      ∧ (∃ rand : ℚ, 0 ≤ rand ∧ rand < 1 ∧ ∃ request,
          (moveVehicle { draws with road := rand } putOk sim vehicle).2 = some request
            ∧ request.newRoad = getProp currentRoad "id") := by
  have hmem := current_mem_connectedTo sim.roads vehicle i currentRoad hfind
  have hlen : (connectedTo sim.roads
      (i, nextEndpoint currentRoad (getProp vehicle "currentIntersection"))
      (getNextIntersection currentRoad (getProp vehicle "currentIntersection"))).length ≠ 0 := by
    intro h0
    rw [List.length_eq_zero.1 h0] at hmem
    exact absurd hmem (List.not_mem_nil _)
  refine ⟨hmem, hlen, ?_, ?_⟩
  · intro h0 h1
    rw [moveVehicle_eq draws putOk sim vehicle i currentRoad hq hfind hnext]
    have hlt := pickIndex_lt draws.road _ h0 h1 (Nat.pos_of_ne_zero hlen)
    rw [List.get?_eq_get hlt]
    exact ⟨_, rfl⟩
  · obtain ⟨k, hk⟩ := List.mem_iff_get?.1 hmem
    have hklt : k < (connectedTo sim.roads
        (i, nextEndpoint currentRoad (getProp vehicle "currentIntersection"))
        (getNextIntersection currentRoad (getProp vehicle "currentIntersection"))).length := by
      by_contra hge
      rw [List.get?_eq_none.2 (Nat.le_of_not_lt hge)] at hk
      exact absurd hk (by simp)
    have hpos := Nat.pos_of_ne_zero hlen
    have hposq : (0 : ℚ) < ((connectedTo sim.roads
        (i, nextEndpoint currentRoad (getProp vehicle "currentIntersection"))
        (getNextIntersection currentRoad (getProp vehicle "currentIntersection"))).length : ℚ) := by
      exact_mod_cast hpos
    refine ⟨(k : ℚ) / (connectedTo sim.roads
        (i, nextEndpoint currentRoad (getProp vehicle "currentIntersection"))
        (getNextIntersection currentRoad (getProp vehicle "currentIntersection"))).length,
      div_nonneg (by exact_mod_cast Nat.zero_le k) (le_of_lt hposq), ?_, ?_⟩
    · rw [div_lt_one hposq]
      exact_mod_cast hklt
    · rw [moveVehicle_eq _ putOk sim vehicle i currentRoad hq hfind hnext]
      simp only [pickIndex_div _ _ hpos, hk, Option.map_some']
      exact ⟨_, rfl, rfl⟩

/-- C27, at a vehicle on road R1 at intersection I1, in a cache that holds R1
(I1 to I2) and R2 (I2 to I3): the current road is at position 0 and the next
intersection is I2, so a request is submitted for the draw 0. -/
theorem C27_no_dead_end_witness :
    ∃ request, (moveVehicle { road := 0, speed := 0, direction := 0 } true simTwoRoads
        (vehicleOn "V1" "R1")).2 = some request :=
  (C27_no_dead_end { road := 0, speed := 0, direction := 0 } true simTwoRoads
    (vehicleOn "V1" "R1") 0 (roadBetween "R1" "I1" "I2") (by decide) (by decide)
    (by decide)).2.2.1 (le_refl 0) (by norm_num)

theorem moveVehicle_submits (draws : MoveDraws) (putOk : Bool) (sim : TrafficSimulation)
    (vehicle : Obj) (i : Nat) (currentRoad : Obj)
    (hq : strictEq (getProp vehicle "status") (some (.str "quarantine")) = false)
    (hfind : findFrom (isCurrentRoadOf vehicle) 0 sim.roads = some (i, currentRoad))
    (hnext : truthy (getNextIntersection currentRoad (getProp vehicle "currentIntersection"))
      = true) (h0 : 0 ≤ draws.road) (h1 : draws.road < 1) :
    ∃ request, (moveVehicle draws putOk sim vehicle).2 = some request := by
  have hmem := current_mem_connectedTo sim.roads vehicle i currentRoad hfind
  have hlen : (connectedTo sim.roads
      (i, nextEndpoint currentRoad (getProp vehicle "currentIntersection"))
      (getNextIntersection currentRoad (getProp vehicle "currentIntersection"))).length ≠ 0 := by
    intro h0
    rw [List.length_eq_zero.1 h0] at hmem
    exact absurd hmem (List.not_mem_nil _)
  rw [moveVehicle_eq draws putOk sim vehicle i currentRoad hq hfind hnext]
  have hlt := pickIndex_lt draws.road _ h0 h1 (Nat.pos_of_ne_zero hlen)
  rw [List.get?_eq_get hlt]
  exact ⟨_, rfl⟩

theorem moveVehicle_some (draws : MoveDraws) (putOk : Bool) (sim : TrafficSimulation)
    (vehicle : Obj) (request : PositionPut)
    (h : (moveVehicle draws putOk sim vehicle).2 = some request) :
    ∃ i currentRoad,
      strictEq (getProp vehicle "status") (some (.str "quarantine")) = false
        ∧ findFrom (isCurrentRoadOf vehicle) 0 sim.roads = some (i, currentRoad)
        ∧ truthy (getNextIntersection currentRoad (getProp vehicle "currentIntersection"))
            = true := by
  cases hq : strictEq (getProp vehicle "status") (some (.str "quarantine")) with
  | true =>
    unfold moveVehicle at h
    rw [if_pos hq] at h
    exact absurd h (by simp)
  | false =>
    cases hfind : findFrom (isCurrentRoadOf vehicle) 0 sim.roads with
    | none =>
      have hfind' : findFrom (fun r => strictEq (getProp r "id")
          (getProp vehicle "currentRoad")) 0 sim.roads = none := hfind
      unfold moveVehicle at h
      rw [if_neg (by simp [hq])] at h
      simp only [hfind'] at h
      exact absurd h (by simp)
    | some found =>
      obtain ⟨i, currentRoad⟩ := found
      refine ⟨i, currentRoad, rfl, rfl, ?_⟩
      have hfind' : findFrom (fun r => strictEq (getProp r "id")
          (getProp vehicle "currentRoad")) 0 sim.roads = some (i, currentRoad) := hfind
      cases hn : truthy (getNextIntersection currentRoad
          (getProp vehicle "currentIntersection")) with
      | true => rfl
      | false =>
        unfold moveVehicle at h
        rw [if_neg (by simp [hq])] at h
        simp only [hfind'] at h
        rw [if_pos hn] at h
        exact absurd h (by simp)

theorem eq_of_same_id (roads : List Obj) (a b : Obj)
    (hids : (roads.map (fun r => getProp r "id")).Nodup) (ha : a ∈ roads) (hb : b ∈ roads)
    (h : getProp a "id" = getProp b "id") : a = b :=
  List.inj_on_of_nodup_map hids ha hb h

/-- C21: the request that `moveVehicle` submits names a road of the cached
list by its id as `newRoad`, and its `newIntersection` is the
`startIntersection` or the `endIntersection` of that road; the request that
`spawnVehicle` submits names a road of the cached list by its id as
`currentRoad`, and its `currentIntersection` is the `startIntersection` or
the `endIntersection` of that road.  When the ids of the cached roads are
pairwise different, this holds of every cached road with the id that was
sent. -/
theorem C21_endpoint_invariant (draws : MoveDraws) (putOk : Bool) (spawnDraws : SpawnDraws)
    (postOk : Bool) (sim : TrafficSimulation) (vehicle : Obj) :
    (∀ request, (moveVehicle draws putOk sim vehicle).2 = some request →
        (∃ nextRoad ∈ sim.roads, request.newRoad = getProp nextRoad "id"
          ∧ (request.newIntersection = getProp nextRoad "startIntersection"
              ∨ request.newIntersection = getProp nextRoad "endIntersection"))
        ∧ ((sim.roads.map (fun r => getProp r "id")).Nodup →
            ∀ road ∈ sim.roads, getProp road "id" = request.newRoad →
              request.newIntersection = getProp road "startIntersection"
                ∨ request.newIntersection = getProp road "endIntersection"))
      ∧ (∀ post, (spawnVehicle spawnDraws postOk sim).2 = some post →
        (∃ road ∈ sim.roads, post.currentRoad = getProp road "id"
          ∧ (post.currentIntersection = getProp road "startIntersection"
              ∨ post.currentIntersection = getProp road "endIntersection"))
        ∧ ((sim.roads.map (fun r => getProp r "id")).Nodup →
            ∀ road ∈ sim.roads, getProp road "id" = post.currentRoad →
              post.currentIntersection = getProp road "startIntersection"
                ∨ post.currentIntersection = getProp road "endIntersection")) := by
  constructor
  · intro request h
    obtain ⟨i, currentRoad, hq, hfind, hnext⟩ := moveVehicle_some draws putOk sim vehicle request h
    rw [moveVehicle_eq draws putOk sim vehicle i currentRoad hq hfind hnext] at h
    cases hg : (connectedTo sim.roads
        (i, nextEndpoint currentRoad (getProp vehicle "currentIntersection"))
        (getNextIntersection currentRoad (getProp vehicle "currentIntersection"))).get?
        (pickIndex draws.road (connectedTo sim.roads
          (i, nextEndpoint currentRoad (getProp vehicle "currentIntersection"))
          (getNextIntersection currentRoad (getProp vehicle "currentIntersection"))).length) with
    | none => rw [hg] at h; exact absurd h (by simp)
    | some jr =>
      obtain ⟨j, nextRoad⟩ := jr
      rw [hg] at h
      simp only [Option.map_some', Option.some.injEq] at h
      subst h
      obtain ⟨hin, hend⟩ := connectedTo_endpoint sim.roads vehicle i currentRoad hfind j nextRoad
        (List.get?_mem hg)
      refine ⟨⟨nextRoad, hin, rfl, hend⟩, ?_⟩
      intro hids road hroad hid
      have : road = nextRoad := eq_of_same_id sim.roads road nextRoad hids hroad hin hid
      rw [this]
      exact hend
  · intro post h
    unfold spawnVehicle at h
    cases hg : sim.roads.get? (pickIndex spawnDraws.road sim.roads.length) with
    | none => simp only [hg] at h; exact absurd h (by simp)
    | some road =>
      simp only [hg] at h
      have hin : road ∈ sim.roads := List.get?_mem hg
      have hpost : post.currentRoad = getProp road "id"
          ∧ (post.currentIntersection = getProp road "startIntersection"
              ∨ post.currentIntersection = getProp road "endIntersection") := by
        cases postOk
        · simp only [Bool.false_eq_true, if_false, Option.some.injEq] at h
          subst h
          refine ⟨rfl, ?_⟩
          by_cases hc : spawnDraws.intersection > 1 / 2
          · exact Or.inl (by simp only [hc, if_true])
          · exact Or.inr (by simp only [hc, if_false])
        · simp only [if_true, Option.some.injEq] at h
          subst h
          refine ⟨rfl, ?_⟩
          by_cases hc : spawnDraws.intersection > 1 / 2
          · exact Or.inl (by simp only [hc, if_true])
          · exact Or.inr (by simp only [hc, if_false])
      refine ⟨⟨road, hin, hpost.1, hpost.2⟩, ?_⟩
      intro hids road' hroad' hid
      have : road' = road :=
        eq_of_same_id sim.roads road' road hids hroad' hin (hid.trans hpost.1)
      rw [this]
      exact hpost.2

/-- C21, in a cache that holds R1 (I1 to I2) and R2 (I2 to I3): a vehicle on
R1 at I1 that is moved with the draw 0 is placed at an endpoint of the road
it is sent to. -/
theorem C21_endpoint_invariant_witness :
    ∃ request nextRoad,
      (moveVehicle { road := 0, speed := 0, direction := 0 } true simTwoRoads
          (vehicleOn "V1" "R1")).2 = some request
        ∧ nextRoad ∈ simTwoRoads.roads
        ∧ request.newRoad = getProp nextRoad "id"
        ∧ (request.newIntersection = getProp nextRoad "startIntersection"
            ∨ request.newIntersection = getProp nextRoad "endIntersection") := by
  obtain ⟨request, hr⟩ := moveVehicle_submits { road := 0, speed := 0, direction := 0 } true
    simTwoRoads (vehicleOn "V1" "R1") 0 (roadBetween "R1" "I1" "I2") (by decide) (by decide)
    (by decide) (le_refl 0) (by norm_num)
  obtain ⟨⟨nextRoad, hin, h1, h2⟩, _⟩ :=
    (C21_endpoint_invariant { road := 0, speed := 0, direction := 0 } true
      { type := 0, road := 0, intersection := 0, speed := 0, direction := 0 } true simTwoRoads
      (vehicleOn "V1" "R1")).1 request hr
  exact ⟨request, nextRoad, hr, hin, h1, h2⟩

/-! ## Timers of the reachable states -/

theorem live_of_launched (sim : TrafficSimulation) (speed : ℚ) (rate : Int) (n k : Nat)
    (hrate : sim.spawnRate = rate) :
    ({ sim := sim, timers := [] ++ launched speed rate n, nextHandle := k } : Engine).Live := by
  intro _
  have hmove : ({ handle := n, task := .vehicleMove, interval := floorQuot 3000 speed } : Timer)
      ∈ [] ++ launched speed rate n := by simp [launched]
  have hlight : (⟨n + 1, .trafficLight, floorQuot 15000 speed⟩ : Timer)
      ∈ [] ++ launched speed rate n := by
    simp [launched]
  by_cases hr : rate = 0
  · refine ⟨⟨_, hmove, rfl⟩, ⟨_, hlight, rfl⟩,
      ⟨{ handle := n + 2, task := .congestionUpdate, interval := floorQuot 10000 speed },
        by simp [launched, hr], rfl⟩, ?_⟩
    constructor
    · rintro ⟨t, ht, htask⟩
      simp only [launched, hr, if_true, List.nil_append, List.cons_append, List.mem_cons,
        List.mem_singleton, List.not_mem_nil, or_false] at ht
      rcases ht with ht | ht | ht <;> subst ht <;> simp at htask
    · intro hne
      exact absurd (hrate.trans hr) hne
  · refine ⟨⟨_, hmove, rfl⟩, ⟨_, hlight, rfl⟩,
      ⟨{ handle := n + 3, task := .congestionUpdate, interval := floorQuot 10000 speed },
        by simp [launched, hr], rfl⟩, ?_⟩
    constructor
    · intro _
      rw [hrate]; exact hr
    · intro _
      exact ⟨{ handle := n + 2, task := .vehicleSpawn,
               interval := floorQuot 60000 (rate * speed) }, by simp [launched, hr], rfl⟩

theorem live_of_not_running (e : Engine) (h : e.sim.isRunning = false) : e.Live := by
  intro hr
  rw [h] at hr
  exact absurd hr (by simp)

theorem live_resume (e : Engine) (ht : e.Tidy) (hl : e.Live) : (resume e).Live := by
  cases hr : e.sim.isRunning
  · rw [resume_of_not_running e hr, timers_nil_of_tidy e ht hr]
    exact live_of_launched _ _ _ _ _ rfl
  · rw [resume_of_running e hr]; exact hl

theorem live_start (loaded : Option Snapshot) (e : Engine) (ht : e.Tidy) (hl : e.Live) :
    (start loaded e).Live := by
  cases hr : e.sim.isRunning
  · have hnil := timers_nil_of_tidy e ht hr
    simp only [start, startBegin, hr, Bool.false_eq_true, if_false, startFinish]
    rw [launch_eq]
    cases loaded <;>
    · simp only [loadState, hnil]
      exact live_of_launched _ _ _ _ _ rfl
  · have : start loaded e = e := by simp [start, startBegin, hr]
    rw [this]; exact hl

theorem live_setSpeed (m : ℚ) (e : Engine) (ht : e.Tidy) (_hl : e.Live) :
    (setSpeed m e).Live := by
  have h' : ({ e with sim := { e.sim with speed := m } } : Engine).Tidy := by
    apply tidy_of_same e _ rfl rfl rfl _ ht
    intro task; cases task <;> rfl
  cases hr : e.sim.isRunning
  · apply live_of_not_running
    simp [setSpeed, hr]
  · have hs : setSpeed m e = resume (pause { e with sim := { e.sim with speed := m } }) := by
      have hc : (({ e with sim := { e.sim with speed := m } } : Engine).sim.isRunning) = true :=
        hr
      show (if ({ e with sim := { e.sim with speed := m } } : Engine).sim.isRunning = true
          then resume (pause { e with sim := { e.sim with speed := m } })
          else { e with sim := { e.sim with speed := m } }) = _
      rw [if_pos hc]
    rw [hs]
    exact live_resume _ (tidy_pause _ h') (live_of_not_running _ (pause_frame _).1)

theorem live_setSpawnRate (r : Int) (e : Engine) (ht : e.Tidy) (hl : e.Live) :
    (setSpawnRate r e).Live := by
  cases hr : e.sim.isRunning
  · apply live_of_not_running
    simp [setSpawnRate, hr]
  · obtain ⟨⟨t1, hm1, ht1⟩, ⟨t2, hm2, ht2⟩, ⟨t3, hm3, ht3⟩, _⟩ := hl hr
    rw [setSpawnRate_of_running r e hr, spawn_filter_of_tidy e ht]
    have keep : ∀ t : Timer, t ∈ e.timers → t.task ≠ .vehicleSpawn →
        t ∈ e.timers.filter (fun t => decide (t.task ≠ .vehicleSpawn)) :=
      fun t hm hne => List.mem_filter.2 ⟨hm, by simpa using hne⟩
    by_cases hz : r = 0
    · rw [if_pos hz]
      intro _
      refine ⟨⟨t1, keep t1 hm1 (by rw [ht1]; decide), ht1⟩,
        ⟨t2, keep t2 hm2 (by rw [ht2]; decide), ht2⟩,
        ⟨t3, keep t3 hm3 (by rw [ht3]; decide), ht3⟩, ?_⟩
      constructor
      · rintro ⟨t, hm, htask⟩
        have := (List.mem_filter.1 hm).2
        simp [htask] at this
      · intro hne
        exact absurd hz hne
    · rw [if_neg hz]
      intro _
      refine ⟨⟨t1, List.mem_append_left _ (keep t1 hm1 (by rw [ht1]; decide)), ht1⟩,
        ⟨t2, List.mem_append_left _ (keep t2 hm2 (by rw [ht2]; decide)), ht2⟩,
        ⟨t3, List.mem_append_left _ (keep t3 hm3 (by rw [ht3]; decide)), ht3⟩, ?_⟩
      constructor
      · intro _; exact hz
      · intro _
        exact ⟨_, List.mem_append_right _ (List.mem_singleton_self _), rfl⟩

theorem live_apply (e : Engine) (c : Call) (ht : e.Tidy) (hl : e.Live) : (e.apply c).Live := by
  cases c with
  | start loaded => exact live_start loaded e ht hl
  | pause => exact live_of_not_running _ (pause_frame e).1
  | resume => exact live_resume e ht hl
  | reset loaded =>
    apply live_of_not_running
    cases loaded <;> exact (pause_frame e).1
  | setSpeed m => exact live_setSpeed m e ht hl
  | setSpawnRate r => exact live_setSpawnRate r e ht hl

theorem live_after (calls : List Call) : (Engine.after calls).Live := by
  have gen : ∀ (calls : List Call) (e : Engine), e.Tidy → e.Live →
      (calls.foldl Engine.apply e).Live := by
    intro calls
    induction calls with
    | nil => intro e _ h; exact h
    | cons c rest ih => intro e ht hl; exact ih _ (tidy_apply e c ht) (live_apply e c ht hl)
  exact gen calls Engine.new tidy_new (live_of_not_running _ rfl)

theorem length_le_one_of_const {α : Type} (l : List α) (c : α) (hn : l.Nodup)
    (hc : ∀ x ∈ l, x = c) : l.length ≤ 1 := by
  match l, hn, hc with
  | [], _, _ => simp
  | [_], _, _ => simp
  | a :: b :: rest, hn, hc =>
    have ha := hc a (by simp)
    have hb := hc b (by simp)
    rw [List.nodup_cons] at hn
    exact absurd (by rw [ha, hb]; simp) hn.1

theorem liveCount_le_one (e : Engine) (ht : e.Tidy) (task : Task) : e.liveCount task ≤ 1 := by
  unfold Engine.liveCount
  rw [List.countP_eq_length_filter, ← List.length_map (f := Timer.handle)]
  cases hh : e.sim.handleOf task with
  | none =>
    have : e.timers.filter (fun t => decide (t.task = task)) = [] := by
      rw [List.filter_eq_nil_iff]
      intro t hm
      have := (ht.2.2.1 t hm).2
      intro htask
      simp only [decide_eq_true_eq] at htask
      rw [htask, hh] at this
      exact absurd this (by simp)
    rw [this]; simp
  | some h =>
    apply length_le_one_of_const _ h
    · exact ((List.filter_sublist _).map _).nodup ht.2.1
    · intro x hx
      obtain ⟨t, hm, hxt⟩ := List.mem_map.1 hx
      obtain ⟨hm', htask⟩ := List.mem_filter.1 hm
      simp only [decide_eq_true_eq] at htask
      have := (ht.2.2.1 t hm').2
      rw [htask, hh] at this
      rw [← hxt]
      exact (Option.some.inj this).symm

theorem liveCount_pos (e : Engine) (task : Task) (h : ∃ t ∈ e.timers, t.task = task) :
    0 < e.liveCount task := by
  obtain ⟨t, hm, htask⟩ := h
  unfold Engine.liveCount
  exact List.countP_pos_iff.2 ⟨t, hm, by simpa using htask⟩

/-- C29: in every state that the constructor's state reaches by calls of
`start`, `pause`, `resume`, `reset`, `setSpeed` and `setSpawnRate`, each run
as one step (whatever their arguments, so also for every multiplier above 0
and every rate of at least 0), each of the four tasks has at most one live
timer; no timer is live when `isRunning` is false; and when `isRunning` is
true the mobility, light-cycler and congestion tasks have exactly one live
timer each and the spawner has one exactly when `spawnRate` is not 0. -/
theorem C29_reachable_timers (calls : List Call) :
    (∀ task, (Engine.after calls).liveCount task ≤ 1)
      ∧ ((Engine.after calls).sim.isRunning = false → (Engine.after calls).timers = [])
      ∧ ((Engine.after calls).sim.isRunning = true →
          (Engine.after calls).liveCount .vehicleMove = 1
            ∧ (Engine.after calls).liveCount .trafficLight = 1
            ∧ (Engine.after calls).liveCount .congestionUpdate = 1
            ∧ ((Engine.after calls).liveCount .vehicleSpawn = 1
                ↔ (Engine.after calls).sim.spawnRate ≠ 0)
            ∧ ((Engine.after calls).liveCount .vehicleSpawn = 0
                ↔ (Engine.after calls).sim.spawnRate = 0)) := by
  have ht := tidy_after calls
  have hl := live_after calls
  have hle := liveCount_le_one (Engine.after calls) ht
  refine ⟨hle, timers_nil_of_tidy _ ht, ?_⟩
  intro hr
  obtain ⟨h1, h2, h3, h4⟩ := hl hr
  have p1 := liveCount_pos _ _ h1
  have p2 := liveCount_pos _ _ h2
  have p3 := liveCount_pos _ _ h3
  have l1 := hle .vehicleMove
  have l2 := hle .trafficLight
  have l3 := hle .congestionUpdate
  have l4 := hle .vehicleSpawn
  have hex : (∃ t ∈ (Engine.after calls).timers, t.task = .vehicleSpawn)
      ↔ 0 < (Engine.after calls).liveCount .vehicleSpawn := by
    constructor
    · exact liveCount_pos _ _
    · intro hp
      obtain ⟨t, hm, htask⟩ := List.countP_pos_iff.1 hp
      exact ⟨t, hm, by simpa using htask⟩
  refine ⟨by omega, by omega, by omega, ?_, ?_⟩
  · rw [← h4, hex]
    omega
  · constructor
    · intro h0
      by_contra hne
      have := (hex.1 (h4.2 hne))
      omega
    · intro hz
      by_contra hne
      have hp : 0 < (Engine.after calls).liveCount .vehicleSpawn := by omega
      exact (h4.1 (hex.2 hp)) hz

/-! ## Operations on records of another kind -/

/-- C28: in a store that transactions of the contract have built from the
empty store, `ReadVehicle(id)` and `UpdateVehicleStatus(id, s)` fail exactly
when the key has no record, with the not-found error, and on every key that
has a record, of whatever `assetType`, the record is a JSON object,
`ReadVehicle` returns it unchanged, and `UpdateVehicleStatus` succeeds and
stores under the same key the record with `status` set to `s` and `timestamp`
set to the transaction time, every other field, `assetType` among them, being
as before; no other key is written. -/
theorem C28_no_asset_type_check (parseFloat : String → JVal) (txs : List (Ctx × Tx)) (ctx : Ctx)
    (id newStatus : String) :
    (getState (ledgerAfter parseFloat txs) id = none →
        ReadVehicle (ledgerAfter parseFloat txs) id
            = .error (.error ("Vehicle " ++ id ++ " does not exist"))
          ∧ UpdateVehicleStatus ctx (ledgerAfter parseFloat txs) id newStatus
            = .error (.error ("Vehicle " ++ id ++ " does not exist")))
      ∧ (∀ record, getState (ledgerAfter parseFloat txs) id = some record →
          ∃ fields fields', record = .json (.obj fields)
            ∧ ReadVehicle (ledgerAfter parseFloat txs) id
                = .ok (ledgerAfter parseFloat txs, record)
            ∧ UpdateVehicleStatus ctx (ledgerAfter parseFloat txs) id newStatus
                = .ok (putState (ledgerAfter parseFloat txs) id (.json (.obj fields')),
                       .json (.obj fields'))
            ∧ getProp fields' "status" = some (.str newStatus)
            ∧ getProp fields' "timestamp" = some (.str (_getTxTimestamp ctx))
            ∧ getProp fields' "assetType" = getProp fields "assetType"
            ∧ (∀ k, k ≠ "status" → k ≠ "timestamp" → getProp fields' k = getProp fields k)
            ∧ ∀ k, k ≠ id →
                getState (putState (ledgerAfter parseFloat txs) id (.json (.obj fields'))) k
                  = getState (ledgerAfter parseFloat txs) k)
      ∧ ((∃ e, ReadVehicle (ledgerAfter parseFloat txs) id = .error e)
          ↔ getState (ledgerAfter parseFloat txs) id = none)
      ∧ ((∃ e, UpdateVehicleStatus ctx (ledgerAfter parseFloat txs) id newStatus = .error e)
          ↔ getState (ledgerAfter parseFloat txs) id = none) := by
  have hall := allObjects_ledgerAfter parseFloat txs
  have habsent : getState (ledgerAfter parseFloat txs) id = none →
      ReadVehicle (ledgerAfter parseFloat txs) id
          = .error (.error ("Vehicle " ++ id ++ " does not exist"))
        ∧ UpdateVehicleStatus ctx (ledgerAfter parseFloat txs) id newStatus
          = .error (.error ("Vehicle " ++ id ++ " does not exist")) := by
    intro h
    exact ⟨by simp [ReadVehicle, h, hasBytes], by simp [UpdateVehicleStatus, h, hasBytes]⟩
  have hpresent : ∀ record, getState (ledgerAfter parseFloat txs) id = some record →
      ∃ fields, record = .json (.obj fields)
        ∧ ReadVehicle (ledgerAfter parseFloat txs) id
            = .ok (ledgerAfter parseFloat txs, record)
        ∧ UpdateVehicleStatus ctx (ledgerAfter parseFloat txs) id newStatus
            = .ok (putState (ledgerAfter parseFloat txs) id
                (.json (.obj (setProp (setProp fields "status" (.str newStatus))
                  "timestamp" (.str (_getTxTimestamp ctx))))),
                .json (.obj (setProp (setProp fields "status" (.str newStatus))
                  "timestamp" (.str (_getTxTimestamp ctx))))) := by
    intro record h
    obtain ⟨fields, hf⟩ := hall id record h
    subst hf
    exact ⟨fields, rfl, by simp [ReadVehicle, h, hasBytes],
      updateVehicleStatus_obj ctx _ id newStatus fields h⟩
  refine ⟨habsent, ?_, ?_, ?_⟩
  · intro record h
    obtain ⟨fields, hf, hr, hu⟩ := hpresent record h
    refine ⟨fields, _, hf, hr, hu, ?_, ?_, ?_, ?_, ?_⟩
    · rw [getProp_setProp_ne _ _ _ _ (by decide), getProp_setProp_same]
    · rw [getProp_setProp_same]
    · rw [getProp_setProp_ne _ _ _ _ (by decide), getProp_setProp_ne _ _ _ _ (by decide)]
    · intro k h1 h2
      rw [getProp_setProp_ne _ _ _ _ h2, getProp_setProp_ne _ _ _ _ h1]
    · intro k hk
      exact getState_putState_ne _ _ _ _ hk
  · constructor
    · rintro ⟨e, he⟩
      cases hg : getState (ledgerAfter parseFloat txs) id with
      | none => rfl
      | some record =>
        obtain ⟨_, _, hr, _⟩ := hpresent record hg
        rw [hr] at he
        exact absurd he (by simp)
    · intro h
      exact ⟨_, (habsent h).1⟩
  · constructor
    · rintro ⟨e, he⟩
      cases hg : getState (ledgerAfter parseFloat txs) id with
      | none => rfl
      | some record =>
        obtain ⟨_, _, _, hu⟩ := hpresent record hg
        rw [hu] at he
        exact absurd he (by simp)
    · intro h
      exact ⟨_, (habsent h).2⟩

/-- C28, at the store in which incident `INC1` was reported and resolved:
`UpdateVehicleStatus("INC1", "parked")` succeeds on the incident record and
stores it with status `parked` and its `assetType` as before. -/
theorem C28_no_asset_type_check_witness :
    ∃ fields', UpdateVehicleStatus ctxA resolvedIncidentLedger "INC1" "parked"
          = .ok (putState resolvedIncidentLedger "INC1" (.json (.obj fields')),
                 .json (.obj fields'))
      ∧ getProp fields' "status" = some (.str "parked")
      ∧ getProp fields' "assetType" = some (.str "incident") := by
  obtain ⟨fields, fields', hf, _, hu, hs, _, ha, _⟩ :=
    (C28_no_asset_type_check (fun _ => .num 0)
      [(ctxA, .keyed (.reportIncident "INC1" "accident" "Central Plaza" "R001" "high"
          "collision")),
       (ctxA, .keyed (.resolveIncident "INC1"))] ctxA "INC1" "parked").2.1
      (.json (.obj resolvedIncidentRecord)) (by decide)
  refine ⟨fields', hu, hs, ?_⟩
  rw [ha]
  have : fields = resolvedIncidentRecord := by
    have := Buffer.json.inj hf
    exact (JVal.obj.inj this).symm
  rw [this]
  decide

/-! ## Violation keys -/

theorem padDigits_length (width n : Nat) : (padDigits width n).length = width := by
  induction width generalizing n with
  | zero => rfl
  | succ w ih => simp [padDigits, ih]

theorem digit_kept (k : Nat) (hk : k < 10) :
    (!((Char.ofNat (48 + k)).toNat = 58 || (Char.ofNat (48 + k)).toNat = 46)) = true := by
  interval_cases k <;> decide

theorem padDigits_kept (width n : Nat) :
    ∀ c ∈ padDigits width n, (!(c.toNat = 58 || c.toNat = 46)) = true := by
  induction width generalizing n with
  | zero => intro c hc; simp [padDigits] at hc
  | succ w ih =>
    intro c hc
    simp only [padDigits, List.mem_append, List.mem_singleton] at hc
    rcases hc with hc | hc
    · exact ih _ c hc
    · subst hc
      exact digit_kept _ (Nat.mod_lt _ (by decide))

theorem toISOString_shape (ms : Int) :
    ∃ A B C D : List Char,
      (toISOString ms).data
          = A ++ [Char.ofNat 58] ++ B ++ [Char.ofNat 58] ++ C ++ [Char.ofNat 46] ++ D
        ∧ B.length = 2 ∧ C.length = 2 ∧ D.length = 4
        ∧ (∀ c ∈ A, (!(c.toNat = 58 || c.toNat = 46)) = true)
        ∧ (∀ c ∈ B, (!(c.toNat = 58 || c.toNat = 46)) = true)
        ∧ (∀ c ∈ C, (!(c.toNat = 58 || c.toNat = 46)) = true)
        ∧ (∀ c ∈ D, (!(c.toNat = 58 || c.toNat = 46)) = true) := by
  unfold toISOString
  simp only []
  generalize civilFromDays (Int.fdiv ms 86400000) = ymd
  obtain ⟨y, m, d⟩ := ymd
  simp only []
  generalize (ms - Int.fdiv ms 86400000 * 86400000).toNat = rem
  generalize hyear : (if 0 ≤ y ∧ y ≤ 9999 then padDigits 4 y.toNat
    else (if y < 0 then [Char.ofNat 45] else [Char.ofNat 43]) ++ padDigits 6 y.natAbs) = year
  have hyk : ∀ c ∈ year, (!(c.toNat = 58 || c.toNat = 46)) = true := by
    intro c hc
    rw [← hyear] at hc
    split at hc
    · exact padDigits_kept _ _ c hc
    · simp only [List.mem_append] at hc
      rcases hc with hc | hc
      · split at hc
        · simp only [List.mem_singleton] at hc; subst hc; decide
        · simp only [List.mem_singleton] at hc; subst hc; decide
      · exact padDigits_kept _ _ c hc
  refine ⟨year ++ [Char.ofNat 45] ++ padDigits 2 m ++ [Char.ofNat 45] ++ padDigits 2 d
      ++ [Char.ofNat 84] ++ padDigits 2 (rem / 3600000), padDigits 2 (rem / 60000 % 60),
      padDigits 2 (rem / 1000 % 60), padDigits 3 (rem % 1000) ++ [Char.ofNat 90], ?_, padDigits_length _ _, padDigits_length _ _, ?_,
      ?_, padDigits_kept _ _, padDigits_kept _ _, ?_⟩
  · simp only [List.append_assoc]
  · simp [padDigits_length]
  · intro c hc
    simp only [List.mem_append, List.mem_singleton] at hc
    rcases hc with (((((hc | hc) | hc) | hc) | hc) | hc) | hc
    · exact hyk c hc
    · subst hc; decide
    · exact padDigits_kept _ _ c hc
    · subst hc; decide
    · exact padDigits_kept _ _ c hc
    · subst hc; decide
    · exact padDigits_kept _ _ c hc
  · intro c hc
    simp only [List.mem_append, List.mem_singleton] at hc
    rcases hc with hc | hc
    · exact padDigits_kept _ _ c hc
    · subst hc; decide

theorem filter_kept (l : List Char) (h : ∀ c ∈ l, (!(c.toNat = 58 || c.toNat = 46)) = true) :
    l.filter (fun c => !(c.toNat = 58 || c.toNat = 46)) = l :=
  List.filter_eq_self.2 h

theorem stripColonsDots_injective (ms1 ms2 : Int)
    (h : stripColonsDots (toISOString ms1) = stripColonsDots (toISOString ms2)) :
    toISOString ms1 = toISOString ms2 := by
  obtain ⟨A1, B1, C1, D1, e1, b1, c1, d1, ka1, kb1, kc1, kd1⟩ := toISOString_shape ms1
  obtain ⟨A2, B2, C2, D2, e2, b2, c2, d2, ka2, kb2, kc2, kd2⟩ := toISOString_shape ms2
  have hs : ∀ (A B C D : List Char),
      (∀ c ∈ A, (!(c.toNat = 58 || c.toNat = 46)) = true) →
      (∀ c ∈ B, (!(c.toNat = 58 || c.toNat = 46)) = true) →
      (∀ c ∈ C, (!(c.toNat = 58 || c.toNat = 46)) = true) →
      (∀ c ∈ D, (!(c.toNat = 58 || c.toNat = 46)) = true) →
      (A ++ [Char.ofNat 58] ++ B ++ [Char.ofNat 58] ++ C ++ [Char.ofNat 46] ++ D).filter
          (fun c => !(c.toNat = 58 || c.toNat = 46)) = A ++ B ++ C ++ D := by
    intro A B C D ka kb kc kd
    have h58 : [Char.ofNat 58].filter (fun c => !(c.toNat = 58 || c.toNat = 46)) = [] := by
      decide
    have h46 : [Char.ofNat 46].filter (fun c => !(c.toNat = 58 || c.toNat = 46)) = [] := by
      decide
    simp only [List.filter_append, filter_kept A ka, filter_kept B kb, filter_kept C kc,
      filter_kept D kd, h58, h46, List.append_nil]
  have hd : (stripColonsDots (toISOString ms1)).data = (stripColonsDots (toISOString ms2)).data :=
    congrArg String.data h
  simp only [stripColonsDots] at hd
  rw [e1, e2, hs A1 B1 C1 D1 ka1 kb1 kc1 kd1, hs A2 B2 C2 D2 ka2 kb2 kc2 kd2] at hd
  have hlen := congrArg List.length hd
  simp only [List.length_append, b1, c1, d1, b2, c2, d2] at hlen
  have hA : A1.length = A2.length := by omega
  simp only [List.append_assoc] at hd
  obtain ⟨hAe, hrest⟩ := List.append_inj hd hA
  obtain ⟨hBe, hrest⟩ := List.append_inj hrest (by rw [b1, b2])
  obtain ⟨hCe, hDe⟩ := List.append_inj hrest (by rw [c1, c2])
  apply String.ext
  rw [e1, e2, hAe, hBe, hCe, hDe]

theorem violationKey_eq_iff (ctx1 ctx2 : Ctx) (id : String) :
    violationKey ctx1 id = violationKey ctx2 id ↔ _getTxTimestamp ctx1 = _getTxTimestamp ctx2 := by
  constructor
  · intro h
    have hd := congrArg String.data h
    simp only [violationKey, String.data_append] at hd
    have hs : (stripColonsDots (_getTxTimestamp ctx1)).data
        = (stripColonsDots (_getTxTimestamp ctx2)).data := List.append_cancel_left hd
    exact stripColonsDots_injective _ _ (String.ext hs)
  · intro h
    simp only [violationKey, h]

theorem updateVehiclePosition_speeding (ctx : Ctx) (w : World)
    (id newRoad newIntersection newSpeed newDirection : String) (vehicle : Obj)
    (hv : getState w id = some (.json (.obj vehicle)))
    (hs : speeding w newRoad newSpeed = true) :
    ∃ road, getState w newRoad = some (.json road)
      ∧ UpdateVehiclePosition ctx w id newRoad newIntersection newSpeed newDirection
        = .ok (putState
            (putState w (violationKey ctx id)
              (.json (.obj (violationRecord ctx id newRoad (fieldOf road "maxSpeed")
                (parseInt newSpeed none) (fieldOf road "name")))))
            id (.json (.obj (movedVehicle ctx vehicle newRoad newIntersection newSpeed
              newDirection))),
          .json (.obj (movedVehicle ctx vehicle newRoad newIntersection newSpeed
            newDirection))) := by
  unfold speeding at hs
  cases hr : getState w newRoad with
  | none => simp [hr] at hs
  | some b =>
    cases b with
    | empty => simp [hr] at hs
    | garbage t => simp [hr] at hs
    | json road =>
      simp only [hr] at hs
      have hn : road ≠ .null := by
        intro h0
        subst h0
        simp [fieldOf, toNumber, numGt] at hs
      refine ⟨road, rfl, ?_⟩
      rw [updateVehiclePosition_eq ctx w id newRoad newIntersection newSpeed newDirection vehicle hv,
        checkSpeedViolation_json ctx w id newRoad _ road hr hn, if_pos hs]
      rfl

/-- C22 fails as stated: the transaction times of `ctxA` and `ctxSameMs`
differ (by 999999 nanoseconds within one millisecond), both position updates
of V1 onto road R2 (maxSpeed 50) are speeding (70 and 80), and yet both are
stored under the same key, so the store ends with one violation record, the
later one. -/
theorem C22_counterexample_same_millisecond :
    ctxA ≠ ctxSameMs
      ∧ ctxA.seconds = ctxSameMs.seconds ∧ ctxA.nanos ≠ ctxSameMs.nanos
      ∧ speeding worldV1R2 "R2" "70" = true
      ∧ speeding (commit worldV1R2
          (UpdateVehiclePosition ctxA worldV1R2 "V1" "R2" "I2" "70" "east")) "R2" "80" = true
      ∧ violationKey ctxA "V1" = violationKey ctxSameMs "V1"
      ∧ violationKey ctxA "V1" = "VIO_V1_2023-11-14T221321005Z"
      ∧ (GetAllViolations (commit worldV1R2
          (UpdateVehiclePosition ctxA worldV1R2 "V1" "R2" "I2" "70" "east"))).map
            (fun v => fieldOf v "actualSpeed") = [some (.num 70)]
      ∧ (GetAllViolations (commit (commit worldV1R2
          (UpdateVehiclePosition ctxA worldV1R2 "V1" "R2" "I2" "70" "east"))
          (UpdateVehiclePosition ctxSameMs (commit worldV1R2
            (UpdateVehiclePosition ctxA worldV1R2 "V1" "R2" "I2" "70" "east"))
            "V1" "R2" "I2" "80" "east"))).map
            (fun v => fieldOf v "actualSpeed") = [some (.num 80)] := by
  refine ⟨by decide, by decide, by decide, by decide, by decide, by decide, by decide,
    by decide, by decide⟩

/-- C22, amended: the violation key is 'VIO_' + vehicleId + '_' + the
transaction timestamp (the ISO string of `_getTxTimestamp`, which has
millisecond resolution) with ':' and '.' removed. For one vehicle id and two
speeding position updates made one after the other, the first record is
stored under the key of the first timestamp and the second under the key of
the second; the two keys are equal exactly when the two timestamps are equal.
When the timestamps differ the first record is still in the store after the
second update, and when they are equal the second record has replaced it. Two
transaction times in the same millisecond have the same timestamp. -/
theorem C22_violation_key (ctx1 ctx2 : Ctx) (w : World)
    (id road1 intersection1 speed1 direction1 road2 intersection2 speed2 direction2 : String)
    (vehicle : Obj)
    (hv : getState w id = some (.json (.obj vehicle)))
    (hs1 : speeding w road1 speed1 = true)
    (hs2 : speeding
      (commit w (UpdateVehiclePosition ctx1 w id road1 intersection1 speed1 direction1))
      road2 speed2 = true) :
    ∃ (w1 w2 : World) (out1 out2 : Buffer) (first second : Obj),
      UpdateVehiclePosition ctx1 w id road1 intersection1 speed1 direction1 = .ok (w1, out1)
      ∧ UpdateVehiclePosition ctx2 w1 id road2 intersection2 speed2 direction2 = .ok (w2, out2)
      ∧ violationKey ctx1 id = "VIO_" ++ id ++ "_" ++ stripColonsDots (_getTxTimestamp ctx1)
      ∧ violationKey ctx2 id = "VIO_" ++ id ++ "_" ++ stripColonsDots (_getTxTimestamp ctx2)
      ∧ getState w1 (violationKey ctx1 id) = some (.json (.obj first))
      ∧ getProp first "timestamp" = some (.str (_getTxTimestamp ctx1))
      ∧ getProp first "roadId" = some (.str road1)
      ∧ getProp first "actualSpeed" = some (numToJson (parseInt speed1 none))
      ∧ getState w2 (violationKey ctx2 id) = some (.json (.obj second))
      ∧ getProp second "timestamp" = some (.str (_getTxTimestamp ctx2))
      ∧ getProp second "roadId" = some (.str road2)
      ∧ getProp second "actualSpeed" = some (numToJson (parseInt speed2 none))
      ∧ (violationKey ctx1 id = violationKey ctx2 id
          ↔ _getTxTimestamp ctx1 = _getTxTimestamp ctx2)
      ∧ (_getTxTimestamp ctx1 ≠ _getTxTimestamp ctx2 →
          violationKey ctx1 id ≠ violationKey ctx2 id
            ∧ getState w2 (violationKey ctx1 id) = some (.json (.obj first)))
      ∧ (_getTxTimestamp ctx1 = _getTxTimestamp ctx2 →
          violationKey ctx1 id = violationKey ctx2 id
            ∧ getState w2 (violationKey ctx1 id) = some (.json (.obj second)))
      ∧ (ctx1.seconds * 1000 + Int.fdiv ctx1.nanos 1000000
            = ctx2.seconds * 1000 + Int.fdiv ctx2.nanos 1000000 →
          _getTxTimestamp ctx1 = _getTxTimestamp ctx2) := by
  obtain ⟨r1, hr1, e1⟩ := updateVehiclePosition_speeding ctx1 w id road1 intersection1 speed1
    direction1 vehicle hv hs1
  rw [e1] at hs2
  simp only [commit] at hs2
  have hne1 : violationKey ctx1 id ≠ id := violationKey_ne ctx1 id
  have hne2 : violationKey ctx2 id ≠ id := violationKey_ne ctx2 id
  have hv1 : getState (putState
      (putState w (violationKey ctx1 id)
        (.json (.obj (violationRecord ctx1 id road1 (fieldOf r1 "maxSpeed")
          (parseInt speed1 none) (fieldOf r1 "name")))))
      id (.json (.obj (movedVehicle ctx1 vehicle road1 intersection1 speed1 direction1)))) id
      = some (.json (.obj (movedVehicle ctx1 vehicle road1 intersection1 speed1 direction1))) :=
    getState_putState_same _ _ _
  obtain ⟨r2, hr2, e2⟩ := updateVehiclePosition_speeding ctx2 _ id road2 intersection2 speed2
    direction2 _ hv1 hs2
  have hm1 : ∃ m, fieldOf r1 "maxSpeed" = some m := by
    unfold speeding at hs1
    simp only [hr1] at hs1
    cases hm : fieldOf r1 "maxSpeed" with
    | none => rw [hm] at hs1; cases parseInt speed1 none <;> simp [toNumber, numGt] at hs1
    | some m => exact ⟨m, rfl⟩
  have hm2 : ∃ m, fieldOf r2 "maxSpeed" = some m := by
    unfold speeding at hs2
    simp only [hr2] at hs2
    cases hm : fieldOf r2 "maxSpeed" with
    | none => rw [hm] at hs2; cases parseInt speed2 none <;> simp [toNumber, numGt] at hs2
    | some m => exact ⟨m, rfl⟩
  obtain ⟨m1, hm1⟩ := hm1
  obtain ⟨m2, hm2⟩ := hm2
  have f1 := violationRecord_fields ctx1 id road1 m1 (parseInt speed1 none) (fieldOf r1 "name")
  have f2 := violationRecord_fields ctx2 id road2 m2 (parseInt speed2 none) (fieldOf r2 "name")
  have hiff := violationKey_eq_iff ctx1 ctx2 id
  have g1 : getState (putState
      (putState w (violationKey ctx1 id)
        (.json (.obj (violationRecord ctx1 id road1 (fieldOf r1 "maxSpeed")
          (parseInt speed1 none) (fieldOf r1 "name")))))
      id (.json (.obj (movedVehicle ctx1 vehicle road1 intersection1 speed1 direction1))))
      (violationKey ctx1 id)
      = some (.json (.obj (violationRecord ctx1 id road1 (fieldOf r1 "maxSpeed")
          (parseInt speed1 none) (fieldOf r1 "name")))) := by
    rw [getState_putState_ne _ _ _ _ hne1, getState_putState_same]
  refine ⟨_, _, _, _,
    violationRecord ctx1 id road1 (fieldOf r1 "maxSpeed") (parseInt speed1 none)
      (fieldOf r1 "name"),
    violationRecord ctx2 id road2 (fieldOf r2 "maxSpeed") (parseInt speed2 none)
      (fieldOf r2 "name"), e1, e2, rfl, rfl, g1, ?_, ?_, ?_, ?_, ?_, ?_, ?_, hiff, ?_, ?_, ?_⟩
  · rw [hm1]; exact f1.2.2.2.2.2.2.1
  · rw [hm1]; exact f1.2.2.1
  · rw [hm1]; exact f1.2.2.2.2.1
  · rw [getState_putState_ne _ _ _ _ hne2, getState_putState_same]
  · rw [hm2]; exact f2.2.2.2.2.2.2.1
  · rw [hm2]; exact f2.2.2.1
  · rw [hm2]; exact f2.2.2.2.2.1
  · intro hne
    have hk : violationKey ctx1 id ≠ violationKey ctx2 id := fun h => hne (hiff.1 h)
    refine ⟨hk, ?_⟩
    rw [getState_putState_ne _ _ _ _ hne1, getState_putState_ne _ _ _ _ hk, g1]
  · intro heq
    have hk : violationKey ctx1 id = violationKey ctx2 id := hiff.2 heq
    refine ⟨hk, ?_⟩
    rw [hk, getState_putState_ne _ _ _ _ hne2, getState_putState_same]
  · intro hms
    simp only [_getTxTimestamp, hms]

/-- C22 amended, at the scenario of vehicle V1 speeding twice onto road R2,
at `ctxA` and one millisecond later. -/
theorem C22_violation_key_witness :
    ∃ (w1 w2 : World) (first second : Obj),
      getState w1 (violationKey ctxA "V1") = some (.json (.obj first))
      ∧ getState w2 (violationKey ctxNextMs "V1") = some (.json (.obj second))
      ∧ getState w2 (violationKey ctxA "V1") = some (.json (.obj first))
      ∧ violationKey ctxA "V1" ≠ violationKey ctxNextMs "V1" := by
  obtain ⟨w1, w2, _, _, first, second, _, _, _, _, h1, _, _, _, h2, _, _, _, _, hd, _, _⟩ :=
    C22_violation_key ctxA ctxNextMs worldV1R2 "V1" "R2" "I2" "70" "east" "R2" "I2" "80" "east"
      (vehicleOn "V1" "R1") (by decide) (by decide) (by decide)
  exact ⟨w1, w2, first, second, h1, h2, (hd (by decide)).2, (hd (by decide)).1⟩

/-! ## The speed a moved vehicle is given and the contract's parse of it -/

theorem digitValue_ten (c : Char) (v : Nat) (h : digitValue 10 c = some v) :
    48 ≤ c.toNat ∧ c.toNat ≤ 57 ∧ v = c.toNat - 48 := by
  unfold digitValue at h
  simp only [] at h
  by_cases h1 : 48 ≤ c.toNat ∧ c.toNat ≤ 57
  · rw [if_pos h1] at h
    simp only [] at h
    split at h
    · simp at h; exact ⟨h1.1, h1.2, h.symm⟩
    · simp at h
  · rw [if_neg h1] at h
    by_cases h2 : 97 ≤ c.toNat ∧ c.toNat ≤ 122
    · rw [if_pos h2] at h
      simp only [] at h
      split at h
      · omega
      · simp at h
    · rw [if_neg h2] at h
      by_cases h3 : 65 ≤ c.toNat ∧ c.toNat ≤ 90
      · rw [if_pos h3] at h
        simp only [] at h
        split at h
        · omega
        · simp at h
      · rw [if_neg h3] at h
        simp at h

theorem takeDigits_lt (cs : List Char) : ∀ d ∈ takeDigits 10 cs, d < 10 := by
  induction cs with
  | nil => intro d hd; simp [takeDigits] at hd
  | cons c t ih =>
    intro d hd
    unfold takeDigits at hd
    cases hv : digitValue 10 c with
    | none => simp [hv] at hd
    | some v =>
      simp only [hv, List.mem_cons] at hd
      rcases hd with hd | hd
      · have := digitValue_ten c v hv
        omega
      · exact ih d hd

theorem foldl_digits (r : Nat) (ds : List Nat) (acc : Nat) :
    ds.foldl (fun acc d => acc * r + d) acc
      = acc * r ^ ds.length + ds.foldl (fun acc d => acc * r + d) 0 := by
  induction ds generalizing acc with
  | nil => simp
  | cons d t ih =>
    simp only [List.foldl_cons, List.length_cons]
    rw [ih (acc * r + d), ih (0 * r + d)]
    ring

theorem digitsToNat_append (r : Nat) (a b : List Nat) :
    digitsToNat r (a ++ b) = digitsToNat r a * r ^ b.length + digitsToNat r b := by
  unfold digitsToNat
  rw [List.foldl_append, foldl_digits]

theorem digitsToNat_lt (ds : List Nat) (h : ∀ d ∈ ds, d < 10) :
    digitsToNat 10 ds < 10 ^ ds.length := by
  induction ds with
  | nil => simp [digitsToNat]
  | cons d t ih =>
    have hd : d < 10 := h d (List.mem_cons_self _ _)
    have ht := ih (fun x hx => h x (List.mem_cons_of_mem _ hx))
    have e : digitsToNat 10 (d :: t) = d * 10 ^ t.length + digitsToNat 10 t := by
      have := digitsToNat_append 10 [d] t
      simpa [digitsToNat] using this
    rw [e, List.length_cons, pow_succ]
    nlinarith

theorem digitValue_letter (c : Char) (h : c.toNat = 120 ∨ c.toNat = 88) :
    digitValue 10 c = none := by
  unfold digitValue
  rcases h with h | h <;> simp [h]

theorem parseInt_digits (s : String) (c : Char) (t : List Char) (v : Nat)
    (hcs : s.data = c :: t) (hv : digitValue 10 c = some v)
    (hhex : hasHexPrefix (c :: t) = false) :
    parseInt s none = some ((digitsToNat 10 (takeDigits 10 (c :: t)) : Nat) : Int) := by
  have hc := digitValue_ten c v hv
  have hws : isStrWhiteSpace c = false := by
    unfold isStrWhiteSpace
    simp only [Bool.or_eq_false_iff, Bool.and_eq_false_iff, decide_eq_false_iff_not]
    omega
  have h45 : ¬ c.toNat = 45 := by omega
  have h43 : ¬ c.toNat = 43 := by omega
  unfold parseInt
  simp only [hcs, List.dropWhile_cons, hws, h45, h43, decide_False, Bool.or_self,
    Bool.false_eq_true, if_false, hhex, Bool.and_false, Bool.true_and]
  have hne : takeDigits 10 (c :: t) = v :: takeDigits 10 t := by
    simp [takeDigits, hv]
  rw [hne]
  simp

theorem parseInt_of_decimalOf (s : String) (mantissa : Int) (scale : Nat)
    (h : decimalOf s = some (mantissa, scale)) (hpos : (10 : Int) ^ scale ≤ mantissa) :
    parseInt s none = some (mantissa / 10 ^ scale) := by
  have hp : (0 : Int) < 10 ^ scale := by positivity
  unfold decimalOf at h
  cases hcs : s.data with
  | nil => simp [hcs, takeDigits] at h
  | cons c t =>
    simp only [hcs] at h
    by_cases hneg : c.toNat = 45
    · simp only [hneg, decide_True, if_true, List.drop_succ_cons, List.drop_zero] at h
      exfalso
      split at h
      · split at h
        · simp at h
        · simp only [Option.some.injEq, Prod.mk.injEq] at h
          omega
      · split at h
        · simp only [Option.some.injEq, Prod.mk.injEq] at h
          omega
        · simp at h
    · simp only [hneg, decide_False, Bool.false_eq_true, if_false] at h
      cases hv : digitValue 10 c with
      | none =>
        exfalso
        have hw : takeDigits 10 (c :: t) = [] := by simp [takeDigits, hv]
        simp only [hw, List.length_nil, List.drop_zero, ne_eq, not_true_eq_false, false_or,
          List.nil_append] at h
        split at h
        · simp only [Option.some.injEq, Prod.mk.injEq] at h
          have hlt := digitsToNat_lt (takeDigits 10 t) (takeDigits_lt t)
          obtain ⟨hm, hs⟩ := h
          rw [← hm, ← hs] at hpos
          have : (10 : Int) ^ (takeDigits 10 t).length
              ≤ ((digitsToNat 10 (takeDigits 10 t) : Nat) : Int) := hpos
          have h2 : (10 : Nat) ^ (takeDigits 10 t).length ≤ digitsToNat 10 (takeDigits 10 t) := by
            exact_mod_cast this
          omega
        · simp at h
      | some v =>
        have hw : takeDigits 10 (c :: t) = v :: takeDigits 10 t := by simp [takeDigits, hv]
        have hhex : hasHexPrefix (c :: t) = false := by
          cases t with
          | nil => rfl
          | cons c1 t1 =>
            by_cases hx : c1.toNat = 120 ∨ c1.toNat = 88
            · exfalso
              have hd := digitValue_letter c1 hx
              have hw1 : takeDigits 10 (c1 :: t1) = [] := by simp [takeDigits, hd]
              rw [hw, hw1] at h
              simp only [List.length_cons, List.length_nil, List.drop_succ_cons,
                List.drop_zero] at h
              have h46 : ¬ c1.toNat = 46 := by omega
              simp [h46] at h
            · simp only [hasHexPrefix]
              simp only [not_or] at hx
              simp [hx.1, hx.2]
        rw [parseInt_digits s c t v hcs hv hhex]
        rw [hw] at h ⊢
        simp only [List.length_cons, List.drop_succ_cons, ne_eq, reduceCtorEq, not_false_eq_true,
          true_or, and_true, if_false] at h
        split at h
        · simp only [Option.some.injEq, Prod.mk.injEq] at h
          obtain ⟨hm, hs⟩ := h
          rw [← hm, ← hs]
          simp
        · split at h
          · rename_i c2 rest hdrop hcond
            simp only [Option.some.injEq, Prod.mk.injEq] at h
            obtain ⟨hm, hs⟩ := h
            rw [← hm, ← hs]
            have hlt := digitsToNat_lt (takeDigits 10 rest) (takeDigits_lt rest)
            rw [digitsToNat_append]
            congr 1
            have hpw : 0 < 10 ^ (takeDigits 10 rest).length := by positivity
            have e : (digitsToNat 10 (v :: takeDigits 10 t) * 10 ^ (takeDigits 10 rest).length
                + digitsToNat 10 (takeDigits 10 rest)) / 10 ^ (takeDigits 10 rest).length
                = digitsToNat 10 (v :: takeDigits 10 t) := by
              rw [Nat.add_comm, Nat.add_mul_div_right _ _ hpw, Nat.div_eq_of_lt hlt, Nat.zero_add]
            have eI : (((digitsToNat 10 (v :: takeDigits 10 t)
                * 10 ^ (takeDigits 10 rest).length
                + digitsToNat 10 (takeDigits 10 rest) : Nat) : Int))
                / (((10 : Nat) ^ (takeDigits 10 rest).length : Nat) : Int)
                = ((digitsToNat 10 (v :: takeDigits 10 t) : Nat) : Int) := by
              rw [← Int.natCast_div, e]
            push_cast at eI ⊢
            exact eI.symm
          · simp at h

theorem calculateSpeed_regular (rand : ℚ) (vehicle road : Obj) (m : Int)
    (hk : truthy (getProp vehicle "isEmergency") = false)
    (hm : getProp road "maxSpeed" = some (.num m)) (h20 : 20 ≤ m) :
    ∃ q : ℚ, calculateSpeed rand vehicle road = some q ∧ 20 ≤ q ∧ q ≤ m := by
  refine ⟨max (min ((if m = 0 then 50 else (m : ℚ)) + (rand * 20 - 10)) m) 20, ?_,
    le_max_right _ _, ?_⟩
  · simp only [calculateSpeed, hm, hk, Bool.false_eq_true, if_false]
  · have : (20 : ℚ) ≤ m := by exact_mod_cast h20
    exact max_le (min_le_right _ _) this

theorem updateVehiclePosition_not_speeding (ctx : Ctx) (w : World)
    (id newRoad newIntersection newSpeed newDirection : String) (road : JVal)
    (hr : getState w newRoad = some (.json road)) (hn : road ≠ .null)
    (hs : numGt (parseInt newSpeed none) (toNumber (fieldOf road "maxSpeed")) = false) :
    commit w (UpdateVehiclePosition ctx w id newRoad newIntersection newSpeed newDirection) = w
      ∨ ∃ v, hasBytes (getState w id) = true
          ∧ commit w (UpdateVehiclePosition ctx w id newRoad newIntersection newSpeed
              newDirection) = putState w id (.json v) := by
  rw [updateVehiclePosition_shape, checkSpeedViolation_json ctx w id newRoad _ road hr hn, hs]
  by_cases hb : hasBytes (getState w id) = false
  · left
    rw [if_pos hb]
    rfl
  · rw [if_neg hb]
    cases jsonParse (getState w id) with
    | error e => left; rfl
    | ok v0 =>
      cases hwa : writeAll v0 (Op.writes (fun _ => .null) ctx
          (.updateVehiclePosition id newRoad newIntersection newSpeed newDirection)) with
      | error e => left; simp [Except.bind, hwa, commit]
      | ok v =>
        right
        refine ⟨v, by simpa using hb, ?_⟩
        simp [Except.bind, hwa, commit]

/-- C30: when `moveVehicle` submits a request for a non-emergency vehicle,
every cached road with the id the request names has the `maxSpeed` `m` that
the ledger's record of that road has, and `m` is at least 20, then the speed
of the request is a number between 20 and `m`; when `String(newSpeed)` is a
decimal numeral with the integer part of that number, the contract's integer
parse of it is that integer part, which is at most `m`, so the update is not
speeding: the position update that the route submits changes no record other
than the one under the vehicle id, creates no record, and leaves what is
stored under the violation key as it was. -/
theorem C30_no_violation (numberToString : ℚ → String) (draws : MoveDraws) (putOk : Bool)
    (sim : TrafficSimulation) (vehicle : Obj) (request : PositionPut) (ctx : Ctx) (w : World)
    (id : String) (ledgerRoad : JVal) (m : Int)
    (hmove : (moveVehicle draws putOk sim vehicle).2 = some request)
    (hkind : truthy (getProp vehicle "isEmergency") = false)
    (hcache : ∀ r ∈ sim.roads, getProp r "id" = request.newRoad →
      getProp r "maxSpeed" = some (.num m))
    (hledger : getState w (submitArg request.newRoad) = some (.json ledgerRoad))
    (hsame : fieldOf ledgerRoad "maxSpeed" = some (.num m))
    (hm : 20 ≤ m)
    (hstr : ∀ q, request.newSpeed = some q → spellsNumber (numberToString q) q = true) :
    ∃ q : ℚ, request.newSpeed = some q ∧ 20 ≤ q ∧ q ≤ m
      ∧ (∃ nextRoad ∈ sim.roads, getProp nextRoad "id" = request.newRoad
          ∧ calculateSpeed draws.speed vehicle nextRoad = some q)
      ∧ parseInt (speedArg numberToString request.newSpeed) none = some (Int.floor q)
      ∧ Int.floor q ≤ m
      ∧ speeding w (submitArg request.newRoad) (speedArg numberToString request.newSpeed) = false
      ∧ (∀ k, k ≠ id →
          getState (commit w (putVehiclePosition numberToString ctx w id request)) k
            = getState w k)
      ∧ (∀ k, getState w k = none →
          getState (commit w (putVehiclePosition numberToString ctx w id request)) k = none)
      ∧ getState (commit w (putVehiclePosition numberToString ctx w id request))
          (violationKey ctx id) = getState w (violationKey ctx id) := by
  obtain ⟨i, currentRoad, hq, hfind, hnext⟩ := moveVehicle_some draws putOk sim vehicle request hmove
  rw [moveVehicle_eq draws putOk sim vehicle i currentRoad hq hfind hnext] at hmove
  cases hget : (connectedTo sim.roads
      (i, nextEndpoint currentRoad (getProp vehicle "currentIntersection"))
      (getNextIntersection currentRoad (getProp vehicle "currentIntersection"))).get?
      (pickIndex draws.road (connectedTo sim.roads
        (i, nextEndpoint currentRoad (getProp vehicle "currentIntersection"))
        (getNextIntersection currentRoad (getProp vehicle "currentIntersection"))).length) with
  | none => rw [hget] at hmove; simp at hmove
  | some jr =>
    rw [hget] at hmove
    simp only [Option.map_some', Option.some.injEq] at hmove
    obtain ⟨j, nextRoad⟩ := jr
    have hmem : nextRoad ∈ sim.roads :=
      (connectedTo_endpoint sim.roads vehicle i currentRoad hfind j nextRoad
        (List.get?_mem hget)).1
    have hroad : getProp nextRoad "id" = request.newRoad := by rw [← hmove]
    have hspeed : request.newSpeed = calculateSpeed draws.speed vehicle nextRoad := by
      rw [← hmove]
    obtain ⟨q, hcalc, h20, hle⟩ := calculateSpeed_regular draws.speed vehicle nextRoad m hkind
      (hcache nextRoad hmem hroad) hm
    have hnew : request.newSpeed = some q := by rw [hspeed, hcalc]
    have hfloor20 : (20 : Int) ≤ Int.floor q := by
      rw [Int.le_floor]
      exact_mod_cast h20
    have hfloorle : Int.floor q ≤ m := by
      have h1 : ((Int.floor q : Int) : ℚ) ≤ (m : ℚ) := le_trans (Int.floor_le q) hle
      exact_mod_cast h1
    have hsp := hstr q hnew
    unfold spellsNumber at hsp
    cases hdec : decimalOf (numberToString q) with
    | none => rw [hdec] at hsp; simp at hsp
    | some ms =>
      obtain ⟨mantissa, scale⟩ := ms
      rw [hdec] at hsp
      simp only [decide_eq_true_eq] at hsp
      have hp : (0 : Int) < 10 ^ scale := by positivity
      have hpos : (10 : Int) ^ scale ≤ mantissa := by
        by_contra hlt
        have hlt' : mantissa < 10 ^ scale := not_le.1 hlt
        have : mantissa / 10 ^ scale ≤ 0 := by
          rcases lt_or_le mantissa 0 with hneg | hnn
          · exact le_of_lt (Int.ediv_neg' hneg hp)
          · exact le_of_eq (Int.ediv_eq_zero_of_lt hnn hlt')
        omega
      have hparse : parseInt (speedArg numberToString request.newSpeed) none
          = some (Int.floor q) := by
        rw [hnew]
        simp only [speedArg]
        rw [parseInt_of_decimalOf _ mantissa scale hdec hpos, hsp]
      have hnull : ledgerRoad ≠ .null := by
        intro h0
        rw [h0] at hsame
        simp [fieldOf] at hsame
      have hgt : numGt (parseInt (speedArg numberToString request.newSpeed) none)
          (toNumber (fieldOf ledgerRoad "maxSpeed")) = false := by
        rw [hparse, hsame]
        simp [toNumber, numGt, hfloorle]
      have hframe := updateVehiclePosition_not_speeding ctx w id (submitArg request.newRoad)
        (submitArg request.newIntersection) (speedArg numberToString request.newSpeed)
        (submitArg (request.newDirection.map JVal.str)) ledgerRoad hledger hnull hgt
      have hother : ∀ k, k ≠ id →
          getState (commit w (putVehiclePosition numberToString ctx w id request)) k
            = getState w k := by
        intro k hk
        unfold putVehiclePosition
        rcases hframe with h | ⟨v, _, h⟩
        · rw [h]
        · rw [h, getState_putState_ne _ _ _ _ hk]
      refine ⟨q, hnew, h20, hle, ⟨nextRoad, hmem, hroad, hcalc⟩, hparse, hfloorle, ?_, hother,
        ?_, hother _ (violationKey_ne ctx id)⟩
      · unfold speeding
        simp only [hledger]
        exact hgt
      · intro k hk
        by_cases hkid : k = id
        · subst hkid
          unfold putVehiclePosition
          rcases hframe with h | ⟨v, hb, h⟩
          · rw [h, hk]
          · rw [hk] at hb
            simp [hasBytes] at hb
        · rw [hother k hkid, hk]

/-- C30, at a vehicle on R1 at I1 in a cache that holds R1 and R2 with
`maxSpeed` 60, a ledger whose road R2 has `maxSpeed` 60, and the draws that
send the vehicle onto R2 at 56.2: the update is not speeding and creates no
record. -/
theorem C30_no_violation_witness :
    (moveVehicle drawsToR2 true simTwoRoads (vehicleOn "V1" "R1")).2 = some requestToR2
      ∧ parseInt (speedArg (fun _ => "56.2") requestToR2.newSpeed) none = some 56
      ∧ speeding worldV1R2Limit60 "R2" "56.2" = false
      ∧ ∀ k, getState worldV1R2Limit60 k = none →
          getState (commit worldV1R2Limit60
            (putVehiclePosition (fun _ => "56.2") ctxA worldV1R2Limit60 "V1" requestToR2)) k
            = none := by
  have hmove : (moveVehicle drawsToR2 true simTwoRoads (vehicleOn "V1" "R1")).2
      = some requestToR2 := by
    rw [moveVehicle_eq drawsToR2 true simTwoRoads (vehicleOn "V1" "R1") 0
      (roadBetween "R1" "I1" "I2") (by decide) (by decide) (by decide)]
    have hc : connectedTo simTwoRoads.roads
        (0, nextEndpoint (roadBetween "R1" "I1" "I2")
          (getProp (vehicleOn "V1" "R1") "currentIntersection"))
        (getNextIntersection (roadBetween "R1" "I1" "I2")
          (getProp (vehicleOn "V1" "R1") "currentIntersection"))
        = [(0, roadBetween "R1" "I1" "I2"), (1, roadBetween "R2" "I2" "I3")] := by decide
    have hp : pickIndex drawsToR2.road 2 = 1 := by
      simp only [pickIndex, drawsToR2]
      norm_num
    have hd : pickIndex drawsToR2.direction directions.length = 0 := by
      simp only [pickIndex, drawsToR2]
      norm_num
    have hm : getProp (roadBetween "R2" "I2" "I3") "maxSpeed" = some (.num 60) := by decide
    have he : truthy (getProp (vehicleOn "V1" "R1") "isEmergency") = false := by decide
    have hs : calculateSpeed drawsToR2.speed (vehicleOn "V1" "R1") (roadBetween "R2" "I2" "I3")
        = some (281 / 5) := by
      simp only [calculateSpeed, hm, he, drawsToR2]
      norm_num
    have hn : getNextIntersection (roadBetween "R1" "I1" "I2")
        (getProp (vehicleOn "V1" "R1") "currentIntersection") = some (.str "I2") := by decide
    have hid : getProp (vehicleOn "V1" "R1") "id" = some (.str "V1") := by decide
    have hrid : getProp (roadBetween "R2" "I2" "I3") "id" = some (.str "R2") := by decide
    have hdir : directions.get? 0 = some "north" := by decide
    rw [hc]
    simp only [List.length_cons, List.length_nil, hp, hd, List.get?_cons_succ, List.get?_cons_zero,
      Option.map_some', hs, hn, hid, hrid, hdir, requestToR2]
  obtain ⟨q, hq, _, _, _, hparse, _, hsp, _, hnone, _⟩ :=
    C30_no_violation (fun _ => "56.2") drawsToR2 true simTwoRoads (vehicleOn "V1" "R1")
      requestToR2 ctxA worldV1R2Limit60 "V1"
      (.obj [("id", .str "R2"), ("assetType", .str "road"),
        ("name", .str "Hassan II Boulevard"), ("maxSpeed", .num 60)]) 60
      hmove (by decide)
      (by
        intro r hr _
        simp only [simTwoRoads, List.mem_cons, List.mem_singleton, List.not_mem_nil,
          or_false] at hr
        rcases hr with hr | hr <;> subst hr <;> decide)
      (by decide) (by decide) (by decide)
      (by
        intro q hq
        have hq2 : q = 281 / 5 := by
          have := hq
          simp only [requestToR2, Option.some.injEq] at this
          exact this.symm
        subst hq2
        have hd : decimalOf "56.2" = some (562, 1) := by decide
        simp only [spellsNumber, hd, decide_eq_true_eq]
        norm_num)
  have hq2 : q = 281 / 5 := by
    simp only [requestToR2, Option.some.injEq] at hq
    exact hq.symm
  subst hq2
  refine ⟨hmove, ?_, hsp, hnone⟩
  rw [hparse]
  norm_num

end TrafficCore
